import Mathlib

/-!
# Verification of the rpg-mcp-app combat engine

Shallow embedding of the turn-based combat engine
(`src/server/mcp/combat-system.js`, `src/server/mcp/player-data.js`,
`src/server/mcp/constants.js` and the dice/logging utilities of the
server core) into Lean 4, together with theorems settling the frozen
claims about it.

Modelling conventions:
* JS numbers are modelled as `Int` (all quantities the engine works
  with are integer-valued on well-typed states).
* `undefined`/`null` fields become `Option` fields; the `??` operator
  becomes `Option.getD` / `<|>`.
* The cryptographic random source is modelled as an explicit entropy
  supply (`Entropy`, a list of naturals) threaded through every
  function that rolls dice; a die of `s` sides turns one supply value
  `v` into `1 + v % s ∈ [1, s]`, matching the range contract of
  `crypto.randomInt(1, s + 1)`.
* Wall-clock timestamps (`nowIso`) are environment inputs irrelevant
  to every claim; log entries carry an empty `at` field.
-/

namespace Rpg

/-- `clamp` from `core-utils.js`: `Math.min(max, Math.max(min, value))`. -/
def clamp (value lo hi : Int) : Int := min hi (max lo value)

/-- The characters collapsed by the `\s+` regex in `parseDiceFormula`. -/
def isJsSpace (c : Char) : Bool :=
  c == ' ' || c == '\t' || c == '\n' || c == '\r'

/-- Numeric value of a digit string (the regex guarantees digits only). -/
def natOfDigits (cs : List Char) : Nat :=
  cs.foldl (fun acc c => 10 * acc + (c.toNat - '0'.toNat)) 0

/-- `slugifyId` from the server core: lowercase, collapse every run of
characters outside `[a-z0-9]` into `_`, strip leading/trailing `_`,
falling back when the result is empty.  `value` is `Option` because
callers pass possibly-missing names (`String(value ?? "")`). -/
def slugifyId (value : Option String) (fallback : String) : String :=
  let lowered := ((value.getD "").trim.toList.map Char.toLower)
  let collapsed := go lowered false
  let stripped := (collapsed.dropWhile (· == '_')).reverse
    |>.dropWhile (· == '_') |>.reverse
  if stripped.isEmpty then fallback else String.mk stripped
where
  go : List Char → Bool → List Char
    | [], _ => []
    | c :: cs, inRun =>
      if ('a' ≤ c && c ≤ 'z') || c.isDigit then
        c :: go cs false
      else if inRun then go cs true
      else '_' :: go cs true

/-- Result of `parseDiceFormula`: count/sides/modifier plus the cleaned
formula text. -/
structure DiceSpec where
  count : Nat
  sides : Nat
  modifier : Int
  cleaned : String
  deriving Repr, DecidableEq

/-- `parseDiceFormula` from the server core: strip whitespace,
lowercase, then match `^(\d*)d(\d+)([+-]\d+)?$` and require
`count ≥ 1` and `sides ≥ 2`. -/
def parseDiceFormula (formula : String) : Option DiceSpec :=
  let cleaned := (formula.toList.filter (fun c => !(isJsSpace c))).map Char.toLower
  let ds1 := cleaned.takeWhile Char.isDigit
  let rest := cleaned.dropWhile Char.isDigit
  match rest with
  | 'd' :: rest2 =>
    let ds2 := rest2.takeWhile Char.isDigit
    let rest3 := rest2.dropWhile Char.isDigit
    if ds2.isEmpty then none else
    let modPart : Option Int :=
      match rest3 with
      | [] => some 0
      | '+' :: ms =>
        if !ms.isEmpty && ms.all Char.isDigit then some (natOfDigits ms) else none
      | '-' :: ms =>
        if !ms.isEmpty && ms.all Char.isDigit then some (-(natOfDigits ms : Int)) else none
      | _ => none
    match modPart with
    | none => none
    | some m =>
      let count := if ds1.isEmpty then 1 else natOfDigits ds1
      let sides := natOfDigits ds2
      if count < 1 || sides < 2 then none
      else some ⟨count, sides, m, String.mk cleaned⟩
  | _ => none

/-- Explicit entropy supply standing for the process RNG
(`crypto.randomInt` / `crypto.randomUUID`). -/
structure Entropy where
  vals : List Nat
  deriving Repr, DecidableEq

/-- Draw one raw value from the supply (an exhausted supply yields 0;
the claims never depend on the distribution, only on ranges). -/
def Entropy.draw (e : Entropy) : Nat × Entropy :=
  match e.vals with
  | [] => (0, ⟨[]⟩)
  | v :: vs => (v, ⟨vs⟩)

/-- `crypto.randomInt(1, sides + 1)`: a uniform value in `[1, sides]`. -/
def Entropy.die (e : Entropy) (sides : Nat) : Int × Entropy :=
  let (v, e') := e.draw
  ((1 + v % sides : Nat), e')

/-- `crypto.randomUUID()`, modelled as consuming one supply value. -/
def Entropy.uuid (e : Entropy) : String × Entropy :=
  let (v, e') := e.draw
  ("uuid-" ++ toString v, e')

/-- Result record of `rollDice`. -/
structure Roll where
  formula : String
  rolls : List Int
  modifier : Int
  total : Int
  deriving Repr, DecidableEq

/-- Roll `count` dice of `sides` sides, consuming entropy per die. -/
def rollDiceList (count sides : Nat) (e : Entropy) : List Int × Entropy :=
  match count with
  | 0 => ([], e)
  | n + 1 =>
    let (v, e1) := e.die sides
    let (vs, e2) := rollDiceList n sides e1
    (v :: vs, e2)

/-- `rollDice` from the server core: `null` on an unparseable formula,
otherwise the per-die rolls, the modifier and their total. -/
def rollDice (formula : String) (e : Entropy) : Option Roll × Entropy :=
  match parseDiceFormula formula with
  | none => (none, e)
  | some p =>
    let (rolls, e') := rollDiceList p.count p.sides e
    (some ⟨p.cleaned, rolls, p.modifier, rolls.sum + p.modifier⟩, e')

/-! ## Constants (`constants.js`) -/

def DEFAULT_MELEE_RANGE : Int := 1
def DEFAULT_MOVE_SPEED : Int := 6
def MAX_RANGE : Int := 30
def MAX_LEVEL : Int := 20

/-- `COMBAT_ACTIONS_REQUIRING_ACTION` (a `Set` in the source). -/
def COMBAT_ACTIONS_REQUIRING_ACTION : List String :=
  ["attack", "defend", "dodge", "use_skill"]

/-! ## Data model -/

/-- Normalized weapon record (output of `normalizeWeapon`). -/
structure Weapon where
  id : String
  name : String
  category : String
  range : Int
  equipped : Bool
  damageFormula : String
  deriving Repr, DecidableEq

/-- Raw weapon data as supplied by callers / storage (fields may be
missing; `equipped` is `Boolean(raw.equipped)`, hence total). -/
structure RawWeapon where
  id : Option String
  name : Option String
  category : Option String
  range : Option Int
  equipped : Bool
  damageFormula : Option String
  deriving Repr, DecidableEq

/-- Normalized skill record (output of `normalizeSkill`). -/
structure Skill where
  id : String
  name : String
  unlockLevel : Int
  mpCost : Int
  range : Int
  target : String
  description : String
  deriving Repr, DecidableEq

/-- Raw skill data as supplied by callers / storage. -/
structure RawSkill where
  id : Option String
  name : Option String
  unlockLevel : Option Int
  mpCost : Option Int
  range : Option Int
  target : Option String
  description : Option String
  deriving Repr, DecidableEq

/-- An inventory item (only the fields the combat engine reads). -/
structure InventoryItem where
  id : String
  name : String
  qty : Int
  notes : String
  weapon : Option RawWeapon
  deriving Repr, DecidableEq

/-- One initiative entry `{id, name, kind, initiative}`; the score is
`Option` because entries can be appended unscored. -/
structure InitEntry where
  id : String
  name : String
  kind : String
  initiative : Option Int
  deriving Repr, DecidableEq

/-- A fully built combatant (PC or enemy).  `status`/`intent`/`note`
are only meaningful for enemies; the PC build leaves them empty. -/
structure Combatant where
  id : String
  name : String
  hp : Int
  hpMax : Int
  mp : Int
  mpMax : Int
  status : String
  intent : String
  note : String
  level : Int
  position : Int
  speed : Int
  movementRemaining : Int
  actionUsed : Bool
  defending : Bool
  dodging : Bool
  weapons : List Weapon
  equippedWeaponId : Option String
  skills : List Skill
  deriving Repr, DecidableEq

def UNARMED_WEAPON_ID : String := "weapon_unarmed"

/-- `UNARMED_WEAPON` from `constants.js` — note the unparseable damage
formula `"1"`. -/
def UNARMED_WEAPON : Weapon :=
  ⟨UNARMED_WEAPON_ID, "Default Melee", "melee", DEFAULT_MELEE_RANGE, true, "1"⟩

/-- `DEFAULT_ENEMY_WEAPON` from `constants.js`. -/
def DEFAULT_ENEMY_WEAPON : Weapon :=
  ⟨"weapon_enemy_basic", "Basic Weapon", "melee", DEFAULT_MELEE_RANGE, true, "1d6"⟩

/-! ## `player-data.js` -/

/-- `normalizeWeapon(raw, fallbackName, fallbackIdPrefix)`. -/
def normalizeWeapon (raw : Option RawWeapon) (fallbackName : Option String)
    (idPre : String) : Option Weapon :=
  match raw with
  | none => none
  | some raw =>
    let category := if raw.category == some "ranged" then "ranged" else "melee"
    let defaultRange : Int := if category == "melee" then DEFAULT_MELEE_RANGE else 6
    let rawRange := raw.range.getD defaultRange
    let range := clamp rawRange (if category == "melee" then DEFAULT_MELEE_RANGE else 1)
      MAX_RANGE
    let fallbackId := idPre ++ "_" ++ slugifyId fallbackName "weapon"
    some { id := raw.id.getD fallbackId
           name := raw.name.getD (fallbackName.getD "Weapon")
           category := category
           range := range
           equipped := raw.equipped
           damageFormula := raw.damageFormula.getD "" }

/-- `normalizeSkill(raw, fallbackName, fallbackIdPrefix)`. -/
def normalizeSkill (raw : Option RawSkill) (fallbackName : Option String)
    (idPre : String) : Option Skill :=
  match raw with
  | none => none
  | some raw =>
    let fallbackId := idPre ++ "_" ++ slugifyId fallbackName "skill"
    some { id := raw.id.getD fallbackId
           name := raw.name.getD (fallbackName.getD "Skill")
           unlockLevel := clamp (raw.unlockLevel.getD 1) 1 MAX_LEVEL
           mpCost := clamp (raw.mpCost.getD 0) 0 99
           range := clamp (raw.range.getD DEFAULT_MELEE_RANGE) 0 MAX_RANGE
           target := if raw.target == some "self" || raw.target == some "ally"
             then raw.target.getD "enemy" else "enemy"
           description := raw.description.getD "" }

/-- Stable insertion: `x` goes before the first element it compares
`le` to; ties keep the original relative order. -/
def insertLe (le : α → α → Bool) (x : α) : List α → List α
  | [] => [x]
  | y :: ys => if le x y then x :: y :: ys else y :: insertLe le x ys

/-- Stable sort by a total `le` test, modelling the (spec-stable) JS
`Array.prototype.sort`. -/
def insSort (le : α → α → Bool) : List α → List α
  | [] => []
  | x :: xs => insertLe le x (insSort le xs)

/-- The comparator `a.unlockLevel - b.unlockLevel || a.name.localeCompare(b.name)`
of `getSkillCatalog`, as a `≤`-style test (`localeCompare` modelled as
lexicographic string order). -/
def skillLe (a b : Skill) : Bool :=
  a.unlockLevel < b.unlockLevel ||
    (a.unlockLevel == b.unlockLevel && decide (a.name ≤ b.name))

/-- `Map.set` semantics: replace the value at the first occurrence of
the key, keeping insertion order; otherwise append. -/
def upsertSkill (acc : List Skill) (s : Skill) : List Skill :=
  if acc.any (fun t => t.id == s.id) then
    acc.map (fun t => if t.id == s.id then s else t)
  else acc ++ [s]

/-- The record returned by `getSkillCatalog`. -/
structure SkillCatalog where
  allSkills : List Skill
  unlockedSkills : List Skill
  deriving Repr, DecidableEq

/-- `getSkillCatalog(level, existing)`. -/
def getSkillCatalog (level : Int) (existing : List RawSkill) : SkillCatalog :=
  let known := existing.foldl
    (fun acc raw =>
      match normalizeSkill (some raw) raw.name "skill" with
      | some s => upsertSkill acc s
      | none => acc)
    []
  let allSkills := insSort skillLe known
  let safeLevel := clamp level 1 MAX_LEVEL
  ⟨allSkills, allSkills.filter (fun s => decide (s.unlockLevel ≤ safeLevel))⟩

/-- `getInventoryWeapons(inventory)`. -/
def getInventoryWeapons (inventory : List InventoryItem) : List Weapon :=
  (inventory.filter (fun item => item.weapon.isSome && decide (0 < item.qty))).filterMap
    (fun item => normalizeWeapon item.weapon (some item.name) "weapon")

/-- `ensureSingleEquippedWeapon(weapons, preferredWeaponId)`: select one
id (explicit preference → first already-equipped → first weapon) and
mark exactly the weapons bearing it as equipped. -/
def ensureSingleEquippedWeapon (weapons : List Weapon)
    (preferredWeaponId : Option String) : List Weapon :=
  match weapons with
  | [] => []
  | w0 :: _ =>
    let preferred := match preferredWeaponId with
      | some p => if p != "" && weapons.any (fun w => w.id == p) then some p else none
      | none => none
    let firstEquipped := (weapons.find? (fun w => w.equipped)).map (fun w => w.id)
    let selectedId := (preferred <|> firstEquipped).getD w0.id
    weapons.map (fun w => { w with equipped := w.id == selectedId })

/-! ## Game-level state -/

/-- `{current, max}` pair for HP / MP on the `GameSession`. -/
structure StatPair where
  current : Int
  max : Int
  deriving Repr, DecidableEq

/-- The slice of `game.pc` the combat engine reads and writes. -/
structure PcProfile where
  name : String
  level : Int
  skills : List RawSkill
  deriving Repr, DecidableEq

/-- A log entry as appended by the host's `addLog` collaborator.  The
`at` timestamp (here `atIso`, since `at` is a Lean keyword) is an
environment input and is modelled as empty. -/
structure LogEntry where
  id : String
  atIso : String
  kind : String
  text : String
  deriving Repr, DecidableEq

/-- The read-only `combat.rules` projection written by `syncCombatState`. -/
structure CombatRules where
  meleeRange : Int
  actionTypes : List String
  moveIsFree : Bool
  oneActionPerTurn : Bool
  deriving Repr, DecidableEq

/-- The read-only `combat.turn` projection written by `syncCombatState`. -/
structure TurnInfo where
  actorId : String
  actorName : String
  kind : String
  actionUsed : Bool
  movementRemaining : Int
  equippedWeaponId : Option String
  availableSkillIds : List String
  deriving Repr, DecidableEq

/-- The `combat` sub-record of a `GameSession`. -/
structure CombatSession where
  round : Int
  currentTurnId : Option String
  pc : Combatant
  enemies : List Combatant
  initiative : List InitEntry
  rules : Option CombatRules
  turn : Option TurnInfo
  deriving Repr, DecidableEq

/-- The `GameSession` slice the combat engine touches. -/
structure Game where
  gameId : String
  phase : String
  hp : StatPair
  mp : StatPair
  pc : PcProfile
  inventory : List InventoryItem
  combat : Option CombatSession
  log : List LogEntry
  deriving Repr, DecidableEq

/-- The host's `addLog(game, entry, kind)` collaborator (server
implementation): skip falsy text, else append one entry. -/
def addLog (game : Game) (entry : String) (kind : String) : Game :=
  if entry == "" then game
  else
    { game with
      log := game.log ++ [⟨"log_" ++ toString game.log.length, "", kind, entry⟩] }

/-- Inject a normalized weapon back into raw form (all fields present);
used where the source feeds stored combatants back into builders. -/
def Weapon.toRaw (w : Weapon) : RawWeapon :=
  ⟨some w.id, some w.name, some w.category, some w.range, w.equipped, some w.damageFormula⟩

/-- Inject a normalized skill back into raw form. -/
def Skill.toRaw (s : Skill) : RawSkill :=
  ⟨some s.id, some s.name, some s.unlockLevel, some s.mpCost, some s.range,
    some s.target, some s.description⟩

/-- An incoming enemy spec (partial patch) for `buildEnemyCombatant`. -/
structure EnemySpec where
  id : Option String
  name : Option String
  hp : Option Int
  hpMax : Option Int
  mp : Option Int
  mpMax : Option Int
  status : Option String
  intent : Option String
  note : Option String
  level : Option Int
  position : Option Int
  speed : Option Int
  movementRemaining : Option Int
  actionUsed : Option Bool
  defending : Option Bool
  dodging : Option Bool
  weapons : Option (List RawWeapon)
  equippedWeaponId : Option String
  skills : Option (List RawSkill)
  deriving Repr, DecidableEq

/-- View a stored combatant as an enemy spec with every field present;
`buildEnemyCombatant(enemy, enemy, i)` in `syncCombatState` passes the
same object in both positions, which this conversion models. -/
def Combatant.toSpec (c : Combatant) : EnemySpec :=
  ⟨some c.id, some c.name, some c.hp, some c.hpMax, some c.mp, some c.mpMax,
    some c.status, some c.intent, some c.note, some c.level, some c.position,
    some c.speed, some c.movementRemaining, some c.actionUsed, some c.defending,
    some c.dodging, some (c.weapons.map Weapon.toRaw), c.equippedWeaponId,
    some (c.skills.map Skill.toRaw)⟩

/-- A partial PC patch (`combatUpdate.pc`). -/
structure PcPatch where
  level : Option Int
  hp : Option Int
  hpMax : Option Int
  mp : Option Int
  mpMax : Option Int
  position : Option Int
  speed : Option Int
  movementRemaining : Option Int
  actionUsed : Option Bool
  defending : Option Bool
  dodging : Option Bool
  equippedWeaponId : Option String
  skills : Option (List RawSkill)
  deriving Repr, DecidableEq

/-- The empty patch `{}` (used by `syncCombatState`). -/
def emptyPcPatch : PcPatch :=
  ⟨none, none, none, none, none, none, none, none, none, none, none, none, none⟩

/-- JS string falsiness for `Option String` fields (missing or `""`). -/
def strFalsy : Option String → Bool
  | none => true
  | some s => s == ""

/-- Index-aware map (JS `Array.prototype.map((x, i) => ...)`). -/
def mapWithIndex (f : Nat → α → β) (l : List α) : List β := go 0 l
where
  go : Nat → List α → List β
    | _, [] => []
    | i, x :: xs => f i x :: go (i + 1) xs

/-! ## `combat-system.js`: combatant helpers -/

/-- `getEnemyStatus(hp, hpMax)`.  The JS computes `hp / hpMax * 100` in
floating point; the thresholds are compared here as exact rational
inequalities `100*hp ≤ t*hpMax`, which agrees with the float result on
all non-borderline ratios (and on every input used below). -/
def getEnemyStatus (hp hpMax : Int) : String :=
  if hpMax ≤ 0 then "Unhurt"
  else
    let lhs := 100 * hp
    if lhs ≤ 0 then "Down"
    else if lhs ≤ 15 * hpMax then "Critical"
    else if lhs ≤ 35 * hpMax then "Badly Wounded"
    else if lhs ≤ 60 * hpMax then "Wounded"
    else if lhs ≤ 85 * hpMax then "Scratched"
    else "Unhurt"

/-- `getCombatantSpeed(combatant)`. -/
def getCombatantSpeed (c : Combatant) : Int :=
  clamp c.speed 0 MAX_RANGE

/-- `isCombatantAlive(combatant)`: `Number(hp ?? 0) > 0`. -/
def isCombatantAlive (c : Combatant) : Bool :=
  decide (0 < c.hp)

/-- The `{kind, combatant}` reference returned by `getCombatantRef`. -/
structure CombatantRef where
  kind : String
  combatant : Combatant
  deriving Repr, DecidableEq

/-- `getCombatantRef(combat, combatantId)`: PC first, then the first
enemy with a matching id; falsy ids resolve to nothing. -/
def getCombatantRef (combat : CombatSession) (combatantId : Option String) :
    Option CombatantRef :=
  match combatantId with
  | none => none
  | some cid =>
    if cid == "" then none
    else if combat.pc.id == cid then some ⟨"pc", combat.pc⟩
    else
      match combat.enemies.find? (fun e => e.id == cid) with
      | some e => some ⟨"enemy", e⟩
      | none => none

/-- Update the first enemy carrying `cid` (JS mutation through the
reference found by `Array.prototype.find`). -/
def updateFirstEnemy (cid : String) (f : Combatant → Combatant) :
    List Combatant → List Combatant
  | [] => []
  | e :: es => if e.id == cid then f e :: es else e :: updateFirstEnemy cid f es

/-- Write through a `getCombatantRef`-style reference: the PC when its
id matches, else the first matching enemy. -/
def setCombatant (combat : CombatSession) (cid : String)
    (f : Combatant → Combatant) : CombatSession :=
  if combat.pc.id == cid then { combat with pc := f combat.pc }
  else { combat with enemies := updateFirstEnemy cid f combat.enemies }

/-- `distanceBetweenCombatants(source, target)`. -/
def distanceBetweenCombatants (source target : Combatant) : Int :=
  |source.position - target.position|

/-- `getWeaponFromCombatant(combatant, requestedWeaponId)`: re-normalize
the weapon list (mutating the combatant), then select the requested or
currently equipped weapon, requiring it to be equipped. -/
def getWeaponFromCombatant (c : Combatant) (requestedWeaponId : Option String) :
    Option Weapon × Combatant :=
  let weapons := ensureSingleEquippedWeapon c.weapons c.equippedWeaponId
  let c' := { c with
    weapons := weapons
    equippedWeaponId := (weapons.find? (fun w => w.equipped)).map (fun w => w.id) }
  if weapons.isEmpty then (none, c')
  else
    let selectedId := requestedWeaponId <|> c'.equippedWeaponId
    (weapons.find? (fun w => selectedId == some w.id && w.equipped), c')

/-- `getUsableSkill(combatant, skillId)`: the skill must exist and be
unlocked at the combatant's (clamped) level. -/
def getUsableSkill (c : Combatant) (skillId : Option String) : Option Skill :=
  match skillId with
  | none => none
  | some sid =>
    if sid == "" then none
    else
      let level := clamp c.level 1 MAX_LEVEL
      c.skills.find? (fun s => s.id == sid && decide (s.unlockLevel ≤ level))

/-- `ensureCombatTurnState(combatant)`: clamp speed and movement budget
(`actionUsed := Boolean(actionUsed)` is the identity on typed states). -/
def ensureCombatTurnState (c : Combatant) : Combatant :=
  let speed := getCombatantSpeed c
  { c with speed := speed, movementRemaining := clamp c.movementRemaining 0 speed }

/-- `applyDamage(combatant, amount)`: clamp the amount into `[0, 999]`,
subtract it from hp clamped into `[0, hpMax]`, return the new combatant
and the hp actually removed. -/
def applyDamage (c : Combatant) (amount : Int) : Combatant × Int :=
  let safeAmount := clamp amount 0 999
  if safeAmount == 0 then (c, 0)
  else
    let hp' := clamp (c.hp - safeAmount) 0 c.hpMax
    ({ c with hp := hp' }, c.hp - hp')

/-- `applyHealing(combatant, amount)`. -/
def applyHealing (c : Combatant) (amount : Int) : Combatant × Int :=
  let safeAmount := clamp amount 0 999
  if safeAmount == 0 then (c, 0)
  else
    let hp' := clamp (c.hp + safeAmount) 0 c.hpMax
    ({ c with hp := hp' }, hp' - c.hp)

/-- Result record of `resolveCombatAmount`. -/
structure AmountRes where
  amount : Int
  roll : Option Roll
  source : String
  deriving Repr, DecidableEq

/-- `resolveCombatAmount({explicitAmount, formula, fallback})`: explicit
caller amount → roll of the formula → fallback, each clamped to
`[0, 999]`. -/
def resolveCombatAmount (explicitAmount : Option Int) (formula : String)
    (fallback : Int) (e : Entropy) : AmountRes × Entropy :=
  match explicitAmount with
  | some a => (⟨clamp a 0 999, none, "explicit"⟩, e)
  | none =>
    if formula != "" then
      match rollDice formula e with
      | (some roll, e') => (⟨clamp roll.total 0 999, some roll, "rolled"⟩, e')
      | (none, e') => (⟨clamp fallback 0 999, none, "fallback"⟩, e')
    else (⟨clamp fallback 0 999, none, "fallback"⟩, e)

/-- `rollInitiativeScore()`: a d20 roll (the `crypto.randomInt(1, 21)`
fallback is unreachable because `"d20"` always parses, but is kept). -/
def rollInitiativeScore (e : Entropy) : Int × Entropy :=
  match rollDice "d20" e with
  | (some roll, e') => (roll.total, e')
  | (none, e') => e'.die 20

/-- `normalizeInitiativeScore(value)`: on well-typed `Option Int` input
the JS coercions (`"" → null`, `Number`, finiteness check) reduce to
the identity. -/
def normalizeInitiativeScore (value : Option Int) : Option Int := value

/-- `applyInitiativeScores(entries)`: keep caller scores verbatim
unless any is missing or all are zero, in which case every entry is
re-rolled with a d20. -/
def applyInitiativeScores (entries : List InitEntry) (e : Entropy) :
    List InitEntry × Entropy :=
  if entries.isEmpty then ([], e)
  else
    let normalized := entries.map
      (fun en => { en with initiative := normalizeInitiativeScore en.initiative })
    let allZero := !normalized.isEmpty &&
      normalized.all (fun en => en.initiative.getD 0 == 0)
    let hasMissing := normalized.any (fun en => en.initiative == none)
    if !allZero && !hasMissing then
      (normalized.map (fun en => { en with initiative := some (en.initiative.getD 0) }), e)
    else rerollAll normalized e
where
  rerollAll : List InitEntry → Entropy → List InitEntry × Entropy
    | [], e => ([], e)
    | en :: ens, e =>
      let (score, e1) := rollInitiativeScore e
      let (rest, e2) := rerollAll ens e1
      ({ en with initiative := some score } :: rest, e2)

/-- `getWeaponRange(weapon)`: melee uses the fixed melee range, ranged
weapons their own clamped range. -/
def getWeaponRange (weapon : Option Weapon) : Int :=
  match weapon with
  | none => 0
  | some w =>
    if w.category == "melee" then DEFAULT_MELEE_RANGE
    else clamp w.range 1 MAX_RANGE

/-- `moveCombatantToward(source, target, desiredDistance)`: advance the
source toward the target until within `desiredDistance`, bounded by the
movement budget; returns the distance traveled and the moved source. -/
def moveCombatantToward (source target : Combatant) (desiredDistance : Int) :
    Int × Combatant :=
  let currentDistance := distanceBetweenCombatants source target
  let maxMove := clamp source.movementRemaining 0 MAX_RANGE
  let requiredMove := clamp (currentDistance - desiredDistance) 0 MAX_RANGE
  let actualMove := clamp (min requiredMove maxMove) 0 MAX_RANGE
  if actualMove ≤ 0 then (0, source)
  else
    let direction : Int := if source.position ≤ target.position then 1 else -1
    let nextPosition := clamp (source.position + direction * actualMove) 0 100
    let traveled := |nextPosition - source.position|
    (traveled,
      { source with
        position := nextPosition
        movementRemaining := clamp (maxMove - traveled) 0 source.speed })

/-! ## `combat-system.js`: combatant builders -/

/-- `buildPcCombatant(game, existingPc, patch)`.  On typed states the
`?? game.pc?.level ?? existingPc.level ?? 1`-style chains truncate at
the first total field, which is reflected below; `existingPc.id` is
always present, so the `pc_${game.gameId}` default id is dead here. -/
def buildPcCombatant (game : Game) (existingPc : Combatant) (patch : PcPatch) :
    Combatant :=
  let safeLevel := clamp (patch.level.getD game.pc.level) 1 MAX_LEVEL
  let baseWeapons := getInventoryWeapons game.inventory
  let hasUnarmed := baseWeapons.any (fun w => w.id == UNARMED_WEAPON_ID)
  let weapons := ensureSingleEquippedWeapon
    (if hasUnarmed then baseWeapons else baseWeapons ++ [UNARMED_WEAPON])
    (patch.equippedWeaponId <|> existingPc.equippedWeaponId)
  let equippedWeaponId :=
    ((weapons.find? (fun w => w.equipped)).map (fun w => w.id)).getD UNARMED_WEAPON_ID
  let skillCatalog := getSkillCatalog safeLevel (patch.skills.getD game.pc.skills)
  let speed := clamp (patch.speed.getD existingPc.speed) 0 MAX_RANGE
  let hpMax := clamp game.hp.max 1 999
  let mpMax := clamp game.mp.max 0 999
  { id := existingPc.id
    name :=
      if game.pc.name != "" then game.pc.name
      else if existingPc.name != "" then existingPc.name
      else "Player"
    hp := clamp (patch.hp.getD existingPc.hp) 0 hpMax
    hpMax := hpMax
    mp := clamp (patch.mp.getD existingPc.mp) 0 mpMax
    mpMax := mpMax
    status := ""
    intent := ""
    note := ""
    level := safeLevel
    position := clamp (patch.position.getD existingPc.position) 0 100
    speed := speed
    movementRemaining := clamp (patch.movementRemaining.getD existingPc.movementRemaining) 0 speed
    actionUsed := patch.actionUsed.getD existingPc.actionUsed
    defending := patch.defending.getD existingPc.defending
    dodging := patch.dodging.getD existingPc.dodging
    weapons := weapons
    equippedWeaponId := some equippedWeaponId
    skills := skillCatalog.allSkills }

/-- `buildEnemyCombatant(enemy, existingEnemy, index)`: merge an enemy
spec with the previous snapshot, defaulting to one basic enemy weapon;
drops the enemy when neither side carries a (truthy) name.  Entropy is
consumed only when a fresh id must be generated. -/
def buildEnemyCombatant (spec : EnemySpec) (existing : Option Combatant)
    (index : Nat) (e : Entropy) : Option Combatant × Entropy :=
  if strFalsy spec.name && strFalsy (existing.map (fun c => c.name)) then (none, e)
  else
    let hpMax := clamp ((spec.hpMax <|> existing.map (fun c => c.hpMax)).getD 10) 1 999
    let hp := clamp ((spec.hp <|> existing.map (fun c => c.hp)).getD hpMax) 0 hpMax
    let safeLevel := clamp ((spec.level <|> existing.map (fun c => c.level)).getD 1) 1 MAX_LEVEL
    let sourceWeapons :=
      (spec.weapons <|> existing.map (fun c => c.weapons.map Weapon.toRaw)).getD []
    let nameForFallback := (spec.name <|> existing.map (fun c => c.name)).getD ""
    let normalizedWeapons := (mapWithIndex
      (fun i w => normalizeWeapon (some w)
        (w.name <|> some (nameForFallback ++ " weapon " ++ toString (i + 1)))
        "weapon_enemy")
      sourceWeapons).filterMap id
    let withDefaultWeapon :=
      if normalizedWeapons.isEmpty then [DEFAULT_ENEMY_WEAPON] else normalizedWeapons
    let weapons := ensureSingleEquippedWeapon withDefaultWeapon
      (spec.equippedWeaponId <|> existing.bind (fun c => c.equippedWeaponId))
    let equippedWeaponId :=
      ((weapons.find? (fun w => w.equipped)).map (fun w => w.id)).getD
        ((weapons.headD DEFAULT_ENEMY_WEAPON).id)
    let rawSkills :=
      (spec.skills <|> existing.map (fun c => c.skills.map Skill.toRaw)).getD []
    let skills := (mapWithIndex
      (fun i s => normalizeSkill (some s)
        (s.name <|> some ("Skill " ++ toString (i + 1))) "skill_enemy")
      rawSkills).filterMap id
    let speed :=
      clamp ((spec.speed <|> existing.map (fun c => c.speed)).getD DEFAULT_MOVE_SPEED) 0 MAX_RANGE
    let (theId, e') := match spec.id <|> existing.map (fun c => c.id) with
      | some i => (i, e)
      | none =>
        let (u, e1) := e.uuid
        ("enemy_" ++ u, e1)
    (some
      { id := theId
        name := (spec.name <|> existing.map (fun c => c.name)).getD
          ("Enemy " ++ toString (index + 1))
        hp := hp
        hpMax := hpMax
        mp := clamp ((spec.mp <|> existing.map (fun c => c.mp)).getD 0) 0 999
        mpMax := clamp ((spec.mpMax <|> existing.map (fun c => c.mpMax)).getD 0) 0 999
        status := (spec.status <|> existing.map (fun c => c.status)).getD
          (getEnemyStatus hp hpMax)
        intent := (spec.intent <|> existing.map (fun c => c.intent)).getD ""
        note := (spec.note <|> existing.map (fun c => c.note)).getD ""
        level := safeLevel
        position :=
          clamp ((spec.position <|> existing.map (fun c => c.position)).getD DEFAULT_MELEE_RANGE) 0 100
        speed := speed
        movementRemaining :=
          clamp ((spec.movementRemaining <|> existing.map (fun c => c.movementRemaining)).getD speed)
            0 speed
        actionUsed := (spec.actionUsed <|> existing.map (fun c => c.actionUsed)).getD false
        defending := (spec.defending <|> existing.map (fun c => c.defending)).getD false
        dodging := (spec.dodging <|> existing.map (fun c => c.dodging)).getD false
        weapons := weapons
        equippedWeaponId := some equippedWeaponId
        skills := skills }, e')

/-! ## `syncCombatState` -/

/-- The initiative comparator `(a, b) => b.initiative - a.initiative`
as the `≤`-style test used by the stable sort: `a` may stay before `b`
iff `b`'s score does not exceed `a`'s. -/
def initLe (a b : InitEntry) : Bool :=
  decide (b.initiative.getD 0 ≤ a.initiative.getD 0)

/-- The enemy rebuild loop of `syncCombatState`:
`enemies.map((enemy, i) => buildEnemyCombatant(enemy, enemy, i)).filter(Boolean)`. -/
def buildEnemiesSync : List Combatant → Nat → Entropy → List Combatant × Entropy
  | [], _, e => ([], e)
  | en :: ens, i, e =>
    let (r, e1) := buildEnemyCombatant en.toSpec (some en) i e
    let (rest, e2) := buildEnemiesSync ens (i + 1) e1
    (match r with
     | some c => c :: rest
     | none => rest, e2)

/-- First pass over `combat.initiative`: drop falsy / duplicate /
unresolvable ids, refresh name and kind from the live combatant, and
remember the ids seen. -/
def buildNormalizedInitiative (combat : CombatSession) :
    List InitEntry × List String :=
  combat.initiative.foldl
    (fun acc entry =>
      let (outs, seen) := acc
      if entry.id == "" || seen.contains entry.id then acc
      else
        match getCombatantRef combat (some entry.id) with
        | none => acc
        | some ref =>
          (outs ++ [⟨entry.id, ref.combatant.name, ref.kind,
            normalizeInitiativeScore entry.initiative⟩], seen ++ [entry.id]))
    ([], [])

/-- `syncCombatState(game)`: the normalization pass run before and
after every combat mutation.  Rebuilds the PC and every enemy from the
authoritative `GameSession`, mirrors PC hp/mp back onto the session,
renormalizes the initiative list (rerolling and stable-sorting it), and
recomputes the `rules`/`turn` projections.  (The `fallbackInitiative`
of the source is only reachable when `combat.initiative` is not an
array, which cannot occur on typed states.) -/
def syncCombatState (game : Game) (e : Entropy) : Game × Entropy :=
  match game.combat with
  | none => (game, e)
  | some combat0 =>
    let round := clamp combat0.round 1 999
    let pc1 := buildPcCombatant game combat0.pc emptyPcPatch
    let (enemies1, e1) := buildEnemiesSync combat0.enemies 0 e
    let enemies2 := enemies1.map
      (fun en => ensureCombatTurnState { en with status := getEnemyStatus en.hp en.hpMax })
    let pc2 := ensureCombatTurnState pc1
    let pc3 := { pc2 with hp := clamp pc2.hp 0 pc2.hpMax, mp := clamp pc2.mp 0 pc2.mpMax }
    let game1 := { game with
      hp := { game.hp with current := clamp pc3.hp 0 game.hp.max }
      mp := { game.mp with current := clamp pc3.mp 0 game.mp.max }
      pc := { game.pc with
        level := clamp pc3.level 1 MAX_LEVEL
        skills := (pc3.skills.filterMap
          (fun (s : Skill) => normalizeSkill (some s.toRaw) (some s.name) "skill")).map
            Skill.toRaw } }
    let combat1 := { combat0 with round := round, pc := pc3, enemies := enemies2 }
    let (normalizedInit, seen) := buildNormalizedInitiative combat1
    let withRequired := (combat1.pc :: combat1.enemies).foldl
      (fun acc c =>
        if seen.contains c.id then acc
        else acc ++ [⟨c.id, c.name, if combat1.pc.id == c.id then "pc" else "enemy", none⟩])
      normalizedInit
    let (withScores, e2) := applyInitiativeScores withRequired e1
    let sortedInit := insSort initLe withScores
    let combat2 := { combat1 with initiative := sortedInit }
    let aliveTurnEntry := sortedInit.find?
      (fun en =>
        match getCombatantRef combat2 (some en.id) with
        | some ref => isCombatantAlive ref.combatant
        | none => false)
    let currentTurnIsValid := sortedInit.any (fun en => some en.id == combat2.currentTurnId)
    let currentTurnId' :=
      if currentTurnIsValid then combat2.currentTurnId
      else (aliveTurnEntry.map (fun en => en.id)) <|> (sortedInit.head?.map (fun en => en.id))
    let combat3 := { combat2 with currentTurnId := currentTurnId' }
    let currentActorRef := getCombatantRef combat3 currentTurnId'
    let currentSkills := match currentActorRef with
      | some ref =>
        (getSkillCatalog ref.combatant.level (ref.combatant.skills.map Skill.toRaw)).unlockedSkills
      | none => []
    let rules : CombatRules :=
      ⟨DEFAULT_MELEE_RANGE, ["attack", "defend", "dodge", "use_skill"], true, true⟩
    let turn := currentActorRef.map
      (fun ref =>
        (⟨ref.combatant.id, ref.combatant.name, ref.kind, ref.combatant.actionUsed,
          ref.combatant.movementRemaining, ref.combatant.equippedWeaponId,
          currentSkills.map (fun s => s.id)⟩ : TurnInfo))
    let combat4 := { combat3 with rules := some rules, turn := turn }
    ({ game1 with combat := some combat4 }, e2)

/-! ## Outcome evaluator and turn lifecycle -/

/-- `resolveCombatOutcome(game)`: tear combat down with the appropriate
terminal log entry when the PC or every enemy is down. -/
def resolveCombatOutcome (game : Game) : Option String × Game :=
  match game.combat with
  | none => (none, game)
  | some combat =>
    let pcAlive := isCombatantAlive combat.pc
    let enemiesAlive := combat.enemies.any (fun en => isCombatantAlive en)
    if !pcAlive then
      (some "player_down",
        addLog { game with combat := none, phase := "exploration" }
          "Combat ended. The player is down." "combat")
    else if !enemiesAlive then
      (some "victory",
        addLog { game with combat := none, phase := "exploration" }
          "Combat ended. All enemies are down." "combat")
    else (none, game)

/-- Result record of `advanceCombatTurn`. -/
structure AdvanceResult where
  ok : Bool
  message : String
  actorName : String
  deriving Repr, DecidableEq

/-- The scan loop of `advanceCombatTurn`: try offsets `1..len`
cyclically from the current index, skipping dead or unresolvable
entries; `wrapped` becomes (and stays) true once the scan passes the
start of the list. -/
def advanceScan (game : Game) (combat : CombatSession) (len currentIndex : Nat)
    (offset : Nat) (wrapped : Bool) (fuel : Nat) (e : Entropy) :
    AdvanceResult × Game × Entropy :=
  match fuel with
  | 0 => (⟨false, "No living combatants are available in initiative.", ""⟩, game, e)
  | fuel' + 1 =>
    let nextIndex := (currentIndex + offset) % len
    let wrapped' := wrapped || decide (nextIndex ≤ currentIndex)
    let candidateEntry := combat.initiative.getD nextIndex ⟨"", "", "", none⟩
    let candidateRef := getCombatantRef combat (some candidateEntry.id)
    match candidateRef with
    | some ref =>
      if isCombatantAlive ref.combatant then
        let newRound := if wrapped' then clamp (combat.round + 1) 1 999 else combat.round
        let combat1 := { combat with
          currentTurnId := some candidateEntry.id
          round := newRound }
        let combat2 := setCombatant combat1 candidateEntry.id
          (fun c =>
            { c with
              actionUsed := false
              defending := false
              dodging := false
              movementRemaining := getCombatantSpeed c })
        let (g', e') := syncCombatState { game with combat := some combat2 } e
        (⟨true, "", ref.combatant.name⟩, g', e')
      else advanceScan game combat len currentIndex (offset + 1) wrapped' fuel' e
    | none => advanceScan game combat len currentIndex (offset + 1) wrapped' fuel' e

/-- `advanceCombatTurn(game)`: cyclic scan for the next living
combatant, incrementing the round on wrap-around and resetting the new
actor's per-turn state, then renormalizing. -/
def advanceCombatTurn (game : Game) (e : Entropy) : AdvanceResult × Game × Entropy :=
  match game.combat with
  | none => (⟨false, "Initiative order is missing.", ""⟩, game, e)
  | some combat =>
    if combat.initiative.isEmpty then
      (⟨false, "Initiative order is missing.", ""⟩, game, e)
    else
      let len := combat.initiative.length
      let currentIndex :=
        (combat.initiative.findIdx? (fun en => some en.id == combat.currentTurnId)).getD 0
      advanceScan game combat len currentIndex 1 false len e

/-! ## Enemy autoplay -/

/-- Result record of `resolveEnemyTurnOnce`. -/
structure EnemyTurnResult where
  ok : Bool
  message : String
  summary : String
  deriving Repr, DecidableEq

/-- Result record of `resolveEnemyTurnsUntilPlayerTurn`. -/
structure EnemyTurnsResult where
  ok : Bool
  message : String
  summaries : List String
  deriving Repr, DecidableEq

/-- Result record of `resolveTurnTransition`. -/
structure TransitionResult where
  ok : Bool
  message : String
  summary : String
  deriving Repr, DecidableEq

/-- Result record of `resolveCombatAction`. -/
structure ActionResult where
  ok : Bool
  message : String
  deriving Repr, DecidableEq

/-- `resolveEnemyTurnOnce(game)`: scripted resolution of one enemy
turn — defend with no weapon, otherwise close distance and attack when
in range, else mark evasive; then log, renormalize, evaluate the
outcome and (when combat continues) advance the turn. -/
def resolveEnemyTurnOnce (game : Game) (e : Entropy) :
    EnemyTurnResult × Game × Entropy :=
  match game.combat with
  | none => (⟨false, "Combat is not active.", ""⟩, game, e)
  | some _ =>
    let (g1, e1) := syncCombatState game e
    match g1.combat with
    | none => (⟨false, "Current turn is not an enemy turn.", ""⟩, g1, e1)
    | some combat =>
      match getCombatantRef combat combat.currentTurnId with
      | none => (⟨false, "Current turn is not an enemy turn.", ""⟩, g1, e1)
      | some actorRef =>
        if actorRef.kind != "enemy" then
          (⟨false, "Current turn is not an enemy turn.", ""⟩, g1, e1)
        else
          let enemyId := actorRef.combatant.id
          let enemy0 := ensureCombatTurnState actorRef.combatant
          let combatA := setCombatant combat enemyId ensureCombatTurnState
          let gA := { g1 with combat := some combatA }
          let pc := combatA.pc
          if !(isCombatantAlive enemy0) then
            let (adv, g2, e2) := advanceCombatTurn gA e1
            if !adv.ok then (⟨false, adv.message, ""⟩, g2, e2)
            else (⟨true, "", enemy0.name ++ " is down and cannot act."⟩, g2, e2)
          else if !(isCombatantAlive pc) then
            (⟨true, "", "Player is already down."⟩, gA, e1)
          else
            let (weaponOpt, enemy1) := getWeaponFromCombatant enemy0 none
            let combatB := setCombatant combatA enemyId (fun _ => enemy1)
            let gB := { gA with combat := some combatB }
            let (gAct, events, eAct) :=
              match weaponOpt with
              | none =>
                let enemy2 := { enemy1 with actionUsed := true, defending := true }
                let combatC := setCombatant combatB enemyId (fun _ => enemy2)
                ({ gB with combat := some combatC },
                  [enemy1.name ++ " takes a defensive stance."], e1)
              | some weapon =>
                let attackRange := getWeaponRange (some weapon)
                let (moved, enemy2) := moveCombatantToward enemy1 pc attackRange
                let combatC := setCombatant combatB enemyId (fun _ => enemy2)
                let events0 :=
                  if 0 < moved then
                    [enemy1.name ++ " moves " ++ toString moved ++ " to close distance."]
                  else []
                let distance := distanceBetweenCombatants enemy2 pc
                if distance ≤ attackRange then
                  let (damageResolution, e2) := resolveCombatAmount none weapon.damageFormula 0 e1
                  let enemy3 := { enemy2 with actionUsed := true }
                  let combatD := setCombatant combatC enemyId (fun _ => enemy3)
                  let (pcHit, dealt) := applyDamage combatD.pc damageResolution.amount
                  let combatE := { combatD with pc := pcHit }
                  let base :=
                    if 0 < dealt then
                      enemy1.name ++ " attacks " ++ pc.name ++ " with " ++ weapon.name ++
                        " for " ++ toString dealt ++ " damage."
                    else
                      enemy1.name ++ " attacks " ++ pc.name ++ " with " ++ weapon.name ++ "."
                  let attackMessage :=
                    match damageResolution.roll with
                    | some roll =>
                      if damageResolution.source == "rolled" then
                        base ++ " [" ++ roll.formula ++ "=" ++ toString roll.total ++ "]"
                      else base
                    | none => base
                  ({ gB with combat := some combatE }, events0 ++ [attackMessage], e2)
                else
                  let enemy3 := { enemy2 with actionUsed := true, dodging := true }
                  let combatD := setCombatant combatC enemyId (fun _ => enemy3)
                  ({ gB with combat := some combatD },
                    events0 ++ [enemy1.name ++
                      " cannot reach attack range and takes evasive movement."], e1)
            let gLogged := events.foldl (fun g ev => addLog g ev "combat") gAct
            let (gS, eS) := syncCombatState gLogged eAct
            let (outcome, gO) := resolveCombatOutcome gS
            match outcome with
            | some _ => (⟨true, "", String.intercalate " " events⟩, gO, eS)
            | none =>
              let (adv, gAdv, eAdv) := advanceCombatTurn gO eS
              if !adv.ok then (⟨false, adv.message, ""⟩, gAdv, eAdv)
              else (⟨true, "", String.intercalate " " events⟩, gAdv, eAdv)

/-- The bounded loop of `resolveEnemyTurnsUntilPlayerTurn`, with the
remaining iteration budget as fuel and the summaries accumulated so
far. -/
def resolveEnemyTurnsGo (fuel : Nat) (game : Game) (e : Entropy)
    (acc : List String) : EnemyTurnsResult × Game × Entropy :=
  match fuel with
  | 0 => (⟨true, "", acc⟩, game, e)
  | fuel' + 1 =>
    match game.combat with
    | none => (⟨true, "", acc⟩, game, e)
    | some _ =>
      let (g1, e1) := syncCombatState game e
      match g1.combat with
      | none => (⟨true, "", acc⟩, g1, e1)
      | some combat =>
        match getCombatantRef combat combat.currentTurnId with
        | none => (⟨true, "", acc⟩, g1, e1)
        | some ref =>
          if ref.kind != "enemy" then (⟨true, "", acc⟩, g1, e1)
          else
            let (res, g2, e2) := resolveEnemyTurnOnce g1 e1
            if !res.ok then (⟨false, res.message, acc⟩, g2, e2)
            else
              let acc' := if res.summary != "" then acc ++ [res.summary] else acc
              match g2.combat with
              | none => (⟨true, "", acc'⟩, g2, e2)
              | some _ => resolveEnemyTurnsGo fuel' g2 e2 acc'

/-- `resolveEnemyTurnsUntilPlayerTurn(game, maxTurns = 20)`. -/
def resolveEnemyTurnsUntilPlayerTurn (game : Game) (e : Entropy)
    (maxTurns : Nat) : EnemyTurnsResult × Game × Entropy :=
  resolveEnemyTurnsGo maxTurns game e []

/-- `resolveTurnTransition(game)`: advance the turn, log it, and when
the new holder is an enemy run the autoplay cascade, extending the
summary accordingly. -/
def resolveTurnTransition (game : Game) (e : Entropy) :
    TransitionResult × Game × Entropy :=
  let (adv, g1, e1) := advanceCombatTurn game e
  if !adv.ok then (⟨false, adv.message, ""⟩, g1, e1)
  else
    let summary0 := "Turn ends. It is now " ++ adv.actorName ++ "\x27s turn."
    let g2 := addLog g1 summary0 "combat"
    let nextKindEnemy : Bool :=
      match g2.combat with
      | some c => (getCombatantRef c c.currentTurnId).map (fun r => r.kind) == some "enemy"
      | none => false
    if nextKindEnemy then
      let (er, g3, e3) := resolveEnemyTurnsUntilPlayerTurn g2 e1 20
      if !er.ok then (⟨false, er.message, ""⟩, g3, e3)
      else
        let summary1 :=
          if !er.summaries.isEmpty then
            summary0 ++ " Enemy turns resolved: " ++ String.intercalate " " er.summaries
          else summary0
        let summary2 :=
          match g3.combat with
          | some c =>
            match getCombatantRef c c.currentTurnId with
            | some ref => summary1 ++ " It is now " ++ ref.combatant.name ++ "\x27s turn."
            | none => summary1
          | none => summary1
        (⟨true, "", summary2⟩, g3, e3)
    else (⟨true, "", summary0⟩, g2, e1)

/-! ## Action resolver -/

/-- The single-action request (`combat action` tool input slice used by
`resolveCombatAction`). -/
structure ActionArgs where
  actorId : Option String
  action : Option String
  targetId : Option String
  weaponId : Option String
  skillId : Option String
  damage : Option Int
  heal : Option Int
  moveBy : Option Int
  moveTo : Option Int
  deriving Repr, DecidableEq

/-- `COMBAT_ACTIONS_REQUIRING_ACTION.has(actionType)` (`Set.has` on a
possibly-missing action name). -/
def requiresAction (actionType : Option String) : Bool :=
  match actionType with
  | some t => COMBAT_ACTIONS_REQUIRING_ACTION.contains t
  | none => false

/-- Shared tail of every action branch (source lines after the action
dispatch): renormalize, evaluate the outcome, and append the terminal
phrase to the narration. -/
def finishOutcome (game : Game) (message : String) (e : Entropy) :
    ActionResult × Game × Entropy :=
  let (g1, e1) := syncCombatState game e
  let (outcome, g2) := resolveCombatOutcome g1
  match outcome with
  | some o =>
    if o == "victory" then
      (⟨true, (message ++ " Combat ends in victory.").trim⟩, g2, e1)
    else
      (⟨true, (message ++ " Combat ends with the player down.").trim⟩, g2, e1)
  | none => (⟨true, message⟩, g2, e1)

/-- Post-action auto-transition: when a PC consumed its action slot the
resolver immediately performs a turn transition (with enemy cascade)
before the shared outcome tail. -/
def finishCombatAction (game : Game) (message : String) (usedAction : Bool)
    (actorKind : String) (e : Entropy) : ActionResult × Game × Entropy :=
  if usedAction && actorKind == "pc" then
    let (tres, g1, e1) := resolveTurnTransition game e
    if !tres.ok then (⟨false, tres.message⟩, g1, e1)
    else finishOutcome g1 ((message ++ " " ++ tres.summary).trim) e1
  else finishOutcome game message e

/-- The shared application part of the `use_skill` branch (after all
checks): deduct MP, consume the action, and apply caller-supplied
damage/heal to the target (which is the actor itself for `self`
skills — re-fetching by id after the actor write models the JS
aliasing). -/
def useSkillApply (g1 : Game) (combat1 : CombatSession) (aid : String)
    (actorKind : String) (refreshed0 : Combatant) (skill : Skill)
    (targetId : String) (args : ActionArgs) (e : Entropy) :
    ActionResult × Game × Entropy :=
  let actorS := { refreshed0 with
    mp := clamp (refreshed0.mp - skill.mpCost) 0 refreshed0.mpMax
    actionUsed := true }
  let combat2 := setCombatant combat1 aid (fun _ => actorS)
  match getCombatantRef combat2 (some targetId) with
  | none => (⟨false, "Target not found in this combat."⟩, g1, e)
  | some tref =>
    let (t1, dealt) := applyDamage tref.combatant (args.damage.getD 0)
    let (t2, healed) := applyHealing t1 (args.heal.getD 0)
    let combat3 := setCombatant combat2 targetId (fun _ => t2)
    let msg0 := actorS.name ++ " uses " ++ skill.name ++
      (if targetId != aid then " on " ++ tref.combatant.name else "") ++ "."
    let msg1 := if 0 < dealt then msg0 ++ " " ++ toString dealt ++ " damage dealt." else msg0
    let msg2 := if 0 < healed then msg1 ++ " " ++ toString healed ++ " HP restored." else msg1
    let g2 := addLog { g1 with combat := some combat3 } msg2 "combat"
    finishCombatAction g2 msg2 true actorKind e

/-- The action dispatch of `resolveCombatAction` (source from the
`refreshedActor` re-fetch onward), entered with the id of the acting
combatant; the two `none` guards are totality glue for states the
source cannot reach (the caller just resolved the actor). -/
def resolveCombatActionAfterActor (game : Game) (aid : String)
    (args : ActionArgs) (e : Entropy) : ActionResult × Game × Entropy :=
  match game.combat with
  | none => (⟨false, "Combat is not active. Start combat first."⟩, game, e)
  | some combat =>
    match getCombatantRef combat (some aid) with
    | none => (⟨false, "Actor not found in this combat."⟩, game, e)
    | some actorRef =>
      let actorKind := actorRef.kind
      let refreshed0 := ensureCombatTurnState actorRef.combatant
      let combat1 := setCombatant combat aid ensureCombatTurnState
      let g1 := { game with combat := some combat1 }
      if !(isCombatantAlive refreshed0) then
        (⟨false, refreshed0.name ++ " is down and cannot act."⟩, g1, e)
      else if requiresAction args.action && refreshed0.actionUsed then
        (⟨false, refreshed0.name ++ " has already used an action this turn."⟩, g1, e)
      else if args.action == some "move" then
        if args.moveBy == none && args.moveTo == none then
          (⟨false, "Move requires moveBy or moveTo."⟩, g1, e)
        else
          let current := refreshed0.position
          let nextPosition :=
            match args.moveTo with
            | some mt => clamp mt 0 100
            | none => clamp (current + args.moveBy.getD 0) 0 100
          let distance := |nextPosition - current|
          if refreshed0.movementRemaining < distance then
            (⟨false, refreshed0.name ++ " only has " ++
              toString refreshed0.movementRemaining ++
              " movement remaining this turn."⟩, g1, e)
          else
            let moved := { refreshed0 with
              position := nextPosition
              movementRemaining :=
                clamp (refreshed0.movementRemaining - distance) 0 refreshed0.speed }
            let combat2 := setCombatant combat1 aid (fun _ => moved)
            let msg := moved.name ++ " moves to position " ++ toString moved.position ++ "."
            let g2 := addLog { g1 with combat := some combat2 } msg "combat"
            finishCombatAction g2 msg false actorKind e
      else if args.action == some "attack" then
        if strFalsy args.targetId then
          (⟨false, "Attack requires a targetId."⟩, g1, e)
        else
          match getCombatantRef combat1 args.targetId with
          | none => (⟨false, "Target not found in this combat."⟩, g1, e)
          | some tref =>
            if !(isCombatantAlive tref.combatant) then
              (⟨false, tref.combatant.name ++ " is already down."⟩, g1, e)
            else if tref.combatant.id == refreshed0.id then
              (⟨false, "Attack target cannot be the same as the attacker."⟩, g1, e)
            else
              let (weaponOpt, actorW) := getWeaponFromCombatant refreshed0 args.weaponId
              let combat2 := setCombatant combat1 aid (fun _ => actorW)
              let g2 := { g1 with combat := some combat2 }
              match weaponOpt with
              | none =>
                (⟨false, refreshed0.name ++ " must use an equipped weapon to attack."⟩, g2, e)
              | some weapon =>
                let attackRange := getWeaponRange (some weapon)
                let distance := distanceBetweenCombatants actorW tref.combatant
                if attackRange < distance then
                  (⟨false, tref.combatant.name ++ " is out of range. " ++
                    refreshed0.name ++ " needs range " ++ toString attackRange ++
                    " but distance is " ++ toString distance ++ "."⟩, g2, e)
                else
                  let (damageResolution, e2) :=
                    resolveCombatAmount args.damage weapon.damageFormula 0 e
                  let actorA := { actorW with actionUsed := true }
                  let combat3 := setCombatant combat2 aid (fun _ => actorA)
                  let (target', dealt) := applyDamage tref.combatant damageResolution.amount
                  let combat4 := setCombatant combat3 tref.combatant.id (fun _ => target')
                  let base :=
                    if 0 < dealt then
                      actorA.name ++ " attacks " ++ tref.combatant.name ++ " with " ++
                        weapon.name ++ " for " ++ toString dealt ++ " damage."
                    else
                      actorA.name ++ " attacks " ++ tref.combatant.name ++ " with " ++
                        weapon.name ++ "."
                  let msg :=
                    match damageResolution.roll with
                    | some roll =>
                      if damageResolution.source == "rolled" then
                        base ++ " [" ++ roll.formula ++ "=" ++ toString roll.total ++ "]"
                      else base
                    | none => base
                  let g3 := addLog { g2 with combat := some combat4 } msg "combat"
                  finishCombatAction g3 msg true actorKind e2
      else if args.action == some "defend" then
        let actorD := { refreshed0 with actionUsed := true, defending := true }
        let combat2 := setCombatant combat1 aid (fun _ => actorD)
        let msg := actorD.name ++ " takes a defensive stance."
        let g2 := addLog { g1 with combat := some combat2 } msg "combat"
        finishCombatAction g2 msg true actorKind e
      else if args.action == some "dodge" then
        let actorD := { refreshed0 with actionUsed := true, dodging := true }
        let combat2 := setCombatant combat1 aid (fun _ => actorD)
        let msg := actorD.name ++ " focuses on dodging."
        let g2 := addLog { g1 with combat := some combat2 } msg "combat"
        finishCombatAction g2 msg true actorKind e
      else if args.action == some "use_skill" then
        if strFalsy args.skillId then
          (⟨false, "Using a skill requires skillId."⟩, g1, e)
        else
          match getUsableSkill refreshed0 args.skillId with
          | none =>
            (⟨false, refreshed0.name ++ " does not have that unlocked skill."⟩, g1, e)
          | some skill =>
            if refreshed0.mp < skill.mpCost then
              (⟨false, refreshed0.name ++ " does not have enough MP for " ++
                skill.name ++ "."⟩, g1, e)
            else if skill.target == "self" then
              useSkillApply g1 combat1 aid actorKind refreshed0 skill aid args e
            else if strFalsy args.targetId then
              (⟨false, skill.name ++ " requires a targetId."⟩, g1, e)
            else
              match getCombatantRef combat1 args.targetId with
              | none => (⟨false, "Target not found in this combat."⟩, g1, e)
              | some tref =>
                if !(isCombatantAlive tref.combatant) then
                  (⟨false, tref.combatant.name ++ " is already down."⟩, g1, e)
                else
                  let distance := distanceBetweenCombatants refreshed0 tref.combatant
                  let skillRange := clamp skill.range 0 MAX_RANGE
                  if skillRange < distance then
                    (⟨false, tref.combatant.name ++ " is out of skill range. " ++
                      skill.name ++ " has range " ++ toString skillRange ++
                      ", distance is " ++ toString distance ++ "."⟩, g1, e)
                  else if skill.target == "enemy" && tref.kind == actorKind then
                    (⟨false, skill.name ++ " can only target enemies."⟩, g1, e)
                  else if skill.target == "ally" && tref.kind != actorKind then
                    (⟨false, skill.name ++ " can only target allies."⟩, g1, e)
                  else
                    useSkillApply g1 combat1 aid actorKind refreshed0 skill
                      tref.combatant.id args e
      else if args.action == some "end_turn" then
        if !refreshed0.actionUsed then
          (⟨false,
            "A turn cannot end before using one action (attack, defend, dodge, or skill)."⟩,
            g1, e)
        else
          let (tres, g2, e2) := resolveTurnTransition g1 e
          if !tres.ok then (⟨false, tres.message⟩, g2, e2)
          else finishCombatAction g2 tres.summary false actorKind e2
      else (⟨false, "Unsupported combat action."⟩, g1, e)

/-- The actor-resolution part of `resolveCombatAction` (source after
the entry autoplay): resolve and authorize the actor, and perform the
silent turn transition when a PC repeats an action-consuming action. -/
def resolveCombatActionBody (game : Game) (args : ActionArgs) (e : Entropy) :
    ActionResult × Game × Entropy :=
  match game.combat with
  | none => (⟨false, "Combat is not active. Start combat first."⟩, game, e)
  | some combat =>
    match args.actorId <|> combat.currentTurnId with
    | none => (⟨false, "Actor not found in this combat."⟩, game, e)
    | some aid =>
      match getCombatantRef combat (some aid) with
      | none => (⟨false, "Actor not found in this combat."⟩, game, e)
      | some actorRef =>
        if combat.currentTurnId != some aid then
          (⟨false, "Only the combatant whose turn it is can act."⟩, game, e)
        else
          let actor0 := ensureCombatTurnState actorRef.combatant
          let combat1 := setCombatant combat aid ensureCombatTurnState
          let g1 := { game with combat := some combat1 }
          if !(isCombatantAlive actor0) then
            (⟨false, actor0.name ++ " is down and cannot act."⟩, g1, e)
          else if actorRef.kind == "pc" && requiresAction args.action &&
              args.action != some "end_turn" && actor0.actionUsed then
            let (tres, g2, e2) := resolveTurnTransition g1 e
            if !tres.ok then (⟨false, tres.message⟩, g2, e2)
            else
              let (g3, e3) := syncCombatState g2 e2
              match g3.combat with
              | none => (⟨true, tres.summary⟩, g3, e3)
              | some combat3 =>
                match getCombatantRef combat3 combat3.currentTurnId with
                | none => (⟨false, "Player turn is not ready yet. Try again."⟩, g3, e3)
                | some newRef =>
                  if newRef.kind != "pc" then
                    (⟨false, "Player turn is not ready yet. Try again."⟩, g3, e3)
                  else
                    resolveCombatActionAfterActor g3 newRef.combatant.id args e3
          else resolveCombatActionAfterActor g1 aid args e

/-- `resolveCombatAction(game, actionArgs)`: the player-facing entry
point — normalize, drain any pending enemy turns, then dispatch. -/
def resolveCombatAction (game : Game) (args : ActionArgs) (e : Entropy) :
    ActionResult × Game × Entropy :=
  match game.combat with
  | none => (⟨false, "Combat is not active. Start combat first."⟩, game, e)
  | some _ =>
    let (g1, e1) := syncCombatState game e
    let entryEnemy : Bool :=
      match g1.combat with
      | some c => (getCombatantRef c c.currentTurnId).map (fun r => r.kind) == some "enemy"
      | none => false
    if entryEnemy then
      let (er, g2, e2) := resolveEnemyTurnsUntilPlayerTurn g1 e1 20
      if !er.ok then (⟨false, er.message⟩, g2, e2)
      else
        let (g3, e3) := syncCombatState g2 e2
        match g3.combat with
        | none =>
          let msg :=
            if !er.summaries.isEmpty then
              "Enemy turns resolved: " ++ String.intercalate " " er.summaries
            else "Enemy turns resolved."
          (⟨true, msg⟩, g3, e3)
        | some _ => resolveCombatActionBody g3 args e3
    else resolveCombatActionBody g1 args e1

/-! ## Concrete fixtures

Small concrete states (mirroring the repository's own test fixtures)
used by the witnesses and counterexamples below. -/

/-- A sword inventory item as in the repository's combat tests. -/
def swordItem : InventoryItem :=
  ⟨"item_sword", "Sword", 1, "", some ⟨some "w_sword", some "Sword", some "melee",
    some 1, true, some ""⟩⟩

/-- A goblin enemy as in the repository's combat tests. -/
def goblinEnemy : Combatant :=
  { id := "enemy_1", name := "Goblin", hp := 6, hpMax := 6, mp := 0, mpMax := 0
    status := "Unhurt", intent := "", note := "", level := 1, position := 1
    speed := 6, movementRemaining := 6, actionUsed := false, defending := false
    dodging := false, weapons := [⟨"w_club", "Club", "melee", 1, true, ""⟩]
    equippedWeaponId := some "w_club", skills := [] }

/-- The PC combatant of the base fixture (pre-normalization shape). -/
def pcHero : Combatant :=
  { id := "pc_game_test", name := "Hero", hp := 12, hpMax := 12, mp := 6, mpMax := 6
    status := "", intent := "", note := "", level := 1, position := 0
    speed := 6, movementRemaining := 6, actionUsed := false, defending := false
    dodging := false, weapons := [], equippedWeaponId := some "w_sword", skills := [] }

/-- The base in-combat game fixture: Hero vs Goblin, Hero's turn. -/
def baseGame : Game :=
  { gameId := "game_test", phase := "combat", hp := ⟨12, 12⟩, mp := ⟨6, 6⟩
    pc := ⟨"Hero", 1, []⟩, inventory := [swordItem]
    combat := some
      { round := 1, currentTurnId := some "pc_game_test", pc := pcHero
        enemies := [goblinEnemy]
        initiative := [⟨"pc_game_test", "Hero", "pc", some 20⟩,
          ⟨"enemy_1", "Goblin", "enemy", some 10⟩]
        rules := none, turn := none }
    log := [] }

/-- An empty entropy supply (no random draw is needed on the fixture
paths: scores are present and ids are explicit). -/
def e0 : Entropy := ⟨[]⟩

/-- The normalized base fixture (one `syncCombatState` pass). -/
def baseGameSynced : Game := (syncCombatState baseGame e0).1

/-- The combatant reference of the current turn holder (the
`getCombatantRef(combat, combat.currentTurnId)` idiom of the source). -/
def currentActorRef (g : Game) : Option CombatantRef :=
  g.combat.bind (fun c => getCombatantRef c c.currentTurnId)

/-- The in-place `ensureCombatTurnState(actor)` mutation seen at the
game level (used to state intermediate states of the resolver). -/
def ensureActor (g : Game) (aid : String) : Game :=
  match g.combat with
  | some c => { g with combat := some (setCombatant c aid ensureCombatTurnState) }
  | none => g

/-! ## General lemmas about `clamp` -/

theorem clamp_lb (v lo hi : Int) (h : lo ≤ hi) : lo ≤ clamp v lo hi := by
  unfold clamp; omega

theorem clamp_ub (v lo hi : Int) : clamp v lo hi ≤ hi := by
  unfold clamp; omega

theorem clamp_eq_self (v lo hi : Int) (h1 : lo ≤ v) (h2 : v ≤ hi) :
    clamp v lo hi = v := by
  unfold clamp; omega

/-! ## Claims -/

/-- **C10**: the PC's fallback unarmed weapon carries the damage
formula `"1"`, which the dice grammar (`\d* d \d+ …`, sides ≥ 2)
rejects, so an unarmed attack without an explicit caller amount
resolves to the fallback damage 0, and applying 0 damage leaves the
target untouched. -/
theorem unarmed_attack_deals_no_damage :
    UNARMED_WEAPON.damageFormula = "1" ∧
    parseDiceFormula "1" = none ∧
    (∀ e : Entropy, rollDice UNARMED_WEAPON.damageFormula e = (none, e)) ∧
    (∀ e : Entropy, resolveCombatAmount none UNARMED_WEAPON.damageFormula 0 e =
      (⟨0, none, "fallback"⟩, e)) ∧
    (∀ c : Combatant, applyDamage c 0 = (c, 0)) :=
  ⟨rfl, rfl, fun _ => rfl, fun _ => rfl, fun _ => rfl⟩

/-- **C2**: the amount resolved by `resolveCombatAmount` always lies in
`[0, 999]`, and for such an amount `d`, `applyDamage` on a combatant
with `0 ≤ hp ≤ hpMax` sets `hp` to exactly `hp - min d hp` (reporting
`min d hp` as dealt); in particular hp never becomes negative. -/
theorem attack_reduces_hp_by_min :
    (∀ (ea : Option Int) (formula : String) (fb : Int) (e : Entropy),
      0 ≤ ((resolveCombatAmount ea formula fb e).1).amount ∧
      ((resolveCombatAmount ea formula fb e).1).amount ≤ 999) ∧
    (∀ (c : Combatant) (d : Int), 0 ≤ c.hp → c.hp ≤ c.hpMax → 0 ≤ d → d ≤ 999 →
      (applyDamage c d).1.hp = c.hp - min d c.hp ∧
      (applyDamage c d).2 = min d c.hp ∧
      0 ≤ (applyDamage c d).1.hp) := by
  constructor
  · intro ea formula fb e
    unfold resolveCombatAmount
    rcases ea with _ | a
    · simp only
      split
      · split
        · simp only [clamp]; omega
        · simp only [clamp]; omega
      · simp only [clamp]; omega
    · simp only [clamp]; omega
  · intro c d h0 h1 hd0 hd1
    have hsafe : clamp d 0 999 = d := clamp_eq_self d 0 999 hd0 hd1
    by_cases hz : d = 0
    · subst hz
      have key : applyDamage c 0 = (c, 0) := rfl
      rw [key]
      refine ⟨show c.hp = c.hp - min 0 c.hp by omega,
        show (0 : Int) = min 0 c.hp by omega, h0⟩
    · have key : applyDamage c d =
          ({ c with hp := clamp (c.hp - d) 0 c.hpMax }, c.hp - clamp (c.hp - d) 0 c.hpMax) := by
        unfold applyDamage
        rw [hsafe]
        simp [hz]
      rw [key]
      simp only [clamp]
      refine ⟨by omega, by omega, by omega⟩

/-- Witness for C2 on the goblin fixture: 4 damage against 6 hp leaves
exactly `6 - min 4 6 = 2`. -/
theorem attack_reduces_hp_by_min_witness :
    (applyDamage goblinEnemy 4).1.hp = goblinEnemy.hp - min 4 goblinEnemy.hp ∧
    (applyDamage goblinEnemy 4).1.hp = 2 :=
  ⟨(attack_reduces_hp_by_min.2 goblinEnemy 4 (by decide) (by decide) (by decide)
    (by decide)).1, by decide⟩

/-- **C7**: on a combat state with non-negative hp values, the outcome
evaluator tears combat down (combat `:= null`, phase back to
exploration, exactly one terminal log entry appended) with outcome
`player_down` when the PC's hp is 0, with outcome `victory` when every
enemy's hp is 0, and otherwise leaves the game entirely unchanged. -/
theorem outcome_teardown (g : Game) (c : CombatSession)
    (hc : g.combat = some c) (hpc : 0 ≤ c.pc.hp)
    (hen : ∀ en ∈ c.enemies, 0 ≤ en.hp) :
    (c.pc.hp = 0 →
      resolveCombatOutcome g =
        (some "player_down",
          { g with
            combat := none
            phase := "exploration"
            log := g.log ++ [⟨"log_" ++ toString g.log.length, "", "combat",
              "Combat ended. The player is down."⟩] })) ∧
    (c.pc.hp ≠ 0 → (∀ en ∈ c.enemies, en.hp = 0) →
      resolveCombatOutcome g =
        (some "victory",
          { g with
            combat := none
            phase := "exploration"
            log := g.log ++ [⟨"log_" ++ toString g.log.length, "", "combat",
              "Combat ended. All enemies are down."⟩] })) ∧
    (c.pc.hp ≠ 0 → (∃ en ∈ c.enemies, en.hp ≠ 0) →
      resolveCombatOutcome g = (none, g)) := by
  unfold resolveCombatOutcome
  rw [hc]
  refine ⟨?_, ?_, ?_⟩
  · intro h0
    have halive : isCombatantAlive c.pc = false := by
      simp [isCombatantAlive, h0]
    simp [halive, addLog]
  · intro hne hall
    have halive : isCombatantAlive c.pc = true := by
      simp [isCombatantAlive]; omega
    have hdead : c.enemies.any (fun en => isCombatantAlive en) = false := by
      simp only [List.any_eq_false]
      intro en hmem
      have := hall en hmem
      simp [isCombatantAlive, this]
    simp [halive, hdead, addLog]
  · intro hne hex
    have halive : isCombatantAlive c.pc = true := by
      simp [isCombatantAlive]; omega
    obtain ⟨en, hmem, hhp⟩ := hex
    have hlive : c.enemies.any (fun en => isCombatantAlive en) = true := by
      simp only [List.any_eq_true]
      refine ⟨en, hmem, ?_⟩
      have := hen en hmem
      simp [isCombatantAlive]; omega
    simp [halive, hlive]

/-- The combat sub-record of the dead-PC fixture. -/
def deadPcCombat : CombatSession :=
  { round := 1, currentTurnId := some "pc_game_test"
    pc := { pcHero with hp := 0 }
    enemies := [goblinEnemy]
    initiative := [⟨"pc_game_test", "Hero", "pc", some 20⟩,
      ⟨"enemy_1", "Goblin", "enemy", some 10⟩]
    rules := none, turn := none }

/-- The base fixture with the PC already down (for the C7 witness). -/
def deadPcGame : Game :=
  { baseGame with combat := some deadPcCombat }

/-- Witness for C7: on the concrete dead-PC fixture the evaluator
reports `player_down`, clears combat and reverts the phase. -/
theorem outcome_teardown_witness :
    (resolveCombatOutcome deadPcGame).1 = some "player_down" ∧
    (resolveCombatOutcome deadPcGame).2.combat = none ∧
    (resolveCombatOutcome deadPcGame).2.phase = "exploration" ∧
    (resolveCombatOutcome deadPcGame).2.log.length = 1 := by
  have hthm := outcome_teardown deadPcGame deadPcCombat rfl (by decide) (by decide)
  have h := hthm.1 (by decide)
  rw [h]
  exact ⟨rfl, rfl, rfl, rfl⟩

/-! ## Structural lemmas about combatant references -/

theorem getCombatantRef_pc_inv (c : CombatSession) (o : Option String)
    (a : Combatant) (h : getCombatantRef c o = some ⟨"pc", a⟩) :
    a = c.pc ∧ o = some c.pc.id ∧ c.pc.id ≠ "" := by
  rcases o with _ | cid
  · exact absurd h (by simp [getCombatantRef])
  · simp only [getCombatantRef] at h
    by_cases hemp : cid = ""
    · subst hemp; simp at h
    · rw [if_neg (by simpa using hemp)] at h
      by_cases hid : c.pc.id = cid
      · rw [if_pos (by simpa using hid)] at h
        simp only [Option.some.injEq, CombatantRef.mk.injEq, true_and] at h
        exact ⟨h.symm, by rw [hid], by rw [hid]; exact hemp⟩
      · rw [if_neg (by simpa using hid)] at h
        rcases hfind : c.enemies.find? (fun en => en.id == cid) with _ | en <;>
          rw [hfind] at h <;> simp at h

theorem getCombatantRef_pc_self (c : CombatSession) (h : c.pc.id ≠ "") :
    getCombatantRef c (some c.pc.id) = some ⟨"pc", c.pc⟩ := by
  simp only [getCombatantRef]
  rw [if_neg (by simpa using h), if_pos (by simp)]

theorem setCombatant_pc (c : CombatSession) (f : Combatant → Combatant) :
    setCombatant c c.pc.id f = { c with pc := f c.pc } := by
  unfold setCombatant
  rw [if_pos (by simp)]

theorem ensure_hp (a : Combatant) : (ensureCombatTurnState a).hp = a.hp := rfl

theorem ensure_id (a : Combatant) : (ensureCombatTurnState a).id = a.id := rfl

theorem ensure_actionUsed (a : Combatant) :
    (ensureCombatTurnState a).actionUsed = a.actionUsed := rfl

/-- The player-facing entry of `resolveCombatAction` skips the
enemy-autoplay drain whenever the current turn holder of the
normalized state is the PC. -/
theorem resolveCombatAction_entry (g0 g1 : Game) (eIn e1 : Entropy)
    (a : Combatant) (args : ActionArgs)
    (hc0 : g0.combat.isSome = true)
    (hsync : syncCombatState g0 eIn = (g1, e1))
    (href : currentActorRef g1 = some ⟨"pc", a⟩) :
    resolveCombatAction g0 args eIn = resolveCombatActionBody g1 args e1 := by
  obtain ⟨c0, hc⟩ := Option.isSome_iff_exists.mp hc0
  obtain ⟨c1, hc1, hrefc⟩ : ∃ c1, g1.combat = some c1 ∧
      getCombatantRef c1 c1.currentTurnId = some ⟨"pc", a⟩ := by
    unfold currentActorRef at href
    rcases hg : g1.combat with _ | c1
    · rw [hg] at href; simp at href
    · rw [hg] at href; exact ⟨c1, rfl, by simpa using href⟩
  unfold resolveCombatAction
  rw [hc]
  simp only [hsync, hc1, hrefc]
  rfl

/-- When the acting PC is the current turn holder, alive, and the
silent-advance guard does not fire (non-action-consuming request or an
unused action slot), the resolver body proceeds directly to the action
dispatch on the `ensureCombatTurnState`-refreshed actor. -/
theorem body_no_silent (g1 : Game) (e1 : Entropy) (a : Combatant)
    (args : ActionArgs) (c1 : CombatSession)
    (hc1 : g1.combat = some c1)
    (href : getCombatantRef c1 c1.currentTurnId = some ⟨"pc", a⟩)
    (halive : 0 < a.hp)
    (hactor : args.actorId = none)
    (hnosilent : requiresAction args.action = false ∨ a.actionUsed = false) :
    resolveCombatActionBody g1 args e1 =
      resolveCombatActionAfterActor (ensureActor g1 a.id) a.id args e1 := by
  obtain ⟨ha, hcur, hne⟩ := getCombatantRef_pc_inv c1 c1.currentTurnId a href
  subst ha
  have halive' : isCombatantAlive (ensureCombatTurnState c1.pc) = true := by
    rw [isCombatantAlive, ensure_hp]
    exact decide_eq_true halive
  have hens : ensureActor g1 c1.pc.id = { g1 with combat := some (setCombatant c1 c1.pc.id ensureCombatTurnState) } := by
    unfold ensureActor
    rw [hc1]
  unfold resolveCombatActionBody
  rw [hc1, hens]
  simp only [hactor, hcur, Option.none_orElse, getCombatantRef_pc_self c1 hne,
    halive', ensure_actionUsed, Bool.not_true, Bool.false_eq_true, if_false,
    bne_self_eq_false]
  rcases hnosilent with h | h <;>
    simp [h]

/-- **C8**: an `end_turn` request by the current, living PC fails with
the "cannot end before using one action" message (leaving round, turn
and log untouched) when the action slot is unused, and otherwise
performs a turn transition with cascading enemy autoplay. -/
theorem end_turn_requires_action (g0 g1 : Game) (eIn e1 : Entropy)
    (a : Combatant) (args : ActionArgs)
    (hc0 : g0.combat.isSome = true)
    (hsync : syncCombatState g0 eIn = (g1, e1))
    (href : currentActorRef g1 = some ⟨"pc", a⟩)
    (halive : 0 < a.hp)
    (hargs : args.action = some "end_turn")
    (hactor : args.actorId = none) :
    (a.actionUsed = false →
      resolveCombatAction g0 args eIn =
        (⟨false, "A turn cannot end before using one action (attack, defend, dodge, or skill)."⟩,
          ensureActor (ensureActor g1 a.id) a.id, e1)) ∧
    (a.actionUsed = true →
      resolveCombatAction g0 args eIn =
        (let s := ensureActor (ensureActor g1 a.id) a.id
         let r := resolveTurnTransition s e1
         if !r.1.ok then (⟨false, r.1.message⟩, r.2.1, r.2.2)
         else finishCombatAction r.2.1 r.1.summary false "pc" r.2.2)) ∧
    ((ensureActor (ensureActor g1 a.id) a.id).combat.map
        (fun c => (c.currentTurnId, c.round)) =
      g1.combat.map (fun c => (c.currentTurnId, c.round))) ∧
    (ensureActor (ensureActor g1 a.id) a.id).log = g1.log := by
  obtain ⟨c1, hc1, hrefc⟩ : ∃ c1, g1.combat = some c1 ∧
      getCombatantRef c1 c1.currentTurnId = some ⟨"pc", a⟩ := by
    unfold currentActorRef at href
    rcases hg : g1.combat with _ | c1
    · rw [hg] at href; simp at href
    · rw [hg] at href; exact ⟨c1, rfl, by simpa using href⟩
  obtain ⟨ha, hcur, hne⟩ := getCombatantRef_pc_inv c1 c1.currentTurnId a hrefc
  subst ha
  have hentry := resolveCombatAction_entry g0 g1 eIn e1 c1.pc args hc0 hsync href
  have hreq : requiresAction args.action = false := by
    rw [hargs]; rfl
  have hbody := body_no_silent g1 e1 c1.pc args c1 hc1 hrefc halive hactor (Or.inl hreq)
  have hens1 : ensureActor g1 c1.pc.id =
      { g1 with combat := some { c1 with pc := ensureCombatTurnState c1.pc } } := by
    unfold ensureActor
    rw [hc1]
    show ({ g1 with combat := some (setCombatant c1 c1.pc.id ensureCombatTurnState) } : Game) = _
    rw [setCombatant_pc c1 ensureCombatTurnState]
  have hsetpc2 : setCombatant { c1 with pc := ensureCombatTurnState c1.pc }
      c1.pc.id ensureCombatTurnState =
      { c1 with pc := ensureCombatTurnState (ensureCombatTurnState c1.pc) } := by
    have h2 := setCombatant_pc { c1 with pc := ensureCombatTurnState c1.pc }
      ensureCombatTurnState
    rw [show ({ c1 with pc := ensureCombatTurnState c1.pc } : CombatSession).pc.id
        = c1.pc.id from ensure_id c1.pc] at h2
    exact h2
  have hens2 : ensureActor (ensureActor g1 c1.pc.id) c1.pc.id = { g1 with combat := some { c1 with pc := ensureCombatTurnState (ensureCombatTurnState c1.pc) } } := by
    rw [hens1]
    unfold ensureActor
    show ({ g1 with combat := some (setCombatant { c1 with pc := ensureCombatTurnState c1.pc }
      c1.pc.id ensureCombatTurnState) } : Game) = _
    rw [hsetpc2]
  have hne2 : ({ c1 with pc := ensureCombatTurnState c1.pc } : CombatSession).pc.id ≠ "" := by
    rw [show ({ c1 with pc := ensureCombatTurnState c1.pc } : CombatSession).pc.id
        = c1.pc.id from ensure_id c1.pc]
    exact hne
  have href2 : getCombatantRef { c1 with pc := ensureCombatTurnState c1.pc }
      (some c1.pc.id) = some ⟨"pc", ensureCombatTurnState c1.pc⟩ := by
    have h3 := getCombatantRef_pc_self { c1 with pc := ensureCombatTurnState c1.pc } hne2
    rw [show ({ c1 with pc := ensureCombatTurnState c1.pc } : CombatSession).pc.id
        = c1.pc.id from ensure_id c1.pc] at h3
    exact h3
  have halive2 : isCombatantAlive
      (ensureCombatTurnState (ensureCombatTurnState c1.pc)) = true := by
    rw [isCombatantAlive, ensure_hp, ensure_hp]
    exact decide_eq_true halive
  -- the after-actor dispatch on the refreshed PC
  have hafter : resolveCombatActionAfterActor (ensureActor g1 c1.pc.id) c1.pc.id args e1 =
      (if !(ensureCombatTurnState (ensureCombatTurnState c1.pc)).actionUsed then
        (⟨false, "A turn cannot end before using one action (attack, defend, dodge, or skill)."⟩,
          ensureActor (ensureActor g1 c1.pc.id) c1.pc.id, e1)
      else
        (let s := ensureActor (ensureActor g1 c1.pc.id) c1.pc.id
         let r := resolveTurnTransition s e1
         if !r.1.ok then (⟨false, r.1.message⟩, r.2.1, r.2.2)
         else finishCombatAction r.2.1 r.1.summary false "pc" r.2.2)) := by
    unfold resolveCombatActionAfterActor
    rw [hens1]
    simp only [href2, halive2, hargs, hens2, hsetpc2]
    simp [requiresAction, COMBAT_ACTIONS_REQUIRING_ACTION, hens2.symm, hens1, hsetpc2]
  rw [hentry, hbody, hafter]
  have hcurround : (ensureActor (ensureActor g1 c1.pc.id) c1.pc.id).combat.map
      (fun c => (c.currentTurnId, c.round)) =
      g1.combat.map (fun c => (c.currentTurnId, c.round)) := by
    rw [hens2, hc1]
    rfl
  have hlog : (ensureActor (ensureActor g1 c1.pc.id) c1.pc.id).log = g1.log := by
    rw [hens2]
  refine ⟨?_, ?_, hcurround, hlog⟩
  · intro hused
    rw [ensure_actionUsed, ensure_actionUsed, hused]
    rfl
  · intro hused
    rw [ensure_actionUsed, ensure_actionUsed, hused]
    rfl

/-- The PC combatant of the normalized base fixture. -/
def pcSynced : Combatant :=
  match baseGameSynced.combat with
  | some c => c.pc
  | none => pcHero

/-- Witness for C8: on the base fixture, `end_turn` before any action
fails with the expected message. -/
theorem end_turn_requires_action_witness :
    (resolveCombatAction baseGame
      ⟨none, some "end_turn", none, none, none, none, none, none, none⟩ e0).1 =
      ⟨false, "A turn cannot end before using one action (attack, defend, dodge, or skill)."⟩ := by
  have h := (end_turn_requires_action baseGame baseGameSynced e0 e0 pcSynced
    ⟨none, some "end_turn", none, none, none, none, none, none, none⟩
    (by decide) (by decide) (by decide) (by decide) rfl rfl).1 (by decide)
  rw [h]

/-- **C9**: a `use_skill` request whose resolved unlocked skill costs
more MP than the actor has is rejected with `ok:false`, and the whole
game state (and entropy) is returned exactly unchanged.  The actor is
the current, ready PC of a normalization-fixed state (every state the
resolver reaches satisfies the two fixpoint hypotheses, since it syncs
on entry). -/
theorem insufficient_mp_rejected (g : Game) (e : Entropy) (c : CombatSession)
    (a : Combatant) (sk : Skill) (args : ActionArgs)
    (hsync : syncCombatState g e = (g, e))
    (hc : g.combat = some c)
    (href : getCombatantRef c c.currentTurnId = some ⟨"pc", a⟩)
    (halive : 0 < a.hp)
    (hused : a.actionUsed = false)
    (hens : ensureCombatTurnState a = a)
    (hargs : args.action = some "use_skill")
    (hactor : args.actorId = none)
    (hsid : strFalsy args.skillId = false)
    (hskill : getUsableSkill a args.skillId = some sk)
    (hmp : a.mp < sk.mpCost) :
    resolveCombatAction g args e =
      (⟨false, a.name ++ " does not have enough MP for " ++ sk.name ++ "."⟩, g, e) := by
  obtain ⟨ha, hcur, hne⟩ := getCombatantRef_pc_inv c c.currentTurnId a href
  subst ha
  have hcomb : g.combat.isSome = true := by rw [hc]; rfl
  have hrefg : currentActorRef g = some ⟨"pc", c.pc⟩ := by
    unfold currentActorRef
    rw [hc]
    exact href
  have hentry := resolveCombatAction_entry g g e e c.pc args hcomb hsync hrefg
  have hbody := body_no_silent g e c.pc args c hc href halive hactor (Or.inr hused)
  have hsetfix : setCombatant c c.pc.id ensureCombatTurnState = c := by
    rw [setCombatant_pc c ensureCombatTurnState, hens]
  have hgfix : ensureActor g c.pc.id = g := by
    unfold ensureActor
    rw [hc]
    show ({ g with combat := some (setCombatant c c.pc.id ensureCombatTurnState) } : Game) = g
    rw [hsetfix, ← hc]
  have hafter : resolveCombatActionAfterActor g c.pc.id args e =
      (⟨false, c.pc.name ++ " does not have enough MP for " ++ sk.name ++ "."⟩, g, e) := by
    unfold resolveCombatActionAfterActor
    rw [hc]
    simp only [getCombatantRef_pc_self c hne, hens, hsetfix, hargs, hsid, hskill, hused]
    rw [← hc]
    have hreq : requiresAction (some "use_skill") = true := rfl
    have halive' : isCombatantAlive c.pc = true := by
      rw [isCombatantAlive]
      exact decide_eq_true halive
    simp only [halive', Bool.not_true, Bool.false_eq_true, if_false, hreq,
      Bool.and_false, Bool.false_and]
    simp only [show (some "use_skill" == some "move") = false from rfl,
      show (some "use_skill" == some "attack") = false from rfl,
      show (some "use_skill" == some "defend") = false from rfl,
      show (some "use_skill" == some "dodge") = false from rfl,
      show (some "use_skill" == some "use_skill") = true from rfl,
      Bool.false_eq_true, if_false, if_true]
    rw [if_pos hmp]
  rw [hentry, hbody, hgfix, hafter]

/-- An enemy-targeting skill costing 5 MP (mirrors the repository's MP
validation test). -/
def fireSkill : RawSkill :=
  ⟨some "skill_fire", some "Fire", some 1, some 5, some 6, some "enemy", none⟩

/-- The base fixture with 0 MP and the fire skill known. -/
def mpGame : Game :=
  { baseGame with mp := ⟨0, 0⟩, pc := ⟨"Hero", 1, [fireSkill]⟩ }

/-- The normalized 0-MP fixture (a `syncCombatState` fixpoint). -/
def mpGameSynced : Game := (syncCombatState mpGame e0).1

/-- The combat sub-record of `mpGameSynced`. -/
def mpCombatSynced : CombatSession :=
  match mpGameSynced.combat with
  | some c => c
  | none => deadPcCombat

/-- Witness for C9: on the 0-MP fixture, casting Fire (cost 5) is
rejected and the state and entropy come back exactly unchanged. -/
theorem insufficient_mp_rejected_witness :
    resolveCombatAction mpGameSynced
      ⟨none, some "use_skill", some "enemy_1", none, some "skill_fire", some 2, none, none,
        none⟩ e0 =
      (⟨false, "Hero does not have enough MP for Fire."⟩, mpGameSynced, e0) := by
  have h := insufficient_mp_rejected mpGameSynced e0 mpCombatSynced
    mpCombatSynced.pc ⟨"skill_fire", "Fire", 1, 5, 6, "enemy", ""⟩
    ⟨none, some "use_skill", some "enemy_1", none, some "skill_fire", some 2, none, none, none⟩
    (by decide) (by decide) (by decide) (by decide) (by decide) (by decide)
    rfl rfl (by decide) (by decide) (by decide)
  exact h

/-! ## Sorting lemmas for the initiative order -/

/-- The descending-score relation the initiative sort establishes. -/
def initGe (a b : InitEntry) : Prop :=
  b.initiative.getD 0 ≤ a.initiative.getD 0

theorem initLe_true (x y : InitEntry) (h : initLe x y = true) :
    y.initiative.getD 0 ≤ x.initiative.getD 0 := by
  simpa [initLe, decide_eq_true_eq] using h

theorem initLe_false (x y : InitEntry) (h : ¬(initLe x y = true)) :
    x.initiative.getD 0 < y.initiative.getD 0 := by
  simp only [initLe, decide_eq_true_eq] at h
  omega

theorem insertLe_mem (x z : InitEntry) (l : List InitEntry) :
    z ∈ insertLe initLe x l ↔ z = x ∨ z ∈ l := by
  induction l with
  | nil => simp [insertLe]
  | cons y ys ih =>
    by_cases h : initLe x y = true
    · simp [insertLe, h]
    · simp only [insertLe, h, Bool.false_eq_true, if_false, List.mem_cons, ih]
      tauto

theorem insertLe_pairwise (x : InitEntry) (l : List InitEntry)
    (h : l.Pairwise initGe) :
    (insertLe initLe x l).Pairwise initGe := by
  induction l with
  | nil => simp [insertLe, List.pairwise_cons]
  | cons y ys ih =>
    rw [List.pairwise_cons] at h
    by_cases hle : initLe x y = true
    · rw [show insertLe initLe x (y :: ys) = x :: y :: ys by simp [insertLe, hle]]
      rw [List.pairwise_cons]
      refine ⟨?_, by rw [List.pairwise_cons]; exact h⟩
      intro z hz
      rcases List.mem_cons.mp hz with rfl | hz
      · exact initLe_true x z hle
      · have h1 : initGe y z := h.1 z hz
        have h2 := initLe_true x y hle
        unfold initGe at *
        omega
    · rw [show insertLe initLe x (y :: ys) = y :: insertLe initLe x ys by
        simp [insertLe, hle]]
      rw [List.pairwise_cons]
      refine ⟨?_, ih h.2⟩
      intro z hz
      rcases (insertLe_mem x z ys).mp hz with rfl | hz
      · have := initLe_false z y hle
        unfold initGe
        omega
      · exact h.1 z hz

/-- The initiative sort is sorted: scores are non-increasing. -/
theorem insSort_sorted (l : List InitEntry) :
    (insSort initLe l).Pairwise initGe := by
  induction l with
  | nil => simp [insSort]
  | cons x xs ih =>
    exact insertLe_pairwise x (insSort initLe xs) ih

theorem insertLe_filter_key (s : Int) (x : InitEntry) (l : List InitEntry) :
    (insertLe initLe x l).filter (fun en => en.initiative.getD 0 == s) =
      if (x.initiative.getD 0 == s) = true then
        x :: l.filter (fun en => en.initiative.getD 0 == s)
      else l.filter (fun en => en.initiative.getD 0 == s) := by
  induction l with
  | nil =>
    by_cases hx : (x.initiative.getD 0 == s) = true <;>
      simp [insertLe, List.filter, hx]
  | cons y ys ih =>
    by_cases hle : initLe x y = true
    · rw [show insertLe initLe x (y :: ys) = x :: y :: ys by simp [insertLe, hle]]
      by_cases hx : (x.initiative.getD 0 == s) = true <;>
        simp only [List.filter_cons, hx, if_pos, if_neg, Bool.false_eq_true, if_false,
          if_true]
    · rw [show insertLe initLe x (y :: ys) = y :: insertLe initLe x ys by
        simp [insertLe, hle]]
      have hxy := initLe_false x y hle
      by_cases hy : (y.initiative.getD 0 == s) = true
      · have hxs : (x.initiative.getD 0 == s) = false := by
          have hy' : y.initiative.getD 0 = s := by simpa using hy
          simp only [beq_eq_false_iff_ne, ne_eq]
          omega
        simp only [List.filter_cons, hy, if_true, ih, hxs, Bool.false_eq_true, if_false]
      · simp only [List.filter_cons, hy, Bool.false_eq_true, if_false, ih]

/-- The initiative sort is stable: for every score, the entries holding
that score appear in the sorted list exactly in their original order. -/
theorem insSort_filter (l : List InitEntry) (s : Int) :
    (insSort initLe l).filter (fun en => en.initiative.getD 0 == s) =
      l.filter (fun en => en.initiative.getD 0 == s) := by
  induction l with
  | nil => rfl
  | cons x xs ih =>
    rw [show insSort initLe (x :: xs) = insertLe initLe x (insSort initLe xs) from rfl,
      insertLe_filter_key s x (insSort initLe xs), ih]
    by_cases hx : (x.initiative.getD 0 == s) = true <;>
      simp only [List.filter_cons, hx, if_true, Bool.false_eq_true, if_false]

/-- Any initiative reroll is a d20: the rolled score lies in `[1, 20]`. -/
theorem rollInitiativeScore_range (e : Entropy) :
    1 ≤ (rollInitiativeScore e).1 ∧ (rollInitiativeScore e).1 ≤ 20 := by
  rcases e with ⟨vals⟩
  rcases vals with _ | ⟨v, vs⟩
  · decide
  · have h : (rollInitiativeScore ⟨v :: vs⟩).1 = ((1 + v % 20 : Nat) : Int) + 0 := rfl
    rw [h]
    have := Nat.mod_lt v (show 0 < 20 by decide)
    omega

/-- The reroll pass keeps ids/names/kinds in place and stamps every
entry with a fresh d20 score. -/
theorem rerollAll_shape (l : List InitEntry) (e : Entropy) :
    ((applyInitiativeScores.rerollAll l e).1.map (fun en => (en.id, en.name, en.kind)) =
      l.map (fun en => (en.id, en.name, en.kind))) ∧
    ∀ en ∈ (applyInitiativeScores.rerollAll l e).1,
      ∃ v, en.initiative = some v ∧ 1 ≤ v ∧ v ≤ 20 := by
  induction l generalizing e with
  | nil => simp [applyInitiativeScores.rerollAll]
  | cons x xs ih =>
    have key : applyInitiativeScores.rerollAll (x :: xs) e =
        ({ x with initiative := some (rollInitiativeScore e).1 } ::
          (applyInitiativeScores.rerollAll xs (rollInitiativeScore e).2).1,
        (applyInitiativeScores.rerollAll xs (rollInitiativeScore e).2).2) := rfl
    obtain ⟨h1, h2⟩ := ih (rollInitiativeScore e).2
    rw [key]
    constructor
    · simpa using h1
    · intro en hen
      rcases List.mem_cons.mp hen with rfl | hen
    /- the head entry carries the fresh roll; the tail is handled by IH -/
      · obtain ⟨hlo, hhi⟩ := rollInitiativeScore_range e
        exact ⟨(rollInitiativeScore e).1, rfl, hlo, hhi⟩
      · exact h2 en hen

/-- A map whose function fixes every element of the list is the
identity on that list. -/
theorem map_eq_self_of (f : α → α) (l : List α) (h : ∀ a ∈ l, f a = a) :
    l.map f = l := by
  induction l with
  | nil => rfl
  | cons x xs ih =>
    rw [List.map_cons, h x (List.mem_cons_self x xs),
      ih (fun a ha => h a (List.mem_cons_of_mem x ha))]

/-- **C6**: initiative normalization rerolls every entry with a
d20-equivalent exactly when some score is missing or all scores are
zero, keeps caller scores (and the entropy) verbatim otherwise, and
the sort applied by `syncCombatState` is non-increasing by score and
stable (per-score filters are preserved). -/
theorem initiative_scores_and_sort :
    (∀ (entries : List InitEntry) (e : Entropy),
      (entries.any (fun en => en.initiative == none) = true ∨
        entries.all (fun en => en.initiative.getD 0 == 0) = true) →
      ((applyInitiativeScores entries e).1.map (fun en => (en.id, en.name, en.kind)) =
          entries.map (fun en => (en.id, en.name, en.kind)) ∧
        ∀ en ∈ (applyInitiativeScores entries e).1,
          ∃ v, en.initiative = some v ∧ 1 ≤ v ∧ v ≤ 20)) ∧
    (∀ (entries : List InitEntry) (e : Entropy),
      entries.any (fun en => en.initiative == none) = false →
      entries.all (fun en => en.initiative.getD 0 == 0) = false →
      applyInitiativeScores entries e = (entries, e)) ∧
    (∀ l : List InitEntry, (insSort initLe l).Pairwise initGe) ∧
    (∀ (l : List InitEntry) (s : Int),
      (insSort initLe l).filter (fun en => en.initiative.getD 0 == s) =
        l.filter (fun en => en.initiative.getD 0 == s)) := by
  have hnormid : (fun (en : InitEntry) =>
      ({ en with initiative := normalizeInitiativeScore en.initiative } : InitEntry)) =
      id := rfl
  refine ⟨?_, ?_, insSort_sorted, insSort_filter⟩
  · intro entries e hcond
    rcases entries with _ | ⟨x, xs⟩
    · simp [applyInitiativeScores]
    · have hred : applyInitiativeScores (x :: xs) e =
          applyInitiativeScores.rerollAll (x :: xs) e := by
        unfold applyInitiativeScores
        rw [hnormid, List.map_id]
        rcases hcond with hmiss | hzero
        · simp [hmiss]
        · simp [hzero]
      rw [hred]
      exact rerollAll_shape (x :: xs) e
  · intro entries e hmiss hzero
    rcases entries with _ | ⟨x, xs⟩
    · simp at hzero
    · unfold applyInitiativeScores
      rw [hnormid, List.map_id]
      rw [if_neg (by simp)]
      rw [if_pos (by simp [hmiss, hzero])]
      have hfix : (x :: xs).map
          (fun en => ({ en with initiative := some (en.initiative.getD 0) } : InitEntry)) =
          x :: xs := by
        refine map_eq_self_of _ _ ?_
        intro a ha
        have hne : (a.initiative == none) = false := by
          rw [List.any_eq_false] at hmiss
          simpa using hmiss a ha
        rcases hv : a.initiative with _ | v
        · rw [hv] at hne; simp at hne
        · simp only [hv, Option.getD_some]
          rw [← hv]
      rw [hfix]

/-- Witness for C6: two present, non-zero caller scores are honored
verbatim and no entropy is consumed. -/
theorem initiative_scores_and_sort_witness :
    applyInitiativeScores [⟨"a", "A", "pc", some 3⟩, ⟨"b", "B", "enemy", some 5⟩] e0 =
      ([⟨"a", "A", "pc", some 3⟩, ⟨"b", "B", "enemy", some 5⟩], e0) :=
  initiative_scores_and_sort.2.1 _ e0 (by decide) (by decide)

/-! ## Weapon-equipping lemmas (for the normalization invariants) -/

theorem filter_equipped_map_len (sel : String) (ws : List Weapon) :
    ((ws.map (fun w => { w with equipped := w.id == sel })).filter
      (fun w => w.equipped)).length =
    (ws.filter (fun w => w.id == sel)).length := by
  induction ws with
  | nil => rfl
  | cons w rest ih =>
    by_cases h : (w.id == sel) = true
    · simp only [List.map_cons, List.filter_cons, h, if_true, List.length_cons, ih]
    · simp only [List.map_cons, List.filter_cons, h, Bool.false_eq_true, if_false, ih]

theorem nodup_filter_id_len (sel : String) (ws : List Weapon)
    (hnd : (ws.map (fun w => w.id)).Nodup) (hmem : sel ∈ ws.map (fun w => w.id)) :
    (ws.filter (fun w => w.id == sel)).length = 1 := by
  induction ws with
  | nil => simp at hmem
  | cons w rest ih =>
    rw [List.map_cons, List.nodup_cons] at hnd
    by_cases h : (w.id == sel) = true
    · have hsel : w.id = sel := by simpa using h
      have hnone : rest.filter (fun w' => w'.id == sel) = [] := by
        rw [List.filter_eq_nil_iff]
        intro w' hw'
        have : w'.id ≠ w.id := by
          intro hcontra
          exact hnd.1 (hcontra ▸ List.mem_map_of_mem (fun x => x.id) hw')
        simp [hsel ▸ this]
      simp only [List.filter_cons, h, if_true, hnone, List.length_cons, List.length_nil]
    · have hsel : w.id ≠ sel := by simpa using h
      have hmem' : sel ∈ rest.map (fun w' => w'.id) := by
        have hmem2 : sel = w.id ∨ ∃ a ∈ rest, a.id = sel := by simpa using hmem
        rcases hmem2 with heq | ⟨a, ha, haid⟩
        · exact absurd heq.symm hsel
        · exact List.mem_map.mpr ⟨a, ha, haid⟩
      simp only [List.filter_cons, h, Bool.false_eq_true, if_false]
      exact ih hnd.2 hmem'

/-- The core guarantee of `ensureSingleEquippedWeapon` on a non-empty
list: it keeps the ids in place, at least one weapon comes back
equipped, and when the ids are pairwise distinct exactly one does. -/
theorem ensureSingle_spec (ws : List Weapon) (pref : Option String) (hne : ws ≠ []) :
    (ensureSingleEquippedWeapon ws pref).map (fun w => w.id) = ws.map (fun w => w.id) ∧
    (∃ w ∈ ensureSingleEquippedWeapon ws pref, w.equipped = true) ∧
    ((ws.map (fun w => w.id)).Nodup →
      ((ensureSingleEquippedWeapon ws pref).filter (fun w => w.equipped)).length = 1) ∧
    ensureSingleEquippedWeapon ws pref ≠ [] := by
  rcases hws : ws with _ | ⟨w0, rest⟩
  · exact absurd hws hne
  subst hws
  have hkey : ∃ sel, sel ∈ (w0 :: rest).map (fun w => w.id) ∧
      ensureSingleEquippedWeapon (w0 :: rest) pref =
        (w0 :: rest).map (fun w => { w with equipped := w.id == sel }) := by
    unfold ensureSingleEquippedWeapon
    set lst := w0 :: rest with hlst
    rcases pref with _ | p
    · rcases hfe : lst.find? (fun w => w.equipped) with _ | wf
      · refine ⟨w0.id, by simp [hlst], ?_⟩
        simp [hfe]
      · refine ⟨wf.id, ?_, by simp [hfe]⟩
        exact List.mem_map_of_mem (fun w => w.id) (List.mem_of_find?_eq_some hfe)
    · by_cases hp : (p != "" && lst.any (fun w => w.id == p)) = true
      · refine ⟨p, ?_, by simp [hp]⟩
        have := (Bool.and_eq_true _ _).mp hp
        obtain ⟨w', hw', hid⟩ := List.any_eq_true.mp this.2
        have : w'.id = p := by simpa using hid
        exact this ▸ List.mem_map_of_mem (fun w => w.id) hw'
      · rcases hfe : lst.find? (fun w => w.equipped) with _ | wf
        · refine ⟨w0.id, by simp [hlst], ?_⟩
          simp [hp, hfe]
        · refine ⟨wf.id, ?_, by simp [hp, hfe]⟩
          exact List.mem_map_of_mem (fun w => w.id) (List.mem_of_find?_eq_some hfe)
  obtain ⟨sel, hmem, heq⟩ := hkey
  rw [heq]
  refine ⟨?_, ?_, ?_, by simp⟩
  · simp
  · obtain ⟨w', hw', hid⟩ := List.mem_map.mp hmem
    refine ⟨{ w' with equipped := w'.id == sel }, List.mem_map_of_mem _ hw', ?_⟩
    simp [hid]
  · intro hnd
    rw [filter_equipped_map_len sel (w0 :: rest)]
    exact nodup_filter_id_len sel (w0 :: rest) hnd hmem

theorem ensure_hpMax (c : Combatant) : (ensureCombatTurnState c).hpMax = c.hpMax := rfl

theorem ensure_mp (c : Combatant) : (ensureCombatTurnState c).mp = c.mp := rfl

theorem ensure_mpMax (c : Combatant) : (ensureCombatTurnState c).mpMax = c.mpMax := rfl

theorem ensure_weapons (c : Combatant) : (ensureCombatTurnState c).weapons = c.weapons := rfl

/-- `ensureCombatTurnState` establishes the movement-budget bounds. -/
theorem ensure_move_bounds (c : Combatant) :
    0 ≤ (ensureCombatTurnState c).speed ∧
    0 ≤ (ensureCombatTurnState c).movementRemaining ∧
    (ensureCombatTurnState c).movementRemaining ≤ (ensureCombatTurnState c).speed := by
  have hs : (ensureCombatTurnState c).speed = clamp c.speed 0 MAX_RANGE := rfl
  have hm : (ensureCombatTurnState c).movementRemaining =
      clamp c.movementRemaining 0 (clamp c.speed 0 MAX_RANGE) := rfl
  have h30 : (0 : Int) ≤ clamp c.speed 0 MAX_RANGE := clamp_lb _ 0 MAX_RANGE (by decide)
  rw [hs, hm]
  exact ⟨h30, clamp_lb _ 0 _ h30, clamp_ub _ 0 _⟩

/-- The PC build always produces a non-empty weapon list with at least
one weapon equipped — exactly one when the ids are distinct. -/
theorem buildPc_weapons_spec (g : Game) (ex : Combatant) (p : PcPatch) :
    (buildPcCombatant g ex p).weapons ≠ [] ∧
    (∃ w ∈ (buildPcCombatant g ex p).weapons, w.equipped = true) ∧
    (((buildPcCombatant g ex p).weapons.map (fun w => w.id)).Nodup →
      ((buildPcCombatant g ex p).weapons.filter (fun w => w.equipped)).length = 1) := by
  have hw : (buildPcCombatant g ex p).weapons = ensureSingleEquippedWeapon
      (if (getInventoryWeapons g.inventory).any (fun w => w.id == UNARMED_WEAPON_ID) = true
        then getInventoryWeapons g.inventory
        else getInventoryWeapons g.inventory ++ [UNARMED_WEAPON])
      (p.equippedWeaponId <|> ex.equippedWeaponId) := rfl
  have hne : (if (getInventoryWeapons g.inventory).any (fun w => w.id == UNARMED_WEAPON_ID) = true
      then getInventoryWeapons g.inventory
      else getInventoryWeapons g.inventory ++ [UNARMED_WEAPON]) ≠ [] := by
    by_cases hu : (getInventoryWeapons g.inventory).any (fun w => w.id == UNARMED_WEAPON_ID) = true
    · rw [if_pos hu]
      intro hnil
      rw [hnil] at hu
      simp at hu
    · rw [if_neg hu]
      simp
  obtain ⟨hids, hex, hone, hns⟩ := ensureSingle_spec _
    (p.equippedWeaponId <|> ex.equippedWeaponId) hne
  rw [hw]
  refine ⟨hns, hex, ?_⟩
  intro hnd
  exact hone (by rw [← hids]; exact hnd)

/-- The default-weapon fallback of the enemy build is never empty. -/
theorem withDefault_ne (nws : List Weapon) :
    (if nws.isEmpty = true then [DEFAULT_ENEMY_WEAPON] else nws) ≠ [] := by
  split
  · simp
  · rename_i hemp
    intro hnil
    rw [hnil] at hemp
    simp at hemp

/-- Bounds delivered by a successful enemy build: hp within `[0, hpMax]`
(with `hpMax ≥ 1`), mp and mpMax each only clamped into `[0, 999]`, and
a non-empty weapon list with the single-equipped guarantee. -/
theorem buildEnemy_bounds (spec : EnemySpec) (ex : Option Combatant) (i : Nat)
    (e : Entropy) (c' : Combatant) (e' : Entropy)
    (h : buildEnemyCombatant spec ex i e = (some c', e')) :
    1 ≤ c'.hpMax ∧ 0 ≤ c'.hp ∧ c'.hp ≤ c'.hpMax ∧
    0 ≤ c'.mp ∧ c'.mp ≤ 999 ∧ 0 ≤ c'.mpMax ∧ c'.mpMax ≤ 999 ∧
    c'.weapons ≠ [] ∧ (∃ w ∈ c'.weapons, w.equipped = true) ∧
    ((c'.weapons.map (fun w => w.id)).Nodup →
      (c'.weapons.filter (fun w => w.equipped)).length = 1) := by
  unfold buildEnemyCombatant at h
  by_cases hguard : (strFalsy spec.name && strFalsy (ex.map (fun c => c.name))) = true
  · rw [if_pos hguard] at h
    simp at h
  · rw [if_neg hguard] at h
    rcases hid : spec.id <|> ex.map (fun c => c.id) with _ | theId <;> rw [hid] at h
    all_goals (
      rw [Prod.mk.injEq] at h;
      obtain ⟨h1, h2⟩ := h;
      rw [Option.some.injEq] at h1;
      refine ⟨?_, ?_, ?_, ?_, ?_, ?_, ?_, ?_, ?_, ?_⟩ <;> rw [← h1])
    case _ => exact clamp_lb _ 1 999 (by decide)
    case _ => exact clamp_lb _ 0 _ (le_trans (by decide) (clamp_lb _ 1 999 (by decide)))
    case _ => exact clamp_ub _ 0 _
    case _ => exact clamp_lb _ 0 999 (by decide)
    case _ => exact clamp_ub _ 0 999
    case _ => exact clamp_lb _ 0 999 (by decide)
    case _ => exact clamp_ub _ 0 999
    case _ => exact (ensureSingle_spec _ _ (withDefault_ne _)).2.2.2
    case _ => exact (ensureSingle_spec _ _ (withDefault_ne _)).2.1
    case _ =>
      intro hnd
      rw [(ensureSingle_spec _ _ (withDefault_ne _)).1] at hnd
      exact (ensureSingle_spec _ _ (withDefault_ne _)).2.2.1 hnd
    case _ => exact clamp_lb _ 1 999 (by decide)
    case _ => exact clamp_lb _ 0 _ (le_trans (by decide) (clamp_lb _ 1 999 (by decide)))
    case _ => exact clamp_ub _ 0 _
    case _ => exact clamp_lb _ 0 999 (by decide)
    case _ => exact clamp_ub _ 0 999
    case _ => exact clamp_lb _ 0 999 (by decide)
    case _ => exact clamp_ub _ 0 999
    case _ => exact (ensureSingle_spec _ _ (withDefault_ne _)).2.2.2
    case _ => exact (ensureSingle_spec _ _ (withDefault_ne _)).2.1
    case _ =>
      intro hnd
      rw [(ensureSingle_spec _ _ (withDefault_ne _)).1] at hnd
      exact (ensureSingle_spec _ _ (withDefault_ne _)).2.2.1 hnd

/-- Every enemy surviving the sync rebuild loop is the output of a
successful `buildEnemyCombatant` call. -/
theorem buildEnemiesSync_mem (l : List Combatant) (i : Nat) (e : Entropy) :
    ∀ en ∈ (buildEnemiesSync l i e).1, ∃ spec ex j e1 e2,
      buildEnemyCombatant spec ex j e1 = (some en, e2) := by
  induction l generalizing i e with
  | nil => simp [buildEnemiesSync]
  | cons c rest ih =>
    intro en hen
    have key : buildEnemiesSync (c :: rest) i e =
        ((match (buildEnemyCombatant c.toSpec (some c) i e).1 with
          | some x => x :: (buildEnemiesSync rest (i + 1)
              (buildEnemyCombatant c.toSpec (some c) i e).2).1
          | none => (buildEnemiesSync rest (i + 1)
              (buildEnemyCombatant c.toSpec (some c) i e).2).1),
         (buildEnemiesSync rest (i + 1)
           (buildEnemyCombatant c.toSpec (some c) i e).2).2) := rfl
    rw [key] at hen
    rcases hb : (buildEnemyCombatant c.toSpec (some c) i e).1 with _ | x <;>
      rw [hb] at hen
    · exact ih (i + 1) _ en hen
    · rcases List.mem_cons.mp hen with rfl | hen'
      · refine ⟨c.toSpec, some c, i, e, (buildEnemyCombatant c.toSpec (some c) i e).2, ?_⟩
        rw [← hb]
      · exact ih (i + 1) _ en hen'

/-- The combat sub-record produced by `syncCombatState`: PC rebuilt,
re-clamped and hp/mp-capped; enemies rebuilt, statused and
turn-state-ensured. -/
theorem sync_combat_shape (g : Game) (e : Entropy) (c0 : CombatSession)
    (hg : g.combat = some c0) :
    ∃ c', (syncCombatState g e).1.combat = some c' ∧
      c'.pc = (let pc2 := ensureCombatTurnState (buildPcCombatant g c0.pc emptyPcPatch)
        { pc2 with hp := clamp pc2.hp 0 pc2.hpMax, mp := clamp pc2.mp 0 pc2.mpMax }) ∧
      c'.enemies = (buildEnemiesSync c0.enemies 0 e).1.map
        (fun en => ensureCombatTurnState { en with status := getEnemyStatus en.hp en.hpMax }) := by
  unfold syncCombatState
  rw [hg]
  exact ⟨_, rfl, rfl, rfl⟩

/-- **C1 (amended)**: after every normalization pass, every combatant
satisfies `1 ≤ hpMax`, `0 ≤ hp ≤ hpMax` and
`0 ≤ movementRemaining ≤ speed`; the PC additionally satisfies
`0 ≤ mp ≤ mpMax`, while an enemy's mp/mpMax are each only clamped into
`[0, 999]` (mp may exceed mpMax — see the counterexample); every
combatant's weapon list is non-empty with at least one equipped weapon,
and exactly one whenever the list's weapon ids are pairwise distinct. -/
theorem sync_normalization_invariants (g : Game) (e : Entropy) (c' : CombatSession)
    (h : (syncCombatState g e).1.combat = some c') :
    (1 ≤ c'.pc.hpMax ∧ 0 ≤ c'.pc.hp ∧ c'.pc.hp ≤ c'.pc.hpMax ∧
      0 ≤ c'.pc.mp ∧ c'.pc.mp ≤ c'.pc.mpMax ∧
      0 ≤ c'.pc.speed ∧ 0 ≤ c'.pc.movementRemaining ∧
      c'.pc.movementRemaining ≤ c'.pc.speed ∧
      c'.pc.weapons ≠ [] ∧ (∃ w ∈ c'.pc.weapons, w.equipped = true) ∧
      ((c'.pc.weapons.map (fun w => w.id)).Nodup →
        (c'.pc.weapons.filter (fun w => w.equipped)).length = 1)) ∧
    (∀ en ∈ c'.enemies,
      1 ≤ en.hpMax ∧ 0 ≤ en.hp ∧ en.hp ≤ en.hpMax ∧
      0 ≤ en.mp ∧ en.mp ≤ 999 ∧ 0 ≤ en.mpMax ∧ en.mpMax ≤ 999 ∧
      0 ≤ en.speed ∧ 0 ≤ en.movementRemaining ∧ en.movementRemaining ≤ en.speed ∧
      en.weapons ≠ [] ∧ (∃ w ∈ en.weapons, w.equipped = true) ∧
      ((en.weapons.map (fun w => w.id)).Nodup →
        (en.weapons.filter (fun w => w.equipped)).length = 1)) := by
  rcases hg : g.combat with _ | c0
  · have : (syncCombatState g e).1.combat = none := by
      unfold syncCombatState
      rw [hg]
      exact hg
    rw [this] at h
    exact absurd h (by simp)
  obtain ⟨c2, hc2, hpc, hens⟩ := sync_combat_shape g e c0 hg
  rw [hc2] at h
  obtain rfl : c2 = c' := by simpa using h
  constructor
  · rw [hpc]
    show (1 ≤ (ensureCombatTurnState (buildPcCombatant g c0.pc emptyPcPatch)).hpMax ∧ _)
    rw [ensure_hpMax]
    have hhpMax : (buildPcCombatant g c0.pc emptyPcPatch).hpMax = clamp g.hp.max 1 999 := rfl
    have hmpMax : (buildPcCombatant g c0.pc emptyPcPatch).mpMax = clamp g.mp.max 0 999 := rfl
    have h1 : (1 : Int) ≤ (buildPcCombatant g c0.pc emptyPcPatch).hpMax := by
      rw [hhpMax]; exact clamp_lb _ 1 999 (by decide)
    have h0m : (0 : Int) ≤ (buildPcCombatant g c0.pc emptyPcPatch).mpMax := by
      rw [hmpMax]; exact clamp_lb _ 0 999 (by decide)
    obtain ⟨hsp, hmr0, hmrs⟩ := ensure_move_bounds (buildPcCombatant g c0.pc emptyPcPatch)
    obtain ⟨hwne, hweq, hwone⟩ := buildPc_weapons_spec g c0.pc emptyPcPatch
    refine ⟨h1, ?_, ?_, ?_, ?_, hsp, hmr0, hmrs, ?_, ?_, ?_⟩
    · exact clamp_lb _ 0 _ (by rw [ensure_hpMax]; omega)
    · exact clamp_ub _ 0 _
    · exact clamp_lb _ 0 _ (by rw [ensure_mpMax]; omega)
    · exact clamp_ub _ 0 _
    · rw [ensure_weapons]; exact hwne
    · rw [ensure_weapons]; exact hweq
    · rw [ensure_weapons]; exact hwone
  · intro en hen
    rw [hens] at hen
    obtain ⟨en0, hen0, rfl⟩ := List.mem_map.mp hen
    obtain ⟨spec, ex, j, e1, e2, hb⟩ := buildEnemiesSync_mem c0.enemies 0 e en0 hen0
    obtain ⟨hb1, hb2, hb3, hb4, hb5, hb6, hb7, hb8, hb9, hb10⟩ :=
      buildEnemy_bounds spec ex j e1 en0 e2 hb
    obtain ⟨hsp, hmr0, hmrs⟩ :=
      ensure_move_bounds { en0 with status := getEnemyStatus en0.hp en0.hpMax }
    refine ⟨?_, ?_, ?_, ?_, ?_, ?_, ?_, hsp, hmr0, hmrs, ?_, ?_, ?_⟩
    · rw [ensure_hpMax]; exact hb1
    · rw [ensure_hp]; exact hb2
    · rw [ensure_hp, ensure_hpMax]; exact hb3
    · rw [ensure_mp]; exact hb4
    · rw [ensure_mp]; exact hb5
    · rw [ensure_mpMax]; exact hb6
    · rw [ensure_mpMax]; exact hb7
    · rw [ensure_weapons]; exact hb8
    · rw [ensure_weapons]; exact hb9
    · rw [ensure_weapons]; exact hb10

/-- Inventory item "Axe": weapon id `w_dup`, equipped. -/
def dupItemA : InventoryItem :=
  ⟨"item_a", "Axe", 1, "", some ⟨some "w_dup", some "Axe", some "melee", some 1, true, some ""⟩⟩

/-- Inventory item "Blade" carrying the same weapon id `w_dup`. -/
def dupItemB : InventoryItem :=
  ⟨"item_b", "Blade", 1, "", some ⟨some "w_dup", some "Blade", some "melee", some 1, false, some ""⟩⟩

/-- A goblin whose stored mp (5) exceeds its mpMax (0). -/
def mpViolEnemy : Combatant := { goblinEnemy with mp := 5, mpMax := 0 }

/-- Combat sub-record of the C1 counterexample fixture. -/
def c1CounterCombat : CombatSession :=
  { round := 1
    currentTurnId := some "pc_game_test"
    pc := pcHero
    enemies := [mpViolEnemy]
    initiative := [⟨"pc_game_test", "Hero", "pc", some 20⟩,
      ⟨"enemy_1", "Goblin", "enemy", some 10⟩]
    rules := none
    turn := none }

/-- A session whose inventory carries two weapons with the same id and
whose enemy has mp above mpMax. -/
def c1CounterGame : Game :=
  { baseGame with
    inventory := [dupItemA, dupItemB]
    combat := some c1CounterCombat }

/-- The combat sub-record after normalizing the counterexample. -/
def c1SyncedCombat : CombatSession :=
  match (syncCombatState c1CounterGame e0).1.combat with
  | some c => c
  | none => deadPcCombat

/-- Counterexample to C1 as frozen: after `syncCombatState`, the PC
carries **two** equipped weapons (duplicate weapon id `w_dup`), and the
enemy's mp (5) still exceeds its mpMax (0) — so "0 ≤ mp ≤ mpMax" and
"exactly one weapon equipped" do not both hold for every combatant. -/
theorem sync_normalization_invariants_counterexample :
    (syncCombatState c1CounterGame e0).1.combat = some c1SyncedCombat ∧
    (c1SyncedCombat.pc.weapons.filter (fun w => w.equipped)).length = 2 ∧
    (c1SyncedCombat.enemies.headD goblinEnemy).mpMax <
      (c1SyncedCombat.enemies.headD goblinEnemy).mp := by
  decide

/-- The combat sub-record of the normalized base fixture. -/
def baseCombatSynced : CombatSession :=
  match baseGameSynced.combat with
  | some c => c
  | none => deadPcCombat

/-- Witness for C1 (amended) on the base fixture. -/
theorem sync_normalization_invariants_witness :
    0 ≤ baseCombatSynced.pc.hp ∧ baseCombatSynced.pc.hp ≤ baseCombatSynced.pc.hpMax ∧
    (baseCombatSynced.pc.weapons.filter (fun w => w.equipped)).length = 1 := by
  have h := sync_normalization_invariants baseGame e0 baseCombatSynced (by decide)
  obtain ⟨-, h2, h3, -, -, -, -, -, -, -, hone⟩ := h.1
  exact ⟨h2, h3, hone (by decide)⟩

/-- The enemy-turn loop resolves at most `fuel` turns (each successful
turn appends one summary), and a failing run always stops strictly
before exhausting its fuel. -/
theorem enemyTurnsGo_len (fuel : Nat) :
    ∀ (g : Game) (e : Entropy) (acc : List String),
      (resolveEnemyTurnsGo fuel g e acc).1.summaries.length ≤ acc.length + fuel ∧
      ((resolveEnemyTurnsGo fuel g e acc).1.ok = false →
        (resolveEnemyTurnsGo fuel g e acc).1.summaries.length < acc.length + fuel) := by
  induction fuel with
  | zero =>
    intro g e acc
    refine ⟨Nat.le_refl _, ?_⟩
    intro hfalse
    simp [resolveEnemyTurnsGo] at hfalse
  | succ fuel' ih =>
    intro g e acc
    unfold resolveEnemyTurnsGo
    split
    · exact ⟨by show acc.length ≤ acc.length + (fuel' + 1); omega,
        fun hco => Bool.noConfusion (show true = false from hco)⟩
    · split
      rename_i hpair g1 e1 heqs
      split
      · exact ⟨by show acc.length ≤ acc.length + (fuel' + 1); omega,
          fun hco => Bool.noConfusion (show true = false from hco)⟩
      · split
        · exact ⟨by show acc.length ≤ acc.length + (fuel' + 1); omega,
            fun hco => Bool.noConfusion (show true = false from hco)⟩
        · split
          · exact ⟨by show acc.length ≤ acc.length + (fuel' + 1); omega,
              fun hco => Bool.noConfusion (show true = false from hco)⟩
          · split
            rename_i res g2 e2 heqr
            split
            · exact ⟨by show acc.length ≤ acc.length + (fuel' + 1); omega,
                fun _ => by show acc.length < acc.length + (fuel' + 1); omega⟩
            · dsimp only
              have hlen : (if (res.summary != "") = true
                  then acc ++ [res.summary] else acc).length ≤ acc.length + 1 := by
                split <;> simp
              split
              · refine ⟨?_, fun hco => Bool.noConfusion (show true = false from hco)⟩
                show (if (res.summary != "") = true
                  then acc ++ [res.summary] else acc).length ≤ acc.length + (fuel' + 1)
                omega
              · obtain ⟨ih1, ih2⟩ := ih g2 e2
                  (if (res.summary != "") = true then acc ++ [res.summary] else acc)
                refine ⟨by omega, fun hfail => ?_⟩
                have := ih2 hfail
                omega

/-- **C4 (amended)**: consecutive enemy-turn resolution is bounded by
the hard 20-iteration cap (at most 20 summaries, one per resolved
turn), but a run that uses up the whole cap has returned `ok = true` —
reaching the cap never surfaces as a resolver failure (see the
counterexample); only inner resolution errors yield `ok = false`. -/
theorem enemy_turns_capped_but_ok :
    ∀ (g : Game) (e : Entropy),
      (resolveEnemyTurnsUntilPlayerTurn g e 20).1.summaries.length ≤ 20 ∧
      ((resolveEnemyTurnsUntilPlayerTurn g e 20).1.summaries.length = 20 →
        (resolveEnemyTurnsUntilPlayerTurn g e 20).1.ok = true) := by
  intro g e
  have hEq : resolveEnemyTurnsUntilPlayerTurn g e 20 = resolveEnemyTurnsGo 20 g e [] := rfl
  rw [hEq]
  obtain ⟨h1, h2⟩ := enemyTurnsGo_len 20 g e []
  simp only [List.length_nil, Nat.zero_add] at h1 h2
  refine ⟨h1, fun hlen => ?_⟩
  rcases hok : (resolveEnemyTurnsGo 20 g e []).1.ok with _ | _
  · exact absurd hlen (by have := h2 hok; omega)
  · rfl

/-- The base fixture with a dead PC and the enemy holding the turn:
every one of the 20 capped iterations resolves to "Player is already
down." without ending combat, so the cap is reached with an enemy
still current. -/
def c4Game : Game :=
  { baseGame with
    combat := some
      { round := 1
        currentTurnId := some "enemy_1"
        pc := { pcHero with hp := 0 }
        enemies := [goblinEnemy]
        initiative := [⟨"pc_game_test", "Hero", "pc", some 20⟩,
          ⟨"enemy_1", "Goblin", "enemy", some 10⟩]
        rules := none
        turn := none } }

/-- Counterexample to C4 as frozen: on `c4Game` the 20-turn cap is
reached while the enemy still holds the turn, yet the call returns
`ok = true` — no resolver failure is surfaced. -/
theorem enemy_turns_cap_counterexample :
    (resolveEnemyTurnsUntilPlayerTurn c4Game e0 20).1.ok = true ∧
    (resolveEnemyTurnsUntilPlayerTurn c4Game e0 20).1.summaries.length = 20 ∧
    (currentActorRef (resolveEnemyTurnsUntilPlayerTurn c4Game e0 20).2.1).map
      (fun r => r.kind) = some "enemy" := by
  decide

/-- Witness for C4 (amended): the cap-exhausting run above is reported
as a success. -/
theorem enemy_turns_capped_but_ok_witness :
    (resolveEnemyTurnsUntilPlayerTurn c4Game e0 20).1.ok = true :=
  (enemy_turns_capped_but_ok c4Game e0).2 (by decide)

/-- **C3**: when the current-turn PC has already used its action slot
and requests another action-consuming action, the resolver does not
reject the request directly: it performs a turn transition (with
cascading enemy autoplay), re-normalizes, and — whenever the new
current actor is not a PC — fails with exactly
"Player turn is not ready yet. Try again.", returning the transitioned
state. -/
theorem silent_advance_on_used_action (g0 g1 g2 g3 : Game)
    (eIn e1 e2 e3 : Entropy) (a : Combatant) (tres : TransitionResult)
    (args : ActionArgs)
    (hc0 : g0.combat.isSome = true)
    (hsync : syncCombatState g0 eIn = (g1, e1))
    (href : currentActorRef g1 = some ⟨"pc", a⟩)
    (halive : 0 < a.hp)
    (hused : a.actionUsed = true)
    (hreq : requiresAction args.action = true)
    (hneq : (args.action == some "end_turn") = false)
    (hactor : args.actorId = none)
    (htrans : resolveTurnTransition (ensureActor g1 a.id) e1 = (tres, g2, e2))
    (hok : tres.ok = true)
    (hsync2 : syncCombatState g2 e2 = (g3, e3))
    (hc3 : g3.combat.isSome = true)
    (hnotpc : (currentActorRef g3).map (fun r => r.kind) ≠ some "pc") :
    resolveCombatAction g0 args eIn =
      (⟨false, "Player turn is not ready yet. Try again."⟩, g3, e3) := by
  obtain ⟨c1, hc1, hrefc⟩ : ∃ c1, g1.combat = some c1 ∧
      getCombatantRef c1 c1.currentTurnId = some ⟨"pc", a⟩ := by
    unfold currentActorRef at href
    rcases hg : g1.combat with _ | c1
    · rw [hg] at href; simp at href
    · rw [hg] at href; exact ⟨c1, rfl, by simpa using href⟩
  obtain ⟨ha, hcur, hne⟩ := getCombatantRef_pc_inv c1 c1.currentTurnId a hrefc
  subst ha
  rw [resolveCombatAction_entry g0 g1 eIn e1 c1.pc args hc0 hsync href]
  have halive' : isCombatantAlive (ensureCombatTurnState c1.pc) = true := by
    rw [isCombatantAlive, ensure_hp]
    exact decide_eq_true halive
  have hens1 : ensureActor g1 c1.pc.id =
      { g1 with combat := some (setCombatant c1 c1.pc.id ensureCombatTurnState) } := by
    unfold ensureActor
    rw [hc1]
  obtain ⟨c3, hc3e⟩ := Option.isSome_iff_exists.mp hc3
  unfold resolveCombatActionBody
  rw [hc1]
  simp only [hactor, hcur, Option.none_orElse, getCombatantRef_pc_self c1 hne,
    halive', Bool.not_true, Bool.false_eq_true, if_false, bne_self_eq_false,
    ensure_actionUsed, hused, hreq, bne, hneq]
  simp only [beq_self_eq_true, Bool.not_true, Bool.not_false, Bool.false_eq_true,
    if_false, Bool.and_true, Bool.true_and, Bool.and_self, if_true]
  rw [← hens1, htrans]
  simp only [hok, Bool.not_true, Bool.false_eq_true, if_false]
  rw [hsync2]
  simp only [hc3e]
  have hnotpc' : (getCombatantRef c3 c3.currentTurnId).map (fun r => r.kind) ≠ some "pc" := by
    unfold currentActorRef at hnotpc
    rw [hc3e] at hnotpc
    exact hnotpc
  rcases hcr : getCombatantRef c3 c3.currentTurnId with _ | r
  · simp
  · rw [hcr] at hnotpc'
    have hk' : r.kind ≠ "pc" := fun hcontra => hnotpc' (by simp [hcontra])
    show (if (r.kind != "pc") = true
        then ((⟨false, "Player turn is not ready yet. Try again."⟩ : ActionResult), g3, e3)
        else resolveCombatActionAfterActor g3 r.combatant.id args e3) =
      ((⟨false, "Player turn is not ready yet. Try again."⟩ : ActionResult), g3, e3)
    rw [if_pos (show (r.kind != "pc") = true by simpa using hk')]

/-! ## C3 witness fixture: a 21-enemy cascade that exhausts the cap -/


/-- With combat absent the autoplay loop exits immediately at any fuel. -/
theorem go_combat_none (fuel : Nat) (g : Game) (e : Entropy) (acc : List String)
    (h : g.combat = none) :
    resolveEnemyTurnsGo fuel g e acc = (⟨true, "", acc⟩, g, e) := by
  cases fuel with
  | zero => rfl
  | succ f =>
    unfold resolveEnemyTurnsGo
    rw [h]

/-- Loop composition: a run of the autoplay loop that spent its whole
budget (`a` turns, one summary appended per turn, no early exit)
continues seamlessly into any further budget. -/
theorem go_add (a : Nat) :
    ∀ (b : Nat) (g g2 : Game) (e e2 : Entropy) (acc acc2 : List String),
      resolveEnemyTurnsGo a g e acc = (⟨true, "", acc2⟩, g2, e2) →
      acc2.length = acc.length + a →
      resolveEnemyTurnsGo (a + b) g e acc = resolveEnemyTurnsGo b g2 e2 acc2 := by
  induction a with
  | zero =>
    intro b g g2 e e2 acc acc2 h hlen
    have h' : ((⟨true, "", acc⟩ : EnemyTurnsResult), g, e) =
        ((⟨true, "", acc2⟩ : EnemyTurnsResult), g2, e2) := h
    simp only [Prod.mk.injEq, EnemyTurnsResult.mk.injEq, true_and] at h'
    obtain ⟨hacc, hg, he⟩ := h'
    subst hacc; subst hg; subst he
    rw [Nat.zero_add]
  | succ a ih =>
    intro b g g2 e e2 acc acc2 h hlen
    rw [show a + 1 + b = a + b + 1 by omega]
    unfold resolveEnemyTurnsGo at h
    conv_lhs => rw [resolveEnemyTurnsGo]
    split
    · -- g.combat = none
      rename_i hgc
      rw [hgc] at h
      simp only [Prod.mk.injEq, EnemyTurnsResult.mk.injEq, true_and] at h
      obtain ⟨hacc, _, _⟩ := h
      rw [← hacc] at hlen
      omega
    · -- g.combat = some _
      rename_i hgc
      rw [hgc] at h
      split
      rename_i hpair g1 e1 heqs
      rw [heqs] at h
      dsimp only at h
      split
      · -- g1.combat = none
        rename_i hg1c
        rw [hg1c] at h
        simp only [Prod.mk.injEq, EnemyTurnsResult.mk.injEq, true_and] at h
        obtain ⟨hacc, _, _⟩ := h
        rw [← hacc] at hlen
        omega
      · -- g1.combat = some combat
        rename_i combat hg1c
        rw [hg1c] at h
        dsimp only at h
        split
        · -- ref = none
          rename_i heqr
          rw [heqr] at h
          simp only [Prod.mk.injEq, EnemyTurnsResult.mk.injEq, true_and] at h
          obtain ⟨hacc, _, _⟩ := h
          rw [← hacc] at hlen
          omega
        · -- ref = some ref
          rename_i ref heqr
          rw [heqr] at h
          dsimp only at h
          split
          · -- kind not enemy: early exit
            rename_i hk
            rw [if_pos hk] at h
            simp only [Prod.mk.injEq, EnemyTurnsResult.mk.injEq, true_and] at h
            obtain ⟨hacc, _, _⟩ := h
            rw [← hacc] at hlen
            omega
          · -- kind enemy: one turn runs
            rename_i hk
            rw [if_neg hk] at h
            split
            rename_i res g2p e2p heqone
            rw [heqone] at h
            dsimp only at h
            split
            · -- res not ok
              rename_i ho
              rw [if_pos ho] at h
              simp only [Prod.mk.injEq, EnemyTurnsResult.mk.injEq] at h
              exact absurd h.1.1 Bool.false_ne_true
            · -- res ok
              rename_i ho
              rw [if_neg ho] at h
              dsimp only
              split
              · -- combat gone after the turn: only possible with a = 0
                rename_i hc2
                rw [hc2] at h
                simp only [Prod.mk.injEq, EnemyTurnsResult.mk.injEq, true_and] at h
                obtain ⟨hacc, hg2, he2⟩ := h
                rw [← hg2, ← he2, ← hacc, go_combat_none b g2p e2p _ hc2]
              · -- combat continues: inductive step
                rename_i hc2
                rw [hc2] at h
                dsimp only at h
                by_cases hs : (res.summary != "") = true
                · rw [if_pos hs] at h ⊢
                  have hlen2 : acc2.length = (acc ++ [res.summary]).length + a := by
                    simp only [List.length_append, List.length_singleton]
                    omega
                  exact ih b g2p g2 e2p e2 (acc ++ [res.summary]) acc2 h hlen2
                · rw [if_neg hs] at h ⊢
                  have hb := (enemyTurnsGo_len a g2p e2p acc).1
                  rw [h] at hb
                  dsimp only at hb
                  omega

/-- Closed form of `resolveTurnTransition` on the cap-exhaustion path:
the advance succeeds, the new holder is an enemy, and the autoplay
cascade returns `ok` with a non-empty summary list and an enemy still
holding the turn. -/
theorem transition_cap_eq (game gAdv gC : Game) (e eA eC : Entropy) (nm : String)
    (sums : List String) (cLog cC : CombatSession) (refC : CombatantRef)
    (hadv : advanceCombatTurn game e = (⟨true, "", nm⟩, gAdv, eA))
    (hclog : (addLog gAdv ("Turn ends. It is now " ++ nm ++ "\x27s turn.") "combat").combat =
      some cLog)
    (hkind : ((getCombatantRef cLog cLog.currentTurnId).map (fun r => r.kind) ==
      some "enemy") = true)
    (hcasc : resolveEnemyTurnsGo 20
        (addLog gAdv ("Turn ends. It is now " ++ nm ++ "\x27s turn.") "combat") eA [] =
        (⟨true, "", sums⟩, gC, eC))
    (hne : sums.isEmpty = false)
    (hcC : gC.combat = some cC)
    (hrefC : getCombatantRef cC cC.currentTurnId = some refC) :
    resolveTurnTransition game e =
      (⟨true, "",
        "Turn ends. It is now " ++ nm ++ "\x27s turn." ++ " Enemy turns resolved: " ++
          String.intercalate " " sums ++ " It is now " ++ refC.combatant.name ++
          "\x27s turn."⟩, gC, eC) := by
  unfold resolveTurnTransition
  rw [hadv]
  dsimp only
  rw [hclog]
  dsimp only
  rw [hkind]
  rw [if_pos rfl]
  unfold resolveEnemyTurnsUntilPlayerTurn
  rw [hcasc]
  dsimp only
  rw [hne]
  rw [Bool.not_false, if_pos rfl]
  rw [hcC]
  dsimp only
  rw [hrefC]
  simp only [Bool.not_true, Bool.false_eq_true, if_false]

def c3Enemy (i : Nat) : Combatant :=
  { goblinEnemy with
    id := "e" ++ toString i
    name := "G" ++ toString i
    position := 100
    speed := 0
    movementRemaining := 0 }

def c3Combat : CombatSession :=
  { round := 1
    currentTurnId := some "pc_game_test"
    pc := { pcHero with actionUsed := true }
    enemies := (List.range 21).map (fun i => c3Enemy (i + 1))
    initiative := ⟨"pc_game_test", "Hero", "pc", some 22⟩ ::
      (List.range 21).map (fun i => ⟨"e" ++ toString (i + 1), "G" ++ toString (i + 1),
        "enemy", some ((21 : Int) - i)⟩)
    rules := none
    turn := none }

def c3Game : Game := { baseGame with combat := some c3Combat }

def c3Args : ActionArgs := ⟨none, some "attack", some "e1", none, none, some 1, none, none, none⟩

def c3G1 : Game := (syncCombatState c3Game e0).1

def c3A : Combatant := match c3G1.combat with | some c => c.pc | none => pcHero

def c3GAdv : Game := (advanceCombatTurn (ensureActor c3G1 c3A.id) e0).2.1

def c3GLog : Game := addLog c3GAdv ("Turn ends. It is now " ++ "G1" ++ "\x27s turn.") "combat"

/-- The cascade state after enemy turn 1 (current holder: G2). -/
def c3T1 : Game :=
  { gameId := "game_test", phase := "combat", hp := { current := 12, max := 12 }, mp := { current := 6, max := 6 }, pc := { name := "Hero", level := 1, skills := [] }, inventory := [{ id := "item_sword", name := "Sword", qty := 1, notes := "", weapon := some { id := some "w_sword", name := some "Sword", category := some "melee", range := some 1, equipped := true, damageFormula := some "" } }], combat := some { round := 1, currentTurnId := some "e2", pc := { id := "pc_game_test", name := "Hero", hp := 12, hpMax := 12, mp := 6, mpMax := 6, status := "", intent := "", note := "", level := 1, position := 0, speed := 6, movementRemaining := 6, actionUsed := true, defending := false, dodging := false, weapons := [{ id := "w_sword", name := "Sword", category := "melee", range := 1, equipped := true, damageFormula := "" }, { id := "weapon_unarmed", name := "Default Melee", category := "melee", range := 1, equipped := false, damageFormula := "1" }], equippedWeaponId := some "w_sword", skills := [] }, enemies := [{ id := "e1", name := "G1", hp := 6, hpMax := 6, mp := 0, mpMax := 0, status := "Unhurt", intent := "", note := "", level := 1, position := 100, speed := 0, movementRemaining := 0, actionUsed := true, defending := false, dodging := true, weapons := [{ id := "w_club", name := "Club", category := "melee", range := 1, equipped := true, damageFormula := "" }], equippedWeaponId := some "w_club", skills := [] }, { id := "e2", name := "G2", hp := 6, hpMax := 6, mp := 0, mpMax := 0, status := "Unhurt", intent := "", note := "", level := 1, position := 100, speed := 0, movementRemaining := 0, actionUsed := false, defending := false, dodging := false, weapons := [{ id := "w_club", name := "Club", category := "melee", range := 1, equipped := true, damageFormula := "" }], equippedWeaponId := some "w_club", skills := [] }, { id := "e3", name := "G3", hp := 6, hpMax := 6, mp := 0, mpMax := 0, status := "Unhurt", intent := "", note := "", level := 1, position := 100, speed := 0, movementRemaining := 0, actionUsed := false, defending := false, dodging := false, weapons := [{ id := "w_club", name := "Club", category := "melee", range := 1, equipped := true, damageFormula := "" }], equippedWeaponId := some "w_club", skills := [] }, { id := "e4", name := "G4", hp := 6, hpMax := 6, mp := 0, mpMax := 0, status := "Unhurt", intent := "", note := "", level := 1, position := 100, speed := 0, movementRemaining := 0, actionUsed := false, defending := false, dodging := false, weapons := [{ id := "w_club", name := "Club", category := "melee", range := 1, equipped := true, damageFormula := "" }], equippedWeaponId := some "w_club", skills := [] }, { id := "e5", name := "G5", hp := 6, hpMax := 6, mp := 0, mpMax := 0, status := "Unhurt", intent := "", note := "", level := 1, position := 100, speed := 0, movementRemaining := 0, actionUsed := false, defending := false, dodging := false, weapons := [{ id := "w_club", name := "Club", category := "melee", range := 1, equipped := true, damageFormula := "" }], equippedWeaponId := some "w_club", skills := [] }, { id := "e6", name := "G6", hp := 6, hpMax := 6, mp := 0, mpMax := 0, status := "Unhurt", intent := "", note := "", level := 1, position := 100, speed := 0, movementRemaining := 0, actionUsed := false, defending := false, dodging := false, weapons := [{ id := "w_club", name := "Club", category := "melee", range := 1, equipped := true, damageFormula := "" }], equippedWeaponId := some "w_club", skills := [] }, { id := "e7", name := "G7", hp := 6, hpMax := 6, mp := 0, mpMax := 0, status := "Unhurt", intent := "", note := "", level := 1, position := 100, speed := 0, movementRemaining := 0, actionUsed := false, defending := false, dodging := false, weapons := [{ id := "w_club", name := "Club", category := "melee", range := 1, equipped := true, damageFormula := "" }], equippedWeaponId := some "w_club", skills := [] }, { id := "e8", name := "G8", hp := 6, hpMax := 6, mp := 0, mpMax := 0, status := "Unhurt", intent := "", note := "", level := 1, position := 100, speed := 0, movementRemaining := 0, actionUsed := false, defending := false, dodging := false, weapons := [{ id := "w_club", name := "Club", category := "melee", range := 1, equipped := true, damageFormula := "" }], equippedWeaponId := some "w_club", skills := [] }, { id := "e9", name := "G9", hp := 6, hpMax := 6, mp := 0, mpMax := 0, status := "Unhurt", intent := "", note := "", level := 1, position := 100, speed := 0, movementRemaining := 0, actionUsed := false, defending := false, dodging := false, weapons := [{ id := "w_club", name := "Club", category := "melee", range := 1, equipped := true, damageFormula := "" }], equippedWeaponId := some "w_club", skills := [] }, { id := "e10", name := "G10", hp := 6, hpMax := 6, mp := 0, mpMax := 0, status := "Unhurt", intent := "", note := "", level := 1, position := 100, speed := 0, movementRemaining := 0, actionUsed := false, defending := false, dodging := false, weapons := [{ id := "w_club", name := "Club", category := "melee", range := 1, equipped := true, damageFormula := "" }], equippedWeaponId := some "w_club", skills := [] }, { id := "e11", name := "G11", hp := 6, hpMax := 6, mp := 0, mpMax := 0, status := "Unhurt", intent := "", note := "", level := 1, position := 100, speed := 0, movementRemaining := 0, actionUsed := false, defending := false, dodging := false, weapons := [{ id := "w_club", name := "Club", category := "melee", range := 1, equipped := true, damageFormula := "" }], equippedWeaponId := some "w_club", skills := [] }, { id := "e12", name := "G12", hp := 6, hpMax := 6, mp := 0, mpMax := 0, status := "Unhurt", intent := "", note := "", level := 1, position := 100, speed := 0, movementRemaining := 0, actionUsed := false, defending := false, dodging := false, weapons := [{ id := "w_club", name := "Club", category := "melee", range := 1, equipped := true, damageFormula := "" }], equippedWeaponId := some "w_club", skills := [] }, { id := "e13", name := "G13", hp := 6, hpMax := 6, mp := 0, mpMax := 0, status := "Unhurt", intent := "", note := "", level := 1, position := 100, speed := 0, movementRemaining := 0, actionUsed := false, defending := false, dodging := false, weapons := [{ id := "w_club", name := "Club", category := "melee", range := 1, equipped := true, damageFormula := "" }], equippedWeaponId := some "w_club", skills := [] }, { id := "e14", name := "G14", hp := 6, hpMax := 6, mp := 0, mpMax := 0, status := "Unhurt", intent := "", note := "", level := 1, position := 100, speed := 0, movementRemaining := 0, actionUsed := false, defending := false, dodging := false, weapons := [{ id := "w_club", name := "Club", category := "melee", range := 1, equipped := true, damageFormula := "" }], equippedWeaponId := some "w_club", skills := [] }, { id := "e15", name := "G15", hp := 6, hpMax := 6, mp := 0, mpMax := 0, status := "Unhurt", intent := "", note := "", level := 1, position := 100, speed := 0, movementRemaining := 0, actionUsed := false, defending := false, dodging := false, weapons := [{ id := "w_club", name := "Club", category := "melee", range := 1, equipped := true, damageFormula := "" }], equippedWeaponId := some "w_club", skills := [] }, { id := "e16", name := "G16", hp := 6, hpMax := 6, mp := 0, mpMax := 0, status := "Unhurt", intent := "", note := "", level := 1, position := 100, speed := 0, movementRemaining := 0, actionUsed := false, defending := false, dodging := false, weapons := [{ id := "w_club", name := "Club", category := "melee", range := 1, equipped := true, damageFormula := "" }], equippedWeaponId := some "w_club", skills := [] }, { id := "e17", name := "G17", hp := 6, hpMax := 6, mp := 0, mpMax := 0, status := "Unhurt", intent := "", note := "", level := 1, position := 100, speed := 0, movementRemaining := 0, actionUsed := false, defending := false, dodging := false, weapons := [{ id := "w_club", name := "Club", category := "melee", range := 1, equipped := true, damageFormula := "" }], equippedWeaponId := some "w_club", skills := [] }, { id := "e18", name := "G18", hp := 6, hpMax := 6, mp := 0, mpMax := 0, status := "Unhurt", intent := "", note := "", level := 1, position := 100, speed := 0, movementRemaining := 0, actionUsed := false, defending := false, dodging := false, weapons := [{ id := "w_club", name := "Club", category := "melee", range := 1, equipped := true, damageFormula := "" }], equippedWeaponId := some "w_club", skills := [] }, { id := "e19", name := "G19", hp := 6, hpMax := 6, mp := 0, mpMax := 0, status := "Unhurt", intent := "", note := "", level := 1, position := 100, speed := 0, movementRemaining := 0, actionUsed := false, defending := false, dodging := false, weapons := [{ id := "w_club", name := "Club", category := "melee", range := 1, equipped := true, damageFormula := "" }], equippedWeaponId := some "w_club", skills := [] }, { id := "e20", name := "G20", hp := 6, hpMax := 6, mp := 0, mpMax := 0, status := "Unhurt", intent := "", note := "", level := 1, position := 100, speed := 0, movementRemaining := 0, actionUsed := false, defending := false, dodging := false, weapons := [{ id := "w_club", name := "Club", category := "melee", range := 1, equipped := true, damageFormula := "" }], equippedWeaponId := some "w_club", skills := [] }, { id := "e21", name := "G21", hp := 6, hpMax := 6, mp := 0, mpMax := 0, status := "Unhurt", intent := "", note := "", level := 1, position := 100, speed := 0, movementRemaining := 0, actionUsed := false, defending := false, dodging := false, weapons := [{ id := "w_club", name := "Club", category := "melee", range := 1, equipped := true, damageFormula := "" }], equippedWeaponId := some "w_club", skills := [] }], initiative := [{ id := "pc_game_test", name := "Hero", kind := "pc", initiative := some 22 }, { id := "e1", name := "G1", kind := "enemy", initiative := some 21 }, { id := "e2", name := "G2", kind := "enemy", initiative := some 20 }, { id := "e3", name := "G3", kind := "enemy", initiative := some 19 }, { id := "e4", name := "G4", kind := "enemy", initiative := some 18 }, { id := "e5", name := "G5", kind := "enemy", initiative := some 17 }, { id := "e6", name := "G6", kind := "enemy", initiative := some 16 }, { id := "e7", name := "G7", kind := "enemy", initiative := some 15 }, { id := "e8", name := "G8", kind := "enemy", initiative := some 14 }, { id := "e9", name := "G9", kind := "enemy", initiative := some 13 }, { id := "e10", name := "G10", kind := "enemy", initiative := some 12 }, { id := "e11", name := "G11", kind := "enemy", initiative := some 11 }, { id := "e12", name := "G12", kind := "enemy", initiative := some 10 }, { id := "e13", name := "G13", kind := "enemy", initiative := some 9 }, { id := "e14", name := "G14", kind := "enemy", initiative := some 8 }, { id := "e15", name := "G15", kind := "enemy", initiative := some 7 }, { id := "e16", name := "G16", kind := "enemy", initiative := some 6 }, { id := "e17", name := "G17", kind := "enemy", initiative := some 5 }, { id := "e18", name := "G18", kind := "enemy", initiative := some 4 }, { id := "e19", name := "G19", kind := "enemy", initiative := some 3 }, { id := "e20", name := "G20", kind := "enemy", initiative := some 2 }, { id := "e21", name := "G21", kind := "enemy", initiative := some 1 }], rules := some { meleeRange := 1, actionTypes := ["attack", "defend", "dodge", "use_skill"], moveIsFree := true, oneActionPerTurn := true }, turn := some { actorId := "e2", actorName := "G2", kind := "enemy", actionUsed := false, movementRemaining := 0, equippedWeaponId := some "w_club", availableSkillIds := [] } }, log := [{ id := "log_0", atIso := "", kind := "combat", text := "Turn ends. It is now G1\x27s turn." }, { id := "log_1", atIso := "", kind := "combat", text := "G1 cannot reach attack range and takes evasive movement." }] }

/-- The cascade state after enemy turn 2 (current holder: G3). -/
def c3T2 : Game :=
  { gameId := "game_test", phase := "combat", hp := { current := 12, max := 12 }, mp := { current := 6, max := 6 }, pc := { name := "Hero", level := 1, skills := [] }, inventory := [{ id := "item_sword", name := "Sword", qty := 1, notes := "", weapon := some { id := some "w_sword", name := some "Sword", category := some "melee", range := some 1, equipped := true, damageFormula := some "" } }], combat := some { round := 1, currentTurnId := some "e3", pc := { id := "pc_game_test", name := "Hero", hp := 12, hpMax := 12, mp := 6, mpMax := 6, status := "", intent := "", note := "", level := 1, position := 0, speed := 6, movementRemaining := 6, actionUsed := true, defending := false, dodging := false, weapons := [{ id := "w_sword", name := "Sword", category := "melee", range := 1, equipped := true, damageFormula := "" }, { id := "weapon_unarmed", name := "Default Melee", category := "melee", range := 1, equipped := false, damageFormula := "1" }], equippedWeaponId := some "w_sword", skills := [] }, enemies := [{ id := "e1", name := "G1", hp := 6, hpMax := 6, mp := 0, mpMax := 0, status := "Unhurt", intent := "", note := "", level := 1, position := 100, speed := 0, movementRemaining := 0, actionUsed := true, defending := false, dodging := true, weapons := [{ id := "w_club", name := "Club", category := "melee", range := 1, equipped := true, damageFormula := "" }], equippedWeaponId := some "w_club", skills := [] }, { id := "e2", name := "G2", hp := 6, hpMax := 6, mp := 0, mpMax := 0, status := "Unhurt", intent := "", note := "", level := 1, position := 100, speed := 0, movementRemaining := 0, actionUsed := true, defending := false, dodging := true, weapons := [{ id := "w_club", name := "Club", category := "melee", range := 1, equipped := true, damageFormula := "" }], equippedWeaponId := some "w_club", skills := [] }, { id := "e3", name := "G3", hp := 6, hpMax := 6, mp := 0, mpMax := 0, status := "Unhurt", intent := "", note := "", level := 1, position := 100, speed := 0, movementRemaining := 0, actionUsed := false, defending := false, dodging := false, weapons := [{ id := "w_club", name := "Club", category := "melee", range := 1, equipped := true, damageFormula := "" }], equippedWeaponId := some "w_club", skills := [] }, { id := "e4", name := "G4", hp := 6, hpMax := 6, mp := 0, mpMax := 0, status := "Unhurt", intent := "", note := "", level := 1, position := 100, speed := 0, movementRemaining := 0, actionUsed := false, defending := false, dodging := false, weapons := [{ id := "w_club", name := "Club", category := "melee", range := 1, equipped := true, damageFormula := "" }], equippedWeaponId := some "w_club", skills := [] }, { id := "e5", name := "G5", hp := 6, hpMax := 6, mp := 0, mpMax := 0, status := "Unhurt", intent := "", note := "", level := 1, position := 100, speed := 0, movementRemaining := 0, actionUsed := false, defending := false, dodging := false, weapons := [{ id := "w_club", name := "Club", category := "melee", range := 1, equipped := true, damageFormula := "" }], equippedWeaponId := some "w_club", skills := [] }, { id := "e6", name := "G6", hp := 6, hpMax := 6, mp := 0, mpMax := 0, status := "Unhurt", intent := "", note := "", level := 1, position := 100, speed := 0, movementRemaining := 0, actionUsed := false, defending := false, dodging := false, weapons := [{ id := "w_club", name := "Club", category := "melee", range := 1, equipped := true, damageFormula := "" }], equippedWeaponId := some "w_club", skills := [] }, { id := "e7", name := "G7", hp := 6, hpMax := 6, mp := 0, mpMax := 0, status := "Unhurt", intent := "", note := "", level := 1, position := 100, speed := 0, movementRemaining := 0, actionUsed := false, defending := false, dodging := false, weapons := [{ id := "w_club", name := "Club", category := "melee", range := 1, equipped := true, damageFormula := "" }], equippedWeaponId := some "w_club", skills := [] }, { id := "e8", name := "G8", hp := 6, hpMax := 6, mp := 0, mpMax := 0, status := "Unhurt", intent := "", note := "", level := 1, position := 100, speed := 0, movementRemaining := 0, actionUsed := false, defending := false, dodging := false, weapons := [{ id := "w_club", name := "Club", category := "melee", range := 1, equipped := true, damageFormula := "" }], equippedWeaponId := some "w_club", skills := [] }, { id := "e9", name := "G9", hp := 6, hpMax := 6, mp := 0, mpMax := 0, status := "Unhurt", intent := "", note := "", level := 1, position := 100, speed := 0, movementRemaining := 0, actionUsed := false, defending := false, dodging := false, weapons := [{ id := "w_club", name := "Club", category := "melee", range := 1, equipped := true, damageFormula := "" }], equippedWeaponId := some "w_club", skills := [] }, { id := "e10", name := "G10", hp := 6, hpMax := 6, mp := 0, mpMax := 0, status := "Unhurt", intent := "", note := "", level := 1, position := 100, speed := 0, movementRemaining := 0, actionUsed := false, defending := false, dodging := false, weapons := [{ id := "w_club", name := "Club", category := "melee", range := 1, equipped := true, damageFormula := "" }], equippedWeaponId := some "w_club", skills := [] }, { id := "e11", name := "G11", hp := 6, hpMax := 6, mp := 0, mpMax := 0, status := "Unhurt", intent := "", note := "", level := 1, position := 100, speed := 0, movementRemaining := 0, actionUsed := false, defending := false, dodging := false, weapons := [{ id := "w_club", name := "Club", category := "melee", range := 1, equipped := true, damageFormula := "" }], equippedWeaponId := some "w_club", skills := [] }, { id := "e12", name := "G12", hp := 6, hpMax := 6, mp := 0, mpMax := 0, status := "Unhurt", intent := "", note := "", level := 1, position := 100, speed := 0, movementRemaining := 0, actionUsed := false, defending := false, dodging := false, weapons := [{ id := "w_club", name := "Club", category := "melee", range := 1, equipped := true, damageFormula := "" }], equippedWeaponId := some "w_club", skills := [] }, { id := "e13", name := "G13", hp := 6, hpMax := 6, mp := 0, mpMax := 0, status := "Unhurt", intent := "", note := "", level := 1, position := 100, speed := 0, movementRemaining := 0, actionUsed := false, defending := false, dodging := false, weapons := [{ id := "w_club", name := "Club", category := "melee", range := 1, equipped := true, damageFormula := "" }], equippedWeaponId := some "w_club", skills := [] }, { id := "e14", name := "G14", hp := 6, hpMax := 6, mp := 0, mpMax := 0, status := "Unhurt", intent := "", note := "", level := 1, position := 100, speed := 0, movementRemaining := 0, actionUsed := false, defending := false, dodging := false, weapons := [{ id := "w_club", name := "Club", category := "melee", range := 1, equipped := true, damageFormula := "" }], equippedWeaponId := some "w_club", skills := [] }, { id := "e15", name := "G15", hp := 6, hpMax := 6, mp := 0, mpMax := 0, status := "Unhurt", intent := "", note := "", level := 1, position := 100, speed := 0, movementRemaining := 0, actionUsed := false, defending := false, dodging := false, weapons := [{ id := "w_club", name := "Club", category := "melee", range := 1, equipped := true, damageFormula := "" }], equippedWeaponId := some "w_club", skills := [] }, { id := "e16", name := "G16", hp := 6, hpMax := 6, mp := 0, mpMax := 0, status := "Unhurt", intent := "", note := "", level := 1, position := 100, speed := 0, movementRemaining := 0, actionUsed := false, defending := false, dodging := false, weapons := [{ id := "w_club", name := "Club", category := "melee", range := 1, equipped := true, damageFormula := "" }], equippedWeaponId := some "w_club", skills := [] }, { id := "e17", name := "G17", hp := 6, hpMax := 6, mp := 0, mpMax := 0, status := "Unhurt", intent := "", note := "", level := 1, position := 100, speed := 0, movementRemaining := 0, actionUsed := false, defending := false, dodging := false, weapons := [{ id := "w_club", name := "Club", category := "melee", range := 1, equipped := true, damageFormula := "" }], equippedWeaponId := some "w_club", skills := [] }, { id := "e18", name := "G18", hp := 6, hpMax := 6, mp := 0, mpMax := 0, status := "Unhurt", intent := "", note := "", level := 1, position := 100, speed := 0, movementRemaining := 0, actionUsed := false, defending := false, dodging := false, weapons := [{ id := "w_club", name := "Club", category := "melee", range := 1, equipped := true, damageFormula := "" }], equippedWeaponId := some "w_club", skills := [] }, { id := "e19", name := "G19", hp := 6, hpMax := 6, mp := 0, mpMax := 0, status := "Unhurt", intent := "", note := "", level := 1, position := 100, speed := 0, movementRemaining := 0, actionUsed := false, defending := false, dodging := false, weapons := [{ id := "w_club", name := "Club", category := "melee", range := 1, equipped := true, damageFormula := "" }], equippedWeaponId := some "w_club", skills := [] }, { id := "e20", name := "G20", hp := 6, hpMax := 6, mp := 0, mpMax := 0, status := "Unhurt", intent := "", note := "", level := 1, position := 100, speed := 0, movementRemaining := 0, actionUsed := false, defending := false, dodging := false, weapons := [{ id := "w_club", name := "Club", category := "melee", range := 1, equipped := true, damageFormula := "" }], equippedWeaponId := some "w_club", skills := [] }, { id := "e21", name := "G21", hp := 6, hpMax := 6, mp := 0, mpMax := 0, status := "Unhurt", intent := "", note := "", level := 1, position := 100, speed := 0, movementRemaining := 0, actionUsed := false, defending := false, dodging := false, weapons := [{ id := "w_club", name := "Club", category := "melee", range := 1, equipped := true, damageFormula := "" }], equippedWeaponId := some "w_club", skills := [] }], initiative := [{ id := "pc_game_test", name := "Hero", kind := "pc", initiative := some 22 }, { id := "e1", name := "G1", kind := "enemy", initiative := some 21 }, { id := "e2", name := "G2", kind := "enemy", initiative := some 20 }, { id := "e3", name := "G3", kind := "enemy", initiative := some 19 }, { id := "e4", name := "G4", kind := "enemy", initiative := some 18 }, { id := "e5", name := "G5", kind := "enemy", initiative := some 17 }, { id := "e6", name := "G6", kind := "enemy", initiative := some 16 }, { id := "e7", name := "G7", kind := "enemy", initiative := some 15 }, { id := "e8", name := "G8", kind := "enemy", initiative := some 14 }, { id := "e9", name := "G9", kind := "enemy", initiative := some 13 }, { id := "e10", name := "G10", kind := "enemy", initiative := some 12 }, { id := "e11", name := "G11", kind := "enemy", initiative := some 11 }, { id := "e12", name := "G12", kind := "enemy", initiative := some 10 }, { id := "e13", name := "G13", kind := "enemy", initiative := some 9 }, { id := "e14", name := "G14", kind := "enemy", initiative := some 8 }, { id := "e15", name := "G15", kind := "enemy", initiative := some 7 }, { id := "e16", name := "G16", kind := "enemy", initiative := some 6 }, { id := "e17", name := "G17", kind := "enemy", initiative := some 5 }, { id := "e18", name := "G18", kind := "enemy", initiative := some 4 }, { id := "e19", name := "G19", kind := "enemy", initiative := some 3 }, { id := "e20", name := "G20", kind := "enemy", initiative := some 2 }, { id := "e21", name := "G21", kind := "enemy", initiative := some 1 }], rules := some { meleeRange := 1, actionTypes := ["attack", "defend", "dodge", "use_skill"], moveIsFree := true, oneActionPerTurn := true }, turn := some { actorId := "e3", actorName := "G3", kind := "enemy", actionUsed := false, movementRemaining := 0, equippedWeaponId := some "w_club", availableSkillIds := [] } }, log := [{ id := "log_0", atIso := "", kind := "combat", text := "Turn ends. It is now G1\x27s turn." }, { id := "log_1", atIso := "", kind := "combat", text := "G1 cannot reach attack range and takes evasive movement." }, { id := "log_2", atIso := "", kind := "combat", text := "G2 cannot reach attack range and takes evasive movement." }] }

/-- The cascade state after enemy turn 3 (current holder: G4). -/
def c3T3 : Game :=
  { gameId := "game_test", phase := "combat", hp := { current := 12, max := 12 }, mp := { current := 6, max := 6 }, pc := { name := "Hero", level := 1, skills := [] }, inventory := [{ id := "item_sword", name := "Sword", qty := 1, notes := "", weapon := some { id := some "w_sword", name := some "Sword", category := some "melee", range := some 1, equipped := true, damageFormula := some "" } }], combat := some { round := 1, currentTurnId := some "e4", pc := { id := "pc_game_test", name := "Hero", hp := 12, hpMax := 12, mp := 6, mpMax := 6, status := "", intent := "", note := "", level := 1, position := 0, speed := 6, movementRemaining := 6, actionUsed := true, defending := false, dodging := false, weapons := [{ id := "w_sword", name := "Sword", category := "melee", range := 1, equipped := true, damageFormula := "" }, { id := "weapon_unarmed", name := "Default Melee", category := "melee", range := 1, equipped := false, damageFormula := "1" }], equippedWeaponId := some "w_sword", skills := [] }, enemies := [{ id := "e1", name := "G1", hp := 6, hpMax := 6, mp := 0, mpMax := 0, status := "Unhurt", intent := "", note := "", level := 1, position := 100, speed := 0, movementRemaining := 0, actionUsed := true, defending := false, dodging := true, weapons := [{ id := "w_club", name := "Club", category := "melee", range := 1, equipped := true, damageFormula := "" }], equippedWeaponId := some "w_club", skills := [] }, { id := "e2", name := "G2", hp := 6, hpMax := 6, mp := 0, mpMax := 0, status := "Unhurt", intent := "", note := "", level := 1, position := 100, speed := 0, movementRemaining := 0, actionUsed := true, defending := false, dodging := true, weapons := [{ id := "w_club", name := "Club", category := "melee", range := 1, equipped := true, damageFormula := "" }], equippedWeaponId := some "w_club", skills := [] }, { id := "e3", name := "G3", hp := 6, hpMax := 6, mp := 0, mpMax := 0, status := "Unhurt", intent := "", note := "", level := 1, position := 100, speed := 0, movementRemaining := 0, actionUsed := true, defending := false, dodging := true, weapons := [{ id := "w_club", name := "Club", category := "melee", range := 1, equipped := true, damageFormula := "" }], equippedWeaponId := some "w_club", skills := [] }, { id := "e4", name := "G4", hp := 6, hpMax := 6, mp := 0, mpMax := 0, status := "Unhurt", intent := "", note := "", level := 1, position := 100, speed := 0, movementRemaining := 0, actionUsed := false, defending := false, dodging := false, weapons := [{ id := "w_club", name := "Club", category := "melee", range := 1, equipped := true, damageFormula := "" }], equippedWeaponId := some "w_club", skills := [] }, { id := "e5", name := "G5", hp := 6, hpMax := 6, mp := 0, mpMax := 0, status := "Unhurt", intent := "", note := "", level := 1, position := 100, speed := 0, movementRemaining := 0, actionUsed := false, defending := false, dodging := false, weapons := [{ id := "w_club", name := "Club", category := "melee", range := 1, equipped := true, damageFormula := "" }], equippedWeaponId := some "w_club", skills := [] }, { id := "e6", name := "G6", hp := 6, hpMax := 6, mp := 0, mpMax := 0, status := "Unhurt", intent := "", note := "", level := 1, position := 100, speed := 0, movementRemaining := 0, actionUsed := false, defending := false, dodging := false, weapons := [{ id := "w_club", name := "Club", category := "melee", range := 1, equipped := true, damageFormula := "" }], equippedWeaponId := some "w_club", skills := [] }, { id := "e7", name := "G7", hp := 6, hpMax := 6, mp := 0, mpMax := 0, status := "Unhurt", intent := "", note := "", level := 1, position := 100, speed := 0, movementRemaining := 0, actionUsed := false, defending := false, dodging := false, weapons := [{ id := "w_club", name := "Club", category := "melee", range := 1, equipped := true, damageFormula := "" }], equippedWeaponId := some "w_club", skills := [] }, { id := "e8", name := "G8", hp := 6, hpMax := 6, mp := 0, mpMax := 0, status := "Unhurt", intent := "", note := "", level := 1, position := 100, speed := 0, movementRemaining := 0, actionUsed := false, defending := false, dodging := false, weapons := [{ id := "w_club", name := "Club", category := "melee", range := 1, equipped := true, damageFormula := "" }], equippedWeaponId := some "w_club", skills := [] }, { id := "e9", name := "G9", hp := 6, hpMax := 6, mp := 0, mpMax := 0, status := "Unhurt", intent := "", note := "", level := 1, position := 100, speed := 0, movementRemaining := 0, actionUsed := false, defending := false, dodging := false, weapons := [{ id := "w_club", name := "Club", category := "melee", range := 1, equipped := true, damageFormula := "" }], equippedWeaponId := some "w_club", skills := [] }, { id := "e10", name := "G10", hp := 6, hpMax := 6, mp := 0, mpMax := 0, status := "Unhurt", intent := "", note := "", level := 1, position := 100, speed := 0, movementRemaining := 0, actionUsed := false, defending := false, dodging := false, weapons := [{ id := "w_club", name := "Club", category := "melee", range := 1, equipped := true, damageFormula := "" }], equippedWeaponId := some "w_club", skills := [] }, { id := "e11", name := "G11", hp := 6, hpMax := 6, mp := 0, mpMax := 0, status := "Unhurt", intent := "", note := "", level := 1, position := 100, speed := 0, movementRemaining := 0, actionUsed := false, defending := false, dodging := false, weapons := [{ id := "w_club", name := "Club", category := "melee", range := 1, equipped := true, damageFormula := "" }], equippedWeaponId := some "w_club", skills := [] }, { id := "e12", name := "G12", hp := 6, hpMax := 6, mp := 0, mpMax := 0, status := "Unhurt", intent := "", note := "", level := 1, position := 100, speed := 0, movementRemaining := 0, actionUsed := false, defending := false, dodging := false, weapons := [{ id := "w_club", name := "Club", category := "melee", range := 1, equipped := true, damageFormula := "" }], equippedWeaponId := some "w_club", skills := [] }, { id := "e13", name := "G13", hp := 6, hpMax := 6, mp := 0, mpMax := 0, status := "Unhurt", intent := "", note := "", level := 1, position := 100, speed := 0, movementRemaining := 0, actionUsed := false, defending := false, dodging := false, weapons := [{ id := "w_club", name := "Club", category := "melee", range := 1, equipped := true, damageFormula := "" }], equippedWeaponId := some "w_club", skills := [] }, { id := "e14", name := "G14", hp := 6, hpMax := 6, mp := 0, mpMax := 0, status := "Unhurt", intent := "", note := "", level := 1, position := 100, speed := 0, movementRemaining := 0, actionUsed := false, defending := false, dodging := false, weapons := [{ id := "w_club", name := "Club", category := "melee", range := 1, equipped := true, damageFormula := "" }], equippedWeaponId := some "w_club", skills := [] }, { id := "e15", name := "G15", hp := 6, hpMax := 6, mp := 0, mpMax := 0, status := "Unhurt", intent := "", note := "", level := 1, position := 100, speed := 0, movementRemaining := 0, actionUsed := false, defending := false, dodging := false, weapons := [{ id := "w_club", name := "Club", category := "melee", range := 1, equipped := true, damageFormula := "" }], equippedWeaponId := some "w_club", skills := [] }, { id := "e16", name := "G16", hp := 6, hpMax := 6, mp := 0, mpMax := 0, status := "Unhurt", intent := "", note := "", level := 1, position := 100, speed := 0, movementRemaining := 0, actionUsed := false, defending := false, dodging := false, weapons := [{ id := "w_club", name := "Club", category := "melee", range := 1, equipped := true, damageFormula := "" }], equippedWeaponId := some "w_club", skills := [] }, { id := "e17", name := "G17", hp := 6, hpMax := 6, mp := 0, mpMax := 0, status := "Unhurt", intent := "", note := "", level := 1, position := 100, speed := 0, movementRemaining := 0, actionUsed := false, defending := false, dodging := false, weapons := [{ id := "w_club", name := "Club", category := "melee", range := 1, equipped := true, damageFormula := "" }], equippedWeaponId := some "w_club", skills := [] }, { id := "e18", name := "G18", hp := 6, hpMax := 6, mp := 0, mpMax := 0, status := "Unhurt", intent := "", note := "", level := 1, position := 100, speed := 0, movementRemaining := 0, actionUsed := false, defending := false, dodging := false, weapons := [{ id := "w_club", name := "Club", category := "melee", range := 1, equipped := true, damageFormula := "" }], equippedWeaponId := some "w_club", skills := [] }, { id := "e19", name := "G19", hp := 6, hpMax := 6, mp := 0, mpMax := 0, status := "Unhurt", intent := "", note := "", level := 1, position := 100, speed := 0, movementRemaining := 0, actionUsed := false, defending := false, dodging := false, weapons := [{ id := "w_club", name := "Club", category := "melee", range := 1, equipped := true, damageFormula := "" }], equippedWeaponId := some "w_club", skills := [] }, { id := "e20", name := "G20", hp := 6, hpMax := 6, mp := 0, mpMax := 0, status := "Unhurt", intent := "", note := "", level := 1, position := 100, speed := 0, movementRemaining := 0, actionUsed := false, defending := false, dodging := false, weapons := [{ id := "w_club", name := "Club", category := "melee", range := 1, equipped := true, damageFormula := "" }], equippedWeaponId := some "w_club", skills := [] }, { id := "e21", name := "G21", hp := 6, hpMax := 6, mp := 0, mpMax := 0, status := "Unhurt", intent := "", note := "", level := 1, position := 100, speed := 0, movementRemaining := 0, actionUsed := false, defending := false, dodging := false, weapons := [{ id := "w_club", name := "Club", category := "melee", range := 1, equipped := true, damageFormula := "" }], equippedWeaponId := some "w_club", skills := [] }], initiative := [{ id := "pc_game_test", name := "Hero", kind := "pc", initiative := some 22 }, { id := "e1", name := "G1", kind := "enemy", initiative := some 21 }, { id := "e2", name := "G2", kind := "enemy", initiative := some 20 }, { id := "e3", name := "G3", kind := "enemy", initiative := some 19 }, { id := "e4", name := "G4", kind := "enemy", initiative := some 18 }, { id := "e5", name := "G5", kind := "enemy", initiative := some 17 }, { id := "e6", name := "G6", kind := "enemy", initiative := some 16 }, { id := "e7", name := "G7", kind := "enemy", initiative := some 15 }, { id := "e8", name := "G8", kind := "enemy", initiative := some 14 }, { id := "e9", name := "G9", kind := "enemy", initiative := some 13 }, { id := "e10", name := "G10", kind := "enemy", initiative := some 12 }, { id := "e11", name := "G11", kind := "enemy", initiative := some 11 }, { id := "e12", name := "G12", kind := "enemy", initiative := some 10 }, { id := "e13", name := "G13", kind := "enemy", initiative := some 9 }, { id := "e14", name := "G14", kind := "enemy", initiative := some 8 }, { id := "e15", name := "G15", kind := "enemy", initiative := some 7 }, { id := "e16", name := "G16", kind := "enemy", initiative := some 6 }, { id := "e17", name := "G17", kind := "enemy", initiative := some 5 }, { id := "e18", name := "G18", kind := "enemy", initiative := some 4 }, { id := "e19", name := "G19", kind := "enemy", initiative := some 3 }, { id := "e20", name := "G20", kind := "enemy", initiative := some 2 }, { id := "e21", name := "G21", kind := "enemy", initiative := some 1 }], rules := some { meleeRange := 1, actionTypes := ["attack", "defend", "dodge", "use_skill"], moveIsFree := true, oneActionPerTurn := true }, turn := some { actorId := "e4", actorName := "G4", kind := "enemy", actionUsed := false, movementRemaining := 0, equippedWeaponId := some "w_club", availableSkillIds := [] } }, log := [{ id := "log_0", atIso := "", kind := "combat", text := "Turn ends. It is now G1\x27s turn." }, { id := "log_1", atIso := "", kind := "combat", text := "G1 cannot reach attack range and takes evasive movement." }, { id := "log_2", atIso := "", kind := "combat", text := "G2 cannot reach attack range and takes evasive movement." }, { id := "log_3", atIso := "", kind := "combat", text := "G3 cannot reach attack range and takes evasive movement." }] }

/-- The cascade state after enemy turn 4 (current holder: G5). -/
def c3T4 : Game :=
  { gameId := "game_test", phase := "combat", hp := { current := 12, max := 12 }, mp := { current := 6, max := 6 }, pc := { name := "Hero", level := 1, skills := [] }, inventory := [{ id := "item_sword", name := "Sword", qty := 1, notes := "", weapon := some { id := some "w_sword", name := some "Sword", category := some "melee", range := some 1, equipped := true, damageFormula := some "" } }], combat := some { round := 1, currentTurnId := some "e5", pc := { id := "pc_game_test", name := "Hero", hp := 12, hpMax := 12, mp := 6, mpMax := 6, status := "", intent := "", note := "", level := 1, position := 0, speed := 6, movementRemaining := 6, actionUsed := true, defending := false, dodging := false, weapons := [{ id := "w_sword", name := "Sword", category := "melee", range := 1, equipped := true, damageFormula := "" }, { id := "weapon_unarmed", name := "Default Melee", category := "melee", range := 1, equipped := false, damageFormula := "1" }], equippedWeaponId := some "w_sword", skills := [] }, enemies := [{ id := "e1", name := "G1", hp := 6, hpMax := 6, mp := 0, mpMax := 0, status := "Unhurt", intent := "", note := "", level := 1, position := 100, speed := 0, movementRemaining := 0, actionUsed := true, defending := false, dodging := true, weapons := [{ id := "w_club", name := "Club", category := "melee", range := 1, equipped := true, damageFormula := "" }], equippedWeaponId := some "w_club", skills := [] }, { id := "e2", name := "G2", hp := 6, hpMax := 6, mp := 0, mpMax := 0, status := "Unhurt", intent := "", note := "", level := 1, position := 100, speed := 0, movementRemaining := 0, actionUsed := true, defending := false, dodging := true, weapons := [{ id := "w_club", name := "Club", category := "melee", range := 1, equipped := true, damageFormula := "" }], equippedWeaponId := some "w_club", skills := [] }, { id := "e3", name := "G3", hp := 6, hpMax := 6, mp := 0, mpMax := 0, status := "Unhurt", intent := "", note := "", level := 1, position := 100, speed := 0, movementRemaining := 0, actionUsed := true, defending := false, dodging := true, weapons := [{ id := "w_club", name := "Club", category := "melee", range := 1, equipped := true, damageFormula := "" }], equippedWeaponId := some "w_club", skills := [] }, { id := "e4", name := "G4", hp := 6, hpMax := 6, mp := 0, mpMax := 0, status := "Unhurt", intent := "", note := "", level := 1, position := 100, speed := 0, movementRemaining := 0, actionUsed := true, defending := false, dodging := true, weapons := [{ id := "w_club", name := "Club", category := "melee", range := 1, equipped := true, damageFormula := "" }], equippedWeaponId := some "w_club", skills := [] }, { id := "e5", name := "G5", hp := 6, hpMax := 6, mp := 0, mpMax := 0, status := "Unhurt", intent := "", note := "", level := 1, position := 100, speed := 0, movementRemaining := 0, actionUsed := false, defending := false, dodging := false, weapons := [{ id := "w_club", name := "Club", category := "melee", range := 1, equipped := true, damageFormula := "" }], equippedWeaponId := some "w_club", skills := [] }, { id := "e6", name := "G6", hp := 6, hpMax := 6, mp := 0, mpMax := 0, status := "Unhurt", intent := "", note := "", level := 1, position := 100, speed := 0, movementRemaining := 0, actionUsed := false, defending := false, dodging := false, weapons := [{ id := "w_club", name := "Club", category := "melee", range := 1, equipped := true, damageFormula := "" }], equippedWeaponId := some "w_club", skills := [] }, { id := "e7", name := "G7", hp := 6, hpMax := 6, mp := 0, mpMax := 0, status := "Unhurt", intent := "", note := "", level := 1, position := 100, speed := 0, movementRemaining := 0, actionUsed := false, defending := false, dodging := false, weapons := [{ id := "w_club", name := "Club", category := "melee", range := 1, equipped := true, damageFormula := "" }], equippedWeaponId := some "w_club", skills := [] }, { id := "e8", name := "G8", hp := 6, hpMax := 6, mp := 0, mpMax := 0, status := "Unhurt", intent := "", note := "", level := 1, position := 100, speed := 0, movementRemaining := 0, actionUsed := false, defending := false, dodging := false, weapons := [{ id := "w_club", name := "Club", category := "melee", range := 1, equipped := true, damageFormula := "" }], equippedWeaponId := some "w_club", skills := [] }, { id := "e9", name := "G9", hp := 6, hpMax := 6, mp := 0, mpMax := 0, status := "Unhurt", intent := "", note := "", level := 1, position := 100, speed := 0, movementRemaining := 0, actionUsed := false, defending := false, dodging := false, weapons := [{ id := "w_club", name := "Club", category := "melee", range := 1, equipped := true, damageFormula := "" }], equippedWeaponId := some "w_club", skills := [] }, { id := "e10", name := "G10", hp := 6, hpMax := 6, mp := 0, mpMax := 0, status := "Unhurt", intent := "", note := "", level := 1, position := 100, speed := 0, movementRemaining := 0, actionUsed := false, defending := false, dodging := false, weapons := [{ id := "w_club", name := "Club", category := "melee", range := 1, equipped := true, damageFormula := "" }], equippedWeaponId := some "w_club", skills := [] }, { id := "e11", name := "G11", hp := 6, hpMax := 6, mp := 0, mpMax := 0, status := "Unhurt", intent := "", note := "", level := 1, position := 100, speed := 0, movementRemaining := 0, actionUsed := false, defending := false, dodging := false, weapons := [{ id := "w_club", name := "Club", category := "melee", range := 1, equipped := true, damageFormula := "" }], equippedWeaponId := some "w_club", skills := [] }, { id := "e12", name := "G12", hp := 6, hpMax := 6, mp := 0, mpMax := 0, status := "Unhurt", intent := "", note := "", level := 1, position := 100, speed := 0, movementRemaining := 0, actionUsed := false, defending := false, dodging := false, weapons := [{ id := "w_club", name := "Club", category := "melee", range := 1, equipped := true, damageFormula := "" }], equippedWeaponId := some "w_club", skills := [] }, { id := "e13", name := "G13", hp := 6, hpMax := 6, mp := 0, mpMax := 0, status := "Unhurt", intent := "", note := "", level := 1, position := 100, speed := 0, movementRemaining := 0, actionUsed := false, defending := false, dodging := false, weapons := [{ id := "w_club", name := "Club", category := "melee", range := 1, equipped := true, damageFormula := "" }], equippedWeaponId := some "w_club", skills := [] }, { id := "e14", name := "G14", hp := 6, hpMax := 6, mp := 0, mpMax := 0, status := "Unhurt", intent := "", note := "", level := 1, position := 100, speed := 0, movementRemaining := 0, actionUsed := false, defending := false, dodging := false, weapons := [{ id := "w_club", name := "Club", category := "melee", range := 1, equipped := true, damageFormula := "" }], equippedWeaponId := some "w_club", skills := [] }, { id := "e15", name := "G15", hp := 6, hpMax := 6, mp := 0, mpMax := 0, status := "Unhurt", intent := "", note := "", level := 1, position := 100, speed := 0, movementRemaining := 0, actionUsed := false, defending := false, dodging := false, weapons := [{ id := "w_club", name := "Club", category := "melee", range := 1, equipped := true, damageFormula := "" }], equippedWeaponId := some "w_club", skills := [] }, { id := "e16", name := "G16", hp := 6, hpMax := 6, mp := 0, mpMax := 0, status := "Unhurt", intent := "", note := "", level := 1, position := 100, speed := 0, movementRemaining := 0, actionUsed := false, defending := false, dodging := false, weapons := [{ id := "w_club", name := "Club", category := "melee", range := 1, equipped := true, damageFormula := "" }], equippedWeaponId := some "w_club", skills := [] }, { id := "e17", name := "G17", hp := 6, hpMax := 6, mp := 0, mpMax := 0, status := "Unhurt", intent := "", note := "", level := 1, position := 100, speed := 0, movementRemaining := 0, actionUsed := false, defending := false, dodging := false, weapons := [{ id := "w_club", name := "Club", category := "melee", range := 1, equipped := true, damageFormula := "" }], equippedWeaponId := some "w_club", skills := [] }, { id := "e18", name := "G18", hp := 6, hpMax := 6, mp := 0, mpMax := 0, status := "Unhurt", intent := "", note := "", level := 1, position := 100, speed := 0, movementRemaining := 0, actionUsed := false, defending := false, dodging := false, weapons := [{ id := "w_club", name := "Club", category := "melee", range := 1, equipped := true, damageFormula := "" }], equippedWeaponId := some "w_club", skills := [] }, { id := "e19", name := "G19", hp := 6, hpMax := 6, mp := 0, mpMax := 0, status := "Unhurt", intent := "", note := "", level := 1, position := 100, speed := 0, movementRemaining := 0, actionUsed := false, defending := false, dodging := false, weapons := [{ id := "w_club", name := "Club", category := "melee", range := 1, equipped := true, damageFormula := "" }], equippedWeaponId := some "w_club", skills := [] }, { id := "e20", name := "G20", hp := 6, hpMax := 6, mp := 0, mpMax := 0, status := "Unhurt", intent := "", note := "", level := 1, position := 100, speed := 0, movementRemaining := 0, actionUsed := false, defending := false, dodging := false, weapons := [{ id := "w_club", name := "Club", category := "melee", range := 1, equipped := true, damageFormula := "" }], equippedWeaponId := some "w_club", skills := [] }, { id := "e21", name := "G21", hp := 6, hpMax := 6, mp := 0, mpMax := 0, status := "Unhurt", intent := "", note := "", level := 1, position := 100, speed := 0, movementRemaining := 0, actionUsed := false, defending := false, dodging := false, weapons := [{ id := "w_club", name := "Club", category := "melee", range := 1, equipped := true, damageFormula := "" }], equippedWeaponId := some "w_club", skills := [] }], initiative := [{ id := "pc_game_test", name := "Hero", kind := "pc", initiative := some 22 }, { id := "e1", name := "G1", kind := "enemy", initiative := some 21 }, { id := "e2", name := "G2", kind := "enemy", initiative := some 20 }, { id := "e3", name := "G3", kind := "enemy", initiative := some 19 }, { id := "e4", name := "G4", kind := "enemy", initiative := some 18 }, { id := "e5", name := "G5", kind := "enemy", initiative := some 17 }, { id := "e6", name := "G6", kind := "enemy", initiative := some 16 }, { id := "e7", name := "G7", kind := "enemy", initiative := some 15 }, { id := "e8", name := "G8", kind := "enemy", initiative := some 14 }, { id := "e9", name := "G9", kind := "enemy", initiative := some 13 }, { id := "e10", name := "G10", kind := "enemy", initiative := some 12 }, { id := "e11", name := "G11", kind := "enemy", initiative := some 11 }, { id := "e12", name := "G12", kind := "enemy", initiative := some 10 }, { id := "e13", name := "G13", kind := "enemy", initiative := some 9 }, { id := "e14", name := "G14", kind := "enemy", initiative := some 8 }, { id := "e15", name := "G15", kind := "enemy", initiative := some 7 }, { id := "e16", name := "G16", kind := "enemy", initiative := some 6 }, { id := "e17", name := "G17", kind := "enemy", initiative := some 5 }, { id := "e18", name := "G18", kind := "enemy", initiative := some 4 }, { id := "e19", name := "G19", kind := "enemy", initiative := some 3 }, { id := "e20", name := "G20", kind := "enemy", initiative := some 2 }, { id := "e21", name := "G21", kind := "enemy", initiative := some 1 }], rules := some { meleeRange := 1, actionTypes := ["attack", "defend", "dodge", "use_skill"], moveIsFree := true, oneActionPerTurn := true }, turn := some { actorId := "e5", actorName := "G5", kind := "enemy", actionUsed := false, movementRemaining := 0, equippedWeaponId := some "w_club", availableSkillIds := [] } }, log := [{ id := "log_0", atIso := "", kind := "combat", text := "Turn ends. It is now G1\x27s turn." }, { id := "log_1", atIso := "", kind := "combat", text := "G1 cannot reach attack range and takes evasive movement." }, { id := "log_2", atIso := "", kind := "combat", text := "G2 cannot reach attack range and takes evasive movement." }, { id := "log_3", atIso := "", kind := "combat", text := "G3 cannot reach attack range and takes evasive movement." }, { id := "log_4", atIso := "", kind := "combat", text := "G4 cannot reach attack range and takes evasive movement." }] }

/-- The cascade state after enemy turn 5 (current holder: G6). -/
def c3T5 : Game :=
  { gameId := "game_test", phase := "combat", hp := { current := 12, max := 12 }, mp := { current := 6, max := 6 }, pc := { name := "Hero", level := 1, skills := [] }, inventory := [{ id := "item_sword", name := "Sword", qty := 1, notes := "", weapon := some { id := some "w_sword", name := some "Sword", category := some "melee", range := some 1, equipped := true, damageFormula := some "" } }], combat := some { round := 1, currentTurnId := some "e6", pc := { id := "pc_game_test", name := "Hero", hp := 12, hpMax := 12, mp := 6, mpMax := 6, status := "", intent := "", note := "", level := 1, position := 0, speed := 6, movementRemaining := 6, actionUsed := true, defending := false, dodging := false, weapons := [{ id := "w_sword", name := "Sword", category := "melee", range := 1, equipped := true, damageFormula := "" }, { id := "weapon_unarmed", name := "Default Melee", category := "melee", range := 1, equipped := false, damageFormula := "1" }], equippedWeaponId := some "w_sword", skills := [] }, enemies := [{ id := "e1", name := "G1", hp := 6, hpMax := 6, mp := 0, mpMax := 0, status := "Unhurt", intent := "", note := "", level := 1, position := 100, speed := 0, movementRemaining := 0, actionUsed := true, defending := false, dodging := true, weapons := [{ id := "w_club", name := "Club", category := "melee", range := 1, equipped := true, damageFormula := "" }], equippedWeaponId := some "w_club", skills := [] }, { id := "e2", name := "G2", hp := 6, hpMax := 6, mp := 0, mpMax := 0, status := "Unhurt", intent := "", note := "", level := 1, position := 100, speed := 0, movementRemaining := 0, actionUsed := true, defending := false, dodging := true, weapons := [{ id := "w_club", name := "Club", category := "melee", range := 1, equipped := true, damageFormula := "" }], equippedWeaponId := some "w_club", skills := [] }, { id := "e3", name := "G3", hp := 6, hpMax := 6, mp := 0, mpMax := 0, status := "Unhurt", intent := "", note := "", level := 1, position := 100, speed := 0, movementRemaining := 0, actionUsed := true, defending := false, dodging := true, weapons := [{ id := "w_club", name := "Club", category := "melee", range := 1, equipped := true, damageFormula := "" }], equippedWeaponId := some "w_club", skills := [] }, { id := "e4", name := "G4", hp := 6, hpMax := 6, mp := 0, mpMax := 0, status := "Unhurt", intent := "", note := "", level := 1, position := 100, speed := 0, movementRemaining := 0, actionUsed := true, defending := false, dodging := true, weapons := [{ id := "w_club", name := "Club", category := "melee", range := 1, equipped := true, damageFormula := "" }], equippedWeaponId := some "w_club", skills := [] }, { id := "e5", name := "G5", hp := 6, hpMax := 6, mp := 0, mpMax := 0, status := "Unhurt", intent := "", note := "", level := 1, position := 100, speed := 0, movementRemaining := 0, actionUsed := true, defending := false, dodging := true, weapons := [{ id := "w_club", name := "Club", category := "melee", range := 1, equipped := true, damageFormula := "" }], equippedWeaponId := some "w_club", skills := [] }, { id := "e6", name := "G6", hp := 6, hpMax := 6, mp := 0, mpMax := 0, status := "Unhurt", intent := "", note := "", level := 1, position := 100, speed := 0, movementRemaining := 0, actionUsed := false, defending := false, dodging := false, weapons := [{ id := "w_club", name := "Club", category := "melee", range := 1, equipped := true, damageFormula := "" }], equippedWeaponId := some "w_club", skills := [] }, { id := "e7", name := "G7", hp := 6, hpMax := 6, mp := 0, mpMax := 0, status := "Unhurt", intent := "", note := "", level := 1, position := 100, speed := 0, movementRemaining := 0, actionUsed := false, defending := false, dodging := false, weapons := [{ id := "w_club", name := "Club", category := "melee", range := 1, equipped := true, damageFormula := "" }], equippedWeaponId := some "w_club", skills := [] }, { id := "e8", name := "G8", hp := 6, hpMax := 6, mp := 0, mpMax := 0, status := "Unhurt", intent := "", note := "", level := 1, position := 100, speed := 0, movementRemaining := 0, actionUsed := false, defending := false, dodging := false, weapons := [{ id := "w_club", name := "Club", category := "melee", range := 1, equipped := true, damageFormula := "" }], equippedWeaponId := some "w_club", skills := [] }, { id := "e9", name := "G9", hp := 6, hpMax := 6, mp := 0, mpMax := 0, status := "Unhurt", intent := "", note := "", level := 1, position := 100, speed := 0, movementRemaining := 0, actionUsed := false, defending := false, dodging := false, weapons := [{ id := "w_club", name := "Club", category := "melee", range := 1, equipped := true, damageFormula := "" }], equippedWeaponId := some "w_club", skills := [] }, { id := "e10", name := "G10", hp := 6, hpMax := 6, mp := 0, mpMax := 0, status := "Unhurt", intent := "", note := "", level := 1, position := 100, speed := 0, movementRemaining := 0, actionUsed := false, defending := false, dodging := false, weapons := [{ id := "w_club", name := "Club", category := "melee", range := 1, equipped := true, damageFormula := "" }], equippedWeaponId := some "w_club", skills := [] }, { id := "e11", name := "G11", hp := 6, hpMax := 6, mp := 0, mpMax := 0, status := "Unhurt", intent := "", note := "", level := 1, position := 100, speed := 0, movementRemaining := 0, actionUsed := false, defending := false, dodging := false, weapons := [{ id := "w_club", name := "Club", category := "melee", range := 1, equipped := true, damageFormula := "" }], equippedWeaponId := some "w_club", skills := [] }, { id := "e12", name := "G12", hp := 6, hpMax := 6, mp := 0, mpMax := 0, status := "Unhurt", intent := "", note := "", level := 1, position := 100, speed := 0, movementRemaining := 0, actionUsed := false, defending := false, dodging := false, weapons := [{ id := "w_club", name := "Club", category := "melee", range := 1, equipped := true, damageFormula := "" }], equippedWeaponId := some "w_club", skills := [] }, { id := "e13", name := "G13", hp := 6, hpMax := 6, mp := 0, mpMax := 0, status := "Unhurt", intent := "", note := "", level := 1, position := 100, speed := 0, movementRemaining := 0, actionUsed := false, defending := false, dodging := false, weapons := [{ id := "w_club", name := "Club", category := "melee", range := 1, equipped := true, damageFormula := "" }], equippedWeaponId := some "w_club", skills := [] }, { id := "e14", name := "G14", hp := 6, hpMax := 6, mp := 0, mpMax := 0, status := "Unhurt", intent := "", note := "", level := 1, position := 100, speed := 0, movementRemaining := 0, actionUsed := false, defending := false, dodging := false, weapons := [{ id := "w_club", name := "Club", category := "melee", range := 1, equipped := true, damageFormula := "" }], equippedWeaponId := some "w_club", skills := [] }, { id := "e15", name := "G15", hp := 6, hpMax := 6, mp := 0, mpMax := 0, status := "Unhurt", intent := "", note := "", level := 1, position := 100, speed := 0, movementRemaining := 0, actionUsed := false, defending := false, dodging := false, weapons := [{ id := "w_club", name := "Club", category := "melee", range := 1, equipped := true, damageFormula := "" }], equippedWeaponId := some "w_club", skills := [] }, { id := "e16", name := "G16", hp := 6, hpMax := 6, mp := 0, mpMax := 0, status := "Unhurt", intent := "", note := "", level := 1, position := 100, speed := 0, movementRemaining := 0, actionUsed := false, defending := false, dodging := false, weapons := [{ id := "w_club", name := "Club", category := "melee", range := 1, equipped := true, damageFormula := "" }], equippedWeaponId := some "w_club", skills := [] }, { id := "e17", name := "G17", hp := 6, hpMax := 6, mp := 0, mpMax := 0, status := "Unhurt", intent := "", note := "", level := 1, position := 100, speed := 0, movementRemaining := 0, actionUsed := false, defending := false, dodging := false, weapons := [{ id := "w_club", name := "Club", category := "melee", range := 1, equipped := true, damageFormula := "" }], equippedWeaponId := some "w_club", skills := [] }, { id := "e18", name := "G18", hp := 6, hpMax := 6, mp := 0, mpMax := 0, status := "Unhurt", intent := "", note := "", level := 1, position := 100, speed := 0, movementRemaining := 0, actionUsed := false, defending := false, dodging := false, weapons := [{ id := "w_club", name := "Club", category := "melee", range := 1, equipped := true, damageFormula := "" }], equippedWeaponId := some "w_club", skills := [] }, { id := "e19", name := "G19", hp := 6, hpMax := 6, mp := 0, mpMax := 0, status := "Unhurt", intent := "", note := "", level := 1, position := 100, speed := 0, movementRemaining := 0, actionUsed := false, defending := false, dodging := false, weapons := [{ id := "w_club", name := "Club", category := "melee", range := 1, equipped := true, damageFormula := "" }], equippedWeaponId := some "w_club", skills := [] }, { id := "e20", name := "G20", hp := 6, hpMax := 6, mp := 0, mpMax := 0, status := "Unhurt", intent := "", note := "", level := 1, position := 100, speed := 0, movementRemaining := 0, actionUsed := false, defending := false, dodging := false, weapons := [{ id := "w_club", name := "Club", category := "melee", range := 1, equipped := true, damageFormula := "" }], equippedWeaponId := some "w_club", skills := [] }, { id := "e21", name := "G21", hp := 6, hpMax := 6, mp := 0, mpMax := 0, status := "Unhurt", intent := "", note := "", level := 1, position := 100, speed := 0, movementRemaining := 0, actionUsed := false, defending := false, dodging := false, weapons := [{ id := "w_club", name := "Club", category := "melee", range := 1, equipped := true, damageFormula := "" }], equippedWeaponId := some "w_club", skills := [] }], initiative := [{ id := "pc_game_test", name := "Hero", kind := "pc", initiative := some 22 }, { id := "e1", name := "G1", kind := "enemy", initiative := some 21 }, { id := "e2", name := "G2", kind := "enemy", initiative := some 20 }, { id := "e3", name := "G3", kind := "enemy", initiative := some 19 }, { id := "e4", name := "G4", kind := "enemy", initiative := some 18 }, { id := "e5", name := "G5", kind := "enemy", initiative := some 17 }, { id := "e6", name := "G6", kind := "enemy", initiative := some 16 }, { id := "e7", name := "G7", kind := "enemy", initiative := some 15 }, { id := "e8", name := "G8", kind := "enemy", initiative := some 14 }, { id := "e9", name := "G9", kind := "enemy", initiative := some 13 }, { id := "e10", name := "G10", kind := "enemy", initiative := some 12 }, { id := "e11", name := "G11", kind := "enemy", initiative := some 11 }, { id := "e12", name := "G12", kind := "enemy", initiative := some 10 }, { id := "e13", name := "G13", kind := "enemy", initiative := some 9 }, { id := "e14", name := "G14", kind := "enemy", initiative := some 8 }, { id := "e15", name := "G15", kind := "enemy", initiative := some 7 }, { id := "e16", name := "G16", kind := "enemy", initiative := some 6 }, { id := "e17", name := "G17", kind := "enemy", initiative := some 5 }, { id := "e18", name := "G18", kind := "enemy", initiative := some 4 }, { id := "e19", name := "G19", kind := "enemy", initiative := some 3 }, { id := "e20", name := "G20", kind := "enemy", initiative := some 2 }, { id := "e21", name := "G21", kind := "enemy", initiative := some 1 }], rules := some { meleeRange := 1, actionTypes := ["attack", "defend", "dodge", "use_skill"], moveIsFree := true, oneActionPerTurn := true }, turn := some { actorId := "e6", actorName := "G6", kind := "enemy", actionUsed := false, movementRemaining := 0, equippedWeaponId := some "w_club", availableSkillIds := [] } }, log := [{ id := "log_0", atIso := "", kind := "combat", text := "Turn ends. It is now G1\x27s turn." }, { id := "log_1", atIso := "", kind := "combat", text := "G1 cannot reach attack range and takes evasive movement." }, { id := "log_2", atIso := "", kind := "combat", text := "G2 cannot reach attack range and takes evasive movement." }, { id := "log_3", atIso := "", kind := "combat", text := "G3 cannot reach attack range and takes evasive movement." }, { id := "log_4", atIso := "", kind := "combat", text := "G4 cannot reach attack range and takes evasive movement." }, { id := "log_5", atIso := "", kind := "combat", text := "G5 cannot reach attack range and takes evasive movement." }] }

/-- The cascade state after enemy turn 6 (current holder: G7). -/
def c3T6 : Game :=
  { gameId := "game_test", phase := "combat", hp := { current := 12, max := 12 }, mp := { current := 6, max := 6 }, pc := { name := "Hero", level := 1, skills := [] }, inventory := [{ id := "item_sword", name := "Sword", qty := 1, notes := "", weapon := some { id := some "w_sword", name := some "Sword", category := some "melee", range := some 1, equipped := true, damageFormula := some "" } }], combat := some { round := 1, currentTurnId := some "e7", pc := { id := "pc_game_test", name := "Hero", hp := 12, hpMax := 12, mp := 6, mpMax := 6, status := "", intent := "", note := "", level := 1, position := 0, speed := 6, movementRemaining := 6, actionUsed := true, defending := false, dodging := false, weapons := [{ id := "w_sword", name := "Sword", category := "melee", range := 1, equipped := true, damageFormula := "" }, { id := "weapon_unarmed", name := "Default Melee", category := "melee", range := 1, equipped := false, damageFormula := "1" }], equippedWeaponId := some "w_sword", skills := [] }, enemies := [{ id := "e1", name := "G1", hp := 6, hpMax := 6, mp := 0, mpMax := 0, status := "Unhurt", intent := "", note := "", level := 1, position := 100, speed := 0, movementRemaining := 0, actionUsed := true, defending := false, dodging := true, weapons := [{ id := "w_club", name := "Club", category := "melee", range := 1, equipped := true, damageFormula := "" }], equippedWeaponId := some "w_club", skills := [] }, { id := "e2", name := "G2", hp := 6, hpMax := 6, mp := 0, mpMax := 0, status := "Unhurt", intent := "", note := "", level := 1, position := 100, speed := 0, movementRemaining := 0, actionUsed := true, defending := false, dodging := true, weapons := [{ id := "w_club", name := "Club", category := "melee", range := 1, equipped := true, damageFormula := "" }], equippedWeaponId := some "w_club", skills := [] }, { id := "e3", name := "G3", hp := 6, hpMax := 6, mp := 0, mpMax := 0, status := "Unhurt", intent := "", note := "", level := 1, position := 100, speed := 0, movementRemaining := 0, actionUsed := true, defending := false, dodging := true, weapons := [{ id := "w_club", name := "Club", category := "melee", range := 1, equipped := true, damageFormula := "" }], equippedWeaponId := some "w_club", skills := [] }, { id := "e4", name := "G4", hp := 6, hpMax := 6, mp := 0, mpMax := 0, status := "Unhurt", intent := "", note := "", level := 1, position := 100, speed := 0, movementRemaining := 0, actionUsed := true, defending := false, dodging := true, weapons := [{ id := "w_club", name := "Club", category := "melee", range := 1, equipped := true, damageFormula := "" }], equippedWeaponId := some "w_club", skills := [] }, { id := "e5", name := "G5", hp := 6, hpMax := 6, mp := 0, mpMax := 0, status := "Unhurt", intent := "", note := "", level := 1, position := 100, speed := 0, movementRemaining := 0, actionUsed := true, defending := false, dodging := true, weapons := [{ id := "w_club", name := "Club", category := "melee", range := 1, equipped := true, damageFormula := "" }], equippedWeaponId := some "w_club", skills := [] }, { id := "e6", name := "G6", hp := 6, hpMax := 6, mp := 0, mpMax := 0, status := "Unhurt", intent := "", note := "", level := 1, position := 100, speed := 0, movementRemaining := 0, actionUsed := true, defending := false, dodging := true, weapons := [{ id := "w_club", name := "Club", category := "melee", range := 1, equipped := true, damageFormula := "" }], equippedWeaponId := some "w_club", skills := [] }, { id := "e7", name := "G7", hp := 6, hpMax := 6, mp := 0, mpMax := 0, status := "Unhurt", intent := "", note := "", level := 1, position := 100, speed := 0, movementRemaining := 0, actionUsed := false, defending := false, dodging := false, weapons := [{ id := "w_club", name := "Club", category := "melee", range := 1, equipped := true, damageFormula := "" }], equippedWeaponId := some "w_club", skills := [] }, { id := "e8", name := "G8", hp := 6, hpMax := 6, mp := 0, mpMax := 0, status := "Unhurt", intent := "", note := "", level := 1, position := 100, speed := 0, movementRemaining := 0, actionUsed := false, defending := false, dodging := false, weapons := [{ id := "w_club", name := "Club", category := "melee", range := 1, equipped := true, damageFormula := "" }], equippedWeaponId := some "w_club", skills := [] }, { id := "e9", name := "G9", hp := 6, hpMax := 6, mp := 0, mpMax := 0, status := "Unhurt", intent := "", note := "", level := 1, position := 100, speed := 0, movementRemaining := 0, actionUsed := false, defending := false, dodging := false, weapons := [{ id := "w_club", name := "Club", category := "melee", range := 1, equipped := true, damageFormula := "" }], equippedWeaponId := some "w_club", skills := [] }, { id := "e10", name := "G10", hp := 6, hpMax := 6, mp := 0, mpMax := 0, status := "Unhurt", intent := "", note := "", level := 1, position := 100, speed := 0, movementRemaining := 0, actionUsed := false, defending := false, dodging := false, weapons := [{ id := "w_club", name := "Club", category := "melee", range := 1, equipped := true, damageFormula := "" }], equippedWeaponId := some "w_club", skills := [] }, { id := "e11", name := "G11", hp := 6, hpMax := 6, mp := 0, mpMax := 0, status := "Unhurt", intent := "", note := "", level := 1, position := 100, speed := 0, movementRemaining := 0, actionUsed := false, defending := false, dodging := false, weapons := [{ id := "w_club", name := "Club", category := "melee", range := 1, equipped := true, damageFormula := "" }], equippedWeaponId := some "w_club", skills := [] }, { id := "e12", name := "G12", hp := 6, hpMax := 6, mp := 0, mpMax := 0, status := "Unhurt", intent := "", note := "", level := 1, position := 100, speed := 0, movementRemaining := 0, actionUsed := false, defending := false, dodging := false, weapons := [{ id := "w_club", name := "Club", category := "melee", range := 1, equipped := true, damageFormula := "" }], equippedWeaponId := some "w_club", skills := [] }, { id := "e13", name := "G13", hp := 6, hpMax := 6, mp := 0, mpMax := 0, status := "Unhurt", intent := "", note := "", level := 1, position := 100, speed := 0, movementRemaining := 0, actionUsed := false, defending := false, dodging := false, weapons := [{ id := "w_club", name := "Club", category := "melee", range := 1, equipped := true, damageFormula := "" }], equippedWeaponId := some "w_club", skills := [] }, { id := "e14", name := "G14", hp := 6, hpMax := 6, mp := 0, mpMax := 0, status := "Unhurt", intent := "", note := "", level := 1, position := 100, speed := 0, movementRemaining := 0, actionUsed := false, defending := false, dodging := false, weapons := [{ id := "w_club", name := "Club", category := "melee", range := 1, equipped := true, damageFormula := "" }], equippedWeaponId := some "w_club", skills := [] }, { id := "e15", name := "G15", hp := 6, hpMax := 6, mp := 0, mpMax := 0, status := "Unhurt", intent := "", note := "", level := 1, position := 100, speed := 0, movementRemaining := 0, actionUsed := false, defending := false, dodging := false, weapons := [{ id := "w_club", name := "Club", category := "melee", range := 1, equipped := true, damageFormula := "" }], equippedWeaponId := some "w_club", skills := [] }, { id := "e16", name := "G16", hp := 6, hpMax := 6, mp := 0, mpMax := 0, status := "Unhurt", intent := "", note := "", level := 1, position := 100, speed := 0, movementRemaining := 0, actionUsed := false, defending := false, dodging := false, weapons := [{ id := "w_club", name := "Club", category := "melee", range := 1, equipped := true, damageFormula := "" }], equippedWeaponId := some "w_club", skills := [] }, { id := "e17", name := "G17", hp := 6, hpMax := 6, mp := 0, mpMax := 0, status := "Unhurt", intent := "", note := "", level := 1, position := 100, speed := 0, movementRemaining := 0, actionUsed := false, defending := false, dodging := false, weapons := [{ id := "w_club", name := "Club", category := "melee", range := 1, equipped := true, damageFormula := "" }], equippedWeaponId := some "w_club", skills := [] }, { id := "e18", name := "G18", hp := 6, hpMax := 6, mp := 0, mpMax := 0, status := "Unhurt", intent := "", note := "", level := 1, position := 100, speed := 0, movementRemaining := 0, actionUsed := false, defending := false, dodging := false, weapons := [{ id := "w_club", name := "Club", category := "melee", range := 1, equipped := true, damageFormula := "" }], equippedWeaponId := some "w_club", skills := [] }, { id := "e19", name := "G19", hp := 6, hpMax := 6, mp := 0, mpMax := 0, status := "Unhurt", intent := "", note := "", level := 1, position := 100, speed := 0, movementRemaining := 0, actionUsed := false, defending := false, dodging := false, weapons := [{ id := "w_club", name := "Club", category := "melee", range := 1, equipped := true, damageFormula := "" }], equippedWeaponId := some "w_club", skills := [] }, { id := "e20", name := "G20", hp := 6, hpMax := 6, mp := 0, mpMax := 0, status := "Unhurt", intent := "", note := "", level := 1, position := 100, speed := 0, movementRemaining := 0, actionUsed := false, defending := false, dodging := false, weapons := [{ id := "w_club", name := "Club", category := "melee", range := 1, equipped := true, damageFormula := "" }], equippedWeaponId := some "w_club", skills := [] }, { id := "e21", name := "G21", hp := 6, hpMax := 6, mp := 0, mpMax := 0, status := "Unhurt", intent := "", note := "", level := 1, position := 100, speed := 0, movementRemaining := 0, actionUsed := false, defending := false, dodging := false, weapons := [{ id := "w_club", name := "Club", category := "melee", range := 1, equipped := true, damageFormula := "" }], equippedWeaponId := some "w_club", skills := [] }], initiative := [{ id := "pc_game_test", name := "Hero", kind := "pc", initiative := some 22 }, { id := "e1", name := "G1", kind := "enemy", initiative := some 21 }, { id := "e2", name := "G2", kind := "enemy", initiative := some 20 }, { id := "e3", name := "G3", kind := "enemy", initiative := some 19 }, { id := "e4", name := "G4", kind := "enemy", initiative := some 18 }, { id := "e5", name := "G5", kind := "enemy", initiative := some 17 }, { id := "e6", name := "G6", kind := "enemy", initiative := some 16 }, { id := "e7", name := "G7", kind := "enemy", initiative := some 15 }, { id := "e8", name := "G8", kind := "enemy", initiative := some 14 }, { id := "e9", name := "G9", kind := "enemy", initiative := some 13 }, { id := "e10", name := "G10", kind := "enemy", initiative := some 12 }, { id := "e11", name := "G11", kind := "enemy", initiative := some 11 }, { id := "e12", name := "G12", kind := "enemy", initiative := some 10 }, { id := "e13", name := "G13", kind := "enemy", initiative := some 9 }, { id := "e14", name := "G14", kind := "enemy", initiative := some 8 }, { id := "e15", name := "G15", kind := "enemy", initiative := some 7 }, { id := "e16", name := "G16", kind := "enemy", initiative := some 6 }, { id := "e17", name := "G17", kind := "enemy", initiative := some 5 }, { id := "e18", name := "G18", kind := "enemy", initiative := some 4 }, { id := "e19", name := "G19", kind := "enemy", initiative := some 3 }, { id := "e20", name := "G20", kind := "enemy", initiative := some 2 }, { id := "e21", name := "G21", kind := "enemy", initiative := some 1 }], rules := some { meleeRange := 1, actionTypes := ["attack", "defend", "dodge", "use_skill"], moveIsFree := true, oneActionPerTurn := true }, turn := some { actorId := "e7", actorName := "G7", kind := "enemy", actionUsed := false, movementRemaining := 0, equippedWeaponId := some "w_club", availableSkillIds := [] } }, log := [{ id := "log_0", atIso := "", kind := "combat", text := "Turn ends. It is now G1\x27s turn." }, { id := "log_1", atIso := "", kind := "combat", text := "G1 cannot reach attack range and takes evasive movement." }, { id := "log_2", atIso := "", kind := "combat", text := "G2 cannot reach attack range and takes evasive movement." }, { id := "log_3", atIso := "", kind := "combat", text := "G3 cannot reach attack range and takes evasive movement." }, { id := "log_4", atIso := "", kind := "combat", text := "G4 cannot reach attack range and takes evasive movement." }, { id := "log_5", atIso := "", kind := "combat", text := "G5 cannot reach attack range and takes evasive movement." }, { id := "log_6", atIso := "", kind := "combat", text := "G6 cannot reach attack range and takes evasive movement." }] }

/-- The cascade state after enemy turn 7 (current holder: G8). -/
def c3T7 : Game :=
  { gameId := "game_test", phase := "combat", hp := { current := 12, max := 12 }, mp := { current := 6, max := 6 }, pc := { name := "Hero", level := 1, skills := [] }, inventory := [{ id := "item_sword", name := "Sword", qty := 1, notes := "", weapon := some { id := some "w_sword", name := some "Sword", category := some "melee", range := some 1, equipped := true, damageFormula := some "" } }], combat := some { round := 1, currentTurnId := some "e8", pc := { id := "pc_game_test", name := "Hero", hp := 12, hpMax := 12, mp := 6, mpMax := 6, status := "", intent := "", note := "", level := 1, position := 0, speed := 6, movementRemaining := 6, actionUsed := true, defending := false, dodging := false, weapons := [{ id := "w_sword", name := "Sword", category := "melee", range := 1, equipped := true, damageFormula := "" }, { id := "weapon_unarmed", name := "Default Melee", category := "melee", range := 1, equipped := false, damageFormula := "1" }], equippedWeaponId := some "w_sword", skills := [] }, enemies := [{ id := "e1", name := "G1", hp := 6, hpMax := 6, mp := 0, mpMax := 0, status := "Unhurt", intent := "", note := "", level := 1, position := 100, speed := 0, movementRemaining := 0, actionUsed := true, defending := false, dodging := true, weapons := [{ id := "w_club", name := "Club", category := "melee", range := 1, equipped := true, damageFormula := "" }], equippedWeaponId := some "w_club", skills := [] }, { id := "e2", name := "G2", hp := 6, hpMax := 6, mp := 0, mpMax := 0, status := "Unhurt", intent := "", note := "", level := 1, position := 100, speed := 0, movementRemaining := 0, actionUsed := true, defending := false, dodging := true, weapons := [{ id := "w_club", name := "Club", category := "melee", range := 1, equipped := true, damageFormula := "" }], equippedWeaponId := some "w_club", skills := [] }, { id := "e3", name := "G3", hp := 6, hpMax := 6, mp := 0, mpMax := 0, status := "Unhurt", intent := "", note := "", level := 1, position := 100, speed := 0, movementRemaining := 0, actionUsed := true, defending := false, dodging := true, weapons := [{ id := "w_club", name := "Club", category := "melee", range := 1, equipped := true, damageFormula := "" }], equippedWeaponId := some "w_club", skills := [] }, { id := "e4", name := "G4", hp := 6, hpMax := 6, mp := 0, mpMax := 0, status := "Unhurt", intent := "", note := "", level := 1, position := 100, speed := 0, movementRemaining := 0, actionUsed := true, defending := false, dodging := true, weapons := [{ id := "w_club", name := "Club", category := "melee", range := 1, equipped := true, damageFormula := "" }], equippedWeaponId := some "w_club", skills := [] }, { id := "e5", name := "G5", hp := 6, hpMax := 6, mp := 0, mpMax := 0, status := "Unhurt", intent := "", note := "", level := 1, position := 100, speed := 0, movementRemaining := 0, actionUsed := true, defending := false, dodging := true, weapons := [{ id := "w_club", name := "Club", category := "melee", range := 1, equipped := true, damageFormula := "" }], equippedWeaponId := some "w_club", skills := [] }, { id := "e6", name := "G6", hp := 6, hpMax := 6, mp := 0, mpMax := 0, status := "Unhurt", intent := "", note := "", level := 1, position := 100, speed := 0, movementRemaining := 0, actionUsed := true, defending := false, dodging := true, weapons := [{ id := "w_club", name := "Club", category := "melee", range := 1, equipped := true, damageFormula := "" }], equippedWeaponId := some "w_club", skills := [] }, { id := "e7", name := "G7", hp := 6, hpMax := 6, mp := 0, mpMax := 0, status := "Unhurt", intent := "", note := "", level := 1, position := 100, speed := 0, movementRemaining := 0, actionUsed := true, defending := false, dodging := true, weapons := [{ id := "w_club", name := "Club", category := "melee", range := 1, equipped := true, damageFormula := "" }], equippedWeaponId := some "w_club", skills := [] }, { id := "e8", name := "G8", hp := 6, hpMax := 6, mp := 0, mpMax := 0, status := "Unhurt", intent := "", note := "", level := 1, position := 100, speed := 0, movementRemaining := 0, actionUsed := false, defending := false, dodging := false, weapons := [{ id := "w_club", name := "Club", category := "melee", range := 1, equipped := true, damageFormula := "" }], equippedWeaponId := some "w_club", skills := [] }, { id := "e9", name := "G9", hp := 6, hpMax := 6, mp := 0, mpMax := 0, status := "Unhurt", intent := "", note := "", level := 1, position := 100, speed := 0, movementRemaining := 0, actionUsed := false, defending := false, dodging := false, weapons := [{ id := "w_club", name := "Club", category := "melee", range := 1, equipped := true, damageFormula := "" }], equippedWeaponId := some "w_club", skills := [] }, { id := "e10", name := "G10", hp := 6, hpMax := 6, mp := 0, mpMax := 0, status := "Unhurt", intent := "", note := "", level := 1, position := 100, speed := 0, movementRemaining := 0, actionUsed := false, defending := false, dodging := false, weapons := [{ id := "w_club", name := "Club", category := "melee", range := 1, equipped := true, damageFormula := "" }], equippedWeaponId := some "w_club", skills := [] }, { id := "e11", name := "G11", hp := 6, hpMax := 6, mp := 0, mpMax := 0, status := "Unhurt", intent := "", note := "", level := 1, position := 100, speed := 0, movementRemaining := 0, actionUsed := false, defending := false, dodging := false, weapons := [{ id := "w_club", name := "Club", category := "melee", range := 1, equipped := true, damageFormula := "" }], equippedWeaponId := some "w_club", skills := [] }, { id := "e12", name := "G12", hp := 6, hpMax := 6, mp := 0, mpMax := 0, status := "Unhurt", intent := "", note := "", level := 1, position := 100, speed := 0, movementRemaining := 0, actionUsed := false, defending := false, dodging := false, weapons := [{ id := "w_club", name := "Club", category := "melee", range := 1, equipped := true, damageFormula := "" }], equippedWeaponId := some "w_club", skills := [] }, { id := "e13", name := "G13", hp := 6, hpMax := 6, mp := 0, mpMax := 0, status := "Unhurt", intent := "", note := "", level := 1, position := 100, speed := 0, movementRemaining := 0, actionUsed := false, defending := false, dodging := false, weapons := [{ id := "w_club", name := "Club", category := "melee", range := 1, equipped := true, damageFormula := "" }], equippedWeaponId := some "w_club", skills := [] }, { id := "e14", name := "G14", hp := 6, hpMax := 6, mp := 0, mpMax := 0, status := "Unhurt", intent := "", note := "", level := 1, position := 100, speed := 0, movementRemaining := 0, actionUsed := false, defending := false, dodging := false, weapons := [{ id := "w_club", name := "Club", category := "melee", range := 1, equipped := true, damageFormula := "" }], equippedWeaponId := some "w_club", skills := [] }, { id := "e15", name := "G15", hp := 6, hpMax := 6, mp := 0, mpMax := 0, status := "Unhurt", intent := "", note := "", level := 1, position := 100, speed := 0, movementRemaining := 0, actionUsed := false, defending := false, dodging := false, weapons := [{ id := "w_club", name := "Club", category := "melee", range := 1, equipped := true, damageFormula := "" }], equippedWeaponId := some "w_club", skills := [] }, { id := "e16", name := "G16", hp := 6, hpMax := 6, mp := 0, mpMax := 0, status := "Unhurt", intent := "", note := "", level := 1, position := 100, speed := 0, movementRemaining := 0, actionUsed := false, defending := false, dodging := false, weapons := [{ id := "w_club", name := "Club", category := "melee", range := 1, equipped := true, damageFormula := "" }], equippedWeaponId := some "w_club", skills := [] }, { id := "e17", name := "G17", hp := 6, hpMax := 6, mp := 0, mpMax := 0, status := "Unhurt", intent := "", note := "", level := 1, position := 100, speed := 0, movementRemaining := 0, actionUsed := false, defending := false, dodging := false, weapons := [{ id := "w_club", name := "Club", category := "melee", range := 1, equipped := true, damageFormula := "" }], equippedWeaponId := some "w_club", skills := [] }, { id := "e18", name := "G18", hp := 6, hpMax := 6, mp := 0, mpMax := 0, status := "Unhurt", intent := "", note := "", level := 1, position := 100, speed := 0, movementRemaining := 0, actionUsed := false, defending := false, dodging := false, weapons := [{ id := "w_club", name := "Club", category := "melee", range := 1, equipped := true, damageFormula := "" }], equippedWeaponId := some "w_club", skills := [] }, { id := "e19", name := "G19", hp := 6, hpMax := 6, mp := 0, mpMax := 0, status := "Unhurt", intent := "", note := "", level := 1, position := 100, speed := 0, movementRemaining := 0, actionUsed := false, defending := false, dodging := false, weapons := [{ id := "w_club", name := "Club", category := "melee", range := 1, equipped := true, damageFormula := "" }], equippedWeaponId := some "w_club", skills := [] }, { id := "e20", name := "G20", hp := 6, hpMax := 6, mp := 0, mpMax := 0, status := "Unhurt", intent := "", note := "", level := 1, position := 100, speed := 0, movementRemaining := 0, actionUsed := false, defending := false, dodging := false, weapons := [{ id := "w_club", name := "Club", category := "melee", range := 1, equipped := true, damageFormula := "" }], equippedWeaponId := some "w_club", skills := [] }, { id := "e21", name := "G21", hp := 6, hpMax := 6, mp := 0, mpMax := 0, status := "Unhurt", intent := "", note := "", level := 1, position := 100, speed := 0, movementRemaining := 0, actionUsed := false, defending := false, dodging := false, weapons := [{ id := "w_club", name := "Club", category := "melee", range := 1, equipped := true, damageFormula := "" }], equippedWeaponId := some "w_club", skills := [] }], initiative := [{ id := "pc_game_test", name := "Hero", kind := "pc", initiative := some 22 }, { id := "e1", name := "G1", kind := "enemy", initiative := some 21 }, { id := "e2", name := "G2", kind := "enemy", initiative := some 20 }, { id := "e3", name := "G3", kind := "enemy", initiative := some 19 }, { id := "e4", name := "G4", kind := "enemy", initiative := some 18 }, { id := "e5", name := "G5", kind := "enemy", initiative := some 17 }, { id := "e6", name := "G6", kind := "enemy", initiative := some 16 }, { id := "e7", name := "G7", kind := "enemy", initiative := some 15 }, { id := "e8", name := "G8", kind := "enemy", initiative := some 14 }, { id := "e9", name := "G9", kind := "enemy", initiative := some 13 }, { id := "e10", name := "G10", kind := "enemy", initiative := some 12 }, { id := "e11", name := "G11", kind := "enemy", initiative := some 11 }, { id := "e12", name := "G12", kind := "enemy", initiative := some 10 }, { id := "e13", name := "G13", kind := "enemy", initiative := some 9 }, { id := "e14", name := "G14", kind := "enemy", initiative := some 8 }, { id := "e15", name := "G15", kind := "enemy", initiative := some 7 }, { id := "e16", name := "G16", kind := "enemy", initiative := some 6 }, { id := "e17", name := "G17", kind := "enemy", initiative := some 5 }, { id := "e18", name := "G18", kind := "enemy", initiative := some 4 }, { id := "e19", name := "G19", kind := "enemy", initiative := some 3 }, { id := "e20", name := "G20", kind := "enemy", initiative := some 2 }, { id := "e21", name := "G21", kind := "enemy", initiative := some 1 }], rules := some { meleeRange := 1, actionTypes := ["attack", "defend", "dodge", "use_skill"], moveIsFree := true, oneActionPerTurn := true }, turn := some { actorId := "e8", actorName := "G8", kind := "enemy", actionUsed := false, movementRemaining := 0, equippedWeaponId := some "w_club", availableSkillIds := [] } }, log := [{ id := "log_0", atIso := "", kind := "combat", text := "Turn ends. It is now G1\x27s turn." }, { id := "log_1", atIso := "", kind := "combat", text := "G1 cannot reach attack range and takes evasive movement." }, { id := "log_2", atIso := "", kind := "combat", text := "G2 cannot reach attack range and takes evasive movement." }, { id := "log_3", atIso := "", kind := "combat", text := "G3 cannot reach attack range and takes evasive movement." }, { id := "log_4", atIso := "", kind := "combat", text := "G4 cannot reach attack range and takes evasive movement." }, { id := "log_5", atIso := "", kind := "combat", text := "G5 cannot reach attack range and takes evasive movement." }, { id := "log_6", atIso := "", kind := "combat", text := "G6 cannot reach attack range and takes evasive movement." }, { id := "log_7", atIso := "", kind := "combat", text := "G7 cannot reach attack range and takes evasive movement." }] }

/-- The cascade state after enemy turn 8 (current holder: G9). -/
def c3T8 : Game :=
  { gameId := "game_test", phase := "combat", hp := { current := 12, max := 12 }, mp := { current := 6, max := 6 }, pc := { name := "Hero", level := 1, skills := [] }, inventory := [{ id := "item_sword", name := "Sword", qty := 1, notes := "", weapon := some { id := some "w_sword", name := some "Sword", category := some "melee", range := some 1, equipped := true, damageFormula := some "" } }], combat := some { round := 1, currentTurnId := some "e9", pc := { id := "pc_game_test", name := "Hero", hp := 12, hpMax := 12, mp := 6, mpMax := 6, status := "", intent := "", note := "", level := 1, position := 0, speed := 6, movementRemaining := 6, actionUsed := true, defending := false, dodging := false, weapons := [{ id := "w_sword", name := "Sword", category := "melee", range := 1, equipped := true, damageFormula := "" }, { id := "weapon_unarmed", name := "Default Melee", category := "melee", range := 1, equipped := false, damageFormula := "1" }], equippedWeaponId := some "w_sword", skills := [] }, enemies := [{ id := "e1", name := "G1", hp := 6, hpMax := 6, mp := 0, mpMax := 0, status := "Unhurt", intent := "", note := "", level := 1, position := 100, speed := 0, movementRemaining := 0, actionUsed := true, defending := false, dodging := true, weapons := [{ id := "w_club", name := "Club", category := "melee", range := 1, equipped := true, damageFormula := "" }], equippedWeaponId := some "w_club", skills := [] }, { id := "e2", name := "G2", hp := 6, hpMax := 6, mp := 0, mpMax := 0, status := "Unhurt", intent := "", note := "", level := 1, position := 100, speed := 0, movementRemaining := 0, actionUsed := true, defending := false, dodging := true, weapons := [{ id := "w_club", name := "Club", category := "melee", range := 1, equipped := true, damageFormula := "" }], equippedWeaponId := some "w_club", skills := [] }, { id := "e3", name := "G3", hp := 6, hpMax := 6, mp := 0, mpMax := 0, status := "Unhurt", intent := "", note := "", level := 1, position := 100, speed := 0, movementRemaining := 0, actionUsed := true, defending := false, dodging := true, weapons := [{ id := "w_club", name := "Club", category := "melee", range := 1, equipped := true, damageFormula := "" }], equippedWeaponId := some "w_club", skills := [] }, { id := "e4", name := "G4", hp := 6, hpMax := 6, mp := 0, mpMax := 0, status := "Unhurt", intent := "", note := "", level := 1, position := 100, speed := 0, movementRemaining := 0, actionUsed := true, defending := false, dodging := true, weapons := [{ id := "w_club", name := "Club", category := "melee", range := 1, equipped := true, damageFormula := "" }], equippedWeaponId := some "w_club", skills := [] }, { id := "e5", name := "G5", hp := 6, hpMax := 6, mp := 0, mpMax := 0, status := "Unhurt", intent := "", note := "", level := 1, position := 100, speed := 0, movementRemaining := 0, actionUsed := true, defending := false, dodging := true, weapons := [{ id := "w_club", name := "Club", category := "melee", range := 1, equipped := true, damageFormula := "" }], equippedWeaponId := some "w_club", skills := [] }, { id := "e6", name := "G6", hp := 6, hpMax := 6, mp := 0, mpMax := 0, status := "Unhurt", intent := "", note := "", level := 1, position := 100, speed := 0, movementRemaining := 0, actionUsed := true, defending := false, dodging := true, weapons := [{ id := "w_club", name := "Club", category := "melee", range := 1, equipped := true, damageFormula := "" }], equippedWeaponId := some "w_club", skills := [] }, { id := "e7", name := "G7", hp := 6, hpMax := 6, mp := 0, mpMax := 0, status := "Unhurt", intent := "", note := "", level := 1, position := 100, speed := 0, movementRemaining := 0, actionUsed := true, defending := false, dodging := true, weapons := [{ id := "w_club", name := "Club", category := "melee", range := 1, equipped := true, damageFormula := "" }], equippedWeaponId := some "w_club", skills := [] }, { id := "e8", name := "G8", hp := 6, hpMax := 6, mp := 0, mpMax := 0, status := "Unhurt", intent := "", note := "", level := 1, position := 100, speed := 0, movementRemaining := 0, actionUsed := true, defending := false, dodging := true, weapons := [{ id := "w_club", name := "Club", category := "melee", range := 1, equipped := true, damageFormula := "" }], equippedWeaponId := some "w_club", skills := [] }, { id := "e9", name := "G9", hp := 6, hpMax := 6, mp := 0, mpMax := 0, status := "Unhurt", intent := "", note := "", level := 1, position := 100, speed := 0, movementRemaining := 0, actionUsed := false, defending := false, dodging := false, weapons := [{ id := "w_club", name := "Club", category := "melee", range := 1, equipped := true, damageFormula := "" }], equippedWeaponId := some "w_club", skills := [] }, { id := "e10", name := "G10", hp := 6, hpMax := 6, mp := 0, mpMax := 0, status := "Unhurt", intent := "", note := "", level := 1, position := 100, speed := 0, movementRemaining := 0, actionUsed := false, defending := false, dodging := false, weapons := [{ id := "w_club", name := "Club", category := "melee", range := 1, equipped := true, damageFormula := "" }], equippedWeaponId := some "w_club", skills := [] }, { id := "e11", name := "G11", hp := 6, hpMax := 6, mp := 0, mpMax := 0, status := "Unhurt", intent := "", note := "", level := 1, position := 100, speed := 0, movementRemaining := 0, actionUsed := false, defending := false, dodging := false, weapons := [{ id := "w_club", name := "Club", category := "melee", range := 1, equipped := true, damageFormula := "" }], equippedWeaponId := some "w_club", skills := [] }, { id := "e12", name := "G12", hp := 6, hpMax := 6, mp := 0, mpMax := 0, status := "Unhurt", intent := "", note := "", level := 1, position := 100, speed := 0, movementRemaining := 0, actionUsed := false, defending := false, dodging := false, weapons := [{ id := "w_club", name := "Club", category := "melee", range := 1, equipped := true, damageFormula := "" }], equippedWeaponId := some "w_club", skills := [] }, { id := "e13", name := "G13", hp := 6, hpMax := 6, mp := 0, mpMax := 0, status := "Unhurt", intent := "", note := "", level := 1, position := 100, speed := 0, movementRemaining := 0, actionUsed := false, defending := false, dodging := false, weapons := [{ id := "w_club", name := "Club", category := "melee", range := 1, equipped := true, damageFormula := "" }], equippedWeaponId := some "w_club", skills := [] }, { id := "e14", name := "G14", hp := 6, hpMax := 6, mp := 0, mpMax := 0, status := "Unhurt", intent := "", note := "", level := 1, position := 100, speed := 0, movementRemaining := 0, actionUsed := false, defending := false, dodging := false, weapons := [{ id := "w_club", name := "Club", category := "melee", range := 1, equipped := true, damageFormula := "" }], equippedWeaponId := some "w_club", skills := [] }, { id := "e15", name := "G15", hp := 6, hpMax := 6, mp := 0, mpMax := 0, status := "Unhurt", intent := "", note := "", level := 1, position := 100, speed := 0, movementRemaining := 0, actionUsed := false, defending := false, dodging := false, weapons := [{ id := "w_club", name := "Club", category := "melee", range := 1, equipped := true, damageFormula := "" }], equippedWeaponId := some "w_club", skills := [] }, { id := "e16", name := "G16", hp := 6, hpMax := 6, mp := 0, mpMax := 0, status := "Unhurt", intent := "", note := "", level := 1, position := 100, speed := 0, movementRemaining := 0, actionUsed := false, defending := false, dodging := false, weapons := [{ id := "w_club", name := "Club", category := "melee", range := 1, equipped := true, damageFormula := "" }], equippedWeaponId := some "w_club", skills := [] }, { id := "e17", name := "G17", hp := 6, hpMax := 6, mp := 0, mpMax := 0, status := "Unhurt", intent := "", note := "", level := 1, position := 100, speed := 0, movementRemaining := 0, actionUsed := false, defending := false, dodging := false, weapons := [{ id := "w_club", name := "Club", category := "melee", range := 1, equipped := true, damageFormula := "" }], equippedWeaponId := some "w_club", skills := [] }, { id := "e18", name := "G18", hp := 6, hpMax := 6, mp := 0, mpMax := 0, status := "Unhurt", intent := "", note := "", level := 1, position := 100, speed := 0, movementRemaining := 0, actionUsed := false, defending := false, dodging := false, weapons := [{ id := "w_club", name := "Club", category := "melee", range := 1, equipped := true, damageFormula := "" }], equippedWeaponId := some "w_club", skills := [] }, { id := "e19", name := "G19", hp := 6, hpMax := 6, mp := 0, mpMax := 0, status := "Unhurt", intent := "", note := "", level := 1, position := 100, speed := 0, movementRemaining := 0, actionUsed := false, defending := false, dodging := false, weapons := [{ id := "w_club", name := "Club", category := "melee", range := 1, equipped := true, damageFormula := "" }], equippedWeaponId := some "w_club", skills := [] }, { id := "e20", name := "G20", hp := 6, hpMax := 6, mp := 0, mpMax := 0, status := "Unhurt", intent := "", note := "", level := 1, position := 100, speed := 0, movementRemaining := 0, actionUsed := false, defending := false, dodging := false, weapons := [{ id := "w_club", name := "Club", category := "melee", range := 1, equipped := true, damageFormula := "" }], equippedWeaponId := some "w_club", skills := [] }, { id := "e21", name := "G21", hp := 6, hpMax := 6, mp := 0, mpMax := 0, status := "Unhurt", intent := "", note := "", level := 1, position := 100, speed := 0, movementRemaining := 0, actionUsed := false, defending := false, dodging := false, weapons := [{ id := "w_club", name := "Club", category := "melee", range := 1, equipped := true, damageFormula := "" }], equippedWeaponId := some "w_club", skills := [] }], initiative := [{ id := "pc_game_test", name := "Hero", kind := "pc", initiative := some 22 }, { id := "e1", name := "G1", kind := "enemy", initiative := some 21 }, { id := "e2", name := "G2", kind := "enemy", initiative := some 20 }, { id := "e3", name := "G3", kind := "enemy", initiative := some 19 }, { id := "e4", name := "G4", kind := "enemy", initiative := some 18 }, { id := "e5", name := "G5", kind := "enemy", initiative := some 17 }, { id := "e6", name := "G6", kind := "enemy", initiative := some 16 }, { id := "e7", name := "G7", kind := "enemy", initiative := some 15 }, { id := "e8", name := "G8", kind := "enemy", initiative := some 14 }, { id := "e9", name := "G9", kind := "enemy", initiative := some 13 }, { id := "e10", name := "G10", kind := "enemy", initiative := some 12 }, { id := "e11", name := "G11", kind := "enemy", initiative := some 11 }, { id := "e12", name := "G12", kind := "enemy", initiative := some 10 }, { id := "e13", name := "G13", kind := "enemy", initiative := some 9 }, { id := "e14", name := "G14", kind := "enemy", initiative := some 8 }, { id := "e15", name := "G15", kind := "enemy", initiative := some 7 }, { id := "e16", name := "G16", kind := "enemy", initiative := some 6 }, { id := "e17", name := "G17", kind := "enemy", initiative := some 5 }, { id := "e18", name := "G18", kind := "enemy", initiative := some 4 }, { id := "e19", name := "G19", kind := "enemy", initiative := some 3 }, { id := "e20", name := "G20", kind := "enemy", initiative := some 2 }, { id := "e21", name := "G21", kind := "enemy", initiative := some 1 }], rules := some { meleeRange := 1, actionTypes := ["attack", "defend", "dodge", "use_skill"], moveIsFree := true, oneActionPerTurn := true }, turn := some { actorId := "e9", actorName := "G9", kind := "enemy", actionUsed := false, movementRemaining := 0, equippedWeaponId := some "w_club", availableSkillIds := [] } }, log := [{ id := "log_0", atIso := "", kind := "combat", text := "Turn ends. It is now G1\x27s turn." }, { id := "log_1", atIso := "", kind := "combat", text := "G1 cannot reach attack range and takes evasive movement." }, { id := "log_2", atIso := "", kind := "combat", text := "G2 cannot reach attack range and takes evasive movement." }, { id := "log_3", atIso := "", kind := "combat", text := "G3 cannot reach attack range and takes evasive movement." }, { id := "log_4", atIso := "", kind := "combat", text := "G4 cannot reach attack range and takes evasive movement." }, { id := "log_5", atIso := "", kind := "combat", text := "G5 cannot reach attack range and takes evasive movement." }, { id := "log_6", atIso := "", kind := "combat", text := "G6 cannot reach attack range and takes evasive movement." }, { id := "log_7", atIso := "", kind := "combat", text := "G7 cannot reach attack range and takes evasive movement." }, { id := "log_8", atIso := "", kind := "combat", text := "G8 cannot reach attack range and takes evasive movement." }] }

/-- The cascade state after enemy turn 9 (current holder: G10). -/
def c3T9 : Game :=
  { gameId := "game_test", phase := "combat", hp := { current := 12, max := 12 }, mp := { current := 6, max := 6 }, pc := { name := "Hero", level := 1, skills := [] }, inventory := [{ id := "item_sword", name := "Sword", qty := 1, notes := "", weapon := some { id := some "w_sword", name := some "Sword", category := some "melee", range := some 1, equipped := true, damageFormula := some "" } }], combat := some { round := 1, currentTurnId := some "e10", pc := { id := "pc_game_test", name := "Hero", hp := 12, hpMax := 12, mp := 6, mpMax := 6, status := "", intent := "", note := "", level := 1, position := 0, speed := 6, movementRemaining := 6, actionUsed := true, defending := false, dodging := false, weapons := [{ id := "w_sword", name := "Sword", category := "melee", range := 1, equipped := true, damageFormula := "" }, { id := "weapon_unarmed", name := "Default Melee", category := "melee", range := 1, equipped := false, damageFormula := "1" }], equippedWeaponId := some "w_sword", skills := [] }, enemies := [{ id := "e1", name := "G1", hp := 6, hpMax := 6, mp := 0, mpMax := 0, status := "Unhurt", intent := "", note := "", level := 1, position := 100, speed := 0, movementRemaining := 0, actionUsed := true, defending := false, dodging := true, weapons := [{ id := "w_club", name := "Club", category := "melee", range := 1, equipped := true, damageFormula := "" }], equippedWeaponId := some "w_club", skills := [] }, { id := "e2", name := "G2", hp := 6, hpMax := 6, mp := 0, mpMax := 0, status := "Unhurt", intent := "", note := "", level := 1, position := 100, speed := 0, movementRemaining := 0, actionUsed := true, defending := false, dodging := true, weapons := [{ id := "w_club", name := "Club", category := "melee", range := 1, equipped := true, damageFormula := "" }], equippedWeaponId := some "w_club", skills := [] }, { id := "e3", name := "G3", hp := 6, hpMax := 6, mp := 0, mpMax := 0, status := "Unhurt", intent := "", note := "", level := 1, position := 100, speed := 0, movementRemaining := 0, actionUsed := true, defending := false, dodging := true, weapons := [{ id := "w_club", name := "Club", category := "melee", range := 1, equipped := true, damageFormula := "" }], equippedWeaponId := some "w_club", skills := [] }, { id := "e4", name := "G4", hp := 6, hpMax := 6, mp := 0, mpMax := 0, status := "Unhurt", intent := "", note := "", level := 1, position := 100, speed := 0, movementRemaining := 0, actionUsed := true, defending := false, dodging := true, weapons := [{ id := "w_club", name := "Club", category := "melee", range := 1, equipped := true, damageFormula := "" }], equippedWeaponId := some "w_club", skills := [] }, { id := "e5", name := "G5", hp := 6, hpMax := 6, mp := 0, mpMax := 0, status := "Unhurt", intent := "", note := "", level := 1, position := 100, speed := 0, movementRemaining := 0, actionUsed := true, defending := false, dodging := true, weapons := [{ id := "w_club", name := "Club", category := "melee", range := 1, equipped := true, damageFormula := "" }], equippedWeaponId := some "w_club", skills := [] }, { id := "e6", name := "G6", hp := 6, hpMax := 6, mp := 0, mpMax := 0, status := "Unhurt", intent := "", note := "", level := 1, position := 100, speed := 0, movementRemaining := 0, actionUsed := true, defending := false, dodging := true, weapons := [{ id := "w_club", name := "Club", category := "melee", range := 1, equipped := true, damageFormula := "" }], equippedWeaponId := some "w_club", skills := [] }, { id := "e7", name := "G7", hp := 6, hpMax := 6, mp := 0, mpMax := 0, status := "Unhurt", intent := "", note := "", level := 1, position := 100, speed := 0, movementRemaining := 0, actionUsed := true, defending := false, dodging := true, weapons := [{ id := "w_club", name := "Club", category := "melee", range := 1, equipped := true, damageFormula := "" }], equippedWeaponId := some "w_club", skills := [] }, { id := "e8", name := "G8", hp := 6, hpMax := 6, mp := 0, mpMax := 0, status := "Unhurt", intent := "", note := "", level := 1, position := 100, speed := 0, movementRemaining := 0, actionUsed := true, defending := false, dodging := true, weapons := [{ id := "w_club", name := "Club", category := "melee", range := 1, equipped := true, damageFormula := "" }], equippedWeaponId := some "w_club", skills := [] }, { id := "e9", name := "G9", hp := 6, hpMax := 6, mp := 0, mpMax := 0, status := "Unhurt", intent := "", note := "", level := 1, position := 100, speed := 0, movementRemaining := 0, actionUsed := true, defending := false, dodging := true, weapons := [{ id := "w_club", name := "Club", category := "melee", range := 1, equipped := true, damageFormula := "" }], equippedWeaponId := some "w_club", skills := [] }, { id := "e10", name := "G10", hp := 6, hpMax := 6, mp := 0, mpMax := 0, status := "Unhurt", intent := "", note := "", level := 1, position := 100, speed := 0, movementRemaining := 0, actionUsed := false, defending := false, dodging := false, weapons := [{ id := "w_club", name := "Club", category := "melee", range := 1, equipped := true, damageFormula := "" }], equippedWeaponId := some "w_club", skills := [] }, { id := "e11", name := "G11", hp := 6, hpMax := 6, mp := 0, mpMax := 0, status := "Unhurt", intent := "", note := "", level := 1, position := 100, speed := 0, movementRemaining := 0, actionUsed := false, defending := false, dodging := false, weapons := [{ id := "w_club", name := "Club", category := "melee", range := 1, equipped := true, damageFormula := "" }], equippedWeaponId := some "w_club", skills := [] }, { id := "e12", name := "G12", hp := 6, hpMax := 6, mp := 0, mpMax := 0, status := "Unhurt", intent := "", note := "", level := 1, position := 100, speed := 0, movementRemaining := 0, actionUsed := false, defending := false, dodging := false, weapons := [{ id := "w_club", name := "Club", category := "melee", range := 1, equipped := true, damageFormula := "" }], equippedWeaponId := some "w_club", skills := [] }, { id := "e13", name := "G13", hp := 6, hpMax := 6, mp := 0, mpMax := 0, status := "Unhurt", intent := "", note := "", level := 1, position := 100, speed := 0, movementRemaining := 0, actionUsed := false, defending := false, dodging := false, weapons := [{ id := "w_club", name := "Club", category := "melee", range := 1, equipped := true, damageFormula := "" }], equippedWeaponId := some "w_club", skills := [] }, { id := "e14", name := "G14", hp := 6, hpMax := 6, mp := 0, mpMax := 0, status := "Unhurt", intent := "", note := "", level := 1, position := 100, speed := 0, movementRemaining := 0, actionUsed := false, defending := false, dodging := false, weapons := [{ id := "w_club", name := "Club", category := "melee", range := 1, equipped := true, damageFormula := "" }], equippedWeaponId := some "w_club", skills := [] }, { id := "e15", name := "G15", hp := 6, hpMax := 6, mp := 0, mpMax := 0, status := "Unhurt", intent := "", note := "", level := 1, position := 100, speed := 0, movementRemaining := 0, actionUsed := false, defending := false, dodging := false, weapons := [{ id := "w_club", name := "Club", category := "melee", range := 1, equipped := true, damageFormula := "" }], equippedWeaponId := some "w_club", skills := [] }, { id := "e16", name := "G16", hp := 6, hpMax := 6, mp := 0, mpMax := 0, status := "Unhurt", intent := "", note := "", level := 1, position := 100, speed := 0, movementRemaining := 0, actionUsed := false, defending := false, dodging := false, weapons := [{ id := "w_club", name := "Club", category := "melee", range := 1, equipped := true, damageFormula := "" }], equippedWeaponId := some "w_club", skills := [] }, { id := "e17", name := "G17", hp := 6, hpMax := 6, mp := 0, mpMax := 0, status := "Unhurt", intent := "", note := "", level := 1, position := 100, speed := 0, movementRemaining := 0, actionUsed := false, defending := false, dodging := false, weapons := [{ id := "w_club", name := "Club", category := "melee", range := 1, equipped := true, damageFormula := "" }], equippedWeaponId := some "w_club", skills := [] }, { id := "e18", name := "G18", hp := 6, hpMax := 6, mp := 0, mpMax := 0, status := "Unhurt", intent := "", note := "", level := 1, position := 100, speed := 0, movementRemaining := 0, actionUsed := false, defending := false, dodging := false, weapons := [{ id := "w_club", name := "Club", category := "melee", range := 1, equipped := true, damageFormula := "" }], equippedWeaponId := some "w_club", skills := [] }, { id := "e19", name := "G19", hp := 6, hpMax := 6, mp := 0, mpMax := 0, status := "Unhurt", intent := "", note := "", level := 1, position := 100, speed := 0, movementRemaining := 0, actionUsed := false, defending := false, dodging := false, weapons := [{ id := "w_club", name := "Club", category := "melee", range := 1, equipped := true, damageFormula := "" }], equippedWeaponId := some "w_club", skills := [] }, { id := "e20", name := "G20", hp := 6, hpMax := 6, mp := 0, mpMax := 0, status := "Unhurt", intent := "", note := "", level := 1, position := 100, speed := 0, movementRemaining := 0, actionUsed := false, defending := false, dodging := false, weapons := [{ id := "w_club", name := "Club", category := "melee", range := 1, equipped := true, damageFormula := "" }], equippedWeaponId := some "w_club", skills := [] }, { id := "e21", name := "G21", hp := 6, hpMax := 6, mp := 0, mpMax := 0, status := "Unhurt", intent := "", note := "", level := 1, position := 100, speed := 0, movementRemaining := 0, actionUsed := false, defending := false, dodging := false, weapons := [{ id := "w_club", name := "Club", category := "melee", range := 1, equipped := true, damageFormula := "" }], equippedWeaponId := some "w_club", skills := [] }], initiative := [{ id := "pc_game_test", name := "Hero", kind := "pc", initiative := some 22 }, { id := "e1", name := "G1", kind := "enemy", initiative := some 21 }, { id := "e2", name := "G2", kind := "enemy", initiative := some 20 }, { id := "e3", name := "G3", kind := "enemy", initiative := some 19 }, { id := "e4", name := "G4", kind := "enemy", initiative := some 18 }, { id := "e5", name := "G5", kind := "enemy", initiative := some 17 }, { id := "e6", name := "G6", kind := "enemy", initiative := some 16 }, { id := "e7", name := "G7", kind := "enemy", initiative := some 15 }, { id := "e8", name := "G8", kind := "enemy", initiative := some 14 }, { id := "e9", name := "G9", kind := "enemy", initiative := some 13 }, { id := "e10", name := "G10", kind := "enemy", initiative := some 12 }, { id := "e11", name := "G11", kind := "enemy", initiative := some 11 }, { id := "e12", name := "G12", kind := "enemy", initiative := some 10 }, { id := "e13", name := "G13", kind := "enemy", initiative := some 9 }, { id := "e14", name := "G14", kind := "enemy", initiative := some 8 }, { id := "e15", name := "G15", kind := "enemy", initiative := some 7 }, { id := "e16", name := "G16", kind := "enemy", initiative := some 6 }, { id := "e17", name := "G17", kind := "enemy", initiative := some 5 }, { id := "e18", name := "G18", kind := "enemy", initiative := some 4 }, { id := "e19", name := "G19", kind := "enemy", initiative := some 3 }, { id := "e20", name := "G20", kind := "enemy", initiative := some 2 }, { id := "e21", name := "G21", kind := "enemy", initiative := some 1 }], rules := some { meleeRange := 1, actionTypes := ["attack", "defend", "dodge", "use_skill"], moveIsFree := true, oneActionPerTurn := true }, turn := some { actorId := "e10", actorName := "G10", kind := "enemy", actionUsed := false, movementRemaining := 0, equippedWeaponId := some "w_club", availableSkillIds := [] } }, log := [{ id := "log_0", atIso := "", kind := "combat", text := "Turn ends. It is now G1\x27s turn." }, { id := "log_1", atIso := "", kind := "combat", text := "G1 cannot reach attack range and takes evasive movement." }, { id := "log_2", atIso := "", kind := "combat", text := "G2 cannot reach attack range and takes evasive movement." }, { id := "log_3", atIso := "", kind := "combat", text := "G3 cannot reach attack range and takes evasive movement." }, { id := "log_4", atIso := "", kind := "combat", text := "G4 cannot reach attack range and takes evasive movement." }, { id := "log_5", atIso := "", kind := "combat", text := "G5 cannot reach attack range and takes evasive movement." }, { id := "log_6", atIso := "", kind := "combat", text := "G6 cannot reach attack range and takes evasive movement." }, { id := "log_7", atIso := "", kind := "combat", text := "G7 cannot reach attack range and takes evasive movement." }, { id := "log_8", atIso := "", kind := "combat", text := "G8 cannot reach attack range and takes evasive movement." }, { id := "log_9", atIso := "", kind := "combat", text := "G9 cannot reach attack range and takes evasive movement." }] }

/-- The cascade state after enemy turn 10 (current holder: G11). -/
def c3T10 : Game :=
  { gameId := "game_test", phase := "combat", hp := { current := 12, max := 12 }, mp := { current := 6, max := 6 }, pc := { name := "Hero", level := 1, skills := [] }, inventory := [{ id := "item_sword", name := "Sword", qty := 1, notes := "", weapon := some { id := some "w_sword", name := some "Sword", category := some "melee", range := some 1, equipped := true, damageFormula := some "" } }], combat := some { round := 1, currentTurnId := some "e11", pc := { id := "pc_game_test", name := "Hero", hp := 12, hpMax := 12, mp := 6, mpMax := 6, status := "", intent := "", note := "", level := 1, position := 0, speed := 6, movementRemaining := 6, actionUsed := true, defending := false, dodging := false, weapons := [{ id := "w_sword", name := "Sword", category := "melee", range := 1, equipped := true, damageFormula := "" }, { id := "weapon_unarmed", name := "Default Melee", category := "melee", range := 1, equipped := false, damageFormula := "1" }], equippedWeaponId := some "w_sword", skills := [] }, enemies := [{ id := "e1", name := "G1", hp := 6, hpMax := 6, mp := 0, mpMax := 0, status := "Unhurt", intent := "", note := "", level := 1, position := 100, speed := 0, movementRemaining := 0, actionUsed := true, defending := false, dodging := true, weapons := [{ id := "w_club", name := "Club", category := "melee", range := 1, equipped := true, damageFormula := "" }], equippedWeaponId := some "w_club", skills := [] }, { id := "e2", name := "G2", hp := 6, hpMax := 6, mp := 0, mpMax := 0, status := "Unhurt", intent := "", note := "", level := 1, position := 100, speed := 0, movementRemaining := 0, actionUsed := true, defending := false, dodging := true, weapons := [{ id := "w_club", name := "Club", category := "melee", range := 1, equipped := true, damageFormula := "" }], equippedWeaponId := some "w_club", skills := [] }, { id := "e3", name := "G3", hp := 6, hpMax := 6, mp := 0, mpMax := 0, status := "Unhurt", intent := "", note := "", level := 1, position := 100, speed := 0, movementRemaining := 0, actionUsed := true, defending := false, dodging := true, weapons := [{ id := "w_club", name := "Club", category := "melee", range := 1, equipped := true, damageFormula := "" }], equippedWeaponId := some "w_club", skills := [] }, { id := "e4", name := "G4", hp := 6, hpMax := 6, mp := 0, mpMax := 0, status := "Unhurt", intent := "", note := "", level := 1, position := 100, speed := 0, movementRemaining := 0, actionUsed := true, defending := false, dodging := true, weapons := [{ id := "w_club", name := "Club", category := "melee", range := 1, equipped := true, damageFormula := "" }], equippedWeaponId := some "w_club", skills := [] }, { id := "e5", name := "G5", hp := 6, hpMax := 6, mp := 0, mpMax := 0, status := "Unhurt", intent := "", note := "", level := 1, position := 100, speed := 0, movementRemaining := 0, actionUsed := true, defending := false, dodging := true, weapons := [{ id := "w_club", name := "Club", category := "melee", range := 1, equipped := true, damageFormula := "" }], equippedWeaponId := some "w_club", skills := [] }, { id := "e6", name := "G6", hp := 6, hpMax := 6, mp := 0, mpMax := 0, status := "Unhurt", intent := "", note := "", level := 1, position := 100, speed := 0, movementRemaining := 0, actionUsed := true, defending := false, dodging := true, weapons := [{ id := "w_club", name := "Club", category := "melee", range := 1, equipped := true, damageFormula := "" }], equippedWeaponId := some "w_club", skills := [] }, { id := "e7", name := "G7", hp := 6, hpMax := 6, mp := 0, mpMax := 0, status := "Unhurt", intent := "", note := "", level := 1, position := 100, speed := 0, movementRemaining := 0, actionUsed := true, defending := false, dodging := true, weapons := [{ id := "w_club", name := "Club", category := "melee", range := 1, equipped := true, damageFormula := "" }], equippedWeaponId := some "w_club", skills := [] }, { id := "e8", name := "G8", hp := 6, hpMax := 6, mp := 0, mpMax := 0, status := "Unhurt", intent := "", note := "", level := 1, position := 100, speed := 0, movementRemaining := 0, actionUsed := true, defending := false, dodging := true, weapons := [{ id := "w_club", name := "Club", category := "melee", range := 1, equipped := true, damageFormula := "" }], equippedWeaponId := some "w_club", skills := [] }, { id := "e9", name := "G9", hp := 6, hpMax := 6, mp := 0, mpMax := 0, status := "Unhurt", intent := "", note := "", level := 1, position := 100, speed := 0, movementRemaining := 0, actionUsed := true, defending := false, dodging := true, weapons := [{ id := "w_club", name := "Club", category := "melee", range := 1, equipped := true, damageFormula := "" }], equippedWeaponId := some "w_club", skills := [] }, { id := "e10", name := "G10", hp := 6, hpMax := 6, mp := 0, mpMax := 0, status := "Unhurt", intent := "", note := "", level := 1, position := 100, speed := 0, movementRemaining := 0, actionUsed := true, defending := false, dodging := true, weapons := [{ id := "w_club", name := "Club", category := "melee", range := 1, equipped := true, damageFormula := "" }], equippedWeaponId := some "w_club", skills := [] }, { id := "e11", name := "G11", hp := 6, hpMax := 6, mp := 0, mpMax := 0, status := "Unhurt", intent := "", note := "", level := 1, position := 100, speed := 0, movementRemaining := 0, actionUsed := false, defending := false, dodging := false, weapons := [{ id := "w_club", name := "Club", category := "melee", range := 1, equipped := true, damageFormula := "" }], equippedWeaponId := some "w_club", skills := [] }, { id := "e12", name := "G12", hp := 6, hpMax := 6, mp := 0, mpMax := 0, status := "Unhurt", intent := "", note := "", level := 1, position := 100, speed := 0, movementRemaining := 0, actionUsed := false, defending := false, dodging := false, weapons := [{ id := "w_club", name := "Club", category := "melee", range := 1, equipped := true, damageFormula := "" }], equippedWeaponId := some "w_club", skills := [] }, { id := "e13", name := "G13", hp := 6, hpMax := 6, mp := 0, mpMax := 0, status := "Unhurt", intent := "", note := "", level := 1, position := 100, speed := 0, movementRemaining := 0, actionUsed := false, defending := false, dodging := false, weapons := [{ id := "w_club", name := "Club", category := "melee", range := 1, equipped := true, damageFormula := "" }], equippedWeaponId := some "w_club", skills := [] }, { id := "e14", name := "G14", hp := 6, hpMax := 6, mp := 0, mpMax := 0, status := "Unhurt", intent := "", note := "", level := 1, position := 100, speed := 0, movementRemaining := 0, actionUsed := false, defending := false, dodging := false, weapons := [{ id := "w_club", name := "Club", category := "melee", range := 1, equipped := true, damageFormula := "" }], equippedWeaponId := some "w_club", skills := [] }, { id := "e15", name := "G15", hp := 6, hpMax := 6, mp := 0, mpMax := 0, status := "Unhurt", intent := "", note := "", level := 1, position := 100, speed := 0, movementRemaining := 0, actionUsed := false, defending := false, dodging := false, weapons := [{ id := "w_club", name := "Club", category := "melee", range := 1, equipped := true, damageFormula := "" }], equippedWeaponId := some "w_club", skills := [] }, { id := "e16", name := "G16", hp := 6, hpMax := 6, mp := 0, mpMax := 0, status := "Unhurt", intent := "", note := "", level := 1, position := 100, speed := 0, movementRemaining := 0, actionUsed := false, defending := false, dodging := false, weapons := [{ id := "w_club", name := "Club", category := "melee", range := 1, equipped := true, damageFormula := "" }], equippedWeaponId := some "w_club", skills := [] }, { id := "e17", name := "G17", hp := 6, hpMax := 6, mp := 0, mpMax := 0, status := "Unhurt", intent := "", note := "", level := 1, position := 100, speed := 0, movementRemaining := 0, actionUsed := false, defending := false, dodging := false, weapons := [{ id := "w_club", name := "Club", category := "melee", range := 1, equipped := true, damageFormula := "" }], equippedWeaponId := some "w_club", skills := [] }, { id := "e18", name := "G18", hp := 6, hpMax := 6, mp := 0, mpMax := 0, status := "Unhurt", intent := "", note := "", level := 1, position := 100, speed := 0, movementRemaining := 0, actionUsed := false, defending := false, dodging := false, weapons := [{ id := "w_club", name := "Club", category := "melee", range := 1, equipped := true, damageFormula := "" }], equippedWeaponId := some "w_club", skills := [] }, { id := "e19", name := "G19", hp := 6, hpMax := 6, mp := 0, mpMax := 0, status := "Unhurt", intent := "", note := "", level := 1, position := 100, speed := 0, movementRemaining := 0, actionUsed := false, defending := false, dodging := false, weapons := [{ id := "w_club", name := "Club", category := "melee", range := 1, equipped := true, damageFormula := "" }], equippedWeaponId := some "w_club", skills := [] }, { id := "e20", name := "G20", hp := 6, hpMax := 6, mp := 0, mpMax := 0, status := "Unhurt", intent := "", note := "", level := 1, position := 100, speed := 0, movementRemaining := 0, actionUsed := false, defending := false, dodging := false, weapons := [{ id := "w_club", name := "Club", category := "melee", range := 1, equipped := true, damageFormula := "" }], equippedWeaponId := some "w_club", skills := [] }, { id := "e21", name := "G21", hp := 6, hpMax := 6, mp := 0, mpMax := 0, status := "Unhurt", intent := "", note := "", level := 1, position := 100, speed := 0, movementRemaining := 0, actionUsed := false, defending := false, dodging := false, weapons := [{ id := "w_club", name := "Club", category := "melee", range := 1, equipped := true, damageFormula := "" }], equippedWeaponId := some "w_club", skills := [] }], initiative := [{ id := "pc_game_test", name := "Hero", kind := "pc", initiative := some 22 }, { id := "e1", name := "G1", kind := "enemy", initiative := some 21 }, { id := "e2", name := "G2", kind := "enemy", initiative := some 20 }, { id := "e3", name := "G3", kind := "enemy", initiative := some 19 }, { id := "e4", name := "G4", kind := "enemy", initiative := some 18 }, { id := "e5", name := "G5", kind := "enemy", initiative := some 17 }, { id := "e6", name := "G6", kind := "enemy", initiative := some 16 }, { id := "e7", name := "G7", kind := "enemy", initiative := some 15 }, { id := "e8", name := "G8", kind := "enemy", initiative := some 14 }, { id := "e9", name := "G9", kind := "enemy", initiative := some 13 }, { id := "e10", name := "G10", kind := "enemy", initiative := some 12 }, { id := "e11", name := "G11", kind := "enemy", initiative := some 11 }, { id := "e12", name := "G12", kind := "enemy", initiative := some 10 }, { id := "e13", name := "G13", kind := "enemy", initiative := some 9 }, { id := "e14", name := "G14", kind := "enemy", initiative := some 8 }, { id := "e15", name := "G15", kind := "enemy", initiative := some 7 }, { id := "e16", name := "G16", kind := "enemy", initiative := some 6 }, { id := "e17", name := "G17", kind := "enemy", initiative := some 5 }, { id := "e18", name := "G18", kind := "enemy", initiative := some 4 }, { id := "e19", name := "G19", kind := "enemy", initiative := some 3 }, { id := "e20", name := "G20", kind := "enemy", initiative := some 2 }, { id := "e21", name := "G21", kind := "enemy", initiative := some 1 }], rules := some { meleeRange := 1, actionTypes := ["attack", "defend", "dodge", "use_skill"], moveIsFree := true, oneActionPerTurn := true }, turn := some { actorId := "e11", actorName := "G11", kind := "enemy", actionUsed := false, movementRemaining := 0, equippedWeaponId := some "w_club", availableSkillIds := [] } }, log := [{ id := "log_0", atIso := "", kind := "combat", text := "Turn ends. It is now G1\x27s turn." }, { id := "log_1", atIso := "", kind := "combat", text := "G1 cannot reach attack range and takes evasive movement." }, { id := "log_2", atIso := "", kind := "combat", text := "G2 cannot reach attack range and takes evasive movement." }, { id := "log_3", atIso := "", kind := "combat", text := "G3 cannot reach attack range and takes evasive movement." }, { id := "log_4", atIso := "", kind := "combat", text := "G4 cannot reach attack range and takes evasive movement." }, { id := "log_5", atIso := "", kind := "combat", text := "G5 cannot reach attack range and takes evasive movement." }, { id := "log_6", atIso := "", kind := "combat", text := "G6 cannot reach attack range and takes evasive movement." }, { id := "log_7", atIso := "", kind := "combat", text := "G7 cannot reach attack range and takes evasive movement." }, { id := "log_8", atIso := "", kind := "combat", text := "G8 cannot reach attack range and takes evasive movement." }, { id := "log_9", atIso := "", kind := "combat", text := "G9 cannot reach attack range and takes evasive movement." }, { id := "log_10", atIso := "", kind := "combat", text := "G10 cannot reach attack range and takes evasive movement." }] }

/-- The cascade state after enemy turn 11 (current holder: G12). -/
def c3T11 : Game :=
  { gameId := "game_test", phase := "combat", hp := { current := 12, max := 12 }, mp := { current := 6, max := 6 }, pc := { name := "Hero", level := 1, skills := [] }, inventory := [{ id := "item_sword", name := "Sword", qty := 1, notes := "", weapon := some { id := some "w_sword", name := some "Sword", category := some "melee", range := some 1, equipped := true, damageFormula := some "" } }], combat := some { round := 1, currentTurnId := some "e12", pc := { id := "pc_game_test", name := "Hero", hp := 12, hpMax := 12, mp := 6, mpMax := 6, status := "", intent := "", note := "", level := 1, position := 0, speed := 6, movementRemaining := 6, actionUsed := true, defending := false, dodging := false, weapons := [{ id := "w_sword", name := "Sword", category := "melee", range := 1, equipped := true, damageFormula := "" }, { id := "weapon_unarmed", name := "Default Melee", category := "melee", range := 1, equipped := false, damageFormula := "1" }], equippedWeaponId := some "w_sword", skills := [] }, enemies := [{ id := "e1", name := "G1", hp := 6, hpMax := 6, mp := 0, mpMax := 0, status := "Unhurt", intent := "", note := "", level := 1, position := 100, speed := 0, movementRemaining := 0, actionUsed := true, defending := false, dodging := true, weapons := [{ id := "w_club", name := "Club", category := "melee", range := 1, equipped := true, damageFormula := "" }], equippedWeaponId := some "w_club", skills := [] }, { id := "e2", name := "G2", hp := 6, hpMax := 6, mp := 0, mpMax := 0, status := "Unhurt", intent := "", note := "", level := 1, position := 100, speed := 0, movementRemaining := 0, actionUsed := true, defending := false, dodging := true, weapons := [{ id := "w_club", name := "Club", category := "melee", range := 1, equipped := true, damageFormula := "" }], equippedWeaponId := some "w_club", skills := [] }, { id := "e3", name := "G3", hp := 6, hpMax := 6, mp := 0, mpMax := 0, status := "Unhurt", intent := "", note := "", level := 1, position := 100, speed := 0, movementRemaining := 0, actionUsed := true, defending := false, dodging := true, weapons := [{ id := "w_club", name := "Club", category := "melee", range := 1, equipped := true, damageFormula := "" }], equippedWeaponId := some "w_club", skills := [] }, { id := "e4", name := "G4", hp := 6, hpMax := 6, mp := 0, mpMax := 0, status := "Unhurt", intent := "", note := "", level := 1, position := 100, speed := 0, movementRemaining := 0, actionUsed := true, defending := false, dodging := true, weapons := [{ id := "w_club", name := "Club", category := "melee", range := 1, equipped := true, damageFormula := "" }], equippedWeaponId := some "w_club", skills := [] }, { id := "e5", name := "G5", hp := 6, hpMax := 6, mp := 0, mpMax := 0, status := "Unhurt", intent := "", note := "", level := 1, position := 100, speed := 0, movementRemaining := 0, actionUsed := true, defending := false, dodging := true, weapons := [{ id := "w_club", name := "Club", category := "melee", range := 1, equipped := true, damageFormula := "" }], equippedWeaponId := some "w_club", skills := [] }, { id := "e6", name := "G6", hp := 6, hpMax := 6, mp := 0, mpMax := 0, status := "Unhurt", intent := "", note := "", level := 1, position := 100, speed := 0, movementRemaining := 0, actionUsed := true, defending := false, dodging := true, weapons := [{ id := "w_club", name := "Club", category := "melee", range := 1, equipped := true, damageFormula := "" }], equippedWeaponId := some "w_club", skills := [] }, { id := "e7", name := "G7", hp := 6, hpMax := 6, mp := 0, mpMax := 0, status := "Unhurt", intent := "", note := "", level := 1, position := 100, speed := 0, movementRemaining := 0, actionUsed := true, defending := false, dodging := true, weapons := [{ id := "w_club", name := "Club", category := "melee", range := 1, equipped := true, damageFormula := "" }], equippedWeaponId := some "w_club", skills := [] }, { id := "e8", name := "G8", hp := 6, hpMax := 6, mp := 0, mpMax := 0, status := "Unhurt", intent := "", note := "", level := 1, position := 100, speed := 0, movementRemaining := 0, actionUsed := true, defending := false, dodging := true, weapons := [{ id := "w_club", name := "Club", category := "melee", range := 1, equipped := true, damageFormula := "" }], equippedWeaponId := some "w_club", skills := [] }, { id := "e9", name := "G9", hp := 6, hpMax := 6, mp := 0, mpMax := 0, status := "Unhurt", intent := "", note := "", level := 1, position := 100, speed := 0, movementRemaining := 0, actionUsed := true, defending := false, dodging := true, weapons := [{ id := "w_club", name := "Club", category := "melee", range := 1, equipped := true, damageFormula := "" }], equippedWeaponId := some "w_club", skills := [] }, { id := "e10", name := "G10", hp := 6, hpMax := 6, mp := 0, mpMax := 0, status := "Unhurt", intent := "", note := "", level := 1, position := 100, speed := 0, movementRemaining := 0, actionUsed := true, defending := false, dodging := true, weapons := [{ id := "w_club", name := "Club", category := "melee", range := 1, equipped := true, damageFormula := "" }], equippedWeaponId := some "w_club", skills := [] }, { id := "e11", name := "G11", hp := 6, hpMax := 6, mp := 0, mpMax := 0, status := "Unhurt", intent := "", note := "", level := 1, position := 100, speed := 0, movementRemaining := 0, actionUsed := true, defending := false, dodging := true, weapons := [{ id := "w_club", name := "Club", category := "melee", range := 1, equipped := true, damageFormula := "" }], equippedWeaponId := some "w_club", skills := [] }, { id := "e12", name := "G12", hp := 6, hpMax := 6, mp := 0, mpMax := 0, status := "Unhurt", intent := "", note := "", level := 1, position := 100, speed := 0, movementRemaining := 0, actionUsed := false, defending := false, dodging := false, weapons := [{ id := "w_club", name := "Club", category := "melee", range := 1, equipped := true, damageFormula := "" }], equippedWeaponId := some "w_club", skills := [] }, { id := "e13", name := "G13", hp := 6, hpMax := 6, mp := 0, mpMax := 0, status := "Unhurt", intent := "", note := "", level := 1, position := 100, speed := 0, movementRemaining := 0, actionUsed := false, defending := false, dodging := false, weapons := [{ id := "w_club", name := "Club", category := "melee", range := 1, equipped := true, damageFormula := "" }], equippedWeaponId := some "w_club", skills := [] }, { id := "e14", name := "G14", hp := 6, hpMax := 6, mp := 0, mpMax := 0, status := "Unhurt", intent := "", note := "", level := 1, position := 100, speed := 0, movementRemaining := 0, actionUsed := false, defending := false, dodging := false, weapons := [{ id := "w_club", name := "Club", category := "melee", range := 1, equipped := true, damageFormula := "" }], equippedWeaponId := some "w_club", skills := [] }, { id := "e15", name := "G15", hp := 6, hpMax := 6, mp := 0, mpMax := 0, status := "Unhurt", intent := "", note := "", level := 1, position := 100, speed := 0, movementRemaining := 0, actionUsed := false, defending := false, dodging := false, weapons := [{ id := "w_club", name := "Club", category := "melee", range := 1, equipped := true, damageFormula := "" }], equippedWeaponId := some "w_club", skills := [] }, { id := "e16", name := "G16", hp := 6, hpMax := 6, mp := 0, mpMax := 0, status := "Unhurt", intent := "", note := "", level := 1, position := 100, speed := 0, movementRemaining := 0, actionUsed := false, defending := false, dodging := false, weapons := [{ id := "w_club", name := "Club", category := "melee", range := 1, equipped := true, damageFormula := "" }], equippedWeaponId := some "w_club", skills := [] }, { id := "e17", name := "G17", hp := 6, hpMax := 6, mp := 0, mpMax := 0, status := "Unhurt", intent := "", note := "", level := 1, position := 100, speed := 0, movementRemaining := 0, actionUsed := false, defending := false, dodging := false, weapons := [{ id := "w_club", name := "Club", category := "melee", range := 1, equipped := true, damageFormula := "" }], equippedWeaponId := some "w_club", skills := [] }, { id := "e18", name := "G18", hp := 6, hpMax := 6, mp := 0, mpMax := 0, status := "Unhurt", intent := "", note := "", level := 1, position := 100, speed := 0, movementRemaining := 0, actionUsed := false, defending := false, dodging := false, weapons := [{ id := "w_club", name := "Club", category := "melee", range := 1, equipped := true, damageFormula := "" }], equippedWeaponId := some "w_club", skills := [] }, { id := "e19", name := "G19", hp := 6, hpMax := 6, mp := 0, mpMax := 0, status := "Unhurt", intent := "", note := "", level := 1, position := 100, speed := 0, movementRemaining := 0, actionUsed := false, defending := false, dodging := false, weapons := [{ id := "w_club", name := "Club", category := "melee", range := 1, equipped := true, damageFormula := "" }], equippedWeaponId := some "w_club", skills := [] }, { id := "e20", name := "G20", hp := 6, hpMax := 6, mp := 0, mpMax := 0, status := "Unhurt", intent := "", note := "", level := 1, position := 100, speed := 0, movementRemaining := 0, actionUsed := false, defending := false, dodging := false, weapons := [{ id := "w_club", name := "Club", category := "melee", range := 1, equipped := true, damageFormula := "" }], equippedWeaponId := some "w_club", skills := [] }, { id := "e21", name := "G21", hp := 6, hpMax := 6, mp := 0, mpMax := 0, status := "Unhurt", intent := "", note := "", level := 1, position := 100, speed := 0, movementRemaining := 0, actionUsed := false, defending := false, dodging := false, weapons := [{ id := "w_club", name := "Club", category := "melee", range := 1, equipped := true, damageFormula := "" }], equippedWeaponId := some "w_club", skills := [] }], initiative := [{ id := "pc_game_test", name := "Hero", kind := "pc", initiative := some 22 }, { id := "e1", name := "G1", kind := "enemy", initiative := some 21 }, { id := "e2", name := "G2", kind := "enemy", initiative := some 20 }, { id := "e3", name := "G3", kind := "enemy", initiative := some 19 }, { id := "e4", name := "G4", kind := "enemy", initiative := some 18 }, { id := "e5", name := "G5", kind := "enemy", initiative := some 17 }, { id := "e6", name := "G6", kind := "enemy", initiative := some 16 }, { id := "e7", name := "G7", kind := "enemy", initiative := some 15 }, { id := "e8", name := "G8", kind := "enemy", initiative := some 14 }, { id := "e9", name := "G9", kind := "enemy", initiative := some 13 }, { id := "e10", name := "G10", kind := "enemy", initiative := some 12 }, { id := "e11", name := "G11", kind := "enemy", initiative := some 11 }, { id := "e12", name := "G12", kind := "enemy", initiative := some 10 }, { id := "e13", name := "G13", kind := "enemy", initiative := some 9 }, { id := "e14", name := "G14", kind := "enemy", initiative := some 8 }, { id := "e15", name := "G15", kind := "enemy", initiative := some 7 }, { id := "e16", name := "G16", kind := "enemy", initiative := some 6 }, { id := "e17", name := "G17", kind := "enemy", initiative := some 5 }, { id := "e18", name := "G18", kind := "enemy", initiative := some 4 }, { id := "e19", name := "G19", kind := "enemy", initiative := some 3 }, { id := "e20", name := "G20", kind := "enemy", initiative := some 2 }, { id := "e21", name := "G21", kind := "enemy", initiative := some 1 }], rules := some { meleeRange := 1, actionTypes := ["attack", "defend", "dodge", "use_skill"], moveIsFree := true, oneActionPerTurn := true }, turn := some { actorId := "e12", actorName := "G12", kind := "enemy", actionUsed := false, movementRemaining := 0, equippedWeaponId := some "w_club", availableSkillIds := [] } }, log := [{ id := "log_0", atIso := "", kind := "combat", text := "Turn ends. It is now G1\x27s turn." }, { id := "log_1", atIso := "", kind := "combat", text := "G1 cannot reach attack range and takes evasive movement." }, { id := "log_2", atIso := "", kind := "combat", text := "G2 cannot reach attack range and takes evasive movement." }, { id := "log_3", atIso := "", kind := "combat", text := "G3 cannot reach attack range and takes evasive movement." }, { id := "log_4", atIso := "", kind := "combat", text := "G4 cannot reach attack range and takes evasive movement." }, { id := "log_5", atIso := "", kind := "combat", text := "G5 cannot reach attack range and takes evasive movement." }, { id := "log_6", atIso := "", kind := "combat", text := "G6 cannot reach attack range and takes evasive movement." }, { id := "log_7", atIso := "", kind := "combat", text := "G7 cannot reach attack range and takes evasive movement." }, { id := "log_8", atIso := "", kind := "combat", text := "G8 cannot reach attack range and takes evasive movement." }, { id := "log_9", atIso := "", kind := "combat", text := "G9 cannot reach attack range and takes evasive movement." }, { id := "log_10", atIso := "", kind := "combat", text := "G10 cannot reach attack range and takes evasive movement." }, { id := "log_11", atIso := "", kind := "combat", text := "G11 cannot reach attack range and takes evasive movement." }] }

/-- The cascade state after enemy turn 12 (current holder: G13). -/
def c3T12 : Game :=
  { gameId := "game_test", phase := "combat", hp := { current := 12, max := 12 }, mp := { current := 6, max := 6 }, pc := { name := "Hero", level := 1, skills := [] }, inventory := [{ id := "item_sword", name := "Sword", qty := 1, notes := "", weapon := some { id := some "w_sword", name := some "Sword", category := some "melee", range := some 1, equipped := true, damageFormula := some "" } }], combat := some { round := 1, currentTurnId := some "e13", pc := { id := "pc_game_test", name := "Hero", hp := 12, hpMax := 12, mp := 6, mpMax := 6, status := "", intent := "", note := "", level := 1, position := 0, speed := 6, movementRemaining := 6, actionUsed := true, defending := false, dodging := false, weapons := [{ id := "w_sword", name := "Sword", category := "melee", range := 1, equipped := true, damageFormula := "" }, { id := "weapon_unarmed", name := "Default Melee", category := "melee", range := 1, equipped := false, damageFormula := "1" }], equippedWeaponId := some "w_sword", skills := [] }, enemies := [{ id := "e1", name := "G1", hp := 6, hpMax := 6, mp := 0, mpMax := 0, status := "Unhurt", intent := "", note := "", level := 1, position := 100, speed := 0, movementRemaining := 0, actionUsed := true, defending := false, dodging := true, weapons := [{ id := "w_club", name := "Club", category := "melee", range := 1, equipped := true, damageFormula := "" }], equippedWeaponId := some "w_club", skills := [] }, { id := "e2", name := "G2", hp := 6, hpMax := 6, mp := 0, mpMax := 0, status := "Unhurt", intent := "", note := "", level := 1, position := 100, speed := 0, movementRemaining := 0, actionUsed := true, defending := false, dodging := true, weapons := [{ id := "w_club", name := "Club", category := "melee", range := 1, equipped := true, damageFormula := "" }], equippedWeaponId := some "w_club", skills := [] }, { id := "e3", name := "G3", hp := 6, hpMax := 6, mp := 0, mpMax := 0, status := "Unhurt", intent := "", note := "", level := 1, position := 100, speed := 0, movementRemaining := 0, actionUsed := true, defending := false, dodging := true, weapons := [{ id := "w_club", name := "Club", category := "melee", range := 1, equipped := true, damageFormula := "" }], equippedWeaponId := some "w_club", skills := [] }, { id := "e4", name := "G4", hp := 6, hpMax := 6, mp := 0, mpMax := 0, status := "Unhurt", intent := "", note := "", level := 1, position := 100, speed := 0, movementRemaining := 0, actionUsed := true, defending := false, dodging := true, weapons := [{ id := "w_club", name := "Club", category := "melee", range := 1, equipped := true, damageFormula := "" }], equippedWeaponId := some "w_club", skills := [] }, { id := "e5", name := "G5", hp := 6, hpMax := 6, mp := 0, mpMax := 0, status := "Unhurt", intent := "", note := "", level := 1, position := 100, speed := 0, movementRemaining := 0, actionUsed := true, defending := false, dodging := true, weapons := [{ id := "w_club", name := "Club", category := "melee", range := 1, equipped := true, damageFormula := "" }], equippedWeaponId := some "w_club", skills := [] }, { id := "e6", name := "G6", hp := 6, hpMax := 6, mp := 0, mpMax := 0, status := "Unhurt", intent := "", note := "", level := 1, position := 100, speed := 0, movementRemaining := 0, actionUsed := true, defending := false, dodging := true, weapons := [{ id := "w_club", name := "Club", category := "melee", range := 1, equipped := true, damageFormula := "" }], equippedWeaponId := some "w_club", skills := [] }, { id := "e7", name := "G7", hp := 6, hpMax := 6, mp := 0, mpMax := 0, status := "Unhurt", intent := "", note := "", level := 1, position := 100, speed := 0, movementRemaining := 0, actionUsed := true, defending := false, dodging := true, weapons := [{ id := "w_club", name := "Club", category := "melee", range := 1, equipped := true, damageFormula := "" }], equippedWeaponId := some "w_club", skills := [] }, { id := "e8", name := "G8", hp := 6, hpMax := 6, mp := 0, mpMax := 0, status := "Unhurt", intent := "", note := "", level := 1, position := 100, speed := 0, movementRemaining := 0, actionUsed := true, defending := false, dodging := true, weapons := [{ id := "w_club", name := "Club", category := "melee", range := 1, equipped := true, damageFormula := "" }], equippedWeaponId := some "w_club", skills := [] }, { id := "e9", name := "G9", hp := 6, hpMax := 6, mp := 0, mpMax := 0, status := "Unhurt", intent := "", note := "", level := 1, position := 100, speed := 0, movementRemaining := 0, actionUsed := true, defending := false, dodging := true, weapons := [{ id := "w_club", name := "Club", category := "melee", range := 1, equipped := true, damageFormula := "" }], equippedWeaponId := some "w_club", skills := [] }, { id := "e10", name := "G10", hp := 6, hpMax := 6, mp := 0, mpMax := 0, status := "Unhurt", intent := "", note := "", level := 1, position := 100, speed := 0, movementRemaining := 0, actionUsed := true, defending := false, dodging := true, weapons := [{ id := "w_club", name := "Club", category := "melee", range := 1, equipped := true, damageFormula := "" }], equippedWeaponId := some "w_club", skills := [] }, { id := "e11", name := "G11", hp := 6, hpMax := 6, mp := 0, mpMax := 0, status := "Unhurt", intent := "", note := "", level := 1, position := 100, speed := 0, movementRemaining := 0, actionUsed := true, defending := false, dodging := true, weapons := [{ id := "w_club", name := "Club", category := "melee", range := 1, equipped := true, damageFormula := "" }], equippedWeaponId := some "w_club", skills := [] }, { id := "e12", name := "G12", hp := 6, hpMax := 6, mp := 0, mpMax := 0, status := "Unhurt", intent := "", note := "", level := 1, position := 100, speed := 0, movementRemaining := 0, actionUsed := true, defending := false, dodging := true, weapons := [{ id := "w_club", name := "Club", category := "melee", range := 1, equipped := true, damageFormula := "" }], equippedWeaponId := some "w_club", skills := [] }, { id := "e13", name := "G13", hp := 6, hpMax := 6, mp := 0, mpMax := 0, status := "Unhurt", intent := "", note := "", level := 1, position := 100, speed := 0, movementRemaining := 0, actionUsed := false, defending := false, dodging := false, weapons := [{ id := "w_club", name := "Club", category := "melee", range := 1, equipped := true, damageFormula := "" }], equippedWeaponId := some "w_club", skills := [] }, { id := "e14", name := "G14", hp := 6, hpMax := 6, mp := 0, mpMax := 0, status := "Unhurt", intent := "", note := "", level := 1, position := 100, speed := 0, movementRemaining := 0, actionUsed := false, defending := false, dodging := false, weapons := [{ id := "w_club", name := "Club", category := "melee", range := 1, equipped := true, damageFormula := "" }], equippedWeaponId := some "w_club", skills := [] }, { id := "e15", name := "G15", hp := 6, hpMax := 6, mp := 0, mpMax := 0, status := "Unhurt", intent := "", note := "", level := 1, position := 100, speed := 0, movementRemaining := 0, actionUsed := false, defending := false, dodging := false, weapons := [{ id := "w_club", name := "Club", category := "melee", range := 1, equipped := true, damageFormula := "" }], equippedWeaponId := some "w_club", skills := [] }, { id := "e16", name := "G16", hp := 6, hpMax := 6, mp := 0, mpMax := 0, status := "Unhurt", intent := "", note := "", level := 1, position := 100, speed := 0, movementRemaining := 0, actionUsed := false, defending := false, dodging := false, weapons := [{ id := "w_club", name := "Club", category := "melee", range := 1, equipped := true, damageFormula := "" }], equippedWeaponId := some "w_club", skills := [] }, { id := "e17", name := "G17", hp := 6, hpMax := 6, mp := 0, mpMax := 0, status := "Unhurt", intent := "", note := "", level := 1, position := 100, speed := 0, movementRemaining := 0, actionUsed := false, defending := false, dodging := false, weapons := [{ id := "w_club", name := "Club", category := "melee", range := 1, equipped := true, damageFormula := "" }], equippedWeaponId := some "w_club", skills := [] }, { id := "e18", name := "G18", hp := 6, hpMax := 6, mp := 0, mpMax := 0, status := "Unhurt", intent := "", note := "", level := 1, position := 100, speed := 0, movementRemaining := 0, actionUsed := false, defending := false, dodging := false, weapons := [{ id := "w_club", name := "Club", category := "melee", range := 1, equipped := true, damageFormula := "" }], equippedWeaponId := some "w_club", skills := [] }, { id := "e19", name := "G19", hp := 6, hpMax := 6, mp := 0, mpMax := 0, status := "Unhurt", intent := "", note := "", level := 1, position := 100, speed := 0, movementRemaining := 0, actionUsed := false, defending := false, dodging := false, weapons := [{ id := "w_club", name := "Club", category := "melee", range := 1, equipped := true, damageFormula := "" }], equippedWeaponId := some "w_club", skills := [] }, { id := "e20", name := "G20", hp := 6, hpMax := 6, mp := 0, mpMax := 0, status := "Unhurt", intent := "", note := "", level := 1, position := 100, speed := 0, movementRemaining := 0, actionUsed := false, defending := false, dodging := false, weapons := [{ id := "w_club", name := "Club", category := "melee", range := 1, equipped := true, damageFormula := "" }], equippedWeaponId := some "w_club", skills := [] }, { id := "e21", name := "G21", hp := 6, hpMax := 6, mp := 0, mpMax := 0, status := "Unhurt", intent := "", note := "", level := 1, position := 100, speed := 0, movementRemaining := 0, actionUsed := false, defending := false, dodging := false, weapons := [{ id := "w_club", name := "Club", category := "melee", range := 1, equipped := true, damageFormula := "" }], equippedWeaponId := some "w_club", skills := [] }], initiative := [{ id := "pc_game_test", name := "Hero", kind := "pc", initiative := some 22 }, { id := "e1", name := "G1", kind := "enemy", initiative := some 21 }, { id := "e2", name := "G2", kind := "enemy", initiative := some 20 }, { id := "e3", name := "G3", kind := "enemy", initiative := some 19 }, { id := "e4", name := "G4", kind := "enemy", initiative := some 18 }, { id := "e5", name := "G5", kind := "enemy", initiative := some 17 }, { id := "e6", name := "G6", kind := "enemy", initiative := some 16 }, { id := "e7", name := "G7", kind := "enemy", initiative := some 15 }, { id := "e8", name := "G8", kind := "enemy", initiative := some 14 }, { id := "e9", name := "G9", kind := "enemy", initiative := some 13 }, { id := "e10", name := "G10", kind := "enemy", initiative := some 12 }, { id := "e11", name := "G11", kind := "enemy", initiative := some 11 }, { id := "e12", name := "G12", kind := "enemy", initiative := some 10 }, { id := "e13", name := "G13", kind := "enemy", initiative := some 9 }, { id := "e14", name := "G14", kind := "enemy", initiative := some 8 }, { id := "e15", name := "G15", kind := "enemy", initiative := some 7 }, { id := "e16", name := "G16", kind := "enemy", initiative := some 6 }, { id := "e17", name := "G17", kind := "enemy", initiative := some 5 }, { id := "e18", name := "G18", kind := "enemy", initiative := some 4 }, { id := "e19", name := "G19", kind := "enemy", initiative := some 3 }, { id := "e20", name := "G20", kind := "enemy", initiative := some 2 }, { id := "e21", name := "G21", kind := "enemy", initiative := some 1 }], rules := some { meleeRange := 1, actionTypes := ["attack", "defend", "dodge", "use_skill"], moveIsFree := true, oneActionPerTurn := true }, turn := some { actorId := "e13", actorName := "G13", kind := "enemy", actionUsed := false, movementRemaining := 0, equippedWeaponId := some "w_club", availableSkillIds := [] } }, log := [{ id := "log_0", atIso := "", kind := "combat", text := "Turn ends. It is now G1\x27s turn." }, { id := "log_1", atIso := "", kind := "combat", text := "G1 cannot reach attack range and takes evasive movement." }, { id := "log_2", atIso := "", kind := "combat", text := "G2 cannot reach attack range and takes evasive movement." }, { id := "log_3", atIso := "", kind := "combat", text := "G3 cannot reach attack range and takes evasive movement." }, { id := "log_4", atIso := "", kind := "combat", text := "G4 cannot reach attack range and takes evasive movement." }, { id := "log_5", atIso := "", kind := "combat", text := "G5 cannot reach attack range and takes evasive movement." }, { id := "log_6", atIso := "", kind := "combat", text := "G6 cannot reach attack range and takes evasive movement." }, { id := "log_7", atIso := "", kind := "combat", text := "G7 cannot reach attack range and takes evasive movement." }, { id := "log_8", atIso := "", kind := "combat", text := "G8 cannot reach attack range and takes evasive movement." }, { id := "log_9", atIso := "", kind := "combat", text := "G9 cannot reach attack range and takes evasive movement." }, { id := "log_10", atIso := "", kind := "combat", text := "G10 cannot reach attack range and takes evasive movement." }, { id := "log_11", atIso := "", kind := "combat", text := "G11 cannot reach attack range and takes evasive movement." }, { id := "log_12", atIso := "", kind := "combat", text := "G12 cannot reach attack range and takes evasive movement." }] }

/-- The cascade state after enemy turn 13 (current holder: G14). -/
def c3T13 : Game :=
  { gameId := "game_test", phase := "combat", hp := { current := 12, max := 12 }, mp := { current := 6, max := 6 }, pc := { name := "Hero", level := 1, skills := [] }, inventory := [{ id := "item_sword", name := "Sword", qty := 1, notes := "", weapon := some { id := some "w_sword", name := some "Sword", category := some "melee", range := some 1, equipped := true, damageFormula := some "" } }], combat := some { round := 1, currentTurnId := some "e14", pc := { id := "pc_game_test", name := "Hero", hp := 12, hpMax := 12, mp := 6, mpMax := 6, status := "", intent := "", note := "", level := 1, position := 0, speed := 6, movementRemaining := 6, actionUsed := true, defending := false, dodging := false, weapons := [{ id := "w_sword", name := "Sword", category := "melee", range := 1, equipped := true, damageFormula := "" }, { id := "weapon_unarmed", name := "Default Melee", category := "melee", range := 1, equipped := false, damageFormula := "1" }], equippedWeaponId := some "w_sword", skills := [] }, enemies := [{ id := "e1", name := "G1", hp := 6, hpMax := 6, mp := 0, mpMax := 0, status := "Unhurt", intent := "", note := "", level := 1, position := 100, speed := 0, movementRemaining := 0, actionUsed := true, defending := false, dodging := true, weapons := [{ id := "w_club", name := "Club", category := "melee", range := 1, equipped := true, damageFormula := "" }], equippedWeaponId := some "w_club", skills := [] }, { id := "e2", name := "G2", hp := 6, hpMax := 6, mp := 0, mpMax := 0, status := "Unhurt", intent := "", note := "", level := 1, position := 100, speed := 0, movementRemaining := 0, actionUsed := true, defending := false, dodging := true, weapons := [{ id := "w_club", name := "Club", category := "melee", range := 1, equipped := true, damageFormula := "" }], equippedWeaponId := some "w_club", skills := [] }, { id := "e3", name := "G3", hp := 6, hpMax := 6, mp := 0, mpMax := 0, status := "Unhurt", intent := "", note := "", level := 1, position := 100, speed := 0, movementRemaining := 0, actionUsed := true, defending := false, dodging := true, weapons := [{ id := "w_club", name := "Club", category := "melee", range := 1, equipped := true, damageFormula := "" }], equippedWeaponId := some "w_club", skills := [] }, { id := "e4", name := "G4", hp := 6, hpMax := 6, mp := 0, mpMax := 0, status := "Unhurt", intent := "", note := "", level := 1, position := 100, speed := 0, movementRemaining := 0, actionUsed := true, defending := false, dodging := true, weapons := [{ id := "w_club", name := "Club", category := "melee", range := 1, equipped := true, damageFormula := "" }], equippedWeaponId := some "w_club", skills := [] }, { id := "e5", name := "G5", hp := 6, hpMax := 6, mp := 0, mpMax := 0, status := "Unhurt", intent := "", note := "", level := 1, position := 100, speed := 0, movementRemaining := 0, actionUsed := true, defending := false, dodging := true, weapons := [{ id := "w_club", name := "Club", category := "melee", range := 1, equipped := true, damageFormula := "" }], equippedWeaponId := some "w_club", skills := [] }, { id := "e6", name := "G6", hp := 6, hpMax := 6, mp := 0, mpMax := 0, status := "Unhurt", intent := "", note := "", level := 1, position := 100, speed := 0, movementRemaining := 0, actionUsed := true, defending := false, dodging := true, weapons := [{ id := "w_club", name := "Club", category := "melee", range := 1, equipped := true, damageFormula := "" }], equippedWeaponId := some "w_club", skills := [] }, { id := "e7", name := "G7", hp := 6, hpMax := 6, mp := 0, mpMax := 0, status := "Unhurt", intent := "", note := "", level := 1, position := 100, speed := 0, movementRemaining := 0, actionUsed := true, defending := false, dodging := true, weapons := [{ id := "w_club", name := "Club", category := "melee", range := 1, equipped := true, damageFormula := "" }], equippedWeaponId := some "w_club", skills := [] }, { id := "e8", name := "G8", hp := 6, hpMax := 6, mp := 0, mpMax := 0, status := "Unhurt", intent := "", note := "", level := 1, position := 100, speed := 0, movementRemaining := 0, actionUsed := true, defending := false, dodging := true, weapons := [{ id := "w_club", name := "Club", category := "melee", range := 1, equipped := true, damageFormula := "" }], equippedWeaponId := some "w_club", skills := [] }, { id := "e9", name := "G9", hp := 6, hpMax := 6, mp := 0, mpMax := 0, status := "Unhurt", intent := "", note := "", level := 1, position := 100, speed := 0, movementRemaining := 0, actionUsed := true, defending := false, dodging := true, weapons := [{ id := "w_club", name := "Club", category := "melee", range := 1, equipped := true, damageFormula := "" }], equippedWeaponId := some "w_club", skills := [] }, { id := "e10", name := "G10", hp := 6, hpMax := 6, mp := 0, mpMax := 0, status := "Unhurt", intent := "", note := "", level := 1, position := 100, speed := 0, movementRemaining := 0, actionUsed := true, defending := false, dodging := true, weapons := [{ id := "w_club", name := "Club", category := "melee", range := 1, equipped := true, damageFormula := "" }], equippedWeaponId := some "w_club", skills := [] }, { id := "e11", name := "G11", hp := 6, hpMax := 6, mp := 0, mpMax := 0, status := "Unhurt", intent := "", note := "", level := 1, position := 100, speed := 0, movementRemaining := 0, actionUsed := true, defending := false, dodging := true, weapons := [{ id := "w_club", name := "Club", category := "melee", range := 1, equipped := true, damageFormula := "" }], equippedWeaponId := some "w_club", skills := [] }, { id := "e12", name := "G12", hp := 6, hpMax := 6, mp := 0, mpMax := 0, status := "Unhurt", intent := "", note := "", level := 1, position := 100, speed := 0, movementRemaining := 0, actionUsed := true, defending := false, dodging := true, weapons := [{ id := "w_club", name := "Club", category := "melee", range := 1, equipped := true, damageFormula := "" }], equippedWeaponId := some "w_club", skills := [] }, { id := "e13", name := "G13", hp := 6, hpMax := 6, mp := 0, mpMax := 0, status := "Unhurt", intent := "", note := "", level := 1, position := 100, speed := 0, movementRemaining := 0, actionUsed := true, defending := false, dodging := true, weapons := [{ id := "w_club", name := "Club", category := "melee", range := 1, equipped := true, damageFormula := "" }], equippedWeaponId := some "w_club", skills := [] }, { id := "e14", name := "G14", hp := 6, hpMax := 6, mp := 0, mpMax := 0, status := "Unhurt", intent := "", note := "", level := 1, position := 100, speed := 0, movementRemaining := 0, actionUsed := false, defending := false, dodging := false, weapons := [{ id := "w_club", name := "Club", category := "melee", range := 1, equipped := true, damageFormula := "" }], equippedWeaponId := some "w_club", skills := [] }, { id := "e15", name := "G15", hp := 6, hpMax := 6, mp := 0, mpMax := 0, status := "Unhurt", intent := "", note := "", level := 1, position := 100, speed := 0, movementRemaining := 0, actionUsed := false, defending := false, dodging := false, weapons := [{ id := "w_club", name := "Club", category := "melee", range := 1, equipped := true, damageFormula := "" }], equippedWeaponId := some "w_club", skills := [] }, { id := "e16", name := "G16", hp := 6, hpMax := 6, mp := 0, mpMax := 0, status := "Unhurt", intent := "", note := "", level := 1, position := 100, speed := 0, movementRemaining := 0, actionUsed := false, defending := false, dodging := false, weapons := [{ id := "w_club", name := "Club", category := "melee", range := 1, equipped := true, damageFormula := "" }], equippedWeaponId := some "w_club", skills := [] }, { id := "e17", name := "G17", hp := 6, hpMax := 6, mp := 0, mpMax := 0, status := "Unhurt", intent := "", note := "", level := 1, position := 100, speed := 0, movementRemaining := 0, actionUsed := false, defending := false, dodging := false, weapons := [{ id := "w_club", name := "Club", category := "melee", range := 1, equipped := true, damageFormula := "" }], equippedWeaponId := some "w_club", skills := [] }, { id := "e18", name := "G18", hp := 6, hpMax := 6, mp := 0, mpMax := 0, status := "Unhurt", intent := "", note := "", level := 1, position := 100, speed := 0, movementRemaining := 0, actionUsed := false, defending := false, dodging := false, weapons := [{ id := "w_club", name := "Club", category := "melee", range := 1, equipped := true, damageFormula := "" }], equippedWeaponId := some "w_club", skills := [] }, { id := "e19", name := "G19", hp := 6, hpMax := 6, mp := 0, mpMax := 0, status := "Unhurt", intent := "", note := "", level := 1, position := 100, speed := 0, movementRemaining := 0, actionUsed := false, defending := false, dodging := false, weapons := [{ id := "w_club", name := "Club", category := "melee", range := 1, equipped := true, damageFormula := "" }], equippedWeaponId := some "w_club", skills := [] }, { id := "e20", name := "G20", hp := 6, hpMax := 6, mp := 0, mpMax := 0, status := "Unhurt", intent := "", note := "", level := 1, position := 100, speed := 0, movementRemaining := 0, actionUsed := false, defending := false, dodging := false, weapons := [{ id := "w_club", name := "Club", category := "melee", range := 1, equipped := true, damageFormula := "" }], equippedWeaponId := some "w_club", skills := [] }, { id := "e21", name := "G21", hp := 6, hpMax := 6, mp := 0, mpMax := 0, status := "Unhurt", intent := "", note := "", level := 1, position := 100, speed := 0, movementRemaining := 0, actionUsed := false, defending := false, dodging := false, weapons := [{ id := "w_club", name := "Club", category := "melee", range := 1, equipped := true, damageFormula := "" }], equippedWeaponId := some "w_club", skills := [] }], initiative := [{ id := "pc_game_test", name := "Hero", kind := "pc", initiative := some 22 }, { id := "e1", name := "G1", kind := "enemy", initiative := some 21 }, { id := "e2", name := "G2", kind := "enemy", initiative := some 20 }, { id := "e3", name := "G3", kind := "enemy", initiative := some 19 }, { id := "e4", name := "G4", kind := "enemy", initiative := some 18 }, { id := "e5", name := "G5", kind := "enemy", initiative := some 17 }, { id := "e6", name := "G6", kind := "enemy", initiative := some 16 }, { id := "e7", name := "G7", kind := "enemy", initiative := some 15 }, { id := "e8", name := "G8", kind := "enemy", initiative := some 14 }, { id := "e9", name := "G9", kind := "enemy", initiative := some 13 }, { id := "e10", name := "G10", kind := "enemy", initiative := some 12 }, { id := "e11", name := "G11", kind := "enemy", initiative := some 11 }, { id := "e12", name := "G12", kind := "enemy", initiative := some 10 }, { id := "e13", name := "G13", kind := "enemy", initiative := some 9 }, { id := "e14", name := "G14", kind := "enemy", initiative := some 8 }, { id := "e15", name := "G15", kind := "enemy", initiative := some 7 }, { id := "e16", name := "G16", kind := "enemy", initiative := some 6 }, { id := "e17", name := "G17", kind := "enemy", initiative := some 5 }, { id := "e18", name := "G18", kind := "enemy", initiative := some 4 }, { id := "e19", name := "G19", kind := "enemy", initiative := some 3 }, { id := "e20", name := "G20", kind := "enemy", initiative := some 2 }, { id := "e21", name := "G21", kind := "enemy", initiative := some 1 }], rules := some { meleeRange := 1, actionTypes := ["attack", "defend", "dodge", "use_skill"], moveIsFree := true, oneActionPerTurn := true }, turn := some { actorId := "e14", actorName := "G14", kind := "enemy", actionUsed := false, movementRemaining := 0, equippedWeaponId := some "w_club", availableSkillIds := [] } }, log := [{ id := "log_0", atIso := "", kind := "combat", text := "Turn ends. It is now G1\x27s turn." }, { id := "log_1", atIso := "", kind := "combat", text := "G1 cannot reach attack range and takes evasive movement." }, { id := "log_2", atIso := "", kind := "combat", text := "G2 cannot reach attack range and takes evasive movement." }, { id := "log_3", atIso := "", kind := "combat", text := "G3 cannot reach attack range and takes evasive movement." }, { id := "log_4", atIso := "", kind := "combat", text := "G4 cannot reach attack range and takes evasive movement." }, { id := "log_5", atIso := "", kind := "combat", text := "G5 cannot reach attack range and takes evasive movement." }, { id := "log_6", atIso := "", kind := "combat", text := "G6 cannot reach attack range and takes evasive movement." }, { id := "log_7", atIso := "", kind := "combat", text := "G7 cannot reach attack range and takes evasive movement." }, { id := "log_8", atIso := "", kind := "combat", text := "G8 cannot reach attack range and takes evasive movement." }, { id := "log_9", atIso := "", kind := "combat", text := "G9 cannot reach attack range and takes evasive movement." }, { id := "log_10", atIso := "", kind := "combat", text := "G10 cannot reach attack range and takes evasive movement." }, { id := "log_11", atIso := "", kind := "combat", text := "G11 cannot reach attack range and takes evasive movement." }, { id := "log_12", atIso := "", kind := "combat", text := "G12 cannot reach attack range and takes evasive movement." }, { id := "log_13", atIso := "", kind := "combat", text := "G13 cannot reach attack range and takes evasive movement." }] }

/-- The cascade state after enemy turn 14 (current holder: G15). -/
def c3T14 : Game :=
  { gameId := "game_test", phase := "combat", hp := { current := 12, max := 12 }, mp := { current := 6, max := 6 }, pc := { name := "Hero", level := 1, skills := [] }, inventory := [{ id := "item_sword", name := "Sword", qty := 1, notes := "", weapon := some { id := some "w_sword", name := some "Sword", category := some "melee", range := some 1, equipped := true, damageFormula := some "" } }], combat := some { round := 1, currentTurnId := some "e15", pc := { id := "pc_game_test", name := "Hero", hp := 12, hpMax := 12, mp := 6, mpMax := 6, status := "", intent := "", note := "", level := 1, position := 0, speed := 6, movementRemaining := 6, actionUsed := true, defending := false, dodging := false, weapons := [{ id := "w_sword", name := "Sword", category := "melee", range := 1, equipped := true, damageFormula := "" }, { id := "weapon_unarmed", name := "Default Melee", category := "melee", range := 1, equipped := false, damageFormula := "1" }], equippedWeaponId := some "w_sword", skills := [] }, enemies := [{ id := "e1", name := "G1", hp := 6, hpMax := 6, mp := 0, mpMax := 0, status := "Unhurt", intent := "", note := "", level := 1, position := 100, speed := 0, movementRemaining := 0, actionUsed := true, defending := false, dodging := true, weapons := [{ id := "w_club", name := "Club", category := "melee", range := 1, equipped := true, damageFormula := "" }], equippedWeaponId := some "w_club", skills := [] }, { id := "e2", name := "G2", hp := 6, hpMax := 6, mp := 0, mpMax := 0, status := "Unhurt", intent := "", note := "", level := 1, position := 100, speed := 0, movementRemaining := 0, actionUsed := true, defending := false, dodging := true, weapons := [{ id := "w_club", name := "Club", category := "melee", range := 1, equipped := true, damageFormula := "" }], equippedWeaponId := some "w_club", skills := [] }, { id := "e3", name := "G3", hp := 6, hpMax := 6, mp := 0, mpMax := 0, status := "Unhurt", intent := "", note := "", level := 1, position := 100, speed := 0, movementRemaining := 0, actionUsed := true, defending := false, dodging := true, weapons := [{ id := "w_club", name := "Club", category := "melee", range := 1, equipped := true, damageFormula := "" }], equippedWeaponId := some "w_club", skills := [] }, { id := "e4", name := "G4", hp := 6, hpMax := 6, mp := 0, mpMax := 0, status := "Unhurt", intent := "", note := "", level := 1, position := 100, speed := 0, movementRemaining := 0, actionUsed := true, defending := false, dodging := true, weapons := [{ id := "w_club", name := "Club", category := "melee", range := 1, equipped := true, damageFormula := "" }], equippedWeaponId := some "w_club", skills := [] }, { id := "e5", name := "G5", hp := 6, hpMax := 6, mp := 0, mpMax := 0, status := "Unhurt", intent := "", note := "", level := 1, position := 100, speed := 0, movementRemaining := 0, actionUsed := true, defending := false, dodging := true, weapons := [{ id := "w_club", name := "Club", category := "melee", range := 1, equipped := true, damageFormula := "" }], equippedWeaponId := some "w_club", skills := [] }, { id := "e6", name := "G6", hp := 6, hpMax := 6, mp := 0, mpMax := 0, status := "Unhurt", intent := "", note := "", level := 1, position := 100, speed := 0, movementRemaining := 0, actionUsed := true, defending := false, dodging := true, weapons := [{ id := "w_club", name := "Club", category := "melee", range := 1, equipped := true, damageFormula := "" }], equippedWeaponId := some "w_club", skills := [] }, { id := "e7", name := "G7", hp := 6, hpMax := 6, mp := 0, mpMax := 0, status := "Unhurt", intent := "", note := "", level := 1, position := 100, speed := 0, movementRemaining := 0, actionUsed := true, defending := false, dodging := true, weapons := [{ id := "w_club", name := "Club", category := "melee", range := 1, equipped := true, damageFormula := "" }], equippedWeaponId := some "w_club", skills := [] }, { id := "e8", name := "G8", hp := 6, hpMax := 6, mp := 0, mpMax := 0, status := "Unhurt", intent := "", note := "", level := 1, position := 100, speed := 0, movementRemaining := 0, actionUsed := true, defending := false, dodging := true, weapons := [{ id := "w_club", name := "Club", category := "melee", range := 1, equipped := true, damageFormula := "" }], equippedWeaponId := some "w_club", skills := [] }, { id := "e9", name := "G9", hp := 6, hpMax := 6, mp := 0, mpMax := 0, status := "Unhurt", intent := "", note := "", level := 1, position := 100, speed := 0, movementRemaining := 0, actionUsed := true, defending := false, dodging := true, weapons := [{ id := "w_club", name := "Club", category := "melee", range := 1, equipped := true, damageFormula := "" }], equippedWeaponId := some "w_club", skills := [] }, { id := "e10", name := "G10", hp := 6, hpMax := 6, mp := 0, mpMax := 0, status := "Unhurt", intent := "", note := "", level := 1, position := 100, speed := 0, movementRemaining := 0, actionUsed := true, defending := false, dodging := true, weapons := [{ id := "w_club", name := "Club", category := "melee", range := 1, equipped := true, damageFormula := "" }], equippedWeaponId := some "w_club", skills := [] }, { id := "e11", name := "G11", hp := 6, hpMax := 6, mp := 0, mpMax := 0, status := "Unhurt", intent := "", note := "", level := 1, position := 100, speed := 0, movementRemaining := 0, actionUsed := true, defending := false, dodging := true, weapons := [{ id := "w_club", name := "Club", category := "melee", range := 1, equipped := true, damageFormula := "" }], equippedWeaponId := some "w_club", skills := [] }, { id := "e12", name := "G12", hp := 6, hpMax := 6, mp := 0, mpMax := 0, status := "Unhurt", intent := "", note := "", level := 1, position := 100, speed := 0, movementRemaining := 0, actionUsed := true, defending := false, dodging := true, weapons := [{ id := "w_club", name := "Club", category := "melee", range := 1, equipped := true, damageFormula := "" }], equippedWeaponId := some "w_club", skills := [] }, { id := "e13", name := "G13", hp := 6, hpMax := 6, mp := 0, mpMax := 0, status := "Unhurt", intent := "", note := "", level := 1, position := 100, speed := 0, movementRemaining := 0, actionUsed := true, defending := false, dodging := true, weapons := [{ id := "w_club", name := "Club", category := "melee", range := 1, equipped := true, damageFormula := "" }], equippedWeaponId := some "w_club", skills := [] }, { id := "e14", name := "G14", hp := 6, hpMax := 6, mp := 0, mpMax := 0, status := "Unhurt", intent := "", note := "", level := 1, position := 100, speed := 0, movementRemaining := 0, actionUsed := true, defending := false, dodging := true, weapons := [{ id := "w_club", name := "Club", category := "melee", range := 1, equipped := true, damageFormula := "" }], equippedWeaponId := some "w_club", skills := [] }, { id := "e15", name := "G15", hp := 6, hpMax := 6, mp := 0, mpMax := 0, status := "Unhurt", intent := "", note := "", level := 1, position := 100, speed := 0, movementRemaining := 0, actionUsed := false, defending := false, dodging := false, weapons := [{ id := "w_club", name := "Club", category := "melee", range := 1, equipped := true, damageFormula := "" }], equippedWeaponId := some "w_club", skills := [] }, { id := "e16", name := "G16", hp := 6, hpMax := 6, mp := 0, mpMax := 0, status := "Unhurt", intent := "", note := "", level := 1, position := 100, speed := 0, movementRemaining := 0, actionUsed := false, defending := false, dodging := false, weapons := [{ id := "w_club", name := "Club", category := "melee", range := 1, equipped := true, damageFormula := "" }], equippedWeaponId := some "w_club", skills := [] }, { id := "e17", name := "G17", hp := 6, hpMax := 6, mp := 0, mpMax := 0, status := "Unhurt", intent := "", note := "", level := 1, position := 100, speed := 0, movementRemaining := 0, actionUsed := false, defending := false, dodging := false, weapons := [{ id := "w_club", name := "Club", category := "melee", range := 1, equipped := true, damageFormula := "" }], equippedWeaponId := some "w_club", skills := [] }, { id := "e18", name := "G18", hp := 6, hpMax := 6, mp := 0, mpMax := 0, status := "Unhurt", intent := "", note := "", level := 1, position := 100, speed := 0, movementRemaining := 0, actionUsed := false, defending := false, dodging := false, weapons := [{ id := "w_club", name := "Club", category := "melee", range := 1, equipped := true, damageFormula := "" }], equippedWeaponId := some "w_club", skills := [] }, { id := "e19", name := "G19", hp := 6, hpMax := 6, mp := 0, mpMax := 0, status := "Unhurt", intent := "", note := "", level := 1, position := 100, speed := 0, movementRemaining := 0, actionUsed := false, defending := false, dodging := false, weapons := [{ id := "w_club", name := "Club", category := "melee", range := 1, equipped := true, damageFormula := "" }], equippedWeaponId := some "w_club", skills := [] }, { id := "e20", name := "G20", hp := 6, hpMax := 6, mp := 0, mpMax := 0, status := "Unhurt", intent := "", note := "", level := 1, position := 100, speed := 0, movementRemaining := 0, actionUsed := false, defending := false, dodging := false, weapons := [{ id := "w_club", name := "Club", category := "melee", range := 1, equipped := true, damageFormula := "" }], equippedWeaponId := some "w_club", skills := [] }, { id := "e21", name := "G21", hp := 6, hpMax := 6, mp := 0, mpMax := 0, status := "Unhurt", intent := "", note := "", level := 1, position := 100, speed := 0, movementRemaining := 0, actionUsed := false, defending := false, dodging := false, weapons := [{ id := "w_club", name := "Club", category := "melee", range := 1, equipped := true, damageFormula := "" }], equippedWeaponId := some "w_club", skills := [] }], initiative := [{ id := "pc_game_test", name := "Hero", kind := "pc", initiative := some 22 }, { id := "e1", name := "G1", kind := "enemy", initiative := some 21 }, { id := "e2", name := "G2", kind := "enemy", initiative := some 20 }, { id := "e3", name := "G3", kind := "enemy", initiative := some 19 }, { id := "e4", name := "G4", kind := "enemy", initiative := some 18 }, { id := "e5", name := "G5", kind := "enemy", initiative := some 17 }, { id := "e6", name := "G6", kind := "enemy", initiative := some 16 }, { id := "e7", name := "G7", kind := "enemy", initiative := some 15 }, { id := "e8", name := "G8", kind := "enemy", initiative := some 14 }, { id := "e9", name := "G9", kind := "enemy", initiative := some 13 }, { id := "e10", name := "G10", kind := "enemy", initiative := some 12 }, { id := "e11", name := "G11", kind := "enemy", initiative := some 11 }, { id := "e12", name := "G12", kind := "enemy", initiative := some 10 }, { id := "e13", name := "G13", kind := "enemy", initiative := some 9 }, { id := "e14", name := "G14", kind := "enemy", initiative := some 8 }, { id := "e15", name := "G15", kind := "enemy", initiative := some 7 }, { id := "e16", name := "G16", kind := "enemy", initiative := some 6 }, { id := "e17", name := "G17", kind := "enemy", initiative := some 5 }, { id := "e18", name := "G18", kind := "enemy", initiative := some 4 }, { id := "e19", name := "G19", kind := "enemy", initiative := some 3 }, { id := "e20", name := "G20", kind := "enemy", initiative := some 2 }, { id := "e21", name := "G21", kind := "enemy", initiative := some 1 }], rules := some { meleeRange := 1, actionTypes := ["attack", "defend", "dodge", "use_skill"], moveIsFree := true, oneActionPerTurn := true }, turn := some { actorId := "e15", actorName := "G15", kind := "enemy", actionUsed := false, movementRemaining := 0, equippedWeaponId := some "w_club", availableSkillIds := [] } }, log := [{ id := "log_0", atIso := "", kind := "combat", text := "Turn ends. It is now G1\x27s turn." }, { id := "log_1", atIso := "", kind := "combat", text := "G1 cannot reach attack range and takes evasive movement." }, { id := "log_2", atIso := "", kind := "combat", text := "G2 cannot reach attack range and takes evasive movement." }, { id := "log_3", atIso := "", kind := "combat", text := "G3 cannot reach attack range and takes evasive movement." }, { id := "log_4", atIso := "", kind := "combat", text := "G4 cannot reach attack range and takes evasive movement." }, { id := "log_5", atIso := "", kind := "combat", text := "G5 cannot reach attack range and takes evasive movement." }, { id := "log_6", atIso := "", kind := "combat", text := "G6 cannot reach attack range and takes evasive movement." }, { id := "log_7", atIso := "", kind := "combat", text := "G7 cannot reach attack range and takes evasive movement." }, { id := "log_8", atIso := "", kind := "combat", text := "G8 cannot reach attack range and takes evasive movement." }, { id := "log_9", atIso := "", kind := "combat", text := "G9 cannot reach attack range and takes evasive movement." }, { id := "log_10", atIso := "", kind := "combat", text := "G10 cannot reach attack range and takes evasive movement." }, { id := "log_11", atIso := "", kind := "combat", text := "G11 cannot reach attack range and takes evasive movement." }, { id := "log_12", atIso := "", kind := "combat", text := "G12 cannot reach attack range and takes evasive movement." }, { id := "log_13", atIso := "", kind := "combat", text := "G13 cannot reach attack range and takes evasive movement." }, { id := "log_14", atIso := "", kind := "combat", text := "G14 cannot reach attack range and takes evasive movement." }] }

/-- The cascade state after enemy turn 15 (current holder: G16). -/
def c3T15 : Game :=
  { gameId := "game_test", phase := "combat", hp := { current := 12, max := 12 }, mp := { current := 6, max := 6 }, pc := { name := "Hero", level := 1, skills := [] }, inventory := [{ id := "item_sword", name := "Sword", qty := 1, notes := "", weapon := some { id := some "w_sword", name := some "Sword", category := some "melee", range := some 1, equipped := true, damageFormula := some "" } }], combat := some { round := 1, currentTurnId := some "e16", pc := { id := "pc_game_test", name := "Hero", hp := 12, hpMax := 12, mp := 6, mpMax := 6, status := "", intent := "", note := "", level := 1, position := 0, speed := 6, movementRemaining := 6, actionUsed := true, defending := false, dodging := false, weapons := [{ id := "w_sword", name := "Sword", category := "melee", range := 1, equipped := true, damageFormula := "" }, { id := "weapon_unarmed", name := "Default Melee", category := "melee", range := 1, equipped := false, damageFormula := "1" }], equippedWeaponId := some "w_sword", skills := [] }, enemies := [{ id := "e1", name := "G1", hp := 6, hpMax := 6, mp := 0, mpMax := 0, status := "Unhurt", intent := "", note := "", level := 1, position := 100, speed := 0, movementRemaining := 0, actionUsed := true, defending := false, dodging := true, weapons := [{ id := "w_club", name := "Club", category := "melee", range := 1, equipped := true, damageFormula := "" }], equippedWeaponId := some "w_club", skills := [] }, { id := "e2", name := "G2", hp := 6, hpMax := 6, mp := 0, mpMax := 0, status := "Unhurt", intent := "", note := "", level := 1, position := 100, speed := 0, movementRemaining := 0, actionUsed := true, defending := false, dodging := true, weapons := [{ id := "w_club", name := "Club", category := "melee", range := 1, equipped := true, damageFormula := "" }], equippedWeaponId := some "w_club", skills := [] }, { id := "e3", name := "G3", hp := 6, hpMax := 6, mp := 0, mpMax := 0, status := "Unhurt", intent := "", note := "", level := 1, position := 100, speed := 0, movementRemaining := 0, actionUsed := true, defending := false, dodging := true, weapons := [{ id := "w_club", name := "Club", category := "melee", range := 1, equipped := true, damageFormula := "" }], equippedWeaponId := some "w_club", skills := [] }, { id := "e4", name := "G4", hp := 6, hpMax := 6, mp := 0, mpMax := 0, status := "Unhurt", intent := "", note := "", level := 1, position := 100, speed := 0, movementRemaining := 0, actionUsed := true, defending := false, dodging := true, weapons := [{ id := "w_club", name := "Club", category := "melee", range := 1, equipped := true, damageFormula := "" }], equippedWeaponId := some "w_club", skills := [] }, { id := "e5", name := "G5", hp := 6, hpMax := 6, mp := 0, mpMax := 0, status := "Unhurt", intent := "", note := "", level := 1, position := 100, speed := 0, movementRemaining := 0, actionUsed := true, defending := false, dodging := true, weapons := [{ id := "w_club", name := "Club", category := "melee", range := 1, equipped := true, damageFormula := "" }], equippedWeaponId := some "w_club", skills := [] }, { id := "e6", name := "G6", hp := 6, hpMax := 6, mp := 0, mpMax := 0, status := "Unhurt", intent := "", note := "", level := 1, position := 100, speed := 0, movementRemaining := 0, actionUsed := true, defending := false, dodging := true, weapons := [{ id := "w_club", name := "Club", category := "melee", range := 1, equipped := true, damageFormula := "" }], equippedWeaponId := some "w_club", skills := [] }, { id := "e7", name := "G7", hp := 6, hpMax := 6, mp := 0, mpMax := 0, status := "Unhurt", intent := "", note := "", level := 1, position := 100, speed := 0, movementRemaining := 0, actionUsed := true, defending := false, dodging := true, weapons := [{ id := "w_club", name := "Club", category := "melee", range := 1, equipped := true, damageFormula := "" }], equippedWeaponId := some "w_club", skills := [] }, { id := "e8", name := "G8", hp := 6, hpMax := 6, mp := 0, mpMax := 0, status := "Unhurt", intent := "", note := "", level := 1, position := 100, speed := 0, movementRemaining := 0, actionUsed := true, defending := false, dodging := true, weapons := [{ id := "w_club", name := "Club", category := "melee", range := 1, equipped := true, damageFormula := "" }], equippedWeaponId := some "w_club", skills := [] }, { id := "e9", name := "G9", hp := 6, hpMax := 6, mp := 0, mpMax := 0, status := "Unhurt", intent := "", note := "", level := 1, position := 100, speed := 0, movementRemaining := 0, actionUsed := true, defending := false, dodging := true, weapons := [{ id := "w_club", name := "Club", category := "melee", range := 1, equipped := true, damageFormula := "" }], equippedWeaponId := some "w_club", skills := [] }, { id := "e10", name := "G10", hp := 6, hpMax := 6, mp := 0, mpMax := 0, status := "Unhurt", intent := "", note := "", level := 1, position := 100, speed := 0, movementRemaining := 0, actionUsed := true, defending := false, dodging := true, weapons := [{ id := "w_club", name := "Club", category := "melee", range := 1, equipped := true, damageFormula := "" }], equippedWeaponId := some "w_club", skills := [] }, { id := "e11", name := "G11", hp := 6, hpMax := 6, mp := 0, mpMax := 0, status := "Unhurt", intent := "", note := "", level := 1, position := 100, speed := 0, movementRemaining := 0, actionUsed := true, defending := false, dodging := true, weapons := [{ id := "w_club", name := "Club", category := "melee", range := 1, equipped := true, damageFormula := "" }], equippedWeaponId := some "w_club", skills := [] }, { id := "e12", name := "G12", hp := 6, hpMax := 6, mp := 0, mpMax := 0, status := "Unhurt", intent := "", note := "", level := 1, position := 100, speed := 0, movementRemaining := 0, actionUsed := true, defending := false, dodging := true, weapons := [{ id := "w_club", name := "Club", category := "melee", range := 1, equipped := true, damageFormula := "" }], equippedWeaponId := some "w_club", skills := [] }, { id := "e13", name := "G13", hp := 6, hpMax := 6, mp := 0, mpMax := 0, status := "Unhurt", intent := "", note := "", level := 1, position := 100, speed := 0, movementRemaining := 0, actionUsed := true, defending := false, dodging := true, weapons := [{ id := "w_club", name := "Club", category := "melee", range := 1, equipped := true, damageFormula := "" }], equippedWeaponId := some "w_club", skills := [] }, { id := "e14", name := "G14", hp := 6, hpMax := 6, mp := 0, mpMax := 0, status := "Unhurt", intent := "", note := "", level := 1, position := 100, speed := 0, movementRemaining := 0, actionUsed := true, defending := false, dodging := true, weapons := [{ id := "w_club", name := "Club", category := "melee", range := 1, equipped := true, damageFormula := "" }], equippedWeaponId := some "w_club", skills := [] }, { id := "e15", name := "G15", hp := 6, hpMax := 6, mp := 0, mpMax := 0, status := "Unhurt", intent := "", note := "", level := 1, position := 100, speed := 0, movementRemaining := 0, actionUsed := true, defending := false, dodging := true, weapons := [{ id := "w_club", name := "Club", category := "melee", range := 1, equipped := true, damageFormula := "" }], equippedWeaponId := some "w_club", skills := [] }, { id := "e16", name := "G16", hp := 6, hpMax := 6, mp := 0, mpMax := 0, status := "Unhurt", intent := "", note := "", level := 1, position := 100, speed := 0, movementRemaining := 0, actionUsed := false, defending := false, dodging := false, weapons := [{ id := "w_club", name := "Club", category := "melee", range := 1, equipped := true, damageFormula := "" }], equippedWeaponId := some "w_club", skills := [] }, { id := "e17", name := "G17", hp := 6, hpMax := 6, mp := 0, mpMax := 0, status := "Unhurt", intent := "", note := "", level := 1, position := 100, speed := 0, movementRemaining := 0, actionUsed := false, defending := false, dodging := false, weapons := [{ id := "w_club", name := "Club", category := "melee", range := 1, equipped := true, damageFormula := "" }], equippedWeaponId := some "w_club", skills := [] }, { id := "e18", name := "G18", hp := 6, hpMax := 6, mp := 0, mpMax := 0, status := "Unhurt", intent := "", note := "", level := 1, position := 100, speed := 0, movementRemaining := 0, actionUsed := false, defending := false, dodging := false, weapons := [{ id := "w_club", name := "Club", category := "melee", range := 1, equipped := true, damageFormula := "" }], equippedWeaponId := some "w_club", skills := [] }, { id := "e19", name := "G19", hp := 6, hpMax := 6, mp := 0, mpMax := 0, status := "Unhurt", intent := "", note := "", level := 1, position := 100, speed := 0, movementRemaining := 0, actionUsed := false, defending := false, dodging := false, weapons := [{ id := "w_club", name := "Club", category := "melee", range := 1, equipped := true, damageFormula := "" }], equippedWeaponId := some "w_club", skills := [] }, { id := "e20", name := "G20", hp := 6, hpMax := 6, mp := 0, mpMax := 0, status := "Unhurt", intent := "", note := "", level := 1, position := 100, speed := 0, movementRemaining := 0, actionUsed := false, defending := false, dodging := false, weapons := [{ id := "w_club", name := "Club", category := "melee", range := 1, equipped := true, damageFormula := "" }], equippedWeaponId := some "w_club", skills := [] }, { id := "e21", name := "G21", hp := 6, hpMax := 6, mp := 0, mpMax := 0, status := "Unhurt", intent := "", note := "", level := 1, position := 100, speed := 0, movementRemaining := 0, actionUsed := false, defending := false, dodging := false, weapons := [{ id := "w_club", name := "Club", category := "melee", range := 1, equipped := true, damageFormula := "" }], equippedWeaponId := some "w_club", skills := [] }], initiative := [{ id := "pc_game_test", name := "Hero", kind := "pc", initiative := some 22 }, { id := "e1", name := "G1", kind := "enemy", initiative := some 21 }, { id := "e2", name := "G2", kind := "enemy", initiative := some 20 }, { id := "e3", name := "G3", kind := "enemy", initiative := some 19 }, { id := "e4", name := "G4", kind := "enemy", initiative := some 18 }, { id := "e5", name := "G5", kind := "enemy", initiative := some 17 }, { id := "e6", name := "G6", kind := "enemy", initiative := some 16 }, { id := "e7", name := "G7", kind := "enemy", initiative := some 15 }, { id := "e8", name := "G8", kind := "enemy", initiative := some 14 }, { id := "e9", name := "G9", kind := "enemy", initiative := some 13 }, { id := "e10", name := "G10", kind := "enemy", initiative := some 12 }, { id := "e11", name := "G11", kind := "enemy", initiative := some 11 }, { id := "e12", name := "G12", kind := "enemy", initiative := some 10 }, { id := "e13", name := "G13", kind := "enemy", initiative := some 9 }, { id := "e14", name := "G14", kind := "enemy", initiative := some 8 }, { id := "e15", name := "G15", kind := "enemy", initiative := some 7 }, { id := "e16", name := "G16", kind := "enemy", initiative := some 6 }, { id := "e17", name := "G17", kind := "enemy", initiative := some 5 }, { id := "e18", name := "G18", kind := "enemy", initiative := some 4 }, { id := "e19", name := "G19", kind := "enemy", initiative := some 3 }, { id := "e20", name := "G20", kind := "enemy", initiative := some 2 }, { id := "e21", name := "G21", kind := "enemy", initiative := some 1 }], rules := some { meleeRange := 1, actionTypes := ["attack", "defend", "dodge", "use_skill"], moveIsFree := true, oneActionPerTurn := true }, turn := some { actorId := "e16", actorName := "G16", kind := "enemy", actionUsed := false, movementRemaining := 0, equippedWeaponId := some "w_club", availableSkillIds := [] } }, log := [{ id := "log_0", atIso := "", kind := "combat", text := "Turn ends. It is now G1\x27s turn." }, { id := "log_1", atIso := "", kind := "combat", text := "G1 cannot reach attack range and takes evasive movement." }, { id := "log_2", atIso := "", kind := "combat", text := "G2 cannot reach attack range and takes evasive movement." }, { id := "log_3", atIso := "", kind := "combat", text := "G3 cannot reach attack range and takes evasive movement." }, { id := "log_4", atIso := "", kind := "combat", text := "G4 cannot reach attack range and takes evasive movement." }, { id := "log_5", atIso := "", kind := "combat", text := "G5 cannot reach attack range and takes evasive movement." }, { id := "log_6", atIso := "", kind := "combat", text := "G6 cannot reach attack range and takes evasive movement." }, { id := "log_7", atIso := "", kind := "combat", text := "G7 cannot reach attack range and takes evasive movement." }, { id := "log_8", atIso := "", kind := "combat", text := "G8 cannot reach attack range and takes evasive movement." }, { id := "log_9", atIso := "", kind := "combat", text := "G9 cannot reach attack range and takes evasive movement." }, { id := "log_10", atIso := "", kind := "combat", text := "G10 cannot reach attack range and takes evasive movement." }, { id := "log_11", atIso := "", kind := "combat", text := "G11 cannot reach attack range and takes evasive movement." }, { id := "log_12", atIso := "", kind := "combat", text := "G12 cannot reach attack range and takes evasive movement." }, { id := "log_13", atIso := "", kind := "combat", text := "G13 cannot reach attack range and takes evasive movement." }, { id := "log_14", atIso := "", kind := "combat", text := "G14 cannot reach attack range and takes evasive movement." }, { id := "log_15", atIso := "", kind := "combat", text := "G15 cannot reach attack range and takes evasive movement." }] }

/-- The cascade state after enemy turn 16 (current holder: G17). -/
def c3T16 : Game :=
  { gameId := "game_test", phase := "combat", hp := { current := 12, max := 12 }, mp := { current := 6, max := 6 }, pc := { name := "Hero", level := 1, skills := [] }, inventory := [{ id := "item_sword", name := "Sword", qty := 1, notes := "", weapon := some { id := some "w_sword", name := some "Sword", category := some "melee", range := some 1, equipped := true, damageFormula := some "" } }], combat := some { round := 1, currentTurnId := some "e17", pc := { id := "pc_game_test", name := "Hero", hp := 12, hpMax := 12, mp := 6, mpMax := 6, status := "", intent := "", note := "", level := 1, position := 0, speed := 6, movementRemaining := 6, actionUsed := true, defending := false, dodging := false, weapons := [{ id := "w_sword", name := "Sword", category := "melee", range := 1, equipped := true, damageFormula := "" }, { id := "weapon_unarmed", name := "Default Melee", category := "melee", range := 1, equipped := false, damageFormula := "1" }], equippedWeaponId := some "w_sword", skills := [] }, enemies := [{ id := "e1", name := "G1", hp := 6, hpMax := 6, mp := 0, mpMax := 0, status := "Unhurt", intent := "", note := "", level := 1, position := 100, speed := 0, movementRemaining := 0, actionUsed := true, defending := false, dodging := true, weapons := [{ id := "w_club", name := "Club", category := "melee", range := 1, equipped := true, damageFormula := "" }], equippedWeaponId := some "w_club", skills := [] }, { id := "e2", name := "G2", hp := 6, hpMax := 6, mp := 0, mpMax := 0, status := "Unhurt", intent := "", note := "", level := 1, position := 100, speed := 0, movementRemaining := 0, actionUsed := true, defending := false, dodging := true, weapons := [{ id := "w_club", name := "Club", category := "melee", range := 1, equipped := true, damageFormula := "" }], equippedWeaponId := some "w_club", skills := [] }, { id := "e3", name := "G3", hp := 6, hpMax := 6, mp := 0, mpMax := 0, status := "Unhurt", intent := "", note := "", level := 1, position := 100, speed := 0, movementRemaining := 0, actionUsed := true, defending := false, dodging := true, weapons := [{ id := "w_club", name := "Club", category := "melee", range := 1, equipped := true, damageFormula := "" }], equippedWeaponId := some "w_club", skills := [] }, { id := "e4", name := "G4", hp := 6, hpMax := 6, mp := 0, mpMax := 0, status := "Unhurt", intent := "", note := "", level := 1, position := 100, speed := 0, movementRemaining := 0, actionUsed := true, defending := false, dodging := true, weapons := [{ id := "w_club", name := "Club", category := "melee", range := 1, equipped := true, damageFormula := "" }], equippedWeaponId := some "w_club", skills := [] }, { id := "e5", name := "G5", hp := 6, hpMax := 6, mp := 0, mpMax := 0, status := "Unhurt", intent := "", note := "", level := 1, position := 100, speed := 0, movementRemaining := 0, actionUsed := true, defending := false, dodging := true, weapons := [{ id := "w_club", name := "Club", category := "melee", range := 1, equipped := true, damageFormula := "" }], equippedWeaponId := some "w_club", skills := [] }, { id := "e6", name := "G6", hp := 6, hpMax := 6, mp := 0, mpMax := 0, status := "Unhurt", intent := "", note := "", level := 1, position := 100, speed := 0, movementRemaining := 0, actionUsed := true, defending := false, dodging := true, weapons := [{ id := "w_club", name := "Club", category := "melee", range := 1, equipped := true, damageFormula := "" }], equippedWeaponId := some "w_club", skills := [] }, { id := "e7", name := "G7", hp := 6, hpMax := 6, mp := 0, mpMax := 0, status := "Unhurt", intent := "", note := "", level := 1, position := 100, speed := 0, movementRemaining := 0, actionUsed := true, defending := false, dodging := true, weapons := [{ id := "w_club", name := "Club", category := "melee", range := 1, equipped := true, damageFormula := "" }], equippedWeaponId := some "w_club", skills := [] }, { id := "e8", name := "G8", hp := 6, hpMax := 6, mp := 0, mpMax := 0, status := "Unhurt", intent := "", note := "", level := 1, position := 100, speed := 0, movementRemaining := 0, actionUsed := true, defending := false, dodging := true, weapons := [{ id := "w_club", name := "Club", category := "melee", range := 1, equipped := true, damageFormula := "" }], equippedWeaponId := some "w_club", skills := [] }, { id := "e9", name := "G9", hp := 6, hpMax := 6, mp := 0, mpMax := 0, status := "Unhurt", intent := "", note := "", level := 1, position := 100, speed := 0, movementRemaining := 0, actionUsed := true, defending := false, dodging := true, weapons := [{ id := "w_club", name := "Club", category := "melee", range := 1, equipped := true, damageFormula := "" }], equippedWeaponId := some "w_club", skills := [] }, { id := "e10", name := "G10", hp := 6, hpMax := 6, mp := 0, mpMax := 0, status := "Unhurt", intent := "", note := "", level := 1, position := 100, speed := 0, movementRemaining := 0, actionUsed := true, defending := false, dodging := true, weapons := [{ id := "w_club", name := "Club", category := "melee", range := 1, equipped := true, damageFormula := "" }], equippedWeaponId := some "w_club", skills := [] }, { id := "e11", name := "G11", hp := 6, hpMax := 6, mp := 0, mpMax := 0, status := "Unhurt", intent := "", note := "", level := 1, position := 100, speed := 0, movementRemaining := 0, actionUsed := true, defending := false, dodging := true, weapons := [{ id := "w_club", name := "Club", category := "melee", range := 1, equipped := true, damageFormula := "" }], equippedWeaponId := some "w_club", skills := [] }, { id := "e12", name := "G12", hp := 6, hpMax := 6, mp := 0, mpMax := 0, status := "Unhurt", intent := "", note := "", level := 1, position := 100, speed := 0, movementRemaining := 0, actionUsed := true, defending := false, dodging := true, weapons := [{ id := "w_club", name := "Club", category := "melee", range := 1, equipped := true, damageFormula := "" }], equippedWeaponId := some "w_club", skills := [] }, { id := "e13", name := "G13", hp := 6, hpMax := 6, mp := 0, mpMax := 0, status := "Unhurt", intent := "", note := "", level := 1, position := 100, speed := 0, movementRemaining := 0, actionUsed := true, defending := false, dodging := true, weapons := [{ id := "w_club", name := "Club", category := "melee", range := 1, equipped := true, damageFormula := "" }], equippedWeaponId := some "w_club", skills := [] }, { id := "e14", name := "G14", hp := 6, hpMax := 6, mp := 0, mpMax := 0, status := "Unhurt", intent := "", note := "", level := 1, position := 100, speed := 0, movementRemaining := 0, actionUsed := true, defending := false, dodging := true, weapons := [{ id := "w_club", name := "Club", category := "melee", range := 1, equipped := true, damageFormula := "" }], equippedWeaponId := some "w_club", skills := [] }, { id := "e15", name := "G15", hp := 6, hpMax := 6, mp := 0, mpMax := 0, status := "Unhurt", intent := "", note := "", level := 1, position := 100, speed := 0, movementRemaining := 0, actionUsed := true, defending := false, dodging := true, weapons := [{ id := "w_club", name := "Club", category := "melee", range := 1, equipped := true, damageFormula := "" }], equippedWeaponId := some "w_club", skills := [] }, { id := "e16", name := "G16", hp := 6, hpMax := 6, mp := 0, mpMax := 0, status := "Unhurt", intent := "", note := "", level := 1, position := 100, speed := 0, movementRemaining := 0, actionUsed := true, defending := false, dodging := true, weapons := [{ id := "w_club", name := "Club", category := "melee", range := 1, equipped := true, damageFormula := "" }], equippedWeaponId := some "w_club", skills := [] }, { id := "e17", name := "G17", hp := 6, hpMax := 6, mp := 0, mpMax := 0, status := "Unhurt", intent := "", note := "", level := 1, position := 100, speed := 0, movementRemaining := 0, actionUsed := false, defending := false, dodging := false, weapons := [{ id := "w_club", name := "Club", category := "melee", range := 1, equipped := true, damageFormula := "" }], equippedWeaponId := some "w_club", skills := [] }, { id := "e18", name := "G18", hp := 6, hpMax := 6, mp := 0, mpMax := 0, status := "Unhurt", intent := "", note := "", level := 1, position := 100, speed := 0, movementRemaining := 0, actionUsed := false, defending := false, dodging := false, weapons := [{ id := "w_club", name := "Club", category := "melee", range := 1, equipped := true, damageFormula := "" }], equippedWeaponId := some "w_club", skills := [] }, { id := "e19", name := "G19", hp := 6, hpMax := 6, mp := 0, mpMax := 0, status := "Unhurt", intent := "", note := "", level := 1, position := 100, speed := 0, movementRemaining := 0, actionUsed := false, defending := false, dodging := false, weapons := [{ id := "w_club", name := "Club", category := "melee", range := 1, equipped := true, damageFormula := "" }], equippedWeaponId := some "w_club", skills := [] }, { id := "e20", name := "G20", hp := 6, hpMax := 6, mp := 0, mpMax := 0, status := "Unhurt", intent := "", note := "", level := 1, position := 100, speed := 0, movementRemaining := 0, actionUsed := false, defending := false, dodging := false, weapons := [{ id := "w_club", name := "Club", category := "melee", range := 1, equipped := true, damageFormula := "" }], equippedWeaponId := some "w_club", skills := [] }, { id := "e21", name := "G21", hp := 6, hpMax := 6, mp := 0, mpMax := 0, status := "Unhurt", intent := "", note := "", level := 1, position := 100, speed := 0, movementRemaining := 0, actionUsed := false, defending := false, dodging := false, weapons := [{ id := "w_club", name := "Club", category := "melee", range := 1, equipped := true, damageFormula := "" }], equippedWeaponId := some "w_club", skills := [] }], initiative := [{ id := "pc_game_test", name := "Hero", kind := "pc", initiative := some 22 }, { id := "e1", name := "G1", kind := "enemy", initiative := some 21 }, { id := "e2", name := "G2", kind := "enemy", initiative := some 20 }, { id := "e3", name := "G3", kind := "enemy", initiative := some 19 }, { id := "e4", name := "G4", kind := "enemy", initiative := some 18 }, { id := "e5", name := "G5", kind := "enemy", initiative := some 17 }, { id := "e6", name := "G6", kind := "enemy", initiative := some 16 }, { id := "e7", name := "G7", kind := "enemy", initiative := some 15 }, { id := "e8", name := "G8", kind := "enemy", initiative := some 14 }, { id := "e9", name := "G9", kind := "enemy", initiative := some 13 }, { id := "e10", name := "G10", kind := "enemy", initiative := some 12 }, { id := "e11", name := "G11", kind := "enemy", initiative := some 11 }, { id := "e12", name := "G12", kind := "enemy", initiative := some 10 }, { id := "e13", name := "G13", kind := "enemy", initiative := some 9 }, { id := "e14", name := "G14", kind := "enemy", initiative := some 8 }, { id := "e15", name := "G15", kind := "enemy", initiative := some 7 }, { id := "e16", name := "G16", kind := "enemy", initiative := some 6 }, { id := "e17", name := "G17", kind := "enemy", initiative := some 5 }, { id := "e18", name := "G18", kind := "enemy", initiative := some 4 }, { id := "e19", name := "G19", kind := "enemy", initiative := some 3 }, { id := "e20", name := "G20", kind := "enemy", initiative := some 2 }, { id := "e21", name := "G21", kind := "enemy", initiative := some 1 }], rules := some { meleeRange := 1, actionTypes := ["attack", "defend", "dodge", "use_skill"], moveIsFree := true, oneActionPerTurn := true }, turn := some { actorId := "e17", actorName := "G17", kind := "enemy", actionUsed := false, movementRemaining := 0, equippedWeaponId := some "w_club", availableSkillIds := [] } }, log := [{ id := "log_0", atIso := "", kind := "combat", text := "Turn ends. It is now G1\x27s turn." }, { id := "log_1", atIso := "", kind := "combat", text := "G1 cannot reach attack range and takes evasive movement." }, { id := "log_2", atIso := "", kind := "combat", text := "G2 cannot reach attack range and takes evasive movement." }, { id := "log_3", atIso := "", kind := "combat", text := "G3 cannot reach attack range and takes evasive movement." }, { id := "log_4", atIso := "", kind := "combat", text := "G4 cannot reach attack range and takes evasive movement." }, { id := "log_5", atIso := "", kind := "combat", text := "G5 cannot reach attack range and takes evasive movement." }, { id := "log_6", atIso := "", kind := "combat", text := "G6 cannot reach attack range and takes evasive movement." }, { id := "log_7", atIso := "", kind := "combat", text := "G7 cannot reach attack range and takes evasive movement." }, { id := "log_8", atIso := "", kind := "combat", text := "G8 cannot reach attack range and takes evasive movement." }, { id := "log_9", atIso := "", kind := "combat", text := "G9 cannot reach attack range and takes evasive movement." }, { id := "log_10", atIso := "", kind := "combat", text := "G10 cannot reach attack range and takes evasive movement." }, { id := "log_11", atIso := "", kind := "combat", text := "G11 cannot reach attack range and takes evasive movement." }, { id := "log_12", atIso := "", kind := "combat", text := "G12 cannot reach attack range and takes evasive movement." }, { id := "log_13", atIso := "", kind := "combat", text := "G13 cannot reach attack range and takes evasive movement." }, { id := "log_14", atIso := "", kind := "combat", text := "G14 cannot reach attack range and takes evasive movement." }, { id := "log_15", atIso := "", kind := "combat", text := "G15 cannot reach attack range and takes evasive movement." }, { id := "log_16", atIso := "", kind := "combat", text := "G16 cannot reach attack range and takes evasive movement." }] }

/-- The cascade state after enemy turn 17 (current holder: G18). -/
def c3T17 : Game :=
  { gameId := "game_test", phase := "combat", hp := { current := 12, max := 12 }, mp := { current := 6, max := 6 }, pc := { name := "Hero", level := 1, skills := [] }, inventory := [{ id := "item_sword", name := "Sword", qty := 1, notes := "", weapon := some { id := some "w_sword", name := some "Sword", category := some "melee", range := some 1, equipped := true, damageFormula := some "" } }], combat := some { round := 1, currentTurnId := some "e18", pc := { id := "pc_game_test", name := "Hero", hp := 12, hpMax := 12, mp := 6, mpMax := 6, status := "", intent := "", note := "", level := 1, position := 0, speed := 6, movementRemaining := 6, actionUsed := true, defending := false, dodging := false, weapons := [{ id := "w_sword", name := "Sword", category := "melee", range := 1, equipped := true, damageFormula := "" }, { id := "weapon_unarmed", name := "Default Melee", category := "melee", range := 1, equipped := false, damageFormula := "1" }], equippedWeaponId := some "w_sword", skills := [] }, enemies := [{ id := "e1", name := "G1", hp := 6, hpMax := 6, mp := 0, mpMax := 0, status := "Unhurt", intent := "", note := "", level := 1, position := 100, speed := 0, movementRemaining := 0, actionUsed := true, defending := false, dodging := true, weapons := [{ id := "w_club", name := "Club", category := "melee", range := 1, equipped := true, damageFormula := "" }], equippedWeaponId := some "w_club", skills := [] }, { id := "e2", name := "G2", hp := 6, hpMax := 6, mp := 0, mpMax := 0, status := "Unhurt", intent := "", note := "", level := 1, position := 100, speed := 0, movementRemaining := 0, actionUsed := true, defending := false, dodging := true, weapons := [{ id := "w_club", name := "Club", category := "melee", range := 1, equipped := true, damageFormula := "" }], equippedWeaponId := some "w_club", skills := [] }, { id := "e3", name := "G3", hp := 6, hpMax := 6, mp := 0, mpMax := 0, status := "Unhurt", intent := "", note := "", level := 1, position := 100, speed := 0, movementRemaining := 0, actionUsed := true, defending := false, dodging := true, weapons := [{ id := "w_club", name := "Club", category := "melee", range := 1, equipped := true, damageFormula := "" }], equippedWeaponId := some "w_club", skills := [] }, { id := "e4", name := "G4", hp := 6, hpMax := 6, mp := 0, mpMax := 0, status := "Unhurt", intent := "", note := "", level := 1, position := 100, speed := 0, movementRemaining := 0, actionUsed := true, defending := false, dodging := true, weapons := [{ id := "w_club", name := "Club", category := "melee", range := 1, equipped := true, damageFormula := "" }], equippedWeaponId := some "w_club", skills := [] }, { id := "e5", name := "G5", hp := 6, hpMax := 6, mp := 0, mpMax := 0, status := "Unhurt", intent := "", note := "", level := 1, position := 100, speed := 0, movementRemaining := 0, actionUsed := true, defending := false, dodging := true, weapons := [{ id := "w_club", name := "Club", category := "melee", range := 1, equipped := true, damageFormula := "" }], equippedWeaponId := some "w_club", skills := [] }, { id := "e6", name := "G6", hp := 6, hpMax := 6, mp := 0, mpMax := 0, status := "Unhurt", intent := "", note := "", level := 1, position := 100, speed := 0, movementRemaining := 0, actionUsed := true, defending := false, dodging := true, weapons := [{ id := "w_club", name := "Club", category := "melee", range := 1, equipped := true, damageFormula := "" }], equippedWeaponId := some "w_club", skills := [] }, { id := "e7", name := "G7", hp := 6, hpMax := 6, mp := 0, mpMax := 0, status := "Unhurt", intent := "", note := "", level := 1, position := 100, speed := 0, movementRemaining := 0, actionUsed := true, defending := false, dodging := true, weapons := [{ id := "w_club", name := "Club", category := "melee", range := 1, equipped := true, damageFormula := "" }], equippedWeaponId := some "w_club", skills := [] }, { id := "e8", name := "G8", hp := 6, hpMax := 6, mp := 0, mpMax := 0, status := "Unhurt", intent := "", note := "", level := 1, position := 100, speed := 0, movementRemaining := 0, actionUsed := true, defending := false, dodging := true, weapons := [{ id := "w_club", name := "Club", category := "melee", range := 1, equipped := true, damageFormula := "" }], equippedWeaponId := some "w_club", skills := [] }, { id := "e9", name := "G9", hp := 6, hpMax := 6, mp := 0, mpMax := 0, status := "Unhurt", intent := "", note := "", level := 1, position := 100, speed := 0, movementRemaining := 0, actionUsed := true, defending := false, dodging := true, weapons := [{ id := "w_club", name := "Club", category := "melee", range := 1, equipped := true, damageFormula := "" }], equippedWeaponId := some "w_club", skills := [] }, { id := "e10", name := "G10", hp := 6, hpMax := 6, mp := 0, mpMax := 0, status := "Unhurt", intent := "", note := "", level := 1, position := 100, speed := 0, movementRemaining := 0, actionUsed := true, defending := false, dodging := true, weapons := [{ id := "w_club", name := "Club", category := "melee", range := 1, equipped := true, damageFormula := "" }], equippedWeaponId := some "w_club", skills := [] }, { id := "e11", name := "G11", hp := 6, hpMax := 6, mp := 0, mpMax := 0, status := "Unhurt", intent := "", note := "", level := 1, position := 100, speed := 0, movementRemaining := 0, actionUsed := true, defending := false, dodging := true, weapons := [{ id := "w_club", name := "Club", category := "melee", range := 1, equipped := true, damageFormula := "" }], equippedWeaponId := some "w_club", skills := [] }, { id := "e12", name := "G12", hp := 6, hpMax := 6, mp := 0, mpMax := 0, status := "Unhurt", intent := "", note := "", level := 1, position := 100, speed := 0, movementRemaining := 0, actionUsed := true, defending := false, dodging := true, weapons := [{ id := "w_club", name := "Club", category := "melee", range := 1, equipped := true, damageFormula := "" }], equippedWeaponId := some "w_club", skills := [] }, { id := "e13", name := "G13", hp := 6, hpMax := 6, mp := 0, mpMax := 0, status := "Unhurt", intent := "", note := "", level := 1, position := 100, speed := 0, movementRemaining := 0, actionUsed := true, defending := false, dodging := true, weapons := [{ id := "w_club", name := "Club", category := "melee", range := 1, equipped := true, damageFormula := "" }], equippedWeaponId := some "w_club", skills := [] }, { id := "e14", name := "G14", hp := 6, hpMax := 6, mp := 0, mpMax := 0, status := "Unhurt", intent := "", note := "", level := 1, position := 100, speed := 0, movementRemaining := 0, actionUsed := true, defending := false, dodging := true, weapons := [{ id := "w_club", name := "Club", category := "melee", range := 1, equipped := true, damageFormula := "" }], equippedWeaponId := some "w_club", skills := [] }, { id := "e15", name := "G15", hp := 6, hpMax := 6, mp := 0, mpMax := 0, status := "Unhurt", intent := "", note := "", level := 1, position := 100, speed := 0, movementRemaining := 0, actionUsed := true, defending := false, dodging := true, weapons := [{ id := "w_club", name := "Club", category := "melee", range := 1, equipped := true, damageFormula := "" }], equippedWeaponId := some "w_club", skills := [] }, { id := "e16", name := "G16", hp := 6, hpMax := 6, mp := 0, mpMax := 0, status := "Unhurt", intent := "", note := "", level := 1, position := 100, speed := 0, movementRemaining := 0, actionUsed := true, defending := false, dodging := true, weapons := [{ id := "w_club", name := "Club", category := "melee", range := 1, equipped := true, damageFormula := "" }], equippedWeaponId := some "w_club", skills := [] }, { id := "e17", name := "G17", hp := 6, hpMax := 6, mp := 0, mpMax := 0, status := "Unhurt", intent := "", note := "", level := 1, position := 100, speed := 0, movementRemaining := 0, actionUsed := true, defending := false, dodging := true, weapons := [{ id := "w_club", name := "Club", category := "melee", range := 1, equipped := true, damageFormula := "" }], equippedWeaponId := some "w_club", skills := [] }, { id := "e18", name := "G18", hp := 6, hpMax := 6, mp := 0, mpMax := 0, status := "Unhurt", intent := "", note := "", level := 1, position := 100, speed := 0, movementRemaining := 0, actionUsed := false, defending := false, dodging := false, weapons := [{ id := "w_club", name := "Club", category := "melee", range := 1, equipped := true, damageFormula := "" }], equippedWeaponId := some "w_club", skills := [] }, { id := "e19", name := "G19", hp := 6, hpMax := 6, mp := 0, mpMax := 0, status := "Unhurt", intent := "", note := "", level := 1, position := 100, speed := 0, movementRemaining := 0, actionUsed := false, defending := false, dodging := false, weapons := [{ id := "w_club", name := "Club", category := "melee", range := 1, equipped := true, damageFormula := "" }], equippedWeaponId := some "w_club", skills := [] }, { id := "e20", name := "G20", hp := 6, hpMax := 6, mp := 0, mpMax := 0, status := "Unhurt", intent := "", note := "", level := 1, position := 100, speed := 0, movementRemaining := 0, actionUsed := false, defending := false, dodging := false, weapons := [{ id := "w_club", name := "Club", category := "melee", range := 1, equipped := true, damageFormula := "" }], equippedWeaponId := some "w_club", skills := [] }, { id := "e21", name := "G21", hp := 6, hpMax := 6, mp := 0, mpMax := 0, status := "Unhurt", intent := "", note := "", level := 1, position := 100, speed := 0, movementRemaining := 0, actionUsed := false, defending := false, dodging := false, weapons := [{ id := "w_club", name := "Club", category := "melee", range := 1, equipped := true, damageFormula := "" }], equippedWeaponId := some "w_club", skills := [] }], initiative := [{ id := "pc_game_test", name := "Hero", kind := "pc", initiative := some 22 }, { id := "e1", name := "G1", kind := "enemy", initiative := some 21 }, { id := "e2", name := "G2", kind := "enemy", initiative := some 20 }, { id := "e3", name := "G3", kind := "enemy", initiative := some 19 }, { id := "e4", name := "G4", kind := "enemy", initiative := some 18 }, { id := "e5", name := "G5", kind := "enemy", initiative := some 17 }, { id := "e6", name := "G6", kind := "enemy", initiative := some 16 }, { id := "e7", name := "G7", kind := "enemy", initiative := some 15 }, { id := "e8", name := "G8", kind := "enemy", initiative := some 14 }, { id := "e9", name := "G9", kind := "enemy", initiative := some 13 }, { id := "e10", name := "G10", kind := "enemy", initiative := some 12 }, { id := "e11", name := "G11", kind := "enemy", initiative := some 11 }, { id := "e12", name := "G12", kind := "enemy", initiative := some 10 }, { id := "e13", name := "G13", kind := "enemy", initiative := some 9 }, { id := "e14", name := "G14", kind := "enemy", initiative := some 8 }, { id := "e15", name := "G15", kind := "enemy", initiative := some 7 }, { id := "e16", name := "G16", kind := "enemy", initiative := some 6 }, { id := "e17", name := "G17", kind := "enemy", initiative := some 5 }, { id := "e18", name := "G18", kind := "enemy", initiative := some 4 }, { id := "e19", name := "G19", kind := "enemy", initiative := some 3 }, { id := "e20", name := "G20", kind := "enemy", initiative := some 2 }, { id := "e21", name := "G21", kind := "enemy", initiative := some 1 }], rules := some { meleeRange := 1, actionTypes := ["attack", "defend", "dodge", "use_skill"], moveIsFree := true, oneActionPerTurn := true }, turn := some { actorId := "e18", actorName := "G18", kind := "enemy", actionUsed := false, movementRemaining := 0, equippedWeaponId := some "w_club", availableSkillIds := [] } }, log := [{ id := "log_0", atIso := "", kind := "combat", text := "Turn ends. It is now G1\x27s turn." }, { id := "log_1", atIso := "", kind := "combat", text := "G1 cannot reach attack range and takes evasive movement." }, { id := "log_2", atIso := "", kind := "combat", text := "G2 cannot reach attack range and takes evasive movement." }, { id := "log_3", atIso := "", kind := "combat", text := "G3 cannot reach attack range and takes evasive movement." }, { id := "log_4", atIso := "", kind := "combat", text := "G4 cannot reach attack range and takes evasive movement." }, { id := "log_5", atIso := "", kind := "combat", text := "G5 cannot reach attack range and takes evasive movement." }, { id := "log_6", atIso := "", kind := "combat", text := "G6 cannot reach attack range and takes evasive movement." }, { id := "log_7", atIso := "", kind := "combat", text := "G7 cannot reach attack range and takes evasive movement." }, { id := "log_8", atIso := "", kind := "combat", text := "G8 cannot reach attack range and takes evasive movement." }, { id := "log_9", atIso := "", kind := "combat", text := "G9 cannot reach attack range and takes evasive movement." }, { id := "log_10", atIso := "", kind := "combat", text := "G10 cannot reach attack range and takes evasive movement." }, { id := "log_11", atIso := "", kind := "combat", text := "G11 cannot reach attack range and takes evasive movement." }, { id := "log_12", atIso := "", kind := "combat", text := "G12 cannot reach attack range and takes evasive movement." }, { id := "log_13", atIso := "", kind := "combat", text := "G13 cannot reach attack range and takes evasive movement." }, { id := "log_14", atIso := "", kind := "combat", text := "G14 cannot reach attack range and takes evasive movement." }, { id := "log_15", atIso := "", kind := "combat", text := "G15 cannot reach attack range and takes evasive movement." }, { id := "log_16", atIso := "", kind := "combat", text := "G16 cannot reach attack range and takes evasive movement." }, { id := "log_17", atIso := "", kind := "combat", text := "G17 cannot reach attack range and takes evasive movement." }] }

/-- The cascade state after enemy turn 18 (current holder: G19). -/
def c3T18 : Game :=
  { gameId := "game_test", phase := "combat", hp := { current := 12, max := 12 }, mp := { current := 6, max := 6 }, pc := { name := "Hero", level := 1, skills := [] }, inventory := [{ id := "item_sword", name := "Sword", qty := 1, notes := "", weapon := some { id := some "w_sword", name := some "Sword", category := some "melee", range := some 1, equipped := true, damageFormula := some "" } }], combat := some { round := 1, currentTurnId := some "e19", pc := { id := "pc_game_test", name := "Hero", hp := 12, hpMax := 12, mp := 6, mpMax := 6, status := "", intent := "", note := "", level := 1, position := 0, speed := 6, movementRemaining := 6, actionUsed := true, defending := false, dodging := false, weapons := [{ id := "w_sword", name := "Sword", category := "melee", range := 1, equipped := true, damageFormula := "" }, { id := "weapon_unarmed", name := "Default Melee", category := "melee", range := 1, equipped := false, damageFormula := "1" }], equippedWeaponId := some "w_sword", skills := [] }, enemies := [{ id := "e1", name := "G1", hp := 6, hpMax := 6, mp := 0, mpMax := 0, status := "Unhurt", intent := "", note := "", level := 1, position := 100, speed := 0, movementRemaining := 0, actionUsed := true, defending := false, dodging := true, weapons := [{ id := "w_club", name := "Club", category := "melee", range := 1, equipped := true, damageFormula := "" }], equippedWeaponId := some "w_club", skills := [] }, { id := "e2", name := "G2", hp := 6, hpMax := 6, mp := 0, mpMax := 0, status := "Unhurt", intent := "", note := "", level := 1, position := 100, speed := 0, movementRemaining := 0, actionUsed := true, defending := false, dodging := true, weapons := [{ id := "w_club", name := "Club", category := "melee", range := 1, equipped := true, damageFormula := "" }], equippedWeaponId := some "w_club", skills := [] }, { id := "e3", name := "G3", hp := 6, hpMax := 6, mp := 0, mpMax := 0, status := "Unhurt", intent := "", note := "", level := 1, position := 100, speed := 0, movementRemaining := 0, actionUsed := true, defending := false, dodging := true, weapons := [{ id := "w_club", name := "Club", category := "melee", range := 1, equipped := true, damageFormula := "" }], equippedWeaponId := some "w_club", skills := [] }, { id := "e4", name := "G4", hp := 6, hpMax := 6, mp := 0, mpMax := 0, status := "Unhurt", intent := "", note := "", level := 1, position := 100, speed := 0, movementRemaining := 0, actionUsed := true, defending := false, dodging := true, weapons := [{ id := "w_club", name := "Club", category := "melee", range := 1, equipped := true, damageFormula := "" }], equippedWeaponId := some "w_club", skills := [] }, { id := "e5", name := "G5", hp := 6, hpMax := 6, mp := 0, mpMax := 0, status := "Unhurt", intent := "", note := "", level := 1, position := 100, speed := 0, movementRemaining := 0, actionUsed := true, defending := false, dodging := true, weapons := [{ id := "w_club", name := "Club", category := "melee", range := 1, equipped := true, damageFormula := "" }], equippedWeaponId := some "w_club", skills := [] }, { id := "e6", name := "G6", hp := 6, hpMax := 6, mp := 0, mpMax := 0, status := "Unhurt", intent := "", note := "", level := 1, position := 100, speed := 0, movementRemaining := 0, actionUsed := true, defending := false, dodging := true, weapons := [{ id := "w_club", name := "Club", category := "melee", range := 1, equipped := true, damageFormula := "" }], equippedWeaponId := some "w_club", skills := [] }, { id := "e7", name := "G7", hp := 6, hpMax := 6, mp := 0, mpMax := 0, status := "Unhurt", intent := "", note := "", level := 1, position := 100, speed := 0, movementRemaining := 0, actionUsed := true, defending := false, dodging := true, weapons := [{ id := "w_club", name := "Club", category := "melee", range := 1, equipped := true, damageFormula := "" }], equippedWeaponId := some "w_club", skills := [] }, { id := "e8", name := "G8", hp := 6, hpMax := 6, mp := 0, mpMax := 0, status := "Unhurt", intent := "", note := "", level := 1, position := 100, speed := 0, movementRemaining := 0, actionUsed := true, defending := false, dodging := true, weapons := [{ id := "w_club", name := "Club", category := "melee", range := 1, equipped := true, damageFormula := "" }], equippedWeaponId := some "w_club", skills := [] }, { id := "e9", name := "G9", hp := 6, hpMax := 6, mp := 0, mpMax := 0, status := "Unhurt", intent := "", note := "", level := 1, position := 100, speed := 0, movementRemaining := 0, actionUsed := true, defending := false, dodging := true, weapons := [{ id := "w_club", name := "Club", category := "melee", range := 1, equipped := true, damageFormula := "" }], equippedWeaponId := some "w_club", skills := [] }, { id := "e10", name := "G10", hp := 6, hpMax := 6, mp := 0, mpMax := 0, status := "Unhurt", intent := "", note := "", level := 1, position := 100, speed := 0, movementRemaining := 0, actionUsed := true, defending := false, dodging := true, weapons := [{ id := "w_club", name := "Club", category := "melee", range := 1, equipped := true, damageFormula := "" }], equippedWeaponId := some "w_club", skills := [] }, { id := "e11", name := "G11", hp := 6, hpMax := 6, mp := 0, mpMax := 0, status := "Unhurt", intent := "", note := "", level := 1, position := 100, speed := 0, movementRemaining := 0, actionUsed := true, defending := false, dodging := true, weapons := [{ id := "w_club", name := "Club", category := "melee", range := 1, equipped := true, damageFormula := "" }], equippedWeaponId := some "w_club", skills := [] }, { id := "e12", name := "G12", hp := 6, hpMax := 6, mp := 0, mpMax := 0, status := "Unhurt", intent := "", note := "", level := 1, position := 100, speed := 0, movementRemaining := 0, actionUsed := true, defending := false, dodging := true, weapons := [{ id := "w_club", name := "Club", category := "melee", range := 1, equipped := true, damageFormula := "" }], equippedWeaponId := some "w_club", skills := [] }, { id := "e13", name := "G13", hp := 6, hpMax := 6, mp := 0, mpMax := 0, status := "Unhurt", intent := "", note := "", level := 1, position := 100, speed := 0, movementRemaining := 0, actionUsed := true, defending := false, dodging := true, weapons := [{ id := "w_club", name := "Club", category := "melee", range := 1, equipped := true, damageFormula := "" }], equippedWeaponId := some "w_club", skills := [] }, { id := "e14", name := "G14", hp := 6, hpMax := 6, mp := 0, mpMax := 0, status := "Unhurt", intent := "", note := "", level := 1, position := 100, speed := 0, movementRemaining := 0, actionUsed := true, defending := false, dodging := true, weapons := [{ id := "w_club", name := "Club", category := "melee", range := 1, equipped := true, damageFormula := "" }], equippedWeaponId := some "w_club", skills := [] }, { id := "e15", name := "G15", hp := 6, hpMax := 6, mp := 0, mpMax := 0, status := "Unhurt", intent := "", note := "", level := 1, position := 100, speed := 0, movementRemaining := 0, actionUsed := true, defending := false, dodging := true, weapons := [{ id := "w_club", name := "Club", category := "melee", range := 1, equipped := true, damageFormula := "" }], equippedWeaponId := some "w_club", skills := [] }, { id := "e16", name := "G16", hp := 6, hpMax := 6, mp := 0, mpMax := 0, status := "Unhurt", intent := "", note := "", level := 1, position := 100, speed := 0, movementRemaining := 0, actionUsed := true, defending := false, dodging := true, weapons := [{ id := "w_club", name := "Club", category := "melee", range := 1, equipped := true, damageFormula := "" }], equippedWeaponId := some "w_club", skills := [] }, { id := "e17", name := "G17", hp := 6, hpMax := 6, mp := 0, mpMax := 0, status := "Unhurt", intent := "", note := "", level := 1, position := 100, speed := 0, movementRemaining := 0, actionUsed := true, defending := false, dodging := true, weapons := [{ id := "w_club", name := "Club", category := "melee", range := 1, equipped := true, damageFormula := "" }], equippedWeaponId := some "w_club", skills := [] }, { id := "e18", name := "G18", hp := 6, hpMax := 6, mp := 0, mpMax := 0, status := "Unhurt", intent := "", note := "", level := 1, position := 100, speed := 0, movementRemaining := 0, actionUsed := true, defending := false, dodging := true, weapons := [{ id := "w_club", name := "Club", category := "melee", range := 1, equipped := true, damageFormula := "" }], equippedWeaponId := some "w_club", skills := [] }, { id := "e19", name := "G19", hp := 6, hpMax := 6, mp := 0, mpMax := 0, status := "Unhurt", intent := "", note := "", level := 1, position := 100, speed := 0, movementRemaining := 0, actionUsed := false, defending := false, dodging := false, weapons := [{ id := "w_club", name := "Club", category := "melee", range := 1, equipped := true, damageFormula := "" }], equippedWeaponId := some "w_club", skills := [] }, { id := "e20", name := "G20", hp := 6, hpMax := 6, mp := 0, mpMax := 0, status := "Unhurt", intent := "", note := "", level := 1, position := 100, speed := 0, movementRemaining := 0, actionUsed := false, defending := false, dodging := false, weapons := [{ id := "w_club", name := "Club", category := "melee", range := 1, equipped := true, damageFormula := "" }], equippedWeaponId := some "w_club", skills := [] }, { id := "e21", name := "G21", hp := 6, hpMax := 6, mp := 0, mpMax := 0, status := "Unhurt", intent := "", note := "", level := 1, position := 100, speed := 0, movementRemaining := 0, actionUsed := false, defending := false, dodging := false, weapons := [{ id := "w_club", name := "Club", category := "melee", range := 1, equipped := true, damageFormula := "" }], equippedWeaponId := some "w_club", skills := [] }], initiative := [{ id := "pc_game_test", name := "Hero", kind := "pc", initiative := some 22 }, { id := "e1", name := "G1", kind := "enemy", initiative := some 21 }, { id := "e2", name := "G2", kind := "enemy", initiative := some 20 }, { id := "e3", name := "G3", kind := "enemy", initiative := some 19 }, { id := "e4", name := "G4", kind := "enemy", initiative := some 18 }, { id := "e5", name := "G5", kind := "enemy", initiative := some 17 }, { id := "e6", name := "G6", kind := "enemy", initiative := some 16 }, { id := "e7", name := "G7", kind := "enemy", initiative := some 15 }, { id := "e8", name := "G8", kind := "enemy", initiative := some 14 }, { id := "e9", name := "G9", kind := "enemy", initiative := some 13 }, { id := "e10", name := "G10", kind := "enemy", initiative := some 12 }, { id := "e11", name := "G11", kind := "enemy", initiative := some 11 }, { id := "e12", name := "G12", kind := "enemy", initiative := some 10 }, { id := "e13", name := "G13", kind := "enemy", initiative := some 9 }, { id := "e14", name := "G14", kind := "enemy", initiative := some 8 }, { id := "e15", name := "G15", kind := "enemy", initiative := some 7 }, { id := "e16", name := "G16", kind := "enemy", initiative := some 6 }, { id := "e17", name := "G17", kind := "enemy", initiative := some 5 }, { id := "e18", name := "G18", kind := "enemy", initiative := some 4 }, { id := "e19", name := "G19", kind := "enemy", initiative := some 3 }, { id := "e20", name := "G20", kind := "enemy", initiative := some 2 }, { id := "e21", name := "G21", kind := "enemy", initiative := some 1 }], rules := some { meleeRange := 1, actionTypes := ["attack", "defend", "dodge", "use_skill"], moveIsFree := true, oneActionPerTurn := true }, turn := some { actorId := "e19", actorName := "G19", kind := "enemy", actionUsed := false, movementRemaining := 0, equippedWeaponId := some "w_club", availableSkillIds := [] } }, log := [{ id := "log_0", atIso := "", kind := "combat", text := "Turn ends. It is now G1\x27s turn." }, { id := "log_1", atIso := "", kind := "combat", text := "G1 cannot reach attack range and takes evasive movement." }, { id := "log_2", atIso := "", kind := "combat", text := "G2 cannot reach attack range and takes evasive movement." }, { id := "log_3", atIso := "", kind := "combat", text := "G3 cannot reach attack range and takes evasive movement." }, { id := "log_4", atIso := "", kind := "combat", text := "G4 cannot reach attack range and takes evasive movement." }, { id := "log_5", atIso := "", kind := "combat", text := "G5 cannot reach attack range and takes evasive movement." }, { id := "log_6", atIso := "", kind := "combat", text := "G6 cannot reach attack range and takes evasive movement." }, { id := "log_7", atIso := "", kind := "combat", text := "G7 cannot reach attack range and takes evasive movement." }, { id := "log_8", atIso := "", kind := "combat", text := "G8 cannot reach attack range and takes evasive movement." }, { id := "log_9", atIso := "", kind := "combat", text := "G9 cannot reach attack range and takes evasive movement." }, { id := "log_10", atIso := "", kind := "combat", text := "G10 cannot reach attack range and takes evasive movement." }, { id := "log_11", atIso := "", kind := "combat", text := "G11 cannot reach attack range and takes evasive movement." }, { id := "log_12", atIso := "", kind := "combat", text := "G12 cannot reach attack range and takes evasive movement." }, { id := "log_13", atIso := "", kind := "combat", text := "G13 cannot reach attack range and takes evasive movement." }, { id := "log_14", atIso := "", kind := "combat", text := "G14 cannot reach attack range and takes evasive movement." }, { id := "log_15", atIso := "", kind := "combat", text := "G15 cannot reach attack range and takes evasive movement." }, { id := "log_16", atIso := "", kind := "combat", text := "G16 cannot reach attack range and takes evasive movement." }, { id := "log_17", atIso := "", kind := "combat", text := "G17 cannot reach attack range and takes evasive movement." }, { id := "log_18", atIso := "", kind := "combat", text := "G18 cannot reach attack range and takes evasive movement." }] }

/-- The cascade state after enemy turn 19 (current holder: G20). -/
def c3T19 : Game :=
  { gameId := "game_test", phase := "combat", hp := { current := 12, max := 12 }, mp := { current := 6, max := 6 }, pc := { name := "Hero", level := 1, skills := [] }, inventory := [{ id := "item_sword", name := "Sword", qty := 1, notes := "", weapon := some { id := some "w_sword", name := some "Sword", category := some "melee", range := some 1, equipped := true, damageFormula := some "" } }], combat := some { round := 1, currentTurnId := some "e20", pc := { id := "pc_game_test", name := "Hero", hp := 12, hpMax := 12, mp := 6, mpMax := 6, status := "", intent := "", note := "", level := 1, position := 0, speed := 6, movementRemaining := 6, actionUsed := true, defending := false, dodging := false, weapons := [{ id := "w_sword", name := "Sword", category := "melee", range := 1, equipped := true, damageFormula := "" }, { id := "weapon_unarmed", name := "Default Melee", category := "melee", range := 1, equipped := false, damageFormula := "1" }], equippedWeaponId := some "w_sword", skills := [] }, enemies := [{ id := "e1", name := "G1", hp := 6, hpMax := 6, mp := 0, mpMax := 0, status := "Unhurt", intent := "", note := "", level := 1, position := 100, speed := 0, movementRemaining := 0, actionUsed := true, defending := false, dodging := true, weapons := [{ id := "w_club", name := "Club", category := "melee", range := 1, equipped := true, damageFormula := "" }], equippedWeaponId := some "w_club", skills := [] }, { id := "e2", name := "G2", hp := 6, hpMax := 6, mp := 0, mpMax := 0, status := "Unhurt", intent := "", note := "", level := 1, position := 100, speed := 0, movementRemaining := 0, actionUsed := true, defending := false, dodging := true, weapons := [{ id := "w_club", name := "Club", category := "melee", range := 1, equipped := true, damageFormula := "" }], equippedWeaponId := some "w_club", skills := [] }, { id := "e3", name := "G3", hp := 6, hpMax := 6, mp := 0, mpMax := 0, status := "Unhurt", intent := "", note := "", level := 1, position := 100, speed := 0, movementRemaining := 0, actionUsed := true, defending := false, dodging := true, weapons := [{ id := "w_club", name := "Club", category := "melee", range := 1, equipped := true, damageFormula := "" }], equippedWeaponId := some "w_club", skills := [] }, { id := "e4", name := "G4", hp := 6, hpMax := 6, mp := 0, mpMax := 0, status := "Unhurt", intent := "", note := "", level := 1, position := 100, speed := 0, movementRemaining := 0, actionUsed := true, defending := false, dodging := true, weapons := [{ id := "w_club", name := "Club", category := "melee", range := 1, equipped := true, damageFormula := "" }], equippedWeaponId := some "w_club", skills := [] }, { id := "e5", name := "G5", hp := 6, hpMax := 6, mp := 0, mpMax := 0, status := "Unhurt", intent := "", note := "", level := 1, position := 100, speed := 0, movementRemaining := 0, actionUsed := true, defending := false, dodging := true, weapons := [{ id := "w_club", name := "Club", category := "melee", range := 1, equipped := true, damageFormula := "" }], equippedWeaponId := some "w_club", skills := [] }, { id := "e6", name := "G6", hp := 6, hpMax := 6, mp := 0, mpMax := 0, status := "Unhurt", intent := "", note := "", level := 1, position := 100, speed := 0, movementRemaining := 0, actionUsed := true, defending := false, dodging := true, weapons := [{ id := "w_club", name := "Club", category := "melee", range := 1, equipped := true, damageFormula := "" }], equippedWeaponId := some "w_club", skills := [] }, { id := "e7", name := "G7", hp := 6, hpMax := 6, mp := 0, mpMax := 0, status := "Unhurt", intent := "", note := "", level := 1, position := 100, speed := 0, movementRemaining := 0, actionUsed := true, defending := false, dodging := true, weapons := [{ id := "w_club", name := "Club", category := "melee", range := 1, equipped := true, damageFormula := "" }], equippedWeaponId := some "w_club", skills := [] }, { id := "e8", name := "G8", hp := 6, hpMax := 6, mp := 0, mpMax := 0, status := "Unhurt", intent := "", note := "", level := 1, position := 100, speed := 0, movementRemaining := 0, actionUsed := true, defending := false, dodging := true, weapons := [{ id := "w_club", name := "Club", category := "melee", range := 1, equipped := true, damageFormula := "" }], equippedWeaponId := some "w_club", skills := [] }, { id := "e9", name := "G9", hp := 6, hpMax := 6, mp := 0, mpMax := 0, status := "Unhurt", intent := "", note := "", level := 1, position := 100, speed := 0, movementRemaining := 0, actionUsed := true, defending := false, dodging := true, weapons := [{ id := "w_club", name := "Club", category := "melee", range := 1, equipped := true, damageFormula := "" }], equippedWeaponId := some "w_club", skills := [] }, { id := "e10", name := "G10", hp := 6, hpMax := 6, mp := 0, mpMax := 0, status := "Unhurt", intent := "", note := "", level := 1, position := 100, speed := 0, movementRemaining := 0, actionUsed := true, defending := false, dodging := true, weapons := [{ id := "w_club", name := "Club", category := "melee", range := 1, equipped := true, damageFormula := "" }], equippedWeaponId := some "w_club", skills := [] }, { id := "e11", name := "G11", hp := 6, hpMax := 6, mp := 0, mpMax := 0, status := "Unhurt", intent := "", note := "", level := 1, position := 100, speed := 0, movementRemaining := 0, actionUsed := true, defending := false, dodging := true, weapons := [{ id := "w_club", name := "Club", category := "melee", range := 1, equipped := true, damageFormula := "" }], equippedWeaponId := some "w_club", skills := [] }, { id := "e12", name := "G12", hp := 6, hpMax := 6, mp := 0, mpMax := 0, status := "Unhurt", intent := "", note := "", level := 1, position := 100, speed := 0, movementRemaining := 0, actionUsed := true, defending := false, dodging := true, weapons := [{ id := "w_club", name := "Club", category := "melee", range := 1, equipped := true, damageFormula := "" }], equippedWeaponId := some "w_club", skills := [] }, { id := "e13", name := "G13", hp := 6, hpMax := 6, mp := 0, mpMax := 0, status := "Unhurt", intent := "", note := "", level := 1, position := 100, speed := 0, movementRemaining := 0, actionUsed := true, defending := false, dodging := true, weapons := [{ id := "w_club", name := "Club", category := "melee", range := 1, equipped := true, damageFormula := "" }], equippedWeaponId := some "w_club", skills := [] }, { id := "e14", name := "G14", hp := 6, hpMax := 6, mp := 0, mpMax := 0, status := "Unhurt", intent := "", note := "", level := 1, position := 100, speed := 0, movementRemaining := 0, actionUsed := true, defending := false, dodging := true, weapons := [{ id := "w_club", name := "Club", category := "melee", range := 1, equipped := true, damageFormula := "" }], equippedWeaponId := some "w_club", skills := [] }, { id := "e15", name := "G15", hp := 6, hpMax := 6, mp := 0, mpMax := 0, status := "Unhurt", intent := "", note := "", level := 1, position := 100, speed := 0, movementRemaining := 0, actionUsed := true, defending := false, dodging := true, weapons := [{ id := "w_club", name := "Club", category := "melee", range := 1, equipped := true, damageFormula := "" }], equippedWeaponId := some "w_club", skills := [] }, { id := "e16", name := "G16", hp := 6, hpMax := 6, mp := 0, mpMax := 0, status := "Unhurt", intent := "", note := "", level := 1, position := 100, speed := 0, movementRemaining := 0, actionUsed := true, defending := false, dodging := true, weapons := [{ id := "w_club", name := "Club", category := "melee", range := 1, equipped := true, damageFormula := "" }], equippedWeaponId := some "w_club", skills := [] }, { id := "e17", name := "G17", hp := 6, hpMax := 6, mp := 0, mpMax := 0, status := "Unhurt", intent := "", note := "", level := 1, position := 100, speed := 0, movementRemaining := 0, actionUsed := true, defending := false, dodging := true, weapons := [{ id := "w_club", name := "Club", category := "melee", range := 1, equipped := true, damageFormula := "" }], equippedWeaponId := some "w_club", skills := [] }, { id := "e18", name := "G18", hp := 6, hpMax := 6, mp := 0, mpMax := 0, status := "Unhurt", intent := "", note := "", level := 1, position := 100, speed := 0, movementRemaining := 0, actionUsed := true, defending := false, dodging := true, weapons := [{ id := "w_club", name := "Club", category := "melee", range := 1, equipped := true, damageFormula := "" }], equippedWeaponId := some "w_club", skills := [] }, { id := "e19", name := "G19", hp := 6, hpMax := 6, mp := 0, mpMax := 0, status := "Unhurt", intent := "", note := "", level := 1, position := 100, speed := 0, movementRemaining := 0, actionUsed := true, defending := false, dodging := true, weapons := [{ id := "w_club", name := "Club", category := "melee", range := 1, equipped := true, damageFormula := "" }], equippedWeaponId := some "w_club", skills := [] }, { id := "e20", name := "G20", hp := 6, hpMax := 6, mp := 0, mpMax := 0, status := "Unhurt", intent := "", note := "", level := 1, position := 100, speed := 0, movementRemaining := 0, actionUsed := false, defending := false, dodging := false, weapons := [{ id := "w_club", name := "Club", category := "melee", range := 1, equipped := true, damageFormula := "" }], equippedWeaponId := some "w_club", skills := [] }, { id := "e21", name := "G21", hp := 6, hpMax := 6, mp := 0, mpMax := 0, status := "Unhurt", intent := "", note := "", level := 1, position := 100, speed := 0, movementRemaining := 0, actionUsed := false, defending := false, dodging := false, weapons := [{ id := "w_club", name := "Club", category := "melee", range := 1, equipped := true, damageFormula := "" }], equippedWeaponId := some "w_club", skills := [] }], initiative := [{ id := "pc_game_test", name := "Hero", kind := "pc", initiative := some 22 }, { id := "e1", name := "G1", kind := "enemy", initiative := some 21 }, { id := "e2", name := "G2", kind := "enemy", initiative := some 20 }, { id := "e3", name := "G3", kind := "enemy", initiative := some 19 }, { id := "e4", name := "G4", kind := "enemy", initiative := some 18 }, { id := "e5", name := "G5", kind := "enemy", initiative := some 17 }, { id := "e6", name := "G6", kind := "enemy", initiative := some 16 }, { id := "e7", name := "G7", kind := "enemy", initiative := some 15 }, { id := "e8", name := "G8", kind := "enemy", initiative := some 14 }, { id := "e9", name := "G9", kind := "enemy", initiative := some 13 }, { id := "e10", name := "G10", kind := "enemy", initiative := some 12 }, { id := "e11", name := "G11", kind := "enemy", initiative := some 11 }, { id := "e12", name := "G12", kind := "enemy", initiative := some 10 }, { id := "e13", name := "G13", kind := "enemy", initiative := some 9 }, { id := "e14", name := "G14", kind := "enemy", initiative := some 8 }, { id := "e15", name := "G15", kind := "enemy", initiative := some 7 }, { id := "e16", name := "G16", kind := "enemy", initiative := some 6 }, { id := "e17", name := "G17", kind := "enemy", initiative := some 5 }, { id := "e18", name := "G18", kind := "enemy", initiative := some 4 }, { id := "e19", name := "G19", kind := "enemy", initiative := some 3 }, { id := "e20", name := "G20", kind := "enemy", initiative := some 2 }, { id := "e21", name := "G21", kind := "enemy", initiative := some 1 }], rules := some { meleeRange := 1, actionTypes := ["attack", "defend", "dodge", "use_skill"], moveIsFree := true, oneActionPerTurn := true }, turn := some { actorId := "e20", actorName := "G20", kind := "enemy", actionUsed := false, movementRemaining := 0, equippedWeaponId := some "w_club", availableSkillIds := [] } }, log := [{ id := "log_0", atIso := "", kind := "combat", text := "Turn ends. It is now G1\x27s turn." }, { id := "log_1", atIso := "", kind := "combat", text := "G1 cannot reach attack range and takes evasive movement." }, { id := "log_2", atIso := "", kind := "combat", text := "G2 cannot reach attack range and takes evasive movement." }, { id := "log_3", atIso := "", kind := "combat", text := "G3 cannot reach attack range and takes evasive movement." }, { id := "log_4", atIso := "", kind := "combat", text := "G4 cannot reach attack range and takes evasive movement." }, { id := "log_5", atIso := "", kind := "combat", text := "G5 cannot reach attack range and takes evasive movement." }, { id := "log_6", atIso := "", kind := "combat", text := "G6 cannot reach attack range and takes evasive movement." }, { id := "log_7", atIso := "", kind := "combat", text := "G7 cannot reach attack range and takes evasive movement." }, { id := "log_8", atIso := "", kind := "combat", text := "G8 cannot reach attack range and takes evasive movement." }, { id := "log_9", atIso := "", kind := "combat", text := "G9 cannot reach attack range and takes evasive movement." }, { id := "log_10", atIso := "", kind := "combat", text := "G10 cannot reach attack range and takes evasive movement." }, { id := "log_11", atIso := "", kind := "combat", text := "G11 cannot reach attack range and takes evasive movement." }, { id := "log_12", atIso := "", kind := "combat", text := "G12 cannot reach attack range and takes evasive movement." }, { id := "log_13", atIso := "", kind := "combat", text := "G13 cannot reach attack range and takes evasive movement." }, { id := "log_14", atIso := "", kind := "combat", text := "G14 cannot reach attack range and takes evasive movement." }, { id := "log_15", atIso := "", kind := "combat", text := "G15 cannot reach attack range and takes evasive movement." }, { id := "log_16", atIso := "", kind := "combat", text := "G16 cannot reach attack range and takes evasive movement." }, { id := "log_17", atIso := "", kind := "combat", text := "G17 cannot reach attack range and takes evasive movement." }, { id := "log_18", atIso := "", kind := "combat", text := "G18 cannot reach attack range and takes evasive movement." }, { id := "log_19", atIso := "", kind := "combat", text := "G19 cannot reach attack range and takes evasive movement." }] }

def c3G20 : Game :=
  { gameId := "game_test", phase := "combat", hp := { current := 12, max := 12 }, mp := { current := 6, max := 6 }, pc := { name := "Hero", level := 1, skills := [] }, inventory := [{ id := "item_sword", name := "Sword", qty := 1, notes := "", weapon := some { id := some "w_sword", name := some "Sword", category := some "melee", range := some 1, equipped := true, damageFormula := some "" } }], combat := some { round := 1, currentTurnId := some "e21", pc := { id := "pc_game_test", name := "Hero", hp := 12, hpMax := 12, mp := 6, mpMax := 6, status := "", intent := "", note := "", level := 1, position := 0, speed := 6, movementRemaining := 6, actionUsed := true, defending := false, dodging := false, weapons := [{ id := "w_sword", name := "Sword", category := "melee", range := 1, equipped := true, damageFormula := "" }, { id := "weapon_unarmed", name := "Default Melee", category := "melee", range := 1, equipped := false, damageFormula := "1" }], equippedWeaponId := some "w_sword", skills := [] }, enemies := [{ id := "e1", name := "G1", hp := 6, hpMax := 6, mp := 0, mpMax := 0, status := "Unhurt", intent := "", note := "", level := 1, position := 100, speed := 0, movementRemaining := 0, actionUsed := true, defending := false, dodging := true, weapons := [{ id := "w_club", name := "Club", category := "melee", range := 1, equipped := true, damageFormula := "" }], equippedWeaponId := some "w_club", skills := [] }, { id := "e2", name := "G2", hp := 6, hpMax := 6, mp := 0, mpMax := 0, status := "Unhurt", intent := "", note := "", level := 1, position := 100, speed := 0, movementRemaining := 0, actionUsed := true, defending := false, dodging := true, weapons := [{ id := "w_club", name := "Club", category := "melee", range := 1, equipped := true, damageFormula := "" }], equippedWeaponId := some "w_club", skills := [] }, { id := "e3", name := "G3", hp := 6, hpMax := 6, mp := 0, mpMax := 0, status := "Unhurt", intent := "", note := "", level := 1, position := 100, speed := 0, movementRemaining := 0, actionUsed := true, defending := false, dodging := true, weapons := [{ id := "w_club", name := "Club", category := "melee", range := 1, equipped := true, damageFormula := "" }], equippedWeaponId := some "w_club", skills := [] }, { id := "e4", name := "G4", hp := 6, hpMax := 6, mp := 0, mpMax := 0, status := "Unhurt", intent := "", note := "", level := 1, position := 100, speed := 0, movementRemaining := 0, actionUsed := true, defending := false, dodging := true, weapons := [{ id := "w_club", name := "Club", category := "melee", range := 1, equipped := true, damageFormula := "" }], equippedWeaponId := some "w_club", skills := [] }, { id := "e5", name := "G5", hp := 6, hpMax := 6, mp := 0, mpMax := 0, status := "Unhurt", intent := "", note := "", level := 1, position := 100, speed := 0, movementRemaining := 0, actionUsed := true, defending := false, dodging := true, weapons := [{ id := "w_club", name := "Club", category := "melee", range := 1, equipped := true, damageFormula := "" }], equippedWeaponId := some "w_club", skills := [] }, { id := "e6", name := "G6", hp := 6, hpMax := 6, mp := 0, mpMax := 0, status := "Unhurt", intent := "", note := "", level := 1, position := 100, speed := 0, movementRemaining := 0, actionUsed := true, defending := false, dodging := true, weapons := [{ id := "w_club", name := "Club", category := "melee", range := 1, equipped := true, damageFormula := "" }], equippedWeaponId := some "w_club", skills := [] }, { id := "e7", name := "G7", hp := 6, hpMax := 6, mp := 0, mpMax := 0, status := "Unhurt", intent := "", note := "", level := 1, position := 100, speed := 0, movementRemaining := 0, actionUsed := true, defending := false, dodging := true, weapons := [{ id := "w_club", name := "Club", category := "melee", range := 1, equipped := true, damageFormula := "" }], equippedWeaponId := some "w_club", skills := [] }, { id := "e8", name := "G8", hp := 6, hpMax := 6, mp := 0, mpMax := 0, status := "Unhurt", intent := "", note := "", level := 1, position := 100, speed := 0, movementRemaining := 0, actionUsed := true, defending := false, dodging := true, weapons := [{ id := "w_club", name := "Club", category := "melee", range := 1, equipped := true, damageFormula := "" }], equippedWeaponId := some "w_club", skills := [] }, { id := "e9", name := "G9", hp := 6, hpMax := 6, mp := 0, mpMax := 0, status := "Unhurt", intent := "", note := "", level := 1, position := 100, speed := 0, movementRemaining := 0, actionUsed := true, defending := false, dodging := true, weapons := [{ id := "w_club", name := "Club", category := "melee", range := 1, equipped := true, damageFormula := "" }], equippedWeaponId := some "w_club", skills := [] }, { id := "e10", name := "G10", hp := 6, hpMax := 6, mp := 0, mpMax := 0, status := "Unhurt", intent := "", note := "", level := 1, position := 100, speed := 0, movementRemaining := 0, actionUsed := true, defending := false, dodging := true, weapons := [{ id := "w_club", name := "Club", category := "melee", range := 1, equipped := true, damageFormula := "" }], equippedWeaponId := some "w_club", skills := [] }, { id := "e11", name := "G11", hp := 6, hpMax := 6, mp := 0, mpMax := 0, status := "Unhurt", intent := "", note := "", level := 1, position := 100, speed := 0, movementRemaining := 0, actionUsed := true, defending := false, dodging := true, weapons := [{ id := "w_club", name := "Club", category := "melee", range := 1, equipped := true, damageFormula := "" }], equippedWeaponId := some "w_club", skills := [] }, { id := "e12", name := "G12", hp := 6, hpMax := 6, mp := 0, mpMax := 0, status := "Unhurt", intent := "", note := "", level := 1, position := 100, speed := 0, movementRemaining := 0, actionUsed := true, defending := false, dodging := true, weapons := [{ id := "w_club", name := "Club", category := "melee", range := 1, equipped := true, damageFormula := "" }], equippedWeaponId := some "w_club", skills := [] }, { id := "e13", name := "G13", hp := 6, hpMax := 6, mp := 0, mpMax := 0, status := "Unhurt", intent := "", note := "", level := 1, position := 100, speed := 0, movementRemaining := 0, actionUsed := true, defending := false, dodging := true, weapons := [{ id := "w_club", name := "Club", category := "melee", range := 1, equipped := true, damageFormula := "" }], equippedWeaponId := some "w_club", skills := [] }, { id := "e14", name := "G14", hp := 6, hpMax := 6, mp := 0, mpMax := 0, status := "Unhurt", intent := "", note := "", level := 1, position := 100, speed := 0, movementRemaining := 0, actionUsed := true, defending := false, dodging := true, weapons := [{ id := "w_club", name := "Club", category := "melee", range := 1, equipped := true, damageFormula := "" }], equippedWeaponId := some "w_club", skills := [] }, { id := "e15", name := "G15", hp := 6, hpMax := 6, mp := 0, mpMax := 0, status := "Unhurt", intent := "", note := "", level := 1, position := 100, speed := 0, movementRemaining := 0, actionUsed := true, defending := false, dodging := true, weapons := [{ id := "w_club", name := "Club", category := "melee", range := 1, equipped := true, damageFormula := "" }], equippedWeaponId := some "w_club", skills := [] }, { id := "e16", name := "G16", hp := 6, hpMax := 6, mp := 0, mpMax := 0, status := "Unhurt", intent := "", note := "", level := 1, position := 100, speed := 0, movementRemaining := 0, actionUsed := true, defending := false, dodging := true, weapons := [{ id := "w_club", name := "Club", category := "melee", range := 1, equipped := true, damageFormula := "" }], equippedWeaponId := some "w_club", skills := [] }, { id := "e17", name := "G17", hp := 6, hpMax := 6, mp := 0, mpMax := 0, status := "Unhurt", intent := "", note := "", level := 1, position := 100, speed := 0, movementRemaining := 0, actionUsed := true, defending := false, dodging := true, weapons := [{ id := "w_club", name := "Club", category := "melee", range := 1, equipped := true, damageFormula := "" }], equippedWeaponId := some "w_club", skills := [] }, { id := "e18", name := "G18", hp := 6, hpMax := 6, mp := 0, mpMax := 0, status := "Unhurt", intent := "", note := "", level := 1, position := 100, speed := 0, movementRemaining := 0, actionUsed := true, defending := false, dodging := true, weapons := [{ id := "w_club", name := "Club", category := "melee", range := 1, equipped := true, damageFormula := "" }], equippedWeaponId := some "w_club", skills := [] }, { id := "e19", name := "G19", hp := 6, hpMax := 6, mp := 0, mpMax := 0, status := "Unhurt", intent := "", note := "", level := 1, position := 100, speed := 0, movementRemaining := 0, actionUsed := true, defending := false, dodging := true, weapons := [{ id := "w_club", name := "Club", category := "melee", range := 1, equipped := true, damageFormula := "" }], equippedWeaponId := some "w_club", skills := [] }, { id := "e20", name := "G20", hp := 6, hpMax := 6, mp := 0, mpMax := 0, status := "Unhurt", intent := "", note := "", level := 1, position := 100, speed := 0, movementRemaining := 0, actionUsed := true, defending := false, dodging := true, weapons := [{ id := "w_club", name := "Club", category := "melee", range := 1, equipped := true, damageFormula := "" }], equippedWeaponId := some "w_club", skills := [] }, { id := "e21", name := "G21", hp := 6, hpMax := 6, mp := 0, mpMax := 0, status := "Unhurt", intent := "", note := "", level := 1, position := 100, speed := 0, movementRemaining := 0, actionUsed := false, defending := false, dodging := false, weapons := [{ id := "w_club", name := "Club", category := "melee", range := 1, equipped := true, damageFormula := "" }], equippedWeaponId := some "w_club", skills := [] }], initiative := [{ id := "pc_game_test", name := "Hero", kind := "pc", initiative := some 22 }, { id := "e1", name := "G1", kind := "enemy", initiative := some 21 }, { id := "e2", name := "G2", kind := "enemy", initiative := some 20 }, { id := "e3", name := "G3", kind := "enemy", initiative := some 19 }, { id := "e4", name := "G4", kind := "enemy", initiative := some 18 }, { id := "e5", name := "G5", kind := "enemy", initiative := some 17 }, { id := "e6", name := "G6", kind := "enemy", initiative := some 16 }, { id := "e7", name := "G7", kind := "enemy", initiative := some 15 }, { id := "e8", name := "G8", kind := "enemy", initiative := some 14 }, { id := "e9", name := "G9", kind := "enemy", initiative := some 13 }, { id := "e10", name := "G10", kind := "enemy", initiative := some 12 }, { id := "e11", name := "G11", kind := "enemy", initiative := some 11 }, { id := "e12", name := "G12", kind := "enemy", initiative := some 10 }, { id := "e13", name := "G13", kind := "enemy", initiative := some 9 }, { id := "e14", name := "G14", kind := "enemy", initiative := some 8 }, { id := "e15", name := "G15", kind := "enemy", initiative := some 7 }, { id := "e16", name := "G16", kind := "enemy", initiative := some 6 }, { id := "e17", name := "G17", kind := "enemy", initiative := some 5 }, { id := "e18", name := "G18", kind := "enemy", initiative := some 4 }, { id := "e19", name := "G19", kind := "enemy", initiative := some 3 }, { id := "e20", name := "G20", kind := "enemy", initiative := some 2 }, { id := "e21", name := "G21", kind := "enemy", initiative := some 1 }], rules := some { meleeRange := 1, actionTypes := ["attack", "defend", "dodge", "use_skill"], moveIsFree := true, oneActionPerTurn := true }, turn := some { actorId := "e21", actorName := "G21", kind := "enemy", actionUsed := false, movementRemaining := 0, equippedWeaponId := some "w_club", availableSkillIds := [] } }, log := [{ id := "log_0", atIso := "", kind := "combat", text := "Turn ends. It is now G1\x27s turn." }, { id := "log_1", atIso := "", kind := "combat", text := "G1 cannot reach attack range and takes evasive movement." }, { id := "log_2", atIso := "", kind := "combat", text := "G2 cannot reach attack range and takes evasive movement." }, { id := "log_3", atIso := "", kind := "combat", text := "G3 cannot reach attack range and takes evasive movement." }, { id := "log_4", atIso := "", kind := "combat", text := "G4 cannot reach attack range and takes evasive movement." }, { id := "log_5", atIso := "", kind := "combat", text := "G5 cannot reach attack range and takes evasive movement." }, { id := "log_6", atIso := "", kind := "combat", text := "G6 cannot reach attack range and takes evasive movement." }, { id := "log_7", atIso := "", kind := "combat", text := "G7 cannot reach attack range and takes evasive movement." }, { id := "log_8", atIso := "", kind := "combat", text := "G8 cannot reach attack range and takes evasive movement." }, { id := "log_9", atIso := "", kind := "combat", text := "G9 cannot reach attack range and takes evasive movement." }, { id := "log_10", atIso := "", kind := "combat", text := "G10 cannot reach attack range and takes evasive movement." }, { id := "log_11", atIso := "", kind := "combat", text := "G11 cannot reach attack range and takes evasive movement." }, { id := "log_12", atIso := "", kind := "combat", text := "G12 cannot reach attack range and takes evasive movement." }, { id := "log_13", atIso := "", kind := "combat", text := "G13 cannot reach attack range and takes evasive movement." }, { id := "log_14", atIso := "", kind := "combat", text := "G14 cannot reach attack range and takes evasive movement." }, { id := "log_15", atIso := "", kind := "combat", text := "G15 cannot reach attack range and takes evasive movement." }, { id := "log_16", atIso := "", kind := "combat", text := "G16 cannot reach attack range and takes evasive movement." }, { id := "log_17", atIso := "", kind := "combat", text := "G17 cannot reach attack range and takes evasive movement." }, { id := "log_18", atIso := "", kind := "combat", text := "G18 cannot reach attack range and takes evasive movement." }, { id := "log_19", atIso := "", kind := "combat", text := "G19 cannot reach attack range and takes evasive movement." }, { id := "log_20", atIso := "", kind := "combat", text := "G20 cannot reach attack range and takes evasive movement." }] }

def c3S20 : List String :=
  ["G1 cannot reach attack range and takes evasive movement.", "G2 cannot reach attack range and takes evasive movement.", "G3 cannot reach attack range and takes evasive movement.", "G4 cannot reach attack range and takes evasive movement.", "G5 cannot reach attack range and takes evasive movement.", "G6 cannot reach attack range and takes evasive movement.", "G7 cannot reach attack range and takes evasive movement.", "G8 cannot reach attack range and takes evasive movement.", "G9 cannot reach attack range and takes evasive movement.", "G10 cannot reach attack range and takes evasive movement.", "G11 cannot reach attack range and takes evasive movement.", "G12 cannot reach attack range and takes evasive movement.", "G13 cannot reach attack range and takes evasive movement.", "G14 cannot reach attack range and takes evasive movement.", "G15 cannot reach attack range and takes evasive movement.", "G16 cannot reach attack range and takes evasive movement.", "G17 cannot reach attack range and takes evasive movement.", "G18 cannot reach attack range and takes evasive movement.", "G19 cannot reach attack range and takes evasive movement.", "G20 cannot reach attack range and takes evasive movement."]

def c3G3 : Game :=
  { gameId := "game_test", phase := "combat", hp := { current := 12, max := 12 }, mp := { current := 6, max := 6 }, pc := { name := "Hero", level := 1, skills := [] }, inventory := [{ id := "item_sword", name := "Sword", qty := 1, notes := "", weapon := some { id := some "w_sword", name := some "Sword", category := some "melee", range := some 1, equipped := true, damageFormula := some "" } }], combat := some { round := 1, currentTurnId := some "e21", pc := { id := "pc_game_test", name := "Hero", hp := 12, hpMax := 12, mp := 6, mpMax := 6, status := "", intent := "", note := "", level := 1, position := 0, speed := 6, movementRemaining := 6, actionUsed := true, defending := false, dodging := false, weapons := [{ id := "w_sword", name := "Sword", category := "melee", range := 1, equipped := true, damageFormula := "" }, { id := "weapon_unarmed", name := "Default Melee", category := "melee", range := 1, equipped := false, damageFormula := "1" }], equippedWeaponId := some "w_sword", skills := [] }, enemies := [{ id := "e1", name := "G1", hp := 6, hpMax := 6, mp := 0, mpMax := 0, status := "Unhurt", intent := "", note := "", level := 1, position := 100, speed := 0, movementRemaining := 0, actionUsed := true, defending := false, dodging := true, weapons := [{ id := "w_club", name := "Club", category := "melee", range := 1, equipped := true, damageFormula := "" }], equippedWeaponId := some "w_club", skills := [] }, { id := "e2", name := "G2", hp := 6, hpMax := 6, mp := 0, mpMax := 0, status := "Unhurt", intent := "", note := "", level := 1, position := 100, speed := 0, movementRemaining := 0, actionUsed := true, defending := false, dodging := true, weapons := [{ id := "w_club", name := "Club", category := "melee", range := 1, equipped := true, damageFormula := "" }], equippedWeaponId := some "w_club", skills := [] }, { id := "e3", name := "G3", hp := 6, hpMax := 6, mp := 0, mpMax := 0, status := "Unhurt", intent := "", note := "", level := 1, position := 100, speed := 0, movementRemaining := 0, actionUsed := true, defending := false, dodging := true, weapons := [{ id := "w_club", name := "Club", category := "melee", range := 1, equipped := true, damageFormula := "" }], equippedWeaponId := some "w_club", skills := [] }, { id := "e4", name := "G4", hp := 6, hpMax := 6, mp := 0, mpMax := 0, status := "Unhurt", intent := "", note := "", level := 1, position := 100, speed := 0, movementRemaining := 0, actionUsed := true, defending := false, dodging := true, weapons := [{ id := "w_club", name := "Club", category := "melee", range := 1, equipped := true, damageFormula := "" }], equippedWeaponId := some "w_club", skills := [] }, { id := "e5", name := "G5", hp := 6, hpMax := 6, mp := 0, mpMax := 0, status := "Unhurt", intent := "", note := "", level := 1, position := 100, speed := 0, movementRemaining := 0, actionUsed := true, defending := false, dodging := true, weapons := [{ id := "w_club", name := "Club", category := "melee", range := 1, equipped := true, damageFormula := "" }], equippedWeaponId := some "w_club", skills := [] }, { id := "e6", name := "G6", hp := 6, hpMax := 6, mp := 0, mpMax := 0, status := "Unhurt", intent := "", note := "", level := 1, position := 100, speed := 0, movementRemaining := 0, actionUsed := true, defending := false, dodging := true, weapons := [{ id := "w_club", name := "Club", category := "melee", range := 1, equipped := true, damageFormula := "" }], equippedWeaponId := some "w_club", skills := [] }, { id := "e7", name := "G7", hp := 6, hpMax := 6, mp := 0, mpMax := 0, status := "Unhurt", intent := "", note := "", level := 1, position := 100, speed := 0, movementRemaining := 0, actionUsed := true, defending := false, dodging := true, weapons := [{ id := "w_club", name := "Club", category := "melee", range := 1, equipped := true, damageFormula := "" }], equippedWeaponId := some "w_club", skills := [] }, { id := "e8", name := "G8", hp := 6, hpMax := 6, mp := 0, mpMax := 0, status := "Unhurt", intent := "", note := "", level := 1, position := 100, speed := 0, movementRemaining := 0, actionUsed := true, defending := false, dodging := true, weapons := [{ id := "w_club", name := "Club", category := "melee", range := 1, equipped := true, damageFormula := "" }], equippedWeaponId := some "w_club", skills := [] }, { id := "e9", name := "G9", hp := 6, hpMax := 6, mp := 0, mpMax := 0, status := "Unhurt", intent := "", note := "", level := 1, position := 100, speed := 0, movementRemaining := 0, actionUsed := true, defending := false, dodging := true, weapons := [{ id := "w_club", name := "Club", category := "melee", range := 1, equipped := true, damageFormula := "" }], equippedWeaponId := some "w_club", skills := [] }, { id := "e10", name := "G10", hp := 6, hpMax := 6, mp := 0, mpMax := 0, status := "Unhurt", intent := "", note := "", level := 1, position := 100, speed := 0, movementRemaining := 0, actionUsed := true, defending := false, dodging := true, weapons := [{ id := "w_club", name := "Club", category := "melee", range := 1, equipped := true, damageFormula := "" }], equippedWeaponId := some "w_club", skills := [] }, { id := "e11", name := "G11", hp := 6, hpMax := 6, mp := 0, mpMax := 0, status := "Unhurt", intent := "", note := "", level := 1, position := 100, speed := 0, movementRemaining := 0, actionUsed := true, defending := false, dodging := true, weapons := [{ id := "w_club", name := "Club", category := "melee", range := 1, equipped := true, damageFormula := "" }], equippedWeaponId := some "w_club", skills := [] }, { id := "e12", name := "G12", hp := 6, hpMax := 6, mp := 0, mpMax := 0, status := "Unhurt", intent := "", note := "", level := 1, position := 100, speed := 0, movementRemaining := 0, actionUsed := true, defending := false, dodging := true, weapons := [{ id := "w_club", name := "Club", category := "melee", range := 1, equipped := true, damageFormula := "" }], equippedWeaponId := some "w_club", skills := [] }, { id := "e13", name := "G13", hp := 6, hpMax := 6, mp := 0, mpMax := 0, status := "Unhurt", intent := "", note := "", level := 1, position := 100, speed := 0, movementRemaining := 0, actionUsed := true, defending := false, dodging := true, weapons := [{ id := "w_club", name := "Club", category := "melee", range := 1, equipped := true, damageFormula := "" }], equippedWeaponId := some "w_club", skills := [] }, { id := "e14", name := "G14", hp := 6, hpMax := 6, mp := 0, mpMax := 0, status := "Unhurt", intent := "", note := "", level := 1, position := 100, speed := 0, movementRemaining := 0, actionUsed := true, defending := false, dodging := true, weapons := [{ id := "w_club", name := "Club", category := "melee", range := 1, equipped := true, damageFormula := "" }], equippedWeaponId := some "w_club", skills := [] }, { id := "e15", name := "G15", hp := 6, hpMax := 6, mp := 0, mpMax := 0, status := "Unhurt", intent := "", note := "", level := 1, position := 100, speed := 0, movementRemaining := 0, actionUsed := true, defending := false, dodging := true, weapons := [{ id := "w_club", name := "Club", category := "melee", range := 1, equipped := true, damageFormula := "" }], equippedWeaponId := some "w_club", skills := [] }, { id := "e16", name := "G16", hp := 6, hpMax := 6, mp := 0, mpMax := 0, status := "Unhurt", intent := "", note := "", level := 1, position := 100, speed := 0, movementRemaining := 0, actionUsed := true, defending := false, dodging := true, weapons := [{ id := "w_club", name := "Club", category := "melee", range := 1, equipped := true, damageFormula := "" }], equippedWeaponId := some "w_club", skills := [] }, { id := "e17", name := "G17", hp := 6, hpMax := 6, mp := 0, mpMax := 0, status := "Unhurt", intent := "", note := "", level := 1, position := 100, speed := 0, movementRemaining := 0, actionUsed := true, defending := false, dodging := true, weapons := [{ id := "w_club", name := "Club", category := "melee", range := 1, equipped := true, damageFormula := "" }], equippedWeaponId := some "w_club", skills := [] }, { id := "e18", name := "G18", hp := 6, hpMax := 6, mp := 0, mpMax := 0, status := "Unhurt", intent := "", note := "", level := 1, position := 100, speed := 0, movementRemaining := 0, actionUsed := true, defending := false, dodging := true, weapons := [{ id := "w_club", name := "Club", category := "melee", range := 1, equipped := true, damageFormula := "" }], equippedWeaponId := some "w_club", skills := [] }, { id := "e19", name := "G19", hp := 6, hpMax := 6, mp := 0, mpMax := 0, status := "Unhurt", intent := "", note := "", level := 1, position := 100, speed := 0, movementRemaining := 0, actionUsed := true, defending := false, dodging := true, weapons := [{ id := "w_club", name := "Club", category := "melee", range := 1, equipped := true, damageFormula := "" }], equippedWeaponId := some "w_club", skills := [] }, { id := "e20", name := "G20", hp := 6, hpMax := 6, mp := 0, mpMax := 0, status := "Unhurt", intent := "", note := "", level := 1, position := 100, speed := 0, movementRemaining := 0, actionUsed := true, defending := false, dodging := true, weapons := [{ id := "w_club", name := "Club", category := "melee", range := 1, equipped := true, damageFormula := "" }], equippedWeaponId := some "w_club", skills := [] }, { id := "e21", name := "G21", hp := 6, hpMax := 6, mp := 0, mpMax := 0, status := "Unhurt", intent := "", note := "", level := 1, position := 100, speed := 0, movementRemaining := 0, actionUsed := false, defending := false, dodging := false, weapons := [{ id := "w_club", name := "Club", category := "melee", range := 1, equipped := true, damageFormula := "" }], equippedWeaponId := some "w_club", skills := [] }], initiative := [{ id := "pc_game_test", name := "Hero", kind := "pc", initiative := some 22 }, { id := "e1", name := "G1", kind := "enemy", initiative := some 21 }, { id := "e2", name := "G2", kind := "enemy", initiative := some 20 }, { id := "e3", name := "G3", kind := "enemy", initiative := some 19 }, { id := "e4", name := "G4", kind := "enemy", initiative := some 18 }, { id := "e5", name := "G5", kind := "enemy", initiative := some 17 }, { id := "e6", name := "G6", kind := "enemy", initiative := some 16 }, { id := "e7", name := "G7", kind := "enemy", initiative := some 15 }, { id := "e8", name := "G8", kind := "enemy", initiative := some 14 }, { id := "e9", name := "G9", kind := "enemy", initiative := some 13 }, { id := "e10", name := "G10", kind := "enemy", initiative := some 12 }, { id := "e11", name := "G11", kind := "enemy", initiative := some 11 }, { id := "e12", name := "G12", kind := "enemy", initiative := some 10 }, { id := "e13", name := "G13", kind := "enemy", initiative := some 9 }, { id := "e14", name := "G14", kind := "enemy", initiative := some 8 }, { id := "e15", name := "G15", kind := "enemy", initiative := some 7 }, { id := "e16", name := "G16", kind := "enemy", initiative := some 6 }, { id := "e17", name := "G17", kind := "enemy", initiative := some 5 }, { id := "e18", name := "G18", kind := "enemy", initiative := some 4 }, { id := "e19", name := "G19", kind := "enemy", initiative := some 3 }, { id := "e20", name := "G20", kind := "enemy", initiative := some 2 }, { id := "e21", name := "G21", kind := "enemy", initiative := some 1 }], rules := some { meleeRange := 1, actionTypes := ["attack", "defend", "dodge", "use_skill"], moveIsFree := true, oneActionPerTurn := true }, turn := some { actorId := "e21", actorName := "G21", kind := "enemy", actionUsed := false, movementRemaining := 0, equippedWeaponId := some "w_club", availableSkillIds := [] } }, log := [{ id := "log_0", atIso := "", kind := "combat", text := "Turn ends. It is now G1\x27s turn." }, { id := "log_1", atIso := "", kind := "combat", text := "G1 cannot reach attack range and takes evasive movement." }, { id := "log_2", atIso := "", kind := "combat", text := "G2 cannot reach attack range and takes evasive movement." }, { id := "log_3", atIso := "", kind := "combat", text := "G3 cannot reach attack range and takes evasive movement." }, { id := "log_4", atIso := "", kind := "combat", text := "G4 cannot reach attack range and takes evasive movement." }, { id := "log_5", atIso := "", kind := "combat", text := "G5 cannot reach attack range and takes evasive movement." }, { id := "log_6", atIso := "", kind := "combat", text := "G6 cannot reach attack range and takes evasive movement." }, { id := "log_7", atIso := "", kind := "combat", text := "G7 cannot reach attack range and takes evasive movement." }, { id := "log_8", atIso := "", kind := "combat", text := "G8 cannot reach attack range and takes evasive movement." }, { id := "log_9", atIso := "", kind := "combat", text := "G9 cannot reach attack range and takes evasive movement." }, { id := "log_10", atIso := "", kind := "combat", text := "G10 cannot reach attack range and takes evasive movement." }, { id := "log_11", atIso := "", kind := "combat", text := "G11 cannot reach attack range and takes evasive movement." }, { id := "log_12", atIso := "", kind := "combat", text := "G12 cannot reach attack range and takes evasive movement." }, { id := "log_13", atIso := "", kind := "combat", text := "G13 cannot reach attack range and takes evasive movement." }, { id := "log_14", atIso := "", kind := "combat", text := "G14 cannot reach attack range and takes evasive movement." }, { id := "log_15", atIso := "", kind := "combat", text := "G15 cannot reach attack range and takes evasive movement." }, { id := "log_16", atIso := "", kind := "combat", text := "G16 cannot reach attack range and takes evasive movement." }, { id := "log_17", atIso := "", kind := "combat", text := "G17 cannot reach attack range and takes evasive movement." }, { id := "log_18", atIso := "", kind := "combat", text := "G18 cannot reach attack range and takes evasive movement." }, { id := "log_19", atIso := "", kind := "combat", text := "G19 cannot reach attack range and takes evasive movement." }, { id := "log_20", atIso := "", kind := "combat", text := "G20 cannot reach attack range and takes evasive movement." }] }

def c3CLog : CombatSession := c3GLog.combat.getD c3Combat

def c3C20 : CombatSession := c3G20.combat.getD c3Combat

def c3RefC : CombatantRef := (getCombatantRef c3C20 c3C20.currentTurnId).getD ⟨"enemy", c3A⟩

set_option maxRecDepth 40000
set_option maxHeartbeats 4000000

/-- Enemy turn 1 of the cascade, evaluated on the concrete fixture. -/
theorem c3step1 : resolveEnemyTurnsGo 1 c3GLog e0 [] =
    (⟨true, "", c3S20.take 1⟩, c3T1, e0) := rfl
/-- Enemy turn 2 of the cascade, evaluated on the concrete fixture. -/
theorem c3step2 : resolveEnemyTurnsGo 1 c3T1 e0 (c3S20.take 1) =
    (⟨true, "", c3S20.take 2⟩, c3T2, e0) := rfl
/-- Enemy turn 3 of the cascade, evaluated on the concrete fixture. -/
theorem c3step3 : resolveEnemyTurnsGo 1 c3T2 e0 (c3S20.take 2) =
    (⟨true, "", c3S20.take 3⟩, c3T3, e0) := rfl
/-- Enemy turn 4 of the cascade, evaluated on the concrete fixture. -/
theorem c3step4 : resolveEnemyTurnsGo 1 c3T3 e0 (c3S20.take 3) =
    (⟨true, "", c3S20.take 4⟩, c3T4, e0) := rfl
/-- Enemy turn 5 of the cascade, evaluated on the concrete fixture. -/
theorem c3step5 : resolveEnemyTurnsGo 1 c3T4 e0 (c3S20.take 4) =
    (⟨true, "", c3S20.take 5⟩, c3T5, e0) := rfl
/-- Enemy turn 6 of the cascade, evaluated on the concrete fixture. -/
theorem c3step6 : resolveEnemyTurnsGo 1 c3T5 e0 (c3S20.take 5) =
    (⟨true, "", c3S20.take 6⟩, c3T6, e0) := rfl
/-- Enemy turn 7 of the cascade, evaluated on the concrete fixture. -/
theorem c3step7 : resolveEnemyTurnsGo 1 c3T6 e0 (c3S20.take 6) =
    (⟨true, "", c3S20.take 7⟩, c3T7, e0) := rfl
/-- Enemy turn 8 of the cascade, evaluated on the concrete fixture. -/
theorem c3step8 : resolveEnemyTurnsGo 1 c3T7 e0 (c3S20.take 7) =
    (⟨true, "", c3S20.take 8⟩, c3T8, e0) := rfl
/-- Enemy turn 9 of the cascade, evaluated on the concrete fixture. -/
theorem c3step9 : resolveEnemyTurnsGo 1 c3T8 e0 (c3S20.take 8) =
    (⟨true, "", c3S20.take 9⟩, c3T9, e0) := rfl
/-- Enemy turn 10 of the cascade, evaluated on the concrete fixture. -/
theorem c3step10 : resolveEnemyTurnsGo 1 c3T9 e0 (c3S20.take 9) =
    (⟨true, "", c3S20.take 10⟩, c3T10, e0) := rfl
/-- Enemy turn 11 of the cascade, evaluated on the concrete fixture. -/
theorem c3step11 : resolveEnemyTurnsGo 1 c3T10 e0 (c3S20.take 10) =
    (⟨true, "", c3S20.take 11⟩, c3T11, e0) := rfl
/-- Enemy turn 12 of the cascade, evaluated on the concrete fixture. -/
theorem c3step12 : resolveEnemyTurnsGo 1 c3T11 e0 (c3S20.take 11) =
    (⟨true, "", c3S20.take 12⟩, c3T12, e0) := rfl
/-- Enemy turn 13 of the cascade, evaluated on the concrete fixture. -/
theorem c3step13 : resolveEnemyTurnsGo 1 c3T12 e0 (c3S20.take 12) =
    (⟨true, "", c3S20.take 13⟩, c3T13, e0) := rfl
/-- Enemy turn 14 of the cascade, evaluated on the concrete fixture. -/
theorem c3step14 : resolveEnemyTurnsGo 1 c3T13 e0 (c3S20.take 13) =
    (⟨true, "", c3S20.take 14⟩, c3T14, e0) := rfl
/-- Enemy turn 15 of the cascade, evaluated on the concrete fixture. -/
theorem c3step15 : resolveEnemyTurnsGo 1 c3T14 e0 (c3S20.take 14) =
    (⟨true, "", c3S20.take 15⟩, c3T15, e0) := rfl
/-- Enemy turn 16 of the cascade, evaluated on the concrete fixture. -/
theorem c3step16 : resolveEnemyTurnsGo 1 c3T15 e0 (c3S20.take 15) =
    (⟨true, "", c3S20.take 16⟩, c3T16, e0) := rfl
/-- Enemy turn 17 of the cascade, evaluated on the concrete fixture. -/
theorem c3step17 : resolveEnemyTurnsGo 1 c3T16 e0 (c3S20.take 16) =
    (⟨true, "", c3S20.take 17⟩, c3T17, e0) := rfl
/-- Enemy turn 18 of the cascade, evaluated on the concrete fixture. -/
theorem c3step18 : resolveEnemyTurnsGo 1 c3T17 e0 (c3S20.take 17) =
    (⟨true, "", c3S20.take 18⟩, c3T18, e0) := rfl
/-- Enemy turn 19 of the cascade, evaluated on the concrete fixture. -/
theorem c3step19 : resolveEnemyTurnsGo 1 c3T18 e0 (c3S20.take 18) =
    (⟨true, "", c3S20.take 19⟩, c3T19, e0) := rfl
/-- Enemy turn 20 of the cascade, evaluated on the concrete fixture. -/
theorem c3step20 : resolveEnemyTurnsGo 1 c3T19 e0 (c3S20.take 19) =
    (⟨true, "", c3S20⟩, c3G20, e0) := rfl

/-- The 21-enemy cascade, one evaluated turn at a time, glued by
`go_add`. -/
theorem c3hcasc : resolveEnemyTurnsGo 20 c3GLog e0 [] = (⟨true, "", c3S20⟩, c3G20, e0) := by
  have e01 : resolveEnemyTurnsGo 20 c3GLog e0 [] =
      resolveEnemyTurnsGo 19 c3T1 e0 (c3S20.take 1) :=
    go_add 1 19 c3GLog c3T1 e0 e0 [] (c3S20.take 1) c3step1 (by decide)
  have e02 : resolveEnemyTurnsGo 19 c3T1 e0 (c3S20.take 1) =
      resolveEnemyTurnsGo 18 c3T2 e0 (c3S20.take 2) :=
    go_add 1 18 c3T1 c3T2 e0 e0 (c3S20.take 1) (c3S20.take 2) c3step2 (by decide)
  have e03 : resolveEnemyTurnsGo 18 c3T2 e0 (c3S20.take 2) =
      resolveEnemyTurnsGo 17 c3T3 e0 (c3S20.take 3) :=
    go_add 1 17 c3T2 c3T3 e0 e0 (c3S20.take 2) (c3S20.take 3) c3step3 (by decide)
  have e04 : resolveEnemyTurnsGo 17 c3T3 e0 (c3S20.take 3) =
      resolveEnemyTurnsGo 16 c3T4 e0 (c3S20.take 4) :=
    go_add 1 16 c3T3 c3T4 e0 e0 (c3S20.take 3) (c3S20.take 4) c3step4 (by decide)
  have e05 : resolveEnemyTurnsGo 16 c3T4 e0 (c3S20.take 4) =
      resolveEnemyTurnsGo 15 c3T5 e0 (c3S20.take 5) :=
    go_add 1 15 c3T4 c3T5 e0 e0 (c3S20.take 4) (c3S20.take 5) c3step5 (by decide)
  have e06 : resolveEnemyTurnsGo 15 c3T5 e0 (c3S20.take 5) =
      resolveEnemyTurnsGo 14 c3T6 e0 (c3S20.take 6) :=
    go_add 1 14 c3T5 c3T6 e0 e0 (c3S20.take 5) (c3S20.take 6) c3step6 (by decide)
  have e07 : resolveEnemyTurnsGo 14 c3T6 e0 (c3S20.take 6) =
      resolveEnemyTurnsGo 13 c3T7 e0 (c3S20.take 7) :=
    go_add 1 13 c3T6 c3T7 e0 e0 (c3S20.take 6) (c3S20.take 7) c3step7 (by decide)
  have e08 : resolveEnemyTurnsGo 13 c3T7 e0 (c3S20.take 7) =
      resolveEnemyTurnsGo 12 c3T8 e0 (c3S20.take 8) :=
    go_add 1 12 c3T7 c3T8 e0 e0 (c3S20.take 7) (c3S20.take 8) c3step8 (by decide)
  have e09 : resolveEnemyTurnsGo 12 c3T8 e0 (c3S20.take 8) =
      resolveEnemyTurnsGo 11 c3T9 e0 (c3S20.take 9) :=
    go_add 1 11 c3T8 c3T9 e0 e0 (c3S20.take 8) (c3S20.take 9) c3step9 (by decide)
  have e10 : resolveEnemyTurnsGo 11 c3T9 e0 (c3S20.take 9) =
      resolveEnemyTurnsGo 10 c3T10 e0 (c3S20.take 10) :=
    go_add 1 10 c3T9 c3T10 e0 e0 (c3S20.take 9) (c3S20.take 10) c3step10 (by decide)
  have e11 : resolveEnemyTurnsGo 10 c3T10 e0 (c3S20.take 10) =
      resolveEnemyTurnsGo 9 c3T11 e0 (c3S20.take 11) :=
    go_add 1 9 c3T10 c3T11 e0 e0 (c3S20.take 10) (c3S20.take 11) c3step11 (by decide)
  have e12 : resolveEnemyTurnsGo 9 c3T11 e0 (c3S20.take 11) =
      resolveEnemyTurnsGo 8 c3T12 e0 (c3S20.take 12) :=
    go_add 1 8 c3T11 c3T12 e0 e0 (c3S20.take 11) (c3S20.take 12) c3step12 (by decide)
  have e13 : resolveEnemyTurnsGo 8 c3T12 e0 (c3S20.take 12) =
      resolveEnemyTurnsGo 7 c3T13 e0 (c3S20.take 13) :=
    go_add 1 7 c3T12 c3T13 e0 e0 (c3S20.take 12) (c3S20.take 13) c3step13 (by decide)
  have e14 : resolveEnemyTurnsGo 7 c3T13 e0 (c3S20.take 13) =
      resolveEnemyTurnsGo 6 c3T14 e0 (c3S20.take 14) :=
    go_add 1 6 c3T13 c3T14 e0 e0 (c3S20.take 13) (c3S20.take 14) c3step14 (by decide)
  have e15 : resolveEnemyTurnsGo 6 c3T14 e0 (c3S20.take 14) =
      resolveEnemyTurnsGo 5 c3T15 e0 (c3S20.take 15) :=
    go_add 1 5 c3T14 c3T15 e0 e0 (c3S20.take 14) (c3S20.take 15) c3step15 (by decide)
  have e16 : resolveEnemyTurnsGo 5 c3T15 e0 (c3S20.take 15) =
      resolveEnemyTurnsGo 4 c3T16 e0 (c3S20.take 16) :=
    go_add 1 4 c3T15 c3T16 e0 e0 (c3S20.take 15) (c3S20.take 16) c3step16 (by decide)
  have e17 : resolveEnemyTurnsGo 4 c3T16 e0 (c3S20.take 16) =
      resolveEnemyTurnsGo 3 c3T17 e0 (c3S20.take 17) :=
    go_add 1 3 c3T16 c3T17 e0 e0 (c3S20.take 16) (c3S20.take 17) c3step17 (by decide)
  have e18 : resolveEnemyTurnsGo 3 c3T17 e0 (c3S20.take 17) =
      resolveEnemyTurnsGo 2 c3T18 e0 (c3S20.take 18) :=
    go_add 1 2 c3T17 c3T18 e0 e0 (c3S20.take 17) (c3S20.take 18) c3step18 (by decide)
  have e19 : resolveEnemyTurnsGo 2 c3T18 e0 (c3S20.take 18) =
      resolveEnemyTurnsGo 1 c3T19 e0 (c3S20.take 19) :=
    go_add 1 1 c3T18 c3T19 e0 e0 (c3S20.take 18) (c3S20.take 19) c3step19 (by decide)
  exact e01.trans (e02.trans (e03.trans (e04.trans (e05.trans (e06.trans (e07.trans (e08.trans (e09.trans (e10.trans (e11.trans (e12.trans (e13.trans (e14.trans (e15.trans (e16.trans (e17.trans (e18.trans (e19.trans (c3step20)))))))))))))))))))

/-- Witness for C3: on the 21-enemy fixture, the Hero (current holder,
action already used) requests another attack; the resolver silently
advances the turn, the 20-turn enemy cascade exhausts its cap with
`G21` still to act, and the call fails with the not-ready message. -/
theorem silent_advance_on_used_action_witness :
    resolveCombatAction c3Game c3Args e0 =
      (⟨false, "Player turn is not ready yet. Try again."⟩, c3G3, e0) :=
  silent_advance_on_used_action c3Game c3G1 c3G20 c3G3 e0 e0 e0 e0 c3A _ c3Args
    rfl rfl rfl (by decide) rfl rfl rfl
    rfl
    (transition_cap_eq (ensureActor c3G1 c3A.id) c3GAdv c3G20 e0 e0 e0 "G1" c3S20
      c3CLog c3C20 c3RefC rfl rfl rfl c3hcasc rfl
      rfl rfl)
    rfl rfl rfl (by decide)


/-! ## C5: the turn-advance scan -/


/-- The candidate reference inspected by the scan at cyclic offset
`off` from index `cur` (source: `candidateEntry`/`candidateRef`). -/
def scanCand (combat : CombatSession) (len cur off : Nat) : Option CombatantRef :=
  getCombatantRef combat (some ((combat.initiative.getD ((cur + off) % len) ⟨"", "", "", none⟩).id))

/-- Whether the scan's candidate at offset `off` is resolvable and
living (the condition under which the scan stops there). -/
def candAlive (combat : CombatSession) (len cur off : Nat) : Bool :=
  match scanCand combat len cur off with
  | some ref => isCombatantAlive ref.combatant
  | none => false

/-- The combat state built by the scan's success branch: the candidate
entry becomes current, the round advances (clamped) when the scan has
wrapped, and the chosen combatant's per-turn state resets. -/
def advApply (combat : CombatSession) (len cur off : Nat) (wrapped : Bool) : CombatSession :=
  let nextIndex := (cur + off) % len
  let candidateEntry := combat.initiative.getD nextIndex ⟨"", "", "", none⟩
  let newRound := if wrapped then clamp (combat.round + 1) 1 999 else combat.round
  let combat1 := { combat with
    currentTurnId := some candidateEntry.id
    round := newRound }
  setCombatant combat1 candidateEntry.id
    (fun c =>
      { c with
        actionUsed := false
        defending := false
        dodging := false
        movementRemaining := getCombatantSpeed c })

/-- The wrap flag accumulated by the scan over offsets
`offset, …, offset + k`. -/
def wrappedAcc (cur len offset : Nat) : Nat → Bool
  | 0 => decide ((cur + offset) % len ≤ cur)
  | k + 1 => decide ((cur + offset) % len ≤ cur) || wrappedAcc cur len (offset + 1) k

/-- The `findIndex`-with-default current position of the scan. -/
def initiativeCurrentIndex (combat : CombatSession) : Nat :=
  (combat.initiative.findIdx? (fun en => some en.id == combat.currentTurnId)).getD 0

/-- Characterization of the scan loop: if the candidates at offsets
`offset, …, offset + k - 1` are dead or unresolvable and the candidate
at `offset + k` is a living reference, the scan stops there, accumulating
the wrap flag over all visited offsets. -/
theorem advanceScan_spec (game : Game) (combat : CombatSession) (len cur : Nat) (e : Entropy) :
    ∀ (k : Nat), ∀ (fuel offset : Nat) (wrapped : Bool) (ref : CombatantRef),
      k < fuel →
      (∀ j, j < k → candAlive combat len cur (offset + j) = false) →
      scanCand combat len cur (offset + k) = some ref →
      isCombatantAlive ref.combatant = true →
      advanceScan game combat len cur offset wrapped fuel e =
        (⟨true, "", ref.combatant.name⟩,
          (syncCombatState { game with combat := some (advApply combat len cur (offset + k)
            (wrapped || wrappedAcc cur len offset k)) } e).1,
          (syncCombatState { game with combat := some (advApply combat len cur (offset + k)
            (wrapped || wrappedAcc cur len offset k)) } e).2) := by
  intro k
  induction k with
  | zero =>
    intro fuel offset wrapped ref hk hdead hcand halive
    match fuel, hk with
    | f + 1, _ =>
    rw [Nat.add_zero] at hcand ⊢
    unfold scanCand at hcand
    unfold advanceScan
    dsimp only
    rw [hcand]
    dsimp only
    rw [halive, if_pos rfl]
    unfold advApply wrappedAcc
    dsimp only
    rfl
  | succ k ih =>
    intro fuel offset wrapped ref hk hdead hcand halive
    match fuel, hk with
    | f + 1, hk =>
    have h0 := hdead 0 (Nat.succ_pos k)
    rw [Nat.add_zero] at h0
    unfold candAlive at h0
    have hshift : ∀ j, j < k → candAlive combat len cur (offset + 1 + j) = false := by
      intro j hj
      rw [show offset + 1 + j = offset + (j + 1) by omega]
      exact hdead (j + 1) (by omega)
    have hcand' : scanCand combat len cur (offset + 1 + k) = some ref := by
      rw [show offset + 1 + k = offset + (k + 1) by omega]
      exact hcand
    have hrec := ih f (offset + 1) (wrapped || decide ((cur + offset) % len ≤ cur)) ref
      (by omega) hshift hcand' halive
    unfold advanceScan
    dsimp only
    rcases hsc : scanCand combat len cur offset with _ | ref0
    · unfold scanCand at hsc
      rw [hsc]
      dsimp only
      rw [hrec]
      rw [show offset + 1 + k = offset + (k + 1) by omega]
      have hw : ((wrapped || decide ((cur + offset) % len ≤ cur)) || wrappedAcc cur len (offset + 1) k) =
          (wrapped || wrappedAcc cur len offset (k + 1)) := by
        show _ = (wrapped || (decide ((cur + offset) % len ≤ cur) || wrappedAcc cur len (offset + 1) k))
        rw [Bool.or_assoc]
      rw [hw]
    · rw [hsc] at h0
      dsimp only at h0
      unfold scanCand at hsc
      rw [hsc]
      dsimp only
      rw [h0]
      simp only [Bool.false_eq_true, if_false]
      rw [hrec]
      rw [show offset + 1 + k = offset + (k + 1) by omega]
      have hw : ((wrapped || decide ((cur + offset) % len ≤ cur)) || wrappedAcc cur len (offset + 1) k) =
          (wrapped || wrappedAcc cur len offset (k + 1)) := by
        show _ = (wrapped || (decide ((cur + offset) % len ≤ cur) || wrappedAcc cur len (offset + 1) k))
        rw [Bool.or_assoc]
      rw [hw]

/-- When every candidate the fuel allows is dead or unresolvable, the
scan runs out and reports that no living combatant is available. -/
theorem advanceScan_exhaust (game : Game) (combat : CombatSession) (len cur : Nat) (e : Entropy) :
    ∀ (fuel offset : Nat) (wrapped : Bool),
      (∀ j, j < fuel → candAlive combat len cur (offset + j) = false) →
      advanceScan game combat len cur offset wrapped fuel e =
        (⟨false, "No living combatants are available in initiative.", ""⟩, game, e) := by
  intro fuel
  induction fuel with
  | zero => intro offset wrapped _; rfl
  | succ f ih =>
    intro offset wrapped hdead
    have h0 := hdead 0 (Nat.succ_pos f)
    rw [Nat.add_zero] at h0
    unfold candAlive at h0
    have hshift : ∀ j, j < f → candAlive combat len cur (offset + 1 + j) = false := by
      intro j hj
      rw [show offset + 1 + j = offset + (j + 1) by omega]
      exact hdead (j + 1) (by omega)
    unfold advanceScan
    dsimp only
    rcases hsc : scanCand combat len cur offset with _ | ref0
    · unfold scanCand at hsc
      rw [hsc]
      dsimp only
      exact ih (offset + 1) (wrapped || decide ((cur + offset) % len ≤ cur)) hshift
    · rw [hsc] at h0
      dsimp only at h0
      unfold scanCand at hsc
      rw [hsc]
      dsimp only
      rw [h0]
      simp only [Bool.false_eq_true, if_false]
      exact ih (offset + 1) (wrapped || decide ((cur + offset) % len ≤ cur)) hshift

/-- The accumulated wrap flag is set whenever the last visited offset
wrapped (in particular a full cycle back to the current index). -/
theorem wrappedAcc_true_of_last :
    ∀ (k cur len offset : Nat), (cur + offset + k) % len ≤ cur →
      wrappedAcc cur len offset k = true := by
  intro k
  induction k with
  | zero =>
    intro cur len offset h
    rw [Nat.add_zero] at h
    exact decide_eq_true h
  | succ k ih =>
    intro cur len offset h
    unfold wrappedAcc
    rw [ih cur len (offset + 1) (by rw [show cur + (offset + 1) + k = cur + offset + (k + 1) by omega]; exact h)]
    rw [Bool.or_true]

/-- Writing a combatant back never touches the round counter. -/
theorem setCombatant_round (c : CombatSession) (cid : String) (f : Combatant → Combatant) :
    (setCombatant c cid f).round = c.round := by
  unfold setCombatant
  split <;> rfl

/-- Writing a combatant back never touches the current-turn id. -/
theorem setCombatant_currentTurnId (c : CombatSession) (cid : String)
    (f : Combatant → Combatant) :
    (setCombatant c cid f).currentTurnId = c.currentTurnId := by
  unfold setCombatant
  split <;> rfl

/-- **C5 (amended)**: `advanceCombatTurn` scans forward cyclically from
the current index, skipping dead (or unresolvable) entries; the first
living candidate, at cyclic offset `1 + k`, becomes the new current
turn with `actionUsed`/`defending`/`dodging` reset and
`movementRemaining` restored to its speed (`advApply`), and the round
advances — clamped into `[1, 999]` — exactly when the scan wrapped past
the starting index (`wrappedAcc`). An empty initiative and an
all-dead initiative yield the two explicit `ok:false` errors. When the
only living candidate is the entry at the starting index itself (a full
cycle, hypotheses of the fourth conjunct), the transition returns to
that same entry and does increment the (clamped) round; but a transition
merely *onto* a unique living combatant from a dead current holder need
not wrap, so the original claim's round-increment consequence fails —
see the counterexample. -/
theorem advance_turn_characterization :
    ∀ (game : Game) (combat : CombatSession) (e : Entropy) (len cur : Nat),
      game.combat = some combat →
      len = combat.initiative.length →
      cur = initiativeCurrentIndex combat →
      ((combat.initiative.isEmpty = true →
        advanceCombatTurn game e = (⟨false, "Initiative order is missing.", ""⟩, game, e)) ∧
       ((∀ j, j < len → candAlive combat len cur (1 + j) = false) →
        advanceCombatTurn game e =
          (⟨false, "No living combatants are available in initiative.", ""⟩, game, e) ∨
        combat.initiative.isEmpty = true) ∧
       (∀ k ref, k < len →
        (∀ j, j < k → candAlive combat len cur (1 + j) = false) →
        scanCand combat len cur (1 + k) = some ref →
        isCombatantAlive ref.combatant = true →
        advanceCombatTurn game e =
          (⟨true, "", ref.combatant.name⟩,
            (syncCombatState { game with combat := some (advApply combat len cur (1 + k)
              (wrappedAcc cur len 1 k)) } e).1,
            (syncCombatState { game with combat := some (advApply combat len cur (1 + k)
              (wrappedAcc cur len 1 k)) } e).2)) ∧
       (∀ ref, 0 < len → cur < len →
        (∀ j, j < len - 1 → candAlive combat len cur (1 + j) = false) →
        scanCand combat len cur (1 + (len - 1)) = some ref →
        isCombatantAlive ref.combatant = true →
        (advApply combat len cur (1 + (len - 1)) (wrappedAcc cur len 1 (len - 1))).round =
            clamp (combat.round + 1) 1 999 ∧
        (advApply combat len cur (1 + (len - 1)) (wrappedAcc cur len 1 (len - 1))).currentTurnId =
            some (combat.initiative.getD cur ⟨"", "", "", none⟩).id ∧
        advanceCombatTurn game e =
          (⟨true, "", ref.combatant.name⟩,
            (syncCombatState { game with combat := some (advApply combat len cur (1 + (len - 1))
              (wrappedAcc cur len 1 (len - 1))) } e).1,
            (syncCombatState { game with combat := some (advApply combat len cur (1 + (len - 1))
              (wrappedAcc cur len 1 (len - 1))) } e).2))) := by
  intro game combat e len cur hc hlen hcur
  subst hlen
  subst hcur
  have hiii : ∀ k ref, k < combat.initiative.length →
      (∀ j, j < k → candAlive combat combat.initiative.length (initiativeCurrentIndex combat)
        (1 + j) = false) →
      scanCand combat combat.initiative.length (initiativeCurrentIndex combat) (1 + k) =
        some ref →
      isCombatantAlive ref.combatant = true →
      advanceCombatTurn game e =
        (⟨true, "", ref.combatant.name⟩,
          (syncCombatState { game with combat := some (advApply combat combat.initiative.length
            (initiativeCurrentIndex combat) (1 + k)
            (wrappedAcc (initiativeCurrentIndex combat) combat.initiative.length 1 k)) } e).1,
          (syncCombatState { game with combat := some (advApply combat combat.initiative.length
            (initiativeCurrentIndex combat) (1 + k)
            (wrappedAcc (initiativeCurrentIndex combat) combat.initiative.length 1 k)) } e).2) := by
    intro k ref hk hdead hcand halive
    have hne : combat.initiative.isEmpty = false := by
      cases hi : combat.initiative with
      | nil => rw [hi] at hk; simp at hk
      | cons a t => rfl
    unfold advanceCombatTurn
    rw [hc]
    dsimp only
    rw [hne]
    simp only [Bool.false_eq_true, if_false]
    have hspec := advanceScan_spec game combat combat.initiative.length
      (initiativeCurrentIndex combat) e k combat.initiative.length 1 false ref hk hdead
      hcand halive
    rw [Bool.false_or] at hspec
    exact hspec
  refine ⟨?_, ?_, hiii, ?_⟩
  · intro hempty
    unfold advanceCombatTurn
    rw [hc]
    dsimp only
    rw [hempty]
    rw [if_pos rfl]
  · intro hdead
    cases hi : combat.initiative.isEmpty with
    | true => exact Or.inr rfl
    | false =>
      refine Or.inl ?_
      unfold advanceCombatTurn
      rw [hc]
      dsimp only
      rw [hi]
      simp only [Bool.false_eq_true, if_false]
      exact advanceScan_exhaust game combat combat.initiative.length
        (initiativeCurrentIndex combat) e combat.initiative.length 1 false hdead
  · intro ref hlen0 hcurlt hdead hcand halive
    have hw : wrappedAcc (initiativeCurrentIndex combat) combat.initiative.length 1
        (combat.initiative.length - 1) = true := by
      apply wrappedAcc_true_of_last
      rw [show initiativeCurrentIndex combat + 1 + (combat.initiative.length - 1) =
        initiativeCurrentIndex combat + combat.initiative.length by omega,
        Nat.add_mod_right]
      exact Nat.mod_le _ _
    refine ⟨?_, ?_, hiii (combat.initiative.length - 1) ref (by omega) hdead hcand halive⟩
    · unfold advApply
      dsimp only
      rw [setCombatant_round]
      dsimp only
      rw [hw, if_pos rfl]
    · unfold advApply
      dsimp only
      rw [setCombatant_currentTurnId]
      dsimp only
      rw [show initiativeCurrentIndex combat + (1 + (combat.initiative.length - 1)) =
        initiativeCurrentIndex combat + combat.initiative.length by omega,
        Nat.add_mod_right, Nat.mod_eq_of_lt hcurlt]

def c5xEnemy : Combatant := { goblinEnemy with hp := 0 }

def c5xCombat : CombatSession :=
  { round := 1
    currentTurnId := some "enemy_1"
    pc := pcHero
    enemies := [c5xEnemy]
    initiative := [⟨"enemy_1", "Goblin", "enemy", some 5⟩,
      ⟨"pc_game_test", "Hero", "pc", some 3⟩]
    rules := none
    turn := none }

def c5xGame : Game := { baseGame with combat := some c5xCombat }

/-- Counterexample to C5 as stated: the dead Goblin at index 0 holds
the turn and the Hero at index 1 is the only living combatant; the
transition succeeds and moves to the Hero without wrapping, so the
round stays 1 — "exactly one living combatant" does not imply a round
increment. -/
theorem advance_single_living_no_round_increment :
    (isCombatantAlive c5xCombat.pc = true ∧
      c5xCombat.enemies.all (fun en => !isCombatantAlive en) = true) ∧
    (advanceCombatTurn c5xGame e0).1.ok = true ∧
    (advanceCombatTurn c5xGame e0).2.1.combat.map (fun c => (c.round, c.currentTurnId)) =
      some (1, some "pc_game_test") := by decide

def c5Combat : CombatSession :=
  { round := 1
    currentTurnId := some "pc_game_test"
    pc := pcHero
    enemies := [goblinEnemy]
    initiative := [⟨"pc_game_test", "Hero", "pc", some 20⟩,
      ⟨"enemy_1", "Goblin", "enemy", some 10⟩]
    rules := none
    turn := none }

def c5Ref : CombatantRef := ⟨"enemy", goblinEnemy⟩

/-- Witness for C5: on the base Hero-vs-Goblin fixture the scan finds
the living Goblin at offset 1 without wrapping. -/
theorem advance_turn_characterization_witness :
    advanceCombatTurn baseGame e0 =
      (⟨true, "", c5Ref.combatant.name⟩,
        (syncCombatState { baseGame with combat := some (advApply c5Combat 2 0 (1 + 0)
          (wrappedAcc 0 2 1 0)) } e0).1,
        (syncCombatState { baseGame with combat := some (advApply c5Combat 2 0 (1 + 0)
          (wrappedAcc 0 2 1 0)) } e0).2) :=
  ((advance_turn_characterization baseGame c5Combat e0 2 0 rfl (by decide) (by decide)).2.2.1)
    0 c5Ref (by decide) (fun j hj => absurd hj (Nat.not_lt_zero j)) (by decide) (by decide)


end Rpg
